import Mathlib

/-! ReSTIR DI reservoir resampling of Q2RTX (`path_tracer_rgen.h`).

A shallow embedding of the functions `restir_di_*` and
`get_direct_illumination_restir_di` of
`src/refresh/vkpt/shader/path_tracer_rgen.h`, followed by theorems about them.

Conventions of the embedding.

* GLSL `float` arithmetic is exact arithmetic in a linearly ordered field `α`
  with a floor function (`ℚ` for evaluation, `ℝ` for measure statements).
  Rounding is not modelled.  The only place where the special values of a
  float are represented is the read-back of a stored reservoir
  (`unpackHalf2x16`), whose result is a `GFloat`: the stored bits are an input
  of the pass and may hold any pattern, and `restir_di_load_prev` tests them
  with `isnan` and `isinf`.  On computed values `isnan` and `isinf` are false.
* GLSL `uint` is `Nat` (with `% 2 ^ 32` where the source can wrap), `int` is
  `Int`.
* Built-ins, textures, uniform buffers and helpers whose code is not part of
  `path_tracer_rgen.h` are fields of the record `Env`; nothing is assumed about
  them.
* The pixel-local random stream `RESTIR_DI_GET_RNG()` is the sequence
  `Env.rng 0, Env.rng 1, ...`; the number of draws made so far is threaded
  through the state (`St.rng_calls`).
* `out` parameters and mutated locals become fields of returned records.
-/

namespace Q2RTX

/-! ## Vectors and GLSL built-ins -/

/-- GLSL `vec2`. -/
structure Vec2 (α : Type) where
  x : α
  y : α
deriving DecidableEq

/-- GLSL `vec3`. -/
structure Vec3 (α : Type) where
  x : α
  y : α
  z : α
deriving DecidableEq

/-- GLSL `ivec2`. -/
structure IVec2 where
  x : Int
  y : Int
deriving DecidableEq

/-- GLSL `struct Ray` (line 95). -/
structure Ray (α : Type) where
  origin : Vec3 α
  direction : Vec3 α
  t_min : α
  t_max : α
deriving DecidableEq

/-- A float read back from storage: a finite value, an infinity or a NaN. -/
inductive GFloat (α : Type) where
  | fin (v : α)
  | pinf
  | ninf
  | nan

section Basics

variable {α : Type} [LinearOrderedField α] [FloorRing α]

/-- The constant `vec3(c)`. -/
def Vec3.splat (c : α) : Vec3 α := ⟨c, c, c⟩

/-- Componentwise `a + b`. -/
def Vec3.add (a b : Vec3 α) : Vec3 α := ⟨a.x + b.x, a.y + b.y, a.z + b.z⟩

/-- Componentwise `a - b`. -/
def Vec3.sub (a b : Vec3 α) : Vec3 α := ⟨a.x - b.x, a.y - b.y, a.z - b.z⟩

/-- Componentwise `a * b`. -/
def Vec3.mul (a b : Vec3 α) : Vec3 α := ⟨a.x * b.x, a.y * b.y, a.z * b.z⟩

/-- The product `a * s` of a vector and a scalar. -/
def Vec3.scale (a : Vec3 α) (s : α) : Vec3 α := ⟨a.x * s, a.y * s, a.z * s⟩

/-- The quotient `a / s` of a vector and a scalar. -/
def Vec3.divs (a : Vec3 α) (s : α) : Vec3 α := ⟨a.x / s, a.y / s, a.z / s⟩

/-- The negation `-a`. -/
def Vec3.neg (a : Vec3 α) : Vec3 α := ⟨-a.x, -a.y, -a.z⟩

/-- GLSL `dot`. -/
def Vec3.dot (a b : Vec3 α) : α := a.x * b.x + a.y * b.y + a.z * b.z

/-- GLSL `abs` on a vector. -/
def Vec3.abs (a : Vec3 α) : Vec3 α := ⟨|a.x|, |a.y|, |a.z|⟩

/-- GLSL `clamp(x, lo, hi) = min(max(x, lo), hi)`. -/
def glsl_clamp (x lo hi : α) : α := min (max x lo) hi

/-- GLSL `mix(a, b, t) = a * (1 - t) + b * t`. -/
def glsl_mix (a b t : α) : α := a * (1 - t) + b * t

/-- GLSL `clamp` of a vector between two constant vectors. -/
def Vec3.clamp (a : Vec3 α) (lo hi : α) : Vec3 α :=
  ⟨glsl_clamp a.x lo hi, glsl_clamp a.y lo hi, glsl_clamp a.z lo hi⟩

/-- Conversion `int(x)` of a finite float: truncation towards zero. -/
def float_to_int (x : α) : Int := if 0 ≤ x then ⌊x⌋ else ⌈x⌉

/-- Conversion `uint(x)` of a finite float: truncation, reduced to 32 bits
(GLSL leaves negative arguments undefined; they give 0 here). -/
def float_to_uint (x : α) : Nat := ⌊x⌋.toNat % 2 ^ 32

/-- IEEE `a > 0.0` on a stored float. -/
def GFloat.gt_zero : GFloat α → Bool
  | .fin v => decide (0 < v)
  | .pinf => true
  | .ninf => false
  | .nan => false

/-- IEEE `a < 0.0` on a stored float. -/
def GFloat.lt_zero : GFloat α → Bool
  | .fin v => decide (v < 0)
  | .pinf => false
  | .ninf => true
  | .nan => false

/-- IEEE `a >= 1.0` on a stored float. -/
def GFloat.ge_one : GFloat α → Bool
  | .fin v => decide (1 ≤ v)
  | .pinf => true
  | .ninf => false
  | .nan => false

/-- GLSL `isnan`. -/
def GFloat.isnan : GFloat α → Bool
  | .nan => true
  | _ => false

/-- GLSL `isinf`. -/
def GFloat.isinf : GFloat α → Bool
  | .pinf => true
  | .ninf => true
  | _ => false

end Basics

/-! ## Constants -/

/-- The value `~0u`. -/
def UINT_MAX : Nat := 4294967295

/-- Line 74. -/
def MAX_OUTPUT_VALUE : Nat := 1000

/-- Line 1126. -/
def RESTIR_DI_KIND_NONE : Nat := 0

/-- Line 1127. -/
def RESTIR_DI_KIND_POLYGONAL : Nat := 1

/-- Line 1128. -/
def RESTIR_DI_KIND_SUN : Nat := 2

/-- Line 1590. -/
def RESTIR_DI_M_CLAMP : Int := 8

/-! ## Environment: everything the pass reads that is declared elsewhere -/

/-- GLSL `LightPolygon`, the fields read by `restir_di_eval_polygonal_sample`. -/
structure LightPolygon (α : Type) where
  positions : Vec3 α × Vec3 α × Vec3 α
  color : Vec3 α
  light_style_scale : α

/-- Result of `sample_projected_triangle`: the returned point and its two
`out` parameters. -/
structure TriangleSample (α : Type) where
  pos : Vec3 α
  light_normal : Vec3 α
  pdfw : α

/-- Uniform buffers, storage buffers, textures, GLSL built-ins and helper
functions that `path_tracer_rgen.h` uses without defining them, the visibility
oracle, and the random stream. -/
structure Env (α : Type) where
  -- light_buffer
  light_list_offsets : Nat → Nat
  light_list_lights : Nat → Nat
  sky_visibility : Nat → Nat
  -- constants of other headers
  MAX_LIGHT_POLYS : Nat
  CHECKERBOARD_FLAG_WEAPON : Nat
  ENABLE_SHADOW_CAUSTICS : Bool
  -- global_ubo
  num_static_lights : Nat
  pt_restir_max_w : α
  pt_restir_candidates : α
  pt_restir_temporal : α
  pt_restir_spatial : α
  pt_restir_spatial_neighbors : α
  width : Int
  height : Int
  prev_width : Int
  prev_height : Int
  inv_width : α
  inv_height : α
  pt_env_scale : α
  pt_specular_mis : Int
  pt_sun_specular : α
  sun_visible : Int
  sun_tan_half_angle : α
  sun_direction : Vec3 α
  sun_tangent : Vec3 α
  sun_bitangent : Vec3 α
  -- radiance of the sun in a direction (either branch of ENABLE_SUN_SHAPE)
  sun_radiance : Vec3 α → Vec3 α
  -- textures of the current frame (A) and of the previous frame (B)
  TEX_PT_VISBUF_PRIM_A : IVec2 → Nat × Nat
  TEX_PT_VISBUF_PRIM_B : IVec2 → Nat × Nat
  TEX_PT_VISBUF_BARY_A : IVec2 → Vec2 α
  TEX_PT_VISBUF_BARY_B : IVec2 → Vec2 α
  TEX_PT_VIEW_DEPTH_A : IVec2 → α
  TEX_PT_VIEW_DEPTH_B : IVec2 → α
  TEX_PT_GEO_NORMAL_B : IVec2 → Nat
  TEX_PT_CLUSTER_B : IVec2 → Nat
  TEX_PT_MOTION : IVec2 → Vec3 α
  TEX_PT_RESTIR_DI_ID_B : IVec2 → Nat
  TEX_PT_RESTIR_DI_RES_B : IVec2 → Nat × Nat
  -- GLSL built-ins
  length3 : Vec3 α → α
  length2 : Vec2 α → α
  normalize : Vec3 α → Vec3 α
  sqrt : α → α
  packHalf2x16 : Vec2 α → Nat
  unpackHalf2x16 : Nat → GFloat α × GFloat α
  -- the value of int(x) for a float x that is not finite (undefined in GLSL)
  int_of_nonfinite : GFloat α → Int
  -- constant and helpers of other files
  M_PI : α
  luminance : Vec3 α → α
  decode_normal : Nat → Vec3 α
  sample_disk : Vec2 α → Vec2 α
  get_light_polygon : Nat → LightPolygon α
  sample_projected_triangle : Vec3 α → Vec3 α × Vec3 α × Vec3 α → Vec2 α → TriangleSample α
  env_map : Vec3 α → Bool → Vec3 α
  ImportanceSampleGGX_VNDF_PDF : α → Vec3 α → Vec3 α → Vec3 α → α
  -- GGX_times_NdotL(V, L, N, roughness, F0, NoH_offset, specular_factor, out F):
  -- the returned BRDF and F
  GGX_times_NdotL : Vec3 α → Vec3 α → Vec3 α → α → Vec3 α → α → α → Vec3 α × Vec3 α
  -- ray tracing: the visibility oracle (0 = occluded, 1 = visible) and caustics
  trace_shadow_ray : Ray α → Int → α
  trace_caustic_ray : Ray α → Int → Vec3 α
  -- k-th value returned by RESTIR_DI_GET_RNG()
  rng : Nat → α

/-- Parameters of `get_direct_illumination_restir_di` (lines 1546-1565) that
the pass reads. -/
structure Inp (α : Type) where
  ipos : IVec2
  checkerboard_flags : Nat
  position : Vec3 α
  normal : Vec3 α
  geo_normal : Vec3 α
  cluster_idx : Nat
  shadow_cull_mask : Int
  view_direction : Vec3 α
  base_reflectivity : Vec3 α
  specular_factor : α
  roughness : α
  surface_medium : Int
  enable_caustics : Bool
  direct_specular_weight : α
  enable_polygonal : Bool

section Model

variable {α : Type} [LinearOrderedField α] [FloorRing α]

/-! ## Light list membership and packed reservoir storage -/

/-- Lines 1108-1122: linear search of the cluster's range of the light list. -/
def restir_di_cluster_contains_light (env : Env α) (list_idx light_id : Nat) : Bool :=
  if list_idx = UINT_MAX then false
  else
    let list_start := env.light_list_offsets list_idx
    let list_end := env.light_list_offsets (list_idx + 1)
    (List.range' list_start (list_end - list_start)).any
      (fun i => decide (env.light_list_lights i = light_id))

/-- Lines 1130-1133: `(kind & 0x3u) | (light_id << 2)` on 32-bit words. -/
def restir_di_pack_id (kind light_id : Nat) : Nat :=
  (kind &&& 3) ||| ((light_id <<< 2) % 2 ^ 32)

/-- Lines 1135-1139: `kind = packed & 0x3u`, `light_id = packed >> 2`. -/
def restir_di_unpack_id (packed : Nat) : Nat × Nat :=
  (packed &&& 3, packed >>> 2)

/-- Lines 1141-1146. -/
def restir_di_pack_reservoir (env : Env α) (W : α) (M : Int) (y_pos : Vec2 α) : Nat × Nat :=
  let packed_w_m := env.packHalf2x16 ⟨W, (M : α)⟩
  let packed_y := env.packHalf2x16 y_pos
  (packed_w_m, packed_y)

/-- The expression `int(wm.y + 0.5)` of line 1152. -/
def restir_di_unpack_M (env : Env α) : GFloat α → Int
  | .fin v => float_to_int (v + 1 / 2)
  | g => env.int_of_nonfinite g

/-- Lines 1148-1154: the unpacked `W`, `M` and the two components of `y_pos`. -/
def restir_di_unpack_reservoir (env : Env α) (packed : Nat × Nat) :
    GFloat α × Int × GFloat α × GFloat α :=
  let wm := env.unpackHalf2x16 packed.1
  let W := wm.1
  let M := restir_di_unpack_M env wm.2
  let y_pos := env.unpackHalf2x16 packed.2
  (W, M, y_pos.1, y_pos.2)

/-- The `out` parameters of `restir_di_load_prev` when it returns true. -/
structure Loaded (α : Type) where
  kind : Nat
  light_id : Nat
  reservoir_W : α
  reservoir_M : Int
  reservoir_y_pos : Vec2 α
deriving DecidableEq

/-- Lines 1156-1197.  `none` is the result `false`; the `out` parameters are
read by the callers only after `true`, and then every float is finite. -/
def restir_di_load_prev (env : Env α) (ipos_prev : IVec2) (list_idx : Nat) : Option (Loaded α) :=
  let packed_id := env.TEX_PT_RESTIR_DI_ID_B ipos_prev
  let packed_res := env.TEX_PT_RESTIR_DI_RES_B ipos_prev
  let kind := (restir_di_unpack_id packed_id).1
  let light_id := (restir_di_unpack_id packed_id).2
  let reservoir_W := (restir_di_unpack_reservoir env packed_res).1
  let reservoir_M := (restir_di_unpack_reservoir env packed_res).2.1
  let y_x := (restir_di_unpack_reservoir env packed_res).2.2.1
  let y_y := (restir_di_unpack_reservoir env packed_res).2.2.2
  if kind ≠ RESTIR_DI_KIND_POLYGONAL ∧ kind ≠ RESTIR_DI_KIND_SUN then none
  else if kind = RESTIR_DI_KIND_POLYGONAL ∧ light_id ≥ env.MAX_LIGHT_POLYS then none
  else if kind = RESTIR_DI_KIND_POLYGONAL ∧ light_id ≥ env.num_static_lights then none
  else if kind = RESTIR_DI_KIND_POLYGONAL ∧
      restir_di_cluster_contains_light env list_idx light_id = false then none
  else if reservoir_W.gt_zero = false ∨ reservoir_M ≤ 0 then none
  else if (reservoir_W.isnan || y_x.isnan || y_y.isnan) = true ∨
      (reservoir_W.isinf || y_x.isinf || y_y.isinf) = true then none
  else if (y_x.lt_zero || y_y.lt_zero) = true ∨ (y_x.ge_one || y_y.ge_one) = true then none
  else
    match reservoir_W, y_x, y_y with
    | .fin w, .fin yx, .fin yy =>
      let max_w := env.pt_restir_max_w
      some {
        kind := kind
        light_id := light_id
        reservoir_W := if max_w > 0 then min w max_w else w
        reservoir_M := reservoir_M
        reservoir_y_pos := ⟨yx, yy⟩ }
    | _, _, _ => none

/-- The number of lights of the cluster: `list_end - list_start` on `uint`
(lines 1204-1206 and 1246-1248). -/
def restir_di_light_count (env : Env α) (list_idx : Nat) : Nat :=
  (env.light_list_offsets (list_idx + 1) + 2 ^ 32 - env.light_list_offsets list_idx % 2 ^ 32)
    % 2 ^ 32

/-- Lines 1199-1223: the light at the first valid of four consecutive
positions of the cluster's list, starting at `uint(r * count)`. -/
def restir_di_pick_polygonal_light_uniform (env : Env α) (list_idx : Nat) (r : α) : Option Nat :=
  if list_idx = UINT_MAX then none
  else
    let list_start : Nat := env.light_list_offsets list_idx
    let light_count : Nat := restir_di_light_count env list_idx
    if light_count = 0 then none
    else
      let base : Nat := min (light_count - 1) (float_to_uint (r * (light_count : α)))
      ([0, 1, 2, 3] : List Nat).findSome? (fun t =>
        let idx : Nat := ((base + t) % 2 ^ 32) % light_count
        let li := env.light_list_lights ((list_start + idx) % 2 ^ 32)
        if li < env.MAX_LIGHT_POLYS then some li else none)

/-! ## Evaluation of one light sample at the current surface -/

/-- The `out` parameters of `restir_di_eval_polygonal_sample` when it returns
true. -/
structure PolySample (α : Type) where
  pos_on_light : Vec3 α
  contrib : Vec3 α
  pdfw : α
  is_sky_light : Bool

/-- Lines 1225-1292.  `none` is the result `false`.  The calls of the pass all
hand over their own `cluster_idx`, `position` and `geo_normal`. -/
def restir_di_eval_polygonal_sample (env : Env α) (inp : Inp α) (light_id : Nat)
    (y_pos : Vec2 α) : Option (PolySample α) :=
  if inp.cluster_idx = UINT_MAX then none
  else if light_id ≥ env.MAX_LIGHT_POLYS then none
  else
    let light_count := restir_di_light_count env inp.cluster_idx
    if light_count = 0 then none
    else if restir_di_cluster_contains_light env inp.cluster_idx light_id = false then none
    else
      let light := env.get_light_polygon light_id
      let s := env.sample_projected_triangle inp.position light.positions y_pos
      let L := env.normalize (s.pos.sub inp.position)
      let pdfw := if L.dot inp.geo_normal ≤ 0 then 0 else s.pdfw
      if pdfw ≤ 0 then none
      else
        let inv_pdfw := 1 / pdfw
        let LdotNL := max 0 (-(s.light_normal.dot L))
        let spotlight := env.sqrt LdotNL
        let contrib0 :=
          if light.color.x ≥ 0 then
            light.color.scale (inv_pdfw * spotlight * light.light_style_scale)
          else ((env.env_map L true).scale inv_pdfw).scale env.pt_env_scale
        let is_sky := decide (¬ light.color.x ≥ 0)
        let contrib := contrib0.scale (light_count : α)
        -- isnan and isinf are false on computed values
        if env.luminance contrib > 1000000 then none
        else some ⟨s.pos, contrib, pdfw, is_sky⟩

/-- Lines 647-654. -/
def get_specular_sampled_lighting_weight (env : Env α) (roughness : α) (N V L : Vec3 α)
    (pdfw : α) : α :=
  let ggxVndfPdf := env.ImportanceSampleGGX_VNDF_PDF (max roughness (1 / 100)) N V L
  glsl_clamp (pdfw / (pdfw + ggxVndfPdf)) 0 1

/-- Lines 1310-1338 of `restir_di_evaluate_polygonal_unshadowed`: the
unshadowed radiance `diffuse + specular` of the sample; `none` is
`return false`. -/
def restir_di_unshadowed_radiance (env : Env α) (inp : Inp α) (light_id : Nat)
    (y_pos : Vec2 α) : Option (Vec3 α) :=
  match restir_di_eval_polygonal_sample env inp light_id y_pos with
  | none => none
  | some s =>
    let L := env.normalize (s.pos_on_light.sub inp.position)
    let NdotL := max 0 (inp.normal.dot L)
    if NdotL ≤ 0 then none
    else
      let spec_w :=
        if inp.direct_specular_weight > 0 ∧ s.is_sky_light = true ∧ env.pt_specular_mis ≠ 0 then
          inp.direct_specular_weight *
            get_specular_sampled_lighting_weight env inp.roughness inp.normal
              inp.view_direction.neg L s.pdfw
        else inp.direct_specular_weight
      let g := env.GGX_times_NdotL inp.view_direction L inp.normal inp.roughness
        inp.base_reflectivity 0 inp.specular_factor
      let F := if spec_w > 0 then g.2 else Vec3.splat 0
      let specular := if spec_w > 0 then (s.contrib.mul g.1).scale spec_w else Vec3.splat 0
      let diffuse_brdf := NdotL / env.M_PI
      let diffuse := (s.contrib.scale diffuse_brdf).mul ((Vec3.splat 1).sub F)
      some (diffuse.add specular)

/-- Lines 1294-1342.  `some p_hat` is the result `true` with `out_p_hat = p_hat`,
`none` is the result `false`. -/
def restir_di_evaluate_polygonal_unshadowed (env : Env α) (inp : Inp α) (light_id : Nat)
    (y_pos : Vec2 α) : Option α :=
  match restir_di_unshadowed_radiance env inp light_id y_pos with
  | none => none
  | some radiance =>
    let out_p_hat := max (env.luminance radiance.abs) 0
    if out_p_hat > 0 then some out_p_hat else none

/-- Lines 468-481. -/
def get_shadow_ray (env : Env α) (p1 p2 : Vec3 α) (tmin : α) : Ray α :=
  let l := p2.sub p1
  let dist := env.length3 l
  let l := l.divs dist
  { origin := p1.add (l.scale tmin), t_min := 0, t_max := dist - tmin - 1 / 100, direction := l }

/-- The `out` parameters of the two shading functions. -/
structure Shaded (α : Type) where
  diffuse : Vec3 α
  specular : Vec3 α
  out_visibility : α

/-- The shadow ray of lines 1374, 2006 and 2096: from the current surface,
moved by `0.01` against the view direction, to a point on a light. -/
def restir_di_shadow_ray (env : Env α) (inp : Inp α) (pos_on_light : Vec3 α) : Ray α :=
  get_shadow_ray env (inp.position.sub (inp.view_direction.scale (1 / 100))) pos_on_light 0

/-- Lines 1344-1415. -/
def restir_di_shade_polygonal_sample (env : Env α) (inp : Inp α) (light_id : Nat)
    (y_pos : Vec2 α) : Shaded α :=
  match restir_di_eval_polygonal_sample env inp light_id y_pos with
  | none => ⟨Vec3.splat 0, Vec3.splat 0, 0⟩
  | some s =>
    let shadow_ray := restir_di_shadow_ray env inp s.pos_on_light
    let vis := env.trace_shadow_ray shadow_ray inp.shadow_cull_mask
    if vis ≤ 0 then ⟨Vec3.splat 0, Vec3.splat 0, vis⟩
    else
      let contrib :=
        if env.ENABLE_SHADOW_CAUSTICS = true ∧ inp.enable_caustics = true then
          s.contrib.mul (env.trace_caustic_ray shadow_ray inp.surface_medium)
        else s.contrib
      let radiance := contrib.scale vis
      let L := env.normalize (s.pos_on_light.sub inp.position)
      let spec_w :=
        if inp.direct_specular_weight > 0 ∧ s.is_sky_light = true ∧ env.pt_specular_mis ≠ 0 then
          inp.direct_specular_weight *
            get_specular_sampled_lighting_weight env inp.roughness inp.normal
              inp.view_direction.neg L s.pdfw
        else inp.direct_specular_weight
      let g := env.GGX_times_NdotL inp.view_direction L inp.normal inp.roughness
        inp.base_reflectivity 0 inp.specular_factor
      let F := if spec_w > 0 then g.2 else Vec3.splat 0
      let specular := if spec_w > 0 then (radiance.mul g.1).scale spec_w else Vec3.splat 0
      let NdotL := max 0 (inp.normal.dot L)
      let diffuse_brdf := NdotL / env.M_PI
      let diffuse := (radiance.scale diffuse_brdf).mul ((Vec3.splat 1).sub F)
      -- isnan and isinf are false on computed values
      ⟨diffuse.clamp 0 (MAX_OUTPUT_VALUE : α), specular.clamp 0 (MAX_OUTPUT_VALUE : α), vis⟩

/-- The test of lines 1434 and 1497: the sky is visible from the cluster. -/
def restir_di_sky_visible (env : Env α) (cluster_idx : Nat) : Bool :=
  decide (cluster_idx = UINT_MAX) ||
    decide (env.sky_visibility (cluster_idx >>> 5) &&& (1 <<< (cluster_idx &&& 31)) ≠ 0)

/-- The sampled direction to the sun of lines 1438-1441 and 1501-1504. -/
def restir_di_sun_direction (env : Env α) (y_pos : Vec2 α) : Vec3 α :=
  let disk := env.sample_disk y_pos
  let dx := disk.x * env.sun_tan_half_angle
  let dy := disk.y * env.sun_tan_half_angle
  env.normalize ((env.sun_direction.add (env.sun_tangent.scale dx)).add (env.sun_bitangent.scale dy))

/-- Lines 1417-1471.  `some p_hat` is the result `true`. -/
def restir_di_evaluate_sun_unshadowed (env : Env α) (inp : Inp α) (y_pos : Vec2 α) : Option α :=
  if env.sun_visible = 0 then none
  else if restir_di_sky_visible env inp.cluster_idx = false then none
  else
    let direction := restir_di_sun_direction env y_pos
    let NdotL := direction.dot inp.normal
    let GNdotL := direction.dot inp.geo_normal
    if NdotL ≤ 0 ∨ GNdotL ≤ 0 then none
    else
      let radiance := env.sun_radiance direction
      let NoH_offset := 1 / 2 * (env.sun_tan_half_angle * env.sun_tan_half_angle)
      let g := env.GGX_times_NdotL inp.view_direction env.sun_direction inp.normal inp.roughness
        inp.base_reflectivity NoH_offset inp.specular_factor
      let F := if env.pt_sun_specular > 0 then g.2 else Vec3.splat 0
      let specular := if env.pt_sun_specular > 0 then radiance.mul g.1 else Vec3.splat 0
      let diffuse_brdf := NdotL / env.M_PI
      let diffuse := (radiance.scale diffuse_brdf).mul ((Vec3.splat 1).sub F)
      let out_p_hat := max (env.luminance (diffuse.add specular).abs) 0
      if out_p_hat > 0 then some out_p_hat else none

/-- Lines 1473-1543. -/
def restir_di_shade_sun_sample (env : Env α) (inp : Inp α) (y_pos : Vec2 α) : Shaded α :=
  if env.sun_visible = 0 then ⟨Vec3.splat 0, Vec3.splat 0, 0⟩
  else if restir_di_sky_visible env inp.cluster_idx = false then ⟨Vec3.splat 0, Vec3.splat 0, 0⟩
  else
    let direction := restir_di_sun_direction env y_pos
    let NdotL := direction.dot inp.normal
    let GNdotL := direction.dot inp.geo_normal
    if NdotL ≤ 0 ∨ GNdotL ≤ 0 then ⟨Vec3.splat 0, Vec3.splat 0, 0⟩
    else
      let shadow_ray := get_shadow_ray env (inp.position.sub (inp.view_direction.scale (1 / 100)))
        (inp.position.add (direction.scale 10000)) 0
      let vis := env.trace_shadow_ray shadow_ray inp.shadow_cull_mask
      if vis ≤ 0 then ⟨Vec3.splat 0, Vec3.splat 0, vis⟩
      else
        let radiance0 := env.sun_radiance direction
        let radiance :=
          if env.ENABLE_SHADOW_CAUSTICS = true ∧ inp.enable_caustics = true then
            radiance0.mul (env.trace_caustic_ray shadow_ray inp.surface_medium)
          else radiance0
        let NoH_offset := 1 / 2 * (env.sun_tan_half_angle * env.sun_tan_half_angle)
        let g := env.GGX_times_NdotL inp.view_direction env.sun_direction inp.normal
          inp.roughness inp.base_reflectivity NoH_offset inp.specular_factor
        let F := if env.pt_sun_specular > 0 then g.2 else Vec3.splat 0
        let specular := if env.pt_sun_specular > 0 then radiance.mul g.1 else Vec3.splat 0
        let diffuse_brdf := NdotL / env.M_PI
        let diffuse := (radiance.scale diffuse_brdf).mul ((Vec3.splat 1).sub F)
        ⟨diffuse, specular, vis⟩

/-! ## The running reservoir of `get_direct_illumination_restir_di` -/

/-- The mutable locals of `get_direct_illumination_restir_di` (lines 1593-1601
and 1701-1710) and the number of random numbers drawn so far. -/
structure St (α : Type) where
  rng_calls : Nat
  w_sum : α
  M : Int
  selected_weight : α
  selected_p_hat : α
  selected_kind : Nat
  selected_light_id : Nat
  selected_y_pos : Vec2 α
  selected_source : Int
  m_temporal_considered : Int
  m_spatial_considered : Int
  p_hat_at_temporal : α
  p_hat_at_spatial_sum : α
  selected_source_m : Int
  selected_source_p_hat : α
  selected_source_pos : IVec2
  selected_source_geo_normal : Vec3 α
deriving DecidableEq

/-- The initial values of the locals. -/
def St.init : St α :=
  { rng_calls := 0, w_sum := 0, M := 0, selected_weight := 0, selected_p_hat := 0,
    selected_kind := RESTIR_DI_KIND_NONE, selected_light_id := 0, selected_y_pos := ⟨0, 0⟩,
    selected_source := -1, m_temporal_considered := 0, m_spatial_considered := 0,
    p_hat_at_temporal := 0, p_hat_at_spatial_sum := 0, selected_source_m := 0,
    selected_source_p_hat := 0, selected_source_pos := ⟨0, 0⟩,
    selected_source_geo_normal := Vec3.splat 0 }

/-- Line 1606: the sun is not a candidate. -/
def enable_sun : Bool := false

/-- Line 1732 (and 1068): reuse stays within one checkerboard field. -/
def sample_across_fields : Bool := false

/-- Line 1591. -/
def restir_di_N (env : Env α) : Int := float_to_int (glsl_clamp env.pt_restir_candidates 1 32)

/-- Lines 1643-1656 (and 1680-1691 for the sun): weighted reservoir sampling
of a candidate of the current frame with `w = p_hat`. -/
def restir_di_fold_candidate (st : St α) (kind : Nat) (p_hat : α) (light_id : Nat)
    (y_pos : Vec2 α) (rng_resample : α) : St α :=
  let w := p_hat
  let w_sum := st.w_sum + w
  let M := st.M + 1
  if w > 0 ∧ rng_resample < w / max w_sum (1 / 1000000) then
    { st with
      w_sum := w_sum, M := M, selected_weight := w, selected_p_hat := p_hat,
      selected_kind := kind, selected_light_id := light_id, selected_y_pos := y_pos,
      selected_source := 0 }
  else { st with w_sum := w_sum, M := M }

/-- Lines 1619-1656: one iteration of the candidate loop.  The four random
numbers are drawn before the two `continue` tests. -/
def restir_di_candidate_iter (env : Env α) (inp : Inp α) (st : St α) : St α :=
  let rng_light_sel := env.rng st.rng_calls
  let y_pos : Vec2 α := ⟨env.rng (st.rng_calls + 1), env.rng (st.rng_calls + 2)⟩
  let rng_resample := env.rng (st.rng_calls + 3)
  let st := { st with rng_calls := st.rng_calls + 4 }
  match restir_di_pick_polygonal_light_uniform env inp.cluster_idx rng_light_sel with
  | none => st
  | some cand_light_id =>
    match restir_di_evaluate_polygonal_unshadowed env inp cand_light_id y_pos with
    | none => st
    | some p_hat =>
      restir_di_fold_candidate st RESTIR_DI_KIND_POLYGONAL p_hat cand_light_id y_pos rng_resample

/-- Lines 1664-1692: the optional sun candidate. -/
def restir_di_sun_candidate (env : Env α) (inp : Inp α) (st : St α) : St α :=
  let sun_y_pos : Vec2 α := ⟨env.rng st.rng_calls, env.rng (st.rng_calls + 1)⟩
  let rng_resample := env.rng (st.rng_calls + 2)
  let st := { st with rng_calls := st.rng_calls + 3 }
  match restir_di_evaluate_sun_unshadowed env inp sun_y_pos with
  | none => st
  | some p_hat => restir_di_fold_candidate st RESTIR_DI_KIND_SUN p_hat 0 sun_y_pos rng_resample

/-- Lines 1614-1693: stage 1, candidate generation. -/
def restir_di_generate (env : Env α) (inp : Inp α) : St α :=
  let st : St α := St.init
  let st :=
    if inp.enable_polygonal = true then
      (restir_di_candidate_iter env inp)^[(restir_di_N env).toNat] st
    else st
  if enable_sun = true then restir_di_sun_candidate env inp st else st

/-! ## Reprojection -/

/-- Line 1721. -/
def primary_is_weapon (env : Env α) (inp : Inp α) : Bool :=
  decide (inp.checkerboard_flags &&& env.CHECKERBOARD_FLAG_WEAPON ≠ 0)

/-- Lines 1712 and 1724-1728. -/
def want_temporal (env : Env α) (inp : Inp α) : Bool :=
  decide (env.pt_restir_temporal > 1 / 2) && !primary_is_weapon env inp

/-- Lines 1713 and 1724-1728. -/
def want_spatial (env : Env α) (inp : Inp α) : Bool :=
  decide (env.pt_restir_spatial > 1 / 2) && !primary_is_weapon env inp

/-- Line 1735. -/
def restir_di_field_left (env : Env α) (inp : Inp α) : Int :=
  if inp.ipos.x ≥ Int.tdiv env.width 2 then Int.tdiv env.prev_width 2 else 0

/-- Line 1736. -/
def restir_di_field_right (env : Env α) (inp : Inp α) : Int :=
  restir_di_field_left env inp + Int.tdiv env.prev_width 2

/-- Line 1741. -/
def motion_length_px (env : Env α) (inp : Inp α) : α :=
  let motion := env.TEX_PT_MOTION inp.ipos
  env.length2 ⟨motion.x * (env.width : α), motion.y * (env.height : α)⟩

/-- Line 1747. -/
def bary_threshold (env : Env α) (inp : Inp α) : α :=
  glsl_mix (5 / 100) (25 / 100) (glsl_clamp (motion_length_px env inp / 16) 0 1)

/-- Lines 1756-1758: the lower left pixel of the bilinear footprint. -/
def restir_di_pos_ld (env : Env α) (inp : Inp α) : IVec2 :=
  let motion := env.TEX_PT_MOTION inp.ipos
  let pos_prev_x := (((inp.ipos.x : α) + 1 / 2) * (env.inv_width * 2) + motion.x)
    * ((env.prev_width : α) / 2)
  let pos_prev_y := (((inp.ipos.y : α) + 1 / 2) * env.inv_height + motion.y)
    * (env.prev_height : α)
  ⟨⌊pos_prev_x - 1 / 2⌋, ⌊pos_prev_y - 1 / 2⌋⟩

/-- The value read from the cluster image, lines 1784-1785 and 1937-1938. -/
def restir_di_cluster_prev (env : Env α) (p : IVec2) : Nat :=
  if env.TEX_PT_CLUSTER_B p = 65535 then UINT_MAX else env.TEX_PT_CLUSTER_B p

/-- Lines 1767-1800: the body of the footprint loop for the pixel `p`;
`none` is `continue`, `some score` is the score of a surviving pixel. -/
def restir_di_footprint_score (env : Env α) (inp : Inp α) (p : IVec2) : Option α :=
  let depth_curr := env.TEX_PT_VIEW_DEPTH_A inp.ipos
  let bary_curr := env.TEX_PT_VISBUF_BARY_A inp.ipos
  let motion := env.TEX_PT_MOTION inp.ipos
  if p.y < 0 ∨ p.y ≥ env.prev_height then none
  else if p.x < restir_di_field_left env inp ∨ p.x ≥ restir_di_field_right env inp then none
  else if (env.TEX_PT_VISBUF_PRIM_A inp.ipos).1 ≠ (env.TEX_PT_VISBUF_PRIM_B p).1 ∨
      (env.TEX_PT_VISBUF_PRIM_A inp.ipos).2 ≠ (env.TEX_PT_VISBUF_PRIM_B p).2 then none
  else
    let bary_prev := env.TEX_PT_VISBUF_BARY_B p
    if env.length2 ⟨bary_curr.x - bary_prev.x, bary_curr.y - bary_prev.y⟩
        > bary_threshold env inp then none
    else if restir_di_cluster_prev env p ≠ inp.cluster_idx then none
    else
      let depth_prev := env.TEX_PT_VIEW_DEPTH_B p
      let geo_prev := env.decode_normal (env.TEX_PT_GEO_NORMAL_B p)
      let dist_depth0 := |depth_curr - depth_prev + motion.z| / max |depth_curr| (1 / 1000)
      let dot_geo := inp.geo_normal.dot geo_prev
      let dist_depth := if depth_curr < 0 then dist_depth0 * (1 / 4) else dist_depth0
      if dist_depth > 5 / 100 ∨ dot_geo < 95 / 100 then none
      else some ((1 - glsl_clamp (dist_depth / (1 / 10)) 0 1) * glsl_clamp dot_geo 0 1)

/-- Line 1762. -/
def off4 : List IVec2 := [⟨0, 0⟩, ⟨1, 0⟩, ⟨0, 1⟩, ⟨1, 1⟩]

/-- Lines 1763-1806: the footprint loop, returning `(best_score, best_p)`. -/
def restir_di_best_footprint (env : Env α) (inp : Inp α) : α × IVec2 :=
  off4.foldl
    (fun best off =>
      let p : IVec2 := ⟨(restir_di_pos_ld env inp).x + off.x, (restir_di_pos_ld env inp).y + off.y⟩
      match restir_di_footprint_score env inp p with
      | none => best
      | some score => if score > best.1 then (score, p) else best)
    (-1, ⟨0, 0⟩)

/-- Lines 1742-1813: `(have_prev, ipos_prev)`. -/
def restir_di_reproject (env : Env α) (inp : Inp α) : Bool × IVec2 :=
  if want_temporal env inp = true ∨ want_spatial env inp = true then
    if (restir_di_best_footprint env inp).1 ≥ 0 then (true, (restir_di_best_footprint env inp).2)
    else (false, ⟨0, 0⟩)
  else (false, ⟨0, 0⟩)

/-! ## Temporal and spatial reuse -/

/-- The re-evaluation of a loaded sample at the current surface, lines
1826-1857 and 1951-1982: `some p_hat` is `ok = true`. -/
def restir_di_reevaluate (env : Env α) (inp : Inp α) (l : Loaded α) : Option α :=
  if l.kind = RESTIR_DI_KIND_POLYGONAL then
    restir_di_evaluate_polygonal_unshadowed env inp l.light_id l.reservoir_y_pos
  else if l.kind = RESTIR_DI_KIND_SUN then
    restir_di_evaluate_sun_unshadowed env inp l.reservoir_y_pos
  else none

/-- Lines 1861-1885: the fold of the temporal reservoir `l`, re-evaluated to
`p_hat`, loaded from the pixel `ipos_prev`. -/
def restir_di_fold_temporal (env : Env α) (st : St α) (l : Loaded α) (p_hat : α)
    (ipos_prev : IVec2) : St α :=
  let m_i := min l.reservoir_M RESTIR_DI_M_CLAMP
  let w := p_hat * l.reservoir_W * (m_i : α)
  let rng_resample := env.rng st.rng_calls
  let M := st.M + m_i
  let w_sum := st.w_sum + w
  if w > 0 ∧ rng_resample < w / max w_sum (1 / 1000000) then
    { st with
      rng_calls := st.rng_calls + 1, m_temporal_considered := m_i, p_hat_at_temporal := p_hat,
      M := M, w_sum := w_sum, selected_weight := w, selected_p_hat := p_hat,
      selected_kind := l.kind, selected_light_id := l.light_id,
      selected_y_pos := l.reservoir_y_pos, selected_source := 1, selected_source_m := m_i,
      selected_source_pos := ipos_prev,
      selected_source_geo_normal := env.decode_normal (env.TEX_PT_GEO_NORMAL_B ipos_prev),
      selected_source_p_hat := p_hat }
  else
    { st with
      rng_calls := st.rng_calls + 1, m_temporal_considered := m_i, p_hat_at_temporal := p_hat,
      M := M, w_sum := w_sum }

/-- Lines 1816-1888: stage 2, without the test `want_temporal && have_prev`. -/
def restir_di_temporal_reuse (env : Env α) (inp : Inp α) (ipos_prev : IVec2) (st : St α) : St α :=
  match restir_di_load_prev env ipos_prev inp.cluster_idx with
  | none => st
  | some l =>
    match restir_di_reevaluate env inp l with
    | none => st
    | some p_hat => restir_di_fold_temporal env st l p_hat ipos_prev

/-- Lines 1896-1898. -/
def neighbor_offsets : List IVec2 :=
  [⟨1, 0⟩, ⟨-1, 0⟩, ⟨0, 1⟩, ⟨0, -1⟩, ⟨1, 1⟩, ⟨-1, 1⟩, ⟨1, -1⟩, ⟨-1, -1⟩]

/-- Conversion `uint(i)` of an `int`. -/
def int_to_uint (i : Int) : Nat := (i % 2 ^ 32).toNat

/-- Lines 1042-1052. -/
def restir_di_checker_to_flat (pos : IVec2) (width : Int) : IVec2 :=
  let half_width : Nat := int_to_uint (Int.tdiv width 2)
  let is_even_checkerboard : Bool := decide (int_to_uint pos.x < half_width)
  ⟨if is_even_checkerboard = true then pos.x * 2 + pos.y % 2
   else (pos.x - (half_width : Int)) * 2 + (1 - pos.y % 2), pos.y⟩

/-- Lines 1056-1061. -/
def restir_di_flat_to_checker (pos : IVec2) (width : Int) : IVec2 :=
  let half_width : Nat := int_to_uint (Int.tdiv width 2)
  let is_even_checkerboard : Bool := decide (pos.x % 2 = pos.y % 2)
  ⟨Int.tdiv pos.x 2 + (if is_even_checkerboard = true then 0 else (half_width : Int)), pos.y⟩

/-- Lines 1903-1919: the neighbour pixel visited by iteration `j`, `none` is
`continue`. -/
def restir_di_neighbor (env : Env α) (inp : Inp α) (ipos_prev : IVec2) (rot j : Nat) :
    Option IVec2 :=
  let off := neighbor_offsets.getD ((j + rot) % 8) ⟨0, 0⟩
  if sample_across_fields = true then
    let ipos_prev_flat := restir_di_checker_to_flat ipos_prev env.prev_width
    let nb_flat : IVec2 := ⟨ipos_prev_flat.x + off.x, ipos_prev_flat.y + off.y⟩
    if nb_flat.x < 0 ∨ nb_flat.y < 0 ∨ nb_flat.x ≥ env.prev_width ∨ nb_flat.y ≥ env.prev_height
    then none
    else some (restir_di_flat_to_checker nb_flat env.prev_width)
  else
    let nb : IVec2 := ⟨ipos_prev.x + off.x, ipos_prev.y + off.y⟩
    if nb.y < 0 ∨ nb.y ≥ env.prev_height then none
    else if nb.x < restir_di_field_left env inp ∨ nb.x ≥ restir_di_field_right env inp then none
    else some nb

/-- Lines 1997-2011: the visibility guard of spatial reuse; true is
`continue`. -/
def restir_di_spatial_occluded (env : Env α) (inp : Inp α) (l : Loaded α) : Bool :=
  if l.kind = RESTIR_DI_KIND_POLYGONAL then
    match restir_di_eval_polygonal_sample env inp l.light_id l.reservoir_y_pos with
    | none => false
    | some s =>
      decide (env.trace_shadow_ray (restir_di_shadow_ray env inp s.pos_on_light)
        inp.shadow_cull_mask ≤ 0)
  else false

/-- Lines 2013-2038: the fold of the neighbour reservoir `l`, re-evaluated to
`p_hat`, loaded from the pixel `nb`. -/
def restir_di_fold_spatial (env : Env α) (st : St α) (l : Loaded α) (p_hat : α)
    (nb : IVec2) : St α :=
  let m_i := min l.reservoir_M RESTIR_DI_M_CLAMP
  let w := p_hat * l.reservoir_W * (m_i : α)
  let rng_resample := env.rng st.rng_calls
  let m_spatial_considered := st.m_spatial_considered + m_i
  let p_hat_at_spatial_sum := st.p_hat_at_spatial_sum + p_hat * (m_i : α)
  let M := st.M + m_i
  let w_sum := st.w_sum + w
  if w > 0 ∧ rng_resample < w / max w_sum (1 / 1000000) then
    { st with
      rng_calls := st.rng_calls + 1, m_spatial_considered := m_spatial_considered,
      p_hat_at_spatial_sum := p_hat_at_spatial_sum,
      M := M, w_sum := w_sum, selected_weight := w, selected_p_hat := p_hat,
      selected_kind := l.kind, selected_light_id := l.light_id,
      selected_y_pos := l.reservoir_y_pos, selected_source := 2, selected_source_m := m_i,
      selected_source_pos := nb,
      selected_source_geo_normal := env.decode_normal (env.TEX_PT_GEO_NORMAL_B nb),
      selected_source_p_hat := p_hat }
  else
    { st with
      rng_calls := st.rng_calls + 1, m_spatial_considered := m_spatial_considered,
      p_hat_at_spatial_sum := p_hat_at_spatial_sum, M := M, w_sum := w_sum }

/-- Lines 1921-1940: the depth, normal and cluster tests of the neighbour
pixel `nb`; false is `continue`. -/
def restir_di_neighbor_similar (env : Env α) (inp : Inp α) (nb : IVec2) : Bool :=
  let depth_curr := env.TEX_PT_VIEW_DEPTH_A inp.ipos
  let depth_nb_prev := env.TEX_PT_VIEW_DEPTH_B nb
  let geo_nb_prev := env.decode_normal (env.TEX_PT_GEO_NORMAL_B nb)
  let dist_depth0 := |depth_curr - depth_nb_prev| / max |depth_curr| (1 / 1000)
  let dist_depth := if depth_curr < 0 then dist_depth0 * (1 / 4) else dist_depth0
  if dist_depth > 5 / 100 ∨ inp.geo_normal.dot geo_nb_prev < 95 / 100 then false
  else if restir_di_cluster_prev env nb ≠ inp.cluster_idx then false
  else true

/-- Lines 1903-2038: iteration `j` of the neighbour loop. -/
def restir_di_spatial_iter (env : Env α) (inp : Inp α) (ipos_prev : IVec2) (rot : Nat)
    (st : St α) (j : Nat) : St α :=
  match restir_di_neighbor env inp ipos_prev rot j with
  | none => st
  | some nb =>
    if restir_di_neighbor_similar env inp nb = false then st
    else
      match restir_di_load_prev env nb inp.cluster_idx with
      | none => st
      | some l =>
        match restir_di_reevaluate env inp l with
        | none => st
        | some p_hat =>
          if p_hat < 1 / 10000 then st
          else if restir_di_spatial_occluded env inp l = true then st
          else restir_di_fold_spatial env st l p_hat nb

/-- Line 1893. -/
def restir_di_K (env : Env α) : Int :=
  float_to_int (glsl_clamp env.pt_restir_spatial_neighbors 0 16)

/-- Lines 1893-2040: stage 3, without the test `want_spatial && have_prev`. -/
def restir_di_spatial_reuse (env : Env α) (inp : Inp α) (ipos_prev : IVec2) (st : St α) : St α :=
  if restir_di_K env > 0 then
    let rot : Nat := (⌊env.rng st.rng_calls * 8⌋ % 8).toNat
    (List.range (restir_di_K env).toNat).foldl
      (restir_di_spatial_iter env inp ipos_prev rot) { st with rng_calls := st.rng_calls + 1 }
  else st

/-- Lines 1614-2041: the running reservoir after the three stages. -/
def restir_di_resample (env : Env α) (inp : Inp α) : St α :=
  let st := restir_di_generate env inp
  let st :=
    if want_temporal env inp = true ∧ (restir_di_reproject env inp).1 = true then
      restir_di_temporal_reuse env inp (restir_di_reproject env inp).2 st
    else st
  if want_spatial env inp = true ∧ (restir_di_reproject env inp).1 = true then
    restir_di_spatial_reuse env inp (restir_di_reproject env inp).2 st
  else st

/-! ## Bias correction, shading and store -/

/-- Lines 2059-2106: the value of `selected_source_p_hat` after the check of
the winning source (the shadow ray from the approximate source surface). -/
def restir_di_validate_source (env : Env α) (inp : Inp α) (st : St α) : α :=
  let light_pos_for_bias : Option (Vec3 α) :=
    if st.selected_kind = RESTIR_DI_KIND_POLYGONAL ∧ st.selected_source > 0 then
      match restir_di_eval_polygonal_sample env inp st.selected_light_id st.selected_y_pos with
      | some s => some s.pos_on_light
      | none => none
    else none
  match light_pos_for_bias with
  | none => st.selected_source_p_hat
  | some light_pos =>
    if st.selected_source > 0 then
      let source_pos_approx := inp.position
      let L_source := env.normalize (light_pos.sub source_pos_approx)
      let NdotL_source := st.selected_source_geo_normal.dot L_source
      if NdotL_source ≤ 0 then 0
      else
        let source_shadow_ray :=
          get_shadow_ray env (source_pos_approx.sub (inp.view_direction.scale (1 / 100)))
            light_pos 0
        let source_vis := env.trace_shadow_ray source_shadow_ray inp.shadow_cull_mask
        if source_vis ≤ 0 then 0 else st.selected_source_p_hat
    else st.selected_source_p_hat

/-- Line 2121: `pi`, for the validated `selected_source_p_hat`. -/
def restir_di_pi (st : St α) (source_p_hat : α) : α :=
  if st.selected_source = 0 then st.selected_p_hat else source_p_hat

/-- Lines 2125-2143: `piSum`. -/
def restir_di_piSum (st : St α) (M_current : Int) : α :=
  let piSum := st.selected_p_hat * (M_current : α)
  let piSum :=
    if st.m_temporal_considered > 0 then
      piSum + st.p_hat_at_temporal * (st.m_temporal_considered : α)
    else piSum
  if st.m_spatial_considered > 0 then piSum + st.p_hat_at_spatial_sum else piSum

/-- Lines 2116-2148: `W` before the cap. -/
def restir_di_W_uncapped (st : St α) (M_current : Int) (source_p_hat : α) : α :=
  let denom := st.selected_p_hat * restir_di_piSum st M_current
  if denom > 1 / 1000000 then st.w_sum * restir_di_pi st source_p_hat / denom else 0

/-- Lines 2150-2151: the cap. -/
def restir_di_cap_W (env : Env α) (W : α) : α :=
  if env.pt_restir_max_w > 0 then min W env.pt_restir_max_w else W

/-- Lines 2156-2198: the shading of the selected sample, with `sel_vis`. -/
def restir_di_shade_selected (env : Env α) (inp : Inp α) (st : St α) : Shaded α :=
  if st.selected_kind = RESTIR_DI_KIND_POLYGONAL then
    restir_di_shade_polygonal_sample env inp st.selected_light_id st.selected_y_pos
  else if st.selected_kind = RESTIR_DI_KIND_SUN then
    restir_di_shade_sun_sample env inp st.selected_y_pos
  else ⟨Vec3.splat 0, Vec3.splat 0, 0⟩

/-- The arguments of `restir_di_pack_id` and `restir_di_pack_reservoir` at
lines 2228-2229. -/
structure StoreArgs (α : Type) where
  kind : Nat
  light_id : Nat
  W : α
  M_store : Int
  y_pos : Vec2 α
deriving DecidableEq

/-- The `out` parameters of `get_direct_illumination_restir_di`. -/
structure Out (α : Type) where
  diffuse : Vec3 α
  specular : Vec3 α
  out_restir_id_packed : Nat
  out_restir_res_packed : Nat × Nat
  dbg_w_sum : α
  dbg_w_selected : α
  dbg_scale : α
  dbg_M : Int
  dbg_kind : Int
  dbg_light_id : Int
  dbg_source : Int
deriving DecidableEq

/-- Lines 1578-1588: the values of the `out` parameters on entry. -/
def Out.zero : Out α :=
  { diffuse := Vec3.splat 0, specular := Vec3.splat 0, out_restir_id_packed := 0,
    out_restir_res_packed := (0, 0), dbg_w_sum := 0, dbg_w_selected := 0, dbg_scale := 0,
    dbg_M := 0, dbg_kind := 0, dbg_light_id := -1, dbg_source := -1 }

/-- Radiance, debug values and, when line 2226 passes, the reservoir handed
to the store. -/
structure Final (α : Type) where
  out : Out α
  store : Option (StoreArgs α)

/-- Lines 2043-2238 for the running reservoir `st` and the candidate count
`M_current` of line 1696.  The field `out` holds every `out` parameter but the
two packed words, which `get_direct_illumination_restir_di` fills from
`store`. -/
def restir_di_final (env : Env α) (inp : Inp α) (M_current : Int) (st : St α) : Final α :=
  if st.M ≤ 0 ∨ st.w_sum ≤ 0 ∨ st.selected_p_hat ≤ 0 ∨ st.selected_kind = RESTIR_DI_KIND_NONE then
    { out := { (Out.zero : Out α) with
        dbg_w_sum := st.w_sum, dbg_w_selected := st.selected_weight, dbg_M := st.M,
        dbg_source := st.selected_source },
      store := none }
  else
    let W := restir_di_cap_W env
      (restir_di_W_uncapped st M_current (restir_di_validate_source env inp st))
    let M_store := min st.M RESTIR_DI_M_CLAMP
    let shaded := restir_di_shade_selected env inp st
    if shaded.out_visibility ≤ 0 then
      { out := { (Out.zero : Out α) with
          dbg_w_sum := st.w_sum, dbg_w_selected := st.selected_weight, dbg_scale := 0,
          dbg_M := st.M, dbg_kind := (st.selected_kind : Int),
          dbg_light_id := (st.selected_light_id : Int), dbg_source := st.selected_source },
        store := none }
    else
      -- isnan and isinf are false on computed values
      let diffuse := (shaded.diffuse.scale W).clamp 0 (MAX_OUTPUT_VALUE : α)
      let specular := (shaded.specular.scale W).clamp 0 (MAX_OUTPUT_VALUE : α)
      { out := { (Out.zero : Out α) with
          diffuse := diffuse, specular := specular,
          dbg_w_sum := st.w_sum, dbg_w_selected := st.selected_weight, dbg_scale := W,
          dbg_M := st.M, dbg_kind := (st.selected_kind : Int),
          dbg_light_id := (st.selected_light_id : Int), dbg_source := st.selected_source },
        store :=
          if env.luminance (diffuse.add specular) > 0 then
            some { kind := st.selected_kind, light_id := st.selected_light_id, W := W,
                   M_store := M_store, y_pos := st.selected_y_pos }
          else none }

/-- The reservoir the pass hands to the store, together with the radiance:
lines 1607-1608 followed by `restir_di_final`. -/
def restir_di_pass (env : Env α) (inp : Inp α) : Final α :=
  if inp.enable_polygonal = false ∧ enable_sun = false then { out := Out.zero, store := none }
  else restir_di_final env inp (restir_di_generate env inp).M (restir_di_resample env inp)

/-- Lines 1545-2241. -/
def get_direct_illumination_restir_di (env : Env α) (inp : Inp α) : Out α :=
  match (restir_di_pass env inp).store with
  | none => (restir_di_pass env inp).out
  | some a =>
    { (restir_di_pass env inp).out with
      out_restir_id_packed := restir_di_pack_id a.kind a.light_id
      out_restir_res_packed := restir_di_pack_reservoir env a.W a.M_store a.y_pos }

end Model

/-! ## The specification's wording of some rules, for comparison -/

section SpecWords

variable {α : Type} [LinearOrderedField α] [FloorRing α]

/-- A stored float is a finite value of the interval `[0, 1)`. -/
def GFloat.in_unit_interval : GFloat α → Bool
  | .fin v => decide (0 ≤ v ∧ v < 1)
  | _ => false

/-- The acceptance rule of `restir_di_load_prev` in the words of the
specification: the stored kind is polygonal or sun, a polygonal light index is
below `MAX_LIGHT_POLYS`, below `num_static_lights` and in the list of the
current cluster, `W > 0`, `M > 0`, and both components of `y_pos` lie in
`[0, 1)`. -/
def load_prev_rule (env : Env α) (ipos_prev : IVec2) (list_idx : Nat) : Bool :=
  let kind := (restir_di_unpack_id (env.TEX_PT_RESTIR_DI_ID_B ipos_prev)).1
  let light_id := (restir_di_unpack_id (env.TEX_PT_RESTIR_DI_ID_B ipos_prev)).2
  let r := restir_di_unpack_reservoir env (env.TEX_PT_RESTIR_DI_RES_B ipos_prev)
  (decide (kind = RESTIR_DI_KIND_POLYGONAL) || decide (kind = RESTIR_DI_KIND_SUN)) &&
  (decide (kind ≠ RESTIR_DI_KIND_POLYGONAL) ||
    (decide (light_id < env.MAX_LIGHT_POLYS) && decide (light_id < env.num_static_lights) &&
      restir_di_cluster_contains_light env list_idx light_id)) &&
  r.1.gt_zero && decide (0 < r.2.1) && r.2.2.1.in_unit_interval && r.2.2.2.in_unit_interval

/-- The fold rule of a reused reservoir in the words of the specification:
`st2` results from the running reservoir `st` by folding the loaded reservoir
`l`, whose sample evaluates to `p_hat` at the current surface, as source `src`
with the random number `u`: the weight is
`w = p_hat * W_prev * min(M_prev, 8)`, `w` is added to `w_sum` and
`min(M_prev, 8)` to `M`, and the held sample is replaced by the sample of `l`
exactly when `w > 0` and `u < w / max(w_sum, 1e-6)` for the new `w_sum`. -/
def folds_reused (st st2 : St α) (l : Loaded α) (p_hat u : α) (src : Int) : Prop :=
  st2.w_sum = st.w_sum + p_hat * l.reservoir_W * ((min l.reservoir_M 8 : Int) : α) ∧
  st2.M = st.M + min l.reservoir_M 8 ∧
  (p_hat * l.reservoir_W * ((min l.reservoir_M 8 : Int) : α) > 0 ∧
    u < p_hat * l.reservoir_W * ((min l.reservoir_M 8 : Int) : α) /
      max (st.w_sum + p_hat * l.reservoir_W * ((min l.reservoir_M 8 : Int) : α)) (1 / 1000000) →
    st2.selected_kind = l.kind ∧ st2.selected_light_id = l.light_id ∧
    st2.selected_y_pos = l.reservoir_y_pos ∧ st2.selected_p_hat = p_hat ∧
    st2.selected_weight = p_hat * l.reservoir_W * ((min l.reservoir_M 8 : Int) : α) ∧
    st2.selected_source = src) ∧
  (¬ (p_hat * l.reservoir_W * ((min l.reservoir_M 8 : Int) : α) > 0 ∧
    u < p_hat * l.reservoir_W * ((min l.reservoir_M 8 : Int) : α) /
      max (st.w_sum + p_hat * l.reservoir_W * ((min l.reservoir_M 8 : Int) : α)) (1 / 1000000)) →
    st2.selected_kind = st.selected_kind ∧ st2.selected_light_id = st.selected_light_id ∧
    st2.selected_y_pos = st.selected_y_pos ∧ st2.selected_p_hat = st.selected_p_hat ∧
    st2.selected_weight = st.selected_weight ∧ st2.selected_source = st.selected_source)

/-- The values `(W, M)` that the pass hands to the reservoir store: the
arguments of `restir_di_pack_reservoir` at line 2229, or `(0, 0)` when the
empty slot (both packed words 0) is stored. -/
def stored_W_M (f : Final α) : α × Int :=
  match f.store with
  | some a => (a.W, a.M_store)
  | none => (0, 0)

/-- The running reservoir after stages 1 and 2 (lines 1614-1888). -/
def restir_di_after_temporal (env : Env α) (inp : Inp α) : St α :=
  if want_temporal env inp = true ∧ (restir_di_reproject env inp).1 = true then
    restir_di_temporal_reuse env inp (restir_di_reproject env inp).2 (restir_di_generate env inp)
  else restir_di_generate env inp

/-- The rotation `rot` drawn at line 1900. -/
def restir_di_rot (env : Env α) (inp : Inp α) : Nat :=
  (⌊env.rng (restir_di_after_temporal env inp).rng_calls * 8⌋ % 8).toNat

/-- The temporal source: the reservoir that stage 2 folds, with the value
`p_hat` of its sample at the current surface; `none` when stage 2 folds
nothing. -/
def restir_di_temporal_source (env : Env α) (inp : Inp α) : Option (Loaded α × α) :=
  if want_temporal env inp = true ∧ (restir_di_reproject env inp).1 = true then
    match restir_di_load_prev env (restir_di_reproject env inp).2 inp.cluster_idx with
    | none => none
    | some l =>
      match restir_di_reevaluate env inp l with
      | none => none
      | some p_hat => some (l, p_hat)
  else none

/-- The spatial source of iteration `j`: the neighbour reservoir that the
iteration folds, with the value `p_hat` of its sample at the current surface;
`none` when the iteration folds nothing. -/
def restir_di_spatial_source (env : Env α) (inp : Inp α) (ipos_prev : IVec2) (rot j : Nat) :
    Option (Loaded α × α) :=
  match restir_di_neighbor env inp ipos_prev rot j with
  | none => none
  | some nb =>
    if restir_di_neighbor_similar env inp nb = false then none
    else
      match restir_di_load_prev env nb inp.cluster_idx with
      | none => none
      | some l =>
        match restir_di_reevaluate env inp l with
        | none => none
        | some p_hat =>
          if p_hat < 1 / 10000 then none
          else if restir_di_spatial_occluded env inp l = true then none
          else some (l, p_hat)

/-- Every reused source folded for this pixel, in the order of the folds: the
temporal reservoir, then the accepted spatial neighbours. -/
def restir_di_folded_sources (env : Env α) (inp : Inp α) : List (Loaded α × α) :=
  (restir_di_temporal_source env inp).toList ++
    (if want_spatial env inp = true ∧ (restir_di_reproject env inp).1 = true ∧
        restir_di_K env > 0 then
      (List.range (restir_di_K env).toNat).filterMap
        (restir_di_spatial_source env inp (restir_di_reproject env inp).2 (restir_di_rot env inp))
    else [])

/-- The count `min(M_source, 8)` that a reused source contributes. -/
def source_m (s : Loaded α × α) : Int := min s.1.reservoir_M 8

/-- The sum over the sources of `min(M_source, 8)`. -/
def sources_M (srcs : List (Loaded α × α)) : Int := (srcs.map source_m).sum

/-- The sum over the sources of `p_hat * min(M_source, 8)`. -/
def sources_piSum (srcs : List (Loaded α × α)) : α :=
  (srcs.map (fun s => s.2 * (source_m s : α))).sum

/-- The sum over the sources of the weights `p_hat * W_source * min(M_source, 8)`. -/
def sources_w (srcs : List (Loaded α × α)) : α :=
  (srcs.map (fun s => s.2 * s.1.reservoir_W * (source_m s : α))).sum

/-- The sums tracked by the running reservoir `st2` exceed those of `st` by
the contributions of the spatial sources `srcs`. -/
def spatial_sums (st st2 : St α) (srcs : List (Loaded α × α)) : Prop :=
  st2.M = st.M + sources_M srcs ∧
  st2.w_sum = st.w_sum + sources_w srcs ∧
  st2.m_spatial_considered = st.m_spatial_considered + sources_M srcs ∧
  st2.p_hat_at_spatial_sum = st.p_hat_at_spatial_sum + sources_piSum srcs ∧
  st2.m_temporal_considered = st.m_temporal_considered ∧
  st2.p_hat_at_temporal = st.p_hat_at_temporal

/-- The environment `env` with the visibility oracle `v`. -/
def Env.with_oracle (env : Env α) (v : Ray α → Int → α) : Env α :=
  { env with trace_shadow_ray := v }

/-- The shadow ray from the current surface to the sample held after
candidate generation; `none` when no sample is held (the test of line 2043)
or the sample does not evaluate at the current surface. -/
def restir_di_selected_ray (env : Env α) (inp : Inp α) : Option (Ray α) :=
  if (restir_di_generate env inp).M ≤ 0 ∨ (restir_di_generate env inp).w_sum ≤ 0 ∨
      (restir_di_generate env inp).selected_p_hat ≤ 0 ∨
      (restir_di_generate env inp).selected_kind = RESTIR_DI_KIND_NONE then none
  else
    match restir_di_eval_polygonal_sample env inp (restir_di_generate env inp).selected_light_id
        (restir_di_generate env inp).selected_y_pos with
    | some s => some (restir_di_shadow_ray env inp s.pos_on_light)
    | none => none

/-- The environment `env` whose first random number, the light-selection
number of the first candidate, is `r`. -/
def Env.with_light_rng (env : Env α) (r : α) : Env α :=
  { env with rng := fun k => if k = 0 then r else env.rng k }

/-- The unshadowed weighted contribution of the pass: `W` (after the cap)
times the unshadowed radiance of the selected polygonal sample, zero when no
sample is held. -/
def restir_di_contribution (env : Env α) (inp : Inp α) : Vec3 α :=
  if (restir_di_resample env inp).M ≤ 0 ∨ (restir_di_resample env inp).w_sum ≤ 0 ∨
      (restir_di_resample env inp).selected_p_hat ≤ 0 ∨
      (restir_di_resample env inp).selected_kind = RESTIR_DI_KIND_NONE then Vec3.splat 0
  else
    match restir_di_unshadowed_radiance env inp (restir_di_resample env inp).selected_light_id
        (restir_di_resample env inp).selected_y_pos with
    | some radiance =>
      radiance.scale (restir_di_cap_W env
        (restir_di_W_uncapped (restir_di_resample env inp) (restir_di_generate env inp).M
          (restir_di_validate_source env inp (restir_di_resample env inp))))
    | none => Vec3.splat 0

/-- The `k`-th light of the list of the cluster `c`. -/
def restir_di_list_light (env : Env α) (c k : Nat) : Nat :=
  env.light_list_lights (env.light_list_offsets c + k)

/-- The unshadowed contribution of one light at the stratified coordinate
`y_pos`: its unshadowed radiance without the factor `light_count` of line
1285 (the compensation of the uniform selection), zero for a light that the
evaluation rejects. -/
def restir_di_light_contribution (env : Env α) (inp : Inp α) (light_id : Nat)
    (y_pos : Vec2 α) : Vec3 α :=
  match restir_di_unshadowed_radiance env inp light_id y_pos with
  | some radiance => radiance.divs (restir_di_light_count env inp.cluster_idx : α)
  | none => Vec3.splat 0

/-- The weight `W` that the pass computes for a single candidate of the given
light: `1` before the cap when `p_hat * p_hat > 1e-6`, else `0`. -/
def restir_di_single_weight (env : Env α) (inp : Inp α) (light_id : Nat) (y_pos : Vec2 α) : α :=
  match restir_di_evaluate_polygonal_unshadowed env inp light_id y_pos with
  | some p_hat => if p_hat * p_hat > 1 / 1000000 then restir_di_cap_W env 1 else 0
  | none => 0

/-- The component `i` of a vector: 0 is `x`, 1 is `y`, 2 is `z`. -/
def Vec3.comp (v : Vec3 α) (i : Fin 3) : α :=
  match i with
  | 0 => v.x
  | 1 => v.y
  | 2 => v.z

/-! ### The sequence of accepted candidates -/

/-- An accepted candidate of the generator: its weight `w = p_hat`, its light
and its stratified coordinate. -/
structure Candidate (α : Type) where
  p_hat : α
  light_id : Nat
  y_pos : Vec2 α

/-- The running reservoir after the accepted candidates `c 0 .. c (n - 1)` of
the loop of lines 1614-1658, folded in this order with the resampling numbers
`u 0 .. u (n - 1)`. -/
def restir_di_fold_accepted (c : Nat → Candidate α) (u : Nat → α) : Nat → St α
  | 0 => St.init
  | n + 1 =>
    restir_di_fold_candidate (restir_di_fold_accepted c u n) RESTIR_DI_KIND_POLYGONAL
      (c n).p_hat (c n).light_id (c n).y_pos (u n)

/-- The index of the candidate held after `n` accepted candidates: the last
one that passed the replacement test of line 1649. -/
def restir_di_held (c : Nat → Candidate α) (u : Nat → α) : Nat → Option Nat
  | 0 => none
  | n + 1 =>
    if (c n).p_hat > 0 ∧ u n < (c n).p_hat /
        max ((restir_di_fold_accepted c u n).w_sum + (c n).p_hat) (1 / 1000000) then some n
    else restir_di_held c u n

/-- The running sum `w_0 + ... + w_(k-1)` of the weights. -/
def running_sum (c : Nat → Candidate α) (k : Nat) : α :=
  ∑ j in Finset.range k, (c j).p_hat

/-- The candidate of iteration `j` of the loop, when the pick and the
evaluation both succeed. -/
def restir_di_iter_candidate (env : Env α) (inp : Inp α) (j : Nat) : Option (Candidate α) :=
  match restir_di_pick_polygonal_light_uniform env inp.cluster_idx (env.rng (4 * j)) with
  | none => none
  | some cand_light_id =>
    match restir_di_evaluate_polygonal_unshadowed env inp cand_light_id
        ⟨env.rng (4 * j + 1), env.rng (4 * j + 2)⟩ with
    | none => none
    | some p_hat => some ⟨p_hat, cand_light_id, ⟨env.rng (4 * j + 1), env.rng (4 * j + 2)⟩⟩

/-- The sequence `u 0, ..., u (n - 1), 0, 0, ...`. -/
def extend_fin {n : Nat} (u : Fin n → α) : Nat → α :=
  fun k => if h : k < n then u ⟨k, h⟩ else 0

/-- The three components of a vector lie in `[lo, hi]`. -/
@[reducible] def Vec3.within (v : Vec3 α) (lo hi : α) : Prop :=
  (lo ≤ v.x ∧ v.x ≤ hi) ∧ (lo ≤ v.y ∧ v.y ≤ hi) ∧ (lo ≤ v.z ∧ v.z ≤ hi)

/-! ### Reprojection: the footprint and the depth difference -/

/-- The four pixels of the bilinear footprint in the order of the loop of
line 1765: `pos_ld + off4[i]`. -/
def restir_di_footprint_pixels (env : Env α) (inp : Inp α) : List IVec2 :=
  off4.map (fun off =>
    (⟨(restir_di_pos_ld env inp).x + off.x, (restir_di_pos_ld env inp).y + off.y⟩ : IVec2))

/-- The relative depth difference of the previous-frame pixel `p` to the
current pixel, `|depth_curr - depth_prev + motion.z| / max(|depth_curr|, 1e-3)`
(line 1791, before line 1793). -/
def restir_di_temporal_depth_difference (env : Env α) (inp : Inp α) (p : IVec2) : α :=
  |env.TEX_PT_VIEW_DEPTH_A inp.ipos - env.TEX_PT_VIEW_DEPTH_B p + (env.TEX_PT_MOTION inp.ipos).z| /
    max |env.TEX_PT_VIEW_DEPTH_A inp.ipos| (1 / 1000)

/-- The relative depth difference of the neighbour `nb` to the current pixel,
`|depth_curr - depth_nb_prev| / max(|depth_curr|, 1e-3)` (line 1923, before
line 1925). -/
def restir_di_spatial_depth_difference (env : Env α) (inp : Inp α) (nb : IVec2) : α :=
  |env.TEX_PT_VIEW_DEPTH_A inp.ipos - env.TEX_PT_VIEW_DEPTH_B nb| /
    max |env.TEX_PT_VIEW_DEPTH_A inp.ipos| (1 / 1000)

/-- The value of `dist_depth` that the tests of lines 1797 and 1930 and the
score of line 1800 see: the relative depth difference, times 0.25 when
`depth_curr < 0`. -/
def restir_di_dist_depth (env : Env α) (inp : Inp α) (diff : α) : α :=
  if env.TEX_PT_VIEW_DEPTH_A inp.ipos < 0 then diff * (1 / 4) else diff

/-- The score of line 1800 for the value `dist_depth` and the dot product
`dot_geo`. -/
def restir_di_score (dist_depth dot_geo : α) : α :=
  (1 - glsl_clamp (dist_depth / (1 / 10)) 0 1) * glsl_clamp dot_geo 0 1

/-- Lines 1766-1805: the body of the footprint loop for the pixel `p`, on the
pair `(best_score, best_p)`. -/
def restir_di_footprint_step (env : Env α) (inp : Inp α) (best : α × IVec2) (p : IVec2) :
    α × IVec2 :=
  match restir_di_footprint_score env inp p with
  | none => best
  | some score => if score > best.1 then (score, p) else best

/-- The environment `env` with the reservoir history `id`, `res` in place of
the images `TEX_PT_RESTIR_DI_ID_B` and `TEX_PT_RESTIR_DI_RES_B`. -/
def Env.with_history (env : Env α) (id : IVec2 → Nat) (res : IVec2 → Nat × Nat) : Env α :=
  { env with TEX_PT_RESTIR_DI_ID_B := id, TEX_PT_RESTIR_DI_RES_B := res }

/-- The environment `env` with both reuse flags turned off. -/
def Env.reuse_off (env : Env α) : Env α :=
  { env with pt_restir_temporal := 0, pt_restir_spatial := 0 }

/-! ### The uniform pick -/

/-- Line 1210: the start position `base` of the pick. -/
def restir_di_pick_base (env : Env α) (list_idx : Nat) (r : α) : Nat :=
  min (restir_di_light_count env list_idx - 1)
    (float_to_uint (r * (restir_di_light_count env list_idx : α)))

/-- Lines 1213-1214: the list entry `li` examined by iteration `t` of the
pick. -/
def restir_di_pick_entry (env : Env α) (list_idx : Nat) (r : α) (t : Nat) : Nat :=
  env.light_list_lights ((env.light_list_offsets list_idx +
    ((restir_di_pick_base env list_idx r + t) % 2 ^ 32) % restir_di_light_count env list_idx)
      % 2 ^ 32)

/-- The number of accepted draws among the first `n` iterations of the
candidate loop: those whose pick succeeds and whose evaluation returns true
(`p_hat > 0`). -/
def restir_di_accepted_count (env : Env α) (inp : Inp α) (n : Nat) : Nat :=
  ((List.range n).filter (fun j => (restir_di_iter_candidate env inp j).isSome)).length

/-- Line 1747: the barycentric threshold for the motion length `m` in pixels,
`mix(0.05, 0.25, clamp(m / 16, 0, 1))`. -/
def restir_di_bary_threshold_of (m : α) : α :=
  glsl_mix (5 / 100) (25 / 100) (glsl_clamp (m / 16) 0 1)

/-- The offset `neighbor_offsets[(j + rot) & 7]` of lines 1908 and 1914 that
iteration `j` of the neighbour loop visits with the rotation `rot`. -/
def restir_di_kernel_offset (rot j : Nat) : IVec2 :=
  neighbor_offsets.getD ((j + rot) % 8) ⟨0, 0⟩

/-! ### The reads of the history images -/

/-- The previous-frame pixel `p` lies within the rows of the image and within
the checkerboard field of the current pixel: the tests of lines 1768-1771 and
1915-1918 pass. -/
@[reducible] def restir_di_in_field (env : Env α) (inp : Inp α) (p : IVec2) : Prop :=
  (0 ≤ p.y ∧ p.y < env.prev_height) ∧
  (restir_di_field_left env inp ≤ p.x ∧ p.x < restir_di_field_right env inp)

/-- The seven images of the previous frame that reuse reads. -/
structure PrevFrame (α : Type) where
  prim : IVec2 → Nat × Nat
  bary : IVec2 → Vec2 α
  depth : IVec2 → α
  geo_normal : IVec2 → Nat
  cluster : IVec2 → Nat
  id : IVec2 → Nat
  res : IVec2 → Nat × Nat

/-- The images of the previous frame of `env`. -/
def Env.prev_frame (env : Env α) : PrevFrame α :=
  { prim := env.TEX_PT_VISBUF_PRIM_B, bary := env.TEX_PT_VISBUF_BARY_B,
    depth := env.TEX_PT_VIEW_DEPTH_B, geo_normal := env.TEX_PT_GEO_NORMAL_B,
    cluster := env.TEX_PT_CLUSTER_B, id := env.TEX_PT_RESTIR_DI_ID_B,
    res := env.TEX_PT_RESTIR_DI_RES_B }

/-- The environment `env` with the images `f` in place of its images of the
previous frame. -/
def Env.with_prev_frame (env : Env α) (f : PrevFrame α) : Env α :=
  { env with
    TEX_PT_VISBUF_PRIM_B := f.prim, TEX_PT_VISBUF_BARY_B := f.bary,
    TEX_PT_VIEW_DEPTH_B := f.depth, TEX_PT_GEO_NORMAL_B := f.geo_normal,
    TEX_PT_CLUSTER_B := f.cluster, TEX_PT_RESTIR_DI_ID_B := f.id,
    TEX_PT_RESTIR_DI_RES_B := f.res }

/-- The images `f` and `g` hold the same texels at the pixel `p`. -/
def PrevFrame.agree_at (f g : PrevFrame α) (p : IVec2) : Prop :=
  f.prim p = g.prim p ∧ f.bary p = g.bary p ∧ f.depth p = g.depth p ∧
  f.geo_normal p = g.geo_normal p ∧ f.cluster p = g.cluster p ∧ f.id p = g.id p ∧
  f.res p = g.res p

/-- The images that hold everywhere the texels of `f` at the pixel `p`. -/
def PrevFrame.const_at (f : PrevFrame α) (p : IVec2) : PrevFrame α :=
  { prim := fun _ => f.prim p, bary := fun _ => f.bary p, depth := fun _ => f.depth p,
    geo_normal := fun _ => f.geo_normal p, cluster := fun _ => f.cluster p,
    id := fun _ => f.id p, res := fun _ => f.res p }

/-- The previous-frame coordinates at which
`get_direct_illumination_restir_di` fetches a history image, in program order:
the pixels of the footprint that pass the bounds tests of lines 1768-1771
(fetches of lines 1773-1790, when reprojection runs), the reprojected pixel
`ipos_prev` (stage 2: `restir_di_load_prev` and line 1883), and the neighbours
that pass the bounds tests of lines 1915-1918 (stage 3: lines 1921-1937 and
`restir_di_load_prev`). -/
def restir_di_history_reads (env : Env α) (inp : Inp α) : List IVec2 :=
  (if want_temporal env inp = true ∨ want_spatial env inp = true then
    (restir_di_footprint_pixels env inp).filter (fun p =>
      !decide (p.y < 0 ∨ p.y ≥ env.prev_height) &&
      !decide (p.x < restir_di_field_left env inp ∨ p.x ≥ restir_di_field_right env inp))
  else []) ++
  (if want_temporal env inp = true ∧ (restir_di_reproject env inp).1 = true then
    [(restir_di_reproject env inp).2]
  else []) ++
  (if want_spatial env inp = true ∧ (restir_di_reproject env inp).1 = true ∧
      restir_di_K env > 0 then
    (List.range (restir_di_K env).toNat).filterMap
      (restir_di_neighbor env inp (restir_di_reproject env inp).2 (restir_di_rot env inp))
  else [])

/-! ### The visibility of a reused sample -/

end SpecWords

/-! ## Sample scenes -/

/-- Luminance with the Rec. 709 weights. -/
def sampleLuminance {α : Type} [LinearOrderedField α] (v : Vec3 α) : α :=
  v.x * (2126 / 10000) + v.y * (7152 / 10000) + v.z * (722 / 10000)

/-- A scene of one cluster, index 0, listing the polygonal lights 0, 1, 2.
Light `i` is grey with colour `color i`, faces the surface and is sampled
with solid-angle density 1 in direction `(0, 0, 1)`; the surface is purely
diffuse.  No history is stored, reuse is off, `N = 1`, `W` is not capped, and
each random number is `rng k`. -/
def sampleScene {α : Type} [LinearOrderedField α] (color : Nat → α) (rng : Nat → α) (vis : α) :
    Env α :=
  { light_list_offsets := fun c => 3 * c
    light_list_lights := fun i => i
    sky_visibility := fun _ => 0
    MAX_LIGHT_POLYS := 4096
    CHECKERBOARD_FLAG_WEAPON := 8
    ENABLE_SHADOW_CAUSTICS := false
    num_static_lights := 3
    pt_restir_max_w := 0
    pt_restir_candidates := 1
    pt_restir_temporal := 0
    pt_restir_spatial := 0
    pt_restir_spatial_neighbors := 0
    width := 8
    height := 8
    prev_width := 8
    prev_height := 8
    inv_width := 1 / 8
    inv_height := 1 / 8
    pt_env_scale := 1
    pt_specular_mis := 0
    pt_sun_specular := 0
    sun_visible := 0
    sun_tan_half_angle := 0
    sun_direction := ⟨0, 0, 1⟩
    sun_tangent := ⟨1, 0, 0⟩
    sun_bitangent := ⟨0, 1, 0⟩
    sun_radiance := fun _ => ⟨0, 0, 0⟩
    TEX_PT_VISBUF_PRIM_A := fun _ => (0, 0)
    TEX_PT_VISBUF_PRIM_B := fun _ => (0, 0)
    TEX_PT_VISBUF_BARY_A := fun _ => ⟨0, 0⟩
    TEX_PT_VISBUF_BARY_B := fun _ => ⟨0, 0⟩
    TEX_PT_VIEW_DEPTH_A := fun _ => 1
    TEX_PT_VIEW_DEPTH_B := fun _ => 1
    TEX_PT_GEO_NORMAL_B := fun _ => 0
    TEX_PT_CLUSTER_B := fun _ => 0
    TEX_PT_MOTION := fun _ => ⟨0, 0, 0⟩
    TEX_PT_RESTIR_DI_ID_B := fun _ => 0
    TEX_PT_RESTIR_DI_RES_B := fun _ => (0, 0)
    length3 := fun _ => 1
    length2 := fun v => |v.x| + |v.y|
    normalize := fun v => v
    sqrt := fun x => x
    packHalf2x16 := fun _ => 0
    unpackHalf2x16 := fun _ => (GFloat.fin 0, GFloat.fin 0)
    int_of_nonfinite := fun _ => 0
    M_PI := 3
    luminance := sampleLuminance
    decode_normal := fun _ => ⟨0, 0, 1⟩
    sample_disk := fun y => y
    get_light_polygon := fun i =>
      { positions := (⟨0, 0, 1⟩, ⟨1, 0, 1⟩, ⟨0, 1, 1⟩), color := ⟨color i, color i, color i⟩,
        light_style_scale := 1 }
    sample_projected_triangle := fun _ _ _ =>
      { pos := ⟨0, 0, 1⟩, light_normal := ⟨0, 0, -1⟩, pdfw := 1 }
    env_map := fun _ _ => ⟨0, 0, 0⟩
    ImportanceSampleGGX_VNDF_PDF := fun _ _ _ _ => 0
    GGX_times_NdotL := fun _ _ _ _ _ _ _ => (⟨0, 0, 0⟩, ⟨0, 0, 0⟩)
    trace_shadow_ray := fun _ _ => vis
    trace_caustic_ray := fun _ _ => ⟨1, 1, 1⟩
    rng := rng }

/-- A pixel of cluster 0 at the origin, facing `(0, 0, 1)`, with polygonal
lights enabled. -/
def samplePixel {α : Type} [LinearOrderedField α] : Inp α :=
  { ipos := ⟨0, 0⟩
    checkerboard_flags := 0
    position := ⟨0, 0, 0⟩
    normal := ⟨0, 0, 1⟩
    geo_normal := ⟨0, 0, 1⟩
    cluster_idx := 0
    shadow_cull_mask := 1
    view_direction := ⟨0, 0, -1⟩
    base_reflectivity := ⟨0, 0, 0⟩
    specular_factor := 0
    roughness := 1
    surface_medium := 0
    enable_caustics := false
    direct_specular_weight := 0
    enable_polygonal := true }

/-- The sample scene over the rationals. -/
def sampleEnv (color : Nat → ℚ) (rng : Nat → ℚ) (vis : ℚ) : Env ℚ := sampleScene color rng vis

/-- The sample pixel over the rationals. -/
def sampleInp : Inp ℚ := samplePixel


/-- Decoding of one IEEE half-precision word (1 sign, 5 exponent and 10
mantissa bits). -/
def sampleHalf (h : Nat) : GFloat ℚ :=
  let sign : ℚ := if h / 32768 % 2 = 1 then -1 else 1
  let e := h / 1024 % 32
  let m := h % 1024
  if e = 31 then
    if m = 0 then (if h / 32768 % 2 = 1 then GFloat.ninf else GFloat.pinf) else GFloat.nan
  else if e = 0 then GFloat.fin (sign * (m : ℚ) / 1024 / 16384)
  else GFloat.fin (sign * (1 + (m : ℚ) / 1024) * 2 ^ e / 32768)

/-- The built-in `unpackHalf2x16`: the low half-word first. -/
def sampleUnpackHalf2x16 (w : Nat) : GFloat ℚ × GFloat ℚ :=
  (sampleHalf (w % 65536), sampleHalf (w / 65536 % 65536))

/-- The scene `sampleEnv` with a history whose every pixel stores the words
`id` and `res`. -/
def historyEnv (color : Nat → ℚ) (rng : Nat → ℚ) (vis : ℚ) (id : Nat) (res : Nat × Nat) : Env ℚ :=
  { sampleEnv color rng vis with
    TEX_PT_RESTIR_DI_ID_B := fun _ => id
    TEX_PT_RESTIR_DI_RES_B := fun _ => res
    unpackHalf2x16 := sampleUnpackHalf2x16 }

/-- The scene `historyEnv` with temporal and spatial reuse switched on by the
values `temporal` and `spatial` of the two flags, and `K = 1`. -/
def reuseEnv (color : Nat → ℚ) (rng : Nat → ℚ) (vis : ℚ) (id : Nat) (res : Nat × Nat)
    (temporal spatial : ℚ) : Env ℚ :=
  { historyEnv color rng vis id res with
    pt_restir_temporal := temporal
    pt_restir_spatial := spatial
    pt_restir_spatial_neighbors := 1 }

/-- Two accepted candidates with the weights 2 and 3 (and 3 for any further
one): candidate `k` is the light `k` at the coordinate `(0, 0)`. -/
def sampleCandidates {α : Type} [LinearOrderedField α] (k : Nat) : Candidate α :=
  ⟨if k = 0 then 2 else 3, k, ⟨0, 0⟩⟩

/-- The scene `reuseEnv` with a visible sun of radiance 1 in the direction
`sun_dir`, seen from every cluster, and with the geometric normal `geo_prev`
stored for every pixel of the previous frame. -/
def sunEnv (color : Nat → ℚ) (rng : Nat → ℚ) (vis : ℚ) (id : Nat) (res : Nat × Nat)
    (temporal spatial : ℚ) (sun_dir geo_prev : Vec3 ℚ) : Env ℚ :=
  { reuseEnv color rng vis id res temporal spatial with
    sun_visible := 1
    sky_visibility := fun _ => 1
    sun_direction := sun_dir
    sun_radiance := fun _ => ⟨1, 1, 1⟩
    decode_normal := fun _ => geo_prev }

/-- The scene `reuseEnv` with the view depth `depth_curr` at every pixel of the
current frame and `depth_prev` at every pixel of the previous frame. -/
def depthEnv (color : Nat → ℚ) (rng : Nat → ℚ) (vis : ℚ) (id : Nat) (res : Nat × Nat)
    (temporal spatial : ℚ) (depth_curr depth_prev : ℚ) : Env ℚ :=
  { reuseEnv color rng vis id res temporal spatial with
    TEX_PT_VIEW_DEPTH_A := fun _ => depth_curr
    TEX_PT_VIEW_DEPTH_B := fun _ => depth_prev }

/-- The scene `reuseEnv` with temporal reuse on, every shadow ray unoccluded,
a history that holds the polygonal light 0 with `W = 1`, `M = 1`, and the
geometric normal `(84/85, 0, -13/85)` stored for every pixel of the previous
frame.  Light 0 has `p_hat = 3`, the candidate drawn is light 1 with
`p_hat = 2`. -/
def horizonEnv : Env ℚ :=
  { reuseEnv (fun i => if i = 0 then 3 else 2) (fun _ => 1 / 2) 1 1 (1006648320, 0) 1 0 with
    decode_normal := fun _ => ⟨84 / 85, 0, -13 / 85⟩ }

/-- The sample pixel with the geometric normal `(84/85, 0, 13/85)`: the lights,
in the direction `(0, 0, 1)`, are above its horizon and below the horizon of
the source surface of `horizonEnv`. -/
def horizonInp : Inp ℚ :=
  { sampleInp with geo_normal := ⟨84 / 85, 0, 13 / 85⟩ }

/-! ## Theorems -/

section Theorems

set_option linter.unusedSectionVars false

variable {α : Type} [LinearOrderedField α] [FloorRing α]

/-! ### Light list membership and `restir_di_load_prev` -/

theorem cluster_contains_light_iff (env : Env α) (list_idx light_id : Nat) :
    restir_di_cluster_contains_light env list_idx light_id = true ↔
      list_idx ≠ UINT_MAX ∧ ∃ i, env.light_list_offsets list_idx ≤ i ∧
        i < env.light_list_offsets (list_idx + 1) ∧ env.light_list_lights i = light_id := by
  unfold restir_di_cluster_contains_light
  by_cases h : list_idx = UINT_MAX
  · simp [h]
  · simp only [h, if_false, List.any_eq_true, List.mem_range', decide_eq_true_eq, ne_eq,
      not_false_eq_true, true_and]
    constructor
    · rintro ⟨i, ⟨k, hk, rfl⟩, hi⟩
      exact ⟨_, by omega, by omega, hi⟩
    · rintro ⟨i, h1, h2, h3⟩
      exact ⟨i, ⟨i - env.light_list_offsets list_idx, by omega, by omega⟩, h3⟩

/-- C4: a stored slot of kind polygonal whose light index does not occur in
the range `[light_list_offsets[c], light_list_offsets[c+1])` of the current
cluster is rejected by `restir_di_load_prev`, whatever `W`, `M` and `y_pos`
the slot holds. -/
theorem C4_load_prev_rejects_unlisted_light (env : Env α) (ipos_prev : IVec2) (list_idx : Nat)
    (hkind : (restir_di_unpack_id (env.TEX_PT_RESTIR_DI_ID_B ipos_prev)).1
      = RESTIR_DI_KIND_POLYGONAL)
    (habsent : ∀ i, env.light_list_offsets list_idx ≤ i →
      i < env.light_list_offsets (list_idx + 1) →
      env.light_list_lights i ≠ (restir_di_unpack_id (env.TEX_PT_RESTIR_DI_ID_B ipos_prev)).2) :
    restir_di_load_prev env ipos_prev list_idx = none := by
  have hc : restir_di_cluster_contains_light env list_idx
      (restir_di_unpack_id (env.TEX_PT_RESTIR_DI_ID_B ipos_prev)).2 = false := by
    rw [← Bool.not_eq_true, cluster_contains_light_iff]
    rintro ⟨-, i, h1, h2, h3⟩
    exact habsent i h1 h2 h3
  unfold restir_di_load_prev
  simp only [hkind, hc, and_self, if_true]
  split_ifs <;> rfl

/-- Witness of C4: the cluster of the sample scene lists the lights 0, 1, 2
and the history holds light 7 (the word `1 | 7 << 2 = 29`) with `W = 1` and
`M = 1`: the slot is rejected. -/
theorem C4_load_prev_rejects_unlisted_light_witness :
    (restir_di_load_prev (historyEnv (fun _ => 2) (fun _ => 1 / 2) 1 29 (1006648320, 0))
      ⟨0, 0⟩ 0).isSome = false :=
  congrArg Option.isSome
    (C4_load_prev_rejects_unlisted_light
      (historyEnv (fun _ => 2) (fun _ => 1 / 2) 1 29 (1006648320, 0)) ⟨0, 0⟩ 0 (by decide)
      (by
        intro i h1 h2
        have h1' : 3 * 0 ≤ i := h1
        have h2' : i < 3 * (0 + 1) := h2
        show i ≠ 7
        omega))

theorem load_prev_fin_aux (P : Prop) [Decidable P] (w yx yy : α) (M : Int) (l : Loaded α) :
    (if P then none
      else if w ≤ 0 ∨ M ≤ 0 then none
      else if (yx < 0 ∨ yy < 0) ∨ 1 ≤ yx ∨ 1 ≤ yy then none
      else some l).isSome =
    (!decide P && decide (0 < w) && decide (0 < M) && (decide (0 ≤ yx) && decide (yx < 1)) &&
      (decide (0 ≤ yy) && decide (yy < 1))) := by
  by_cases hP : P
  · simp [hP]
  by_cases h3 : w ≤ 0 ∨ M ≤ 0
  · rcases h3 with h | h
    · simp [hP, h, not_lt.mpr h]
    · simp [hP, h, not_lt.mpr h]
  by_cases h4 : (yx < 0 ∨ yy < 0) ∨ 1 ≤ yx ∨ 1 ≤ yy
  · rw [if_neg hP, if_neg h3, if_pos h4]
    rcases h4 with (h | h) | h | h
    · simp [not_le.mpr h]
    · simp [not_le.mpr h]
    · simp [not_lt.mpr h]
    · simp [not_lt.mpr h]
  · rw [if_neg hP, if_neg h3, if_neg h4]
    push_neg at h3 h4
    simp [hP, h3.1, h3.2, h4.1.1, h4.1.2, h4.2.1, h4.2.2]

theorem load_prev_isSome_eq (env : Env α) (ipos_prev : IVec2) (list_idx : Nat) :
    (restir_di_load_prev env ipos_prev list_idx).isSome =
      (load_prev_rule env ipos_prev list_idx &&
        !(restir_di_unpack_reservoir env (env.TEX_PT_RESTIR_DI_RES_B ipos_prev)).1.isinf) := by
  unfold restir_di_load_prev load_prev_rule
  simp only []
  generalize (restir_di_unpack_id (env.TEX_PT_RESTIR_DI_ID_B ipos_prev)).1 = kind
  generalize (restir_di_unpack_id (env.TEX_PT_RESTIR_DI_ID_B ipos_prev)).2 = light_id
  generalize restir_di_unpack_reservoir env (env.TEX_PT_RESTIR_DI_RES_B ipos_prev) = r
  obtain ⟨W, M, yx, yy⟩ := r
  generalize restir_di_cluster_contains_light env list_idx light_id = c
  generalize env.MAX_LIGHT_POLYS = mx
  generalize env.num_static_lights = ns
  generalize env.pt_restir_max_w = mw
  simp only []
  by_cases hk : kind = RESTIR_DI_KIND_POLYGONAL
  · subst hk
    cases W <;> cases yx <;> cases yy <;>
      simp [GFloat.gt_zero, GFloat.isnan, GFloat.isinf, GFloat.lt_zero, GFloat.ge_one,
        GFloat.in_unit_interval, RESTIR_DI_KIND_POLYGONAL, RESTIR_DI_KIND_SUN]
    rename_i w yx yy
    by_cases h1 : mx ≤ light_id
    · simp [h1, not_lt.mpr h1]
    by_cases h2 : ns ≤ light_id
    · simp [h1, h2, not_lt.mpr h2]
    cases c
    · simp [h1, h2]
    · rw [if_neg h1, if_neg h2, if_neg (by decide)]
      have := load_prev_fin_aux False w yx yy M
        { kind := 1, light_id := light_id, reservoir_W := if 0 < mw then w ⊓ mw else w,
          reservoir_M := M, reservoir_y_pos := { x := yx, y := yy } }
      simp only [if_false] at this
      rw [this]
      simp [not_le.mp h1, not_le.mp h2]
  · by_cases hs : kind = RESTIR_DI_KIND_SUN
    · subst hs
      cases W <;> cases yx <;> cases yy <;>
        simp [GFloat.gt_zero, GFloat.isnan, GFloat.isinf, GFloat.lt_zero, GFloat.ge_one,
          GFloat.in_unit_interval, RESTIR_DI_KIND_POLYGONAL, RESTIR_DI_KIND_SUN]
      rename_i w yx yy
      have := load_prev_fin_aux False w yx yy M
        { kind := 2, light_id := light_id, reservoir_W := if 0 < mw then w ⊓ mw else w,
          reservoir_M := M, reservoir_y_pos := { x := yx, y := yy } }
      simp only [if_false] at this
      rw [this]
      simp
    · simp [hk, hs]

theorem load_prev_some_spec (env : Env α) (ipos_prev : IVec2) (list_idx : Nat) (l : Loaded α)
    (h : restir_di_load_prev env ipos_prev list_idx = some l) :
    l.kind = (restir_di_unpack_id (env.TEX_PT_RESTIR_DI_ID_B ipos_prev)).1 ∧
    l.light_id = (restir_di_unpack_id (env.TEX_PT_RESTIR_DI_ID_B ipos_prev)).2 ∧
    l.reservoir_M = (restir_di_unpack_reservoir env (env.TEX_PT_RESTIR_DI_RES_B ipos_prev)).2.1 ∧
    (l.kind = RESTIR_DI_KIND_POLYGONAL ∨ l.kind = RESTIR_DI_KIND_SUN) ∧
    (l.kind = RESTIR_DI_KIND_POLYGONAL → l.light_id < env.MAX_LIGHT_POLYS ∧
      l.light_id < env.num_static_lights ∧
      restir_di_cluster_contains_light env list_idx l.light_id = true) ∧
    0 < l.reservoir_M ∧
    ∃ w yx yy,
      (restir_di_unpack_reservoir env (env.TEX_PT_RESTIR_DI_RES_B ipos_prev)).1 = GFloat.fin w ∧
      (restir_di_unpack_reservoir env (env.TEX_PT_RESTIR_DI_RES_B ipos_prev)).2.2.1
        = GFloat.fin yx ∧
      (restir_di_unpack_reservoir env (env.TEX_PT_RESTIR_DI_RES_B ipos_prev)).2.2.2
        = GFloat.fin yy ∧
      0 < w ∧ 0 ≤ yx ∧ yx < 1 ∧ 0 ≤ yy ∧ yy < 1 ∧
      l.reservoir_y_pos = ⟨yx, yy⟩ ∧
      l.reservoir_W = (if env.pt_restir_max_w > 0 then min w env.pt_restir_max_w else w) := by
  unfold restir_di_load_prev at h
  simp only [] at h
  generalize (restir_di_unpack_id (env.TEX_PT_RESTIR_DI_ID_B ipos_prev)).1 = kind at h ⊢
  generalize (restir_di_unpack_id (env.TEX_PT_RESTIR_DI_ID_B ipos_prev)).2 = light_id at h ⊢
  generalize restir_di_unpack_reservoir env (env.TEX_PT_RESTIR_DI_RES_B ipos_prev) = r at h ⊢
  obtain ⟨W, M, yx, yy⟩ := r
  simp only [] at h ⊢
  by_cases h1 : kind ≠ RESTIR_DI_KIND_POLYGONAL ∧ kind ≠ RESTIR_DI_KIND_SUN
  · rw [if_pos h1] at h; exact absurd h (by simp)
  rw [if_neg h1] at h
  by_cases h2 : kind = RESTIR_DI_KIND_POLYGONAL ∧ light_id ≥ env.MAX_LIGHT_POLYS
  · rw [if_pos h2] at h; exact absurd h (by simp)
  rw [if_neg h2] at h
  by_cases h3 : kind = RESTIR_DI_KIND_POLYGONAL ∧ light_id ≥ env.num_static_lights
  · rw [if_pos h3] at h; exact absurd h (by simp)
  rw [if_neg h3] at h
  by_cases h4 : kind = RESTIR_DI_KIND_POLYGONAL ∧
      restir_di_cluster_contains_light env list_idx light_id = false
  · rw [if_pos h4] at h; exact absurd h (by simp)
  rw [if_neg h4] at h
  by_cases h5 : W.gt_zero = false ∨ M ≤ 0
  · rw [if_pos h5] at h; exact absurd h (by simp)
  rw [if_neg h5] at h
  by_cases h6 : (W.isnan || yx.isnan || yy.isnan) = true ∨ (W.isinf || yx.isinf || yy.isinf) = true
  · rw [if_pos h6] at h; exact absurd h (by simp)
  rw [if_neg h6] at h
  by_cases h7 : (yx.lt_zero || yy.lt_zero) = true ∨ (yx.ge_one || yy.ge_one) = true
  · rw [if_pos h7] at h; exact absurd h (by simp)
  rw [if_neg h7] at h
  cases W <;> cases yx <;> cases yy <;> simp only [reduceCtorEq] at h
  rename_i w yx yy
  rw [Option.some.injEq] at h
  subst h
  simp only [GFloat.gt_zero, GFloat.lt_zero, GFloat.ge_one, not_or, Bool.or_eq_true,
    decide_eq_true_eq, decide_eq_false_iff_not, not_not, not_le, not_lt, not_and,
    ne_eq] at h1 h2 h3 h4 h5 h7
  refine ⟨rfl, rfl, rfl, ?_, ?_, h5.2, w, yx, yy, rfl, rfl, rfl, h5.1, h7.1.1, h7.2.1, h7.1.2,
    h7.2.2, rfl, rfl⟩
  · by_cases hk : kind = RESTIR_DI_KIND_POLYGONAL
    · exact Or.inl hk
    · exact Or.inr (h1 hk)
  · intro hk
    refine ⟨h2 hk, h3 hk, ?_⟩
    have := h4 hk
    simpa using this

/-- Counterexample to C7 as stated: a stored slot of kind sun with `W = +Inf`
(half-precision word `0x7C00`), `M = 1` and `y_pos = (0, 0)` fulfils every
condition of the stated rule (the comparison `W > 0` is true), and
`restir_di_load_prev` returns false. -/
theorem C7_counterexample_infinite_W :
    load_prev_rule (historyEnv (fun _ => 2) (fun _ => 1 / 2) 1 2 (1006664704, 0)) ⟨0, 0⟩ 0 = true ∧
    (restir_di_load_prev (historyEnv (fun _ => 2) (fun _ => 1 / 2) 1 2 (1006664704, 0))
      ⟨0, 0⟩ 0).isSome = false := by
  decide!

/-- C7 (amended): `restir_di_load_prev` returns true if and only if the stated
rule holds (kind polygonal or sun; a polygonal light index below
`MAX_LIGHT_POLYS`, below `num_static_lights` and in the list of the current
cluster; `W > 0`; `M > 0`; both components of `y_pos` in `[0, 1)`) and the
stored `W` is not an infinity.  A slot with `M <= 0` or a finite `W <= 0` is
rejected.  On acceptance the stored kind, light index, `M` and `y_pos` are
returned unchanged, and `W` is returned as `min(W, pt_restir_max_w)` when
`pt_restir_max_w > 0` and unchanged otherwise. -/
theorem C7_load_prev_acceptance (env : Env α) (ipos_prev : IVec2) (list_idx : Nat) :
    ((restir_di_load_prev env ipos_prev list_idx).isSome = true ↔
      load_prev_rule env ipos_prev list_idx = true ∧
      (restir_di_unpack_reservoir env (env.TEX_PT_RESTIR_DI_RES_B ipos_prev)).1.isinf = false) ∧
    ((restir_di_unpack_reservoir env (env.TEX_PT_RESTIR_DI_RES_B ipos_prev)).2.1 ≤ 0 ∨
      (∃ w, (restir_di_unpack_reservoir env (env.TEX_PT_RESTIR_DI_RES_B ipos_prev)).1
        = GFloat.fin w ∧ w ≤ 0) → restir_di_load_prev env ipos_prev list_idx = none) ∧
    (∀ l, restir_di_load_prev env ipos_prev list_idx = some l →
      l.kind = (restir_di_unpack_id (env.TEX_PT_RESTIR_DI_ID_B ipos_prev)).1 ∧
      l.light_id = (restir_di_unpack_id (env.TEX_PT_RESTIR_DI_ID_B ipos_prev)).2 ∧
      l.reservoir_M
        = (restir_di_unpack_reservoir env (env.TEX_PT_RESTIR_DI_RES_B ipos_prev)).2.1 ∧
      (restir_di_unpack_reservoir env (env.TEX_PT_RESTIR_DI_RES_B ipos_prev)).2.2.1
        = GFloat.fin l.reservoir_y_pos.x ∧
      (restir_di_unpack_reservoir env (env.TEX_PT_RESTIR_DI_RES_B ipos_prev)).2.2.2
        = GFloat.fin l.reservoir_y_pos.y ∧
      ∃ w, (restir_di_unpack_reservoir env (env.TEX_PT_RESTIR_DI_RES_B ipos_prev)).1
          = GFloat.fin w ∧
        l.reservoir_W = (if env.pt_restir_max_w > 0 then min w env.pt_restir_max_w else w)) := by
  refine ⟨?_, ?_, ?_⟩
  · rw [load_prev_isSome_eq, Bool.and_eq_true, Bool.not_eq_true']
  · intro h
    rw [← Option.not_isSome_iff_eq_none, load_prev_isSome_eq]
    unfold load_prev_rule
    rcases h with h | ⟨w, hw, hw0⟩
    · simp [not_lt.mpr h]
    · simp [hw, GFloat.gt_zero, not_lt.mpr hw0]
  · intro l hl
    obtain ⟨h1, h2, h3, -, -, -, w, yx, yy, hw, hyx, hyy, -, -, -, -, -, hy, hW⟩ :=
      load_prev_some_spec env ipos_prev list_idx l hl
    refine ⟨h1, h2, h3, ?_, ?_, w, hw, hW⟩
    · rw [hyx, hy]
    · rw [hyy, hy]

/-! ### Occlusion of the selected sample -/

theorem final_of_occluded (env : Env α) (inp : Inp α) (Mc : Int) (st : St α)
    (h : (restir_di_shade_selected env inp st).out_visibility ≤ 0) :
    (restir_di_final env inp Mc st).store = none ∧
    (restir_di_final env inp Mc st).out.diffuse = Vec3.splat 0 ∧
    (restir_di_final env inp Mc st).out.specular = Vec3.splat 0 ∧
    (restir_di_final env inp Mc st).out.out_restir_id_packed = 0 ∧
    (restir_di_final env inp Mc st).out.out_restir_res_packed = (0, 0) := by
  unfold restir_di_final
  simp only []
  split_ifs with h1
  · simp [Out.zero]
  · simp [Out.zero]

theorem load_prev_zero_id (env : Env α) (p : IVec2) (c : Nat)
    (h : env.TEX_PT_RESTIR_DI_ID_B p = 0) : restir_di_load_prev env p c = none := by
  unfold restir_di_load_prev
  simp only [h]
  rw [if_pos]
  decide

/-- C5: when the visibility `sel_vis` of the final shading of the selected
sample is `<= 0`, `get_direct_illumination_restir_di` returns zero diffuse and
specular radiance and both packed words equal to 0; and in every later
environment `env_next` (any light lists) whose history holds the output
word `out_restir_id_packed` at a pixel `p` (whatever the other words are),
`restir_di_load_prev` rejects the slot for every cluster index `c`. -/
theorem C5_occlusion_nulls_reservoir (env : Env α) (inp : Inp α) (env_next : Env α) (p : IVec2)
    (c : Nat)
    (hvis : (restir_di_shade_selected env inp (restir_di_resample env inp)).out_visibility ≤ 0)
    (hid : env_next.TEX_PT_RESTIR_DI_ID_B p
      = (get_direct_illumination_restir_di env inp).out_restir_id_packed) :
    (get_direct_illumination_restir_di env inp).diffuse = Vec3.splat 0 ∧
    (get_direct_illumination_restir_di env inp).specular = Vec3.splat 0 ∧
    (get_direct_illumination_restir_di env inp).out_restir_id_packed = 0 ∧
    (get_direct_illumination_restir_di env inp).out_restir_res_packed = (0, 0) ∧
    restir_di_load_prev env_next p c = none := by
  have key : (restir_di_pass env inp).store = none ∧
      (restir_di_pass env inp).out.diffuse = Vec3.splat 0 ∧
      (restir_di_pass env inp).out.specular = Vec3.splat 0 ∧
      (restir_di_pass env inp).out.out_restir_id_packed = 0 ∧
      (restir_di_pass env inp).out.out_restir_res_packed = (0, 0) := by
    unfold restir_di_pass
    split_ifs
    · simp [Out.zero]
    · exact final_of_occluded env inp _ _ hvis
  have hout : get_direct_illumination_restir_di env inp = (restir_di_pass env inp).out := by
    unfold get_direct_illumination_restir_di
    rw [key.1]
  rw [hout] at hid ⊢
  refine ⟨key.2.1, key.2.2.1, key.2.2.2.1, key.2.2.2.2, ?_⟩
  exact load_prev_zero_id env_next p c (hid.trans key.2.2.2.1)

/-- Witness of C5: in the sample scene with an oracle that reports every ray
occluded, the candidate of light 1 is selected, its shadow ray is occluded,
and the pass returns zero radiance and the empty slot, which the next frame
rejects. -/
theorem C5_occlusion_nulls_reservoir_witness :
    (restir_di_resample (sampleEnv (fun _ => 2) (fun _ => 1 / 2) 0) sampleInp).selected_kind
      = RESTIR_DI_KIND_POLYGONAL ∧
    (get_direct_illumination_restir_di (sampleEnv (fun _ => 2) (fun _ => 1 / 2) 0)
      sampleInp).diffuse = Vec3.splat 0 ∧
    (get_direct_illumination_restir_di (sampleEnv (fun _ => 2) (fun _ => 1 / 2) 0)
      sampleInp).specular = Vec3.splat 0 ∧
    (get_direct_illumination_restir_di (sampleEnv (fun _ => 2) (fun _ => 1 / 2) 0)
      sampleInp).out_restir_id_packed = 0 ∧
    (get_direct_illumination_restir_di (sampleEnv (fun _ => 2) (fun _ => 1 / 2) 0)
      sampleInp).out_restir_res_packed = (0, 0) ∧
    restir_di_load_prev (sampleEnv (fun _ => 2) (fun _ => 1 / 2) 1) ⟨0, 0⟩ 0 = none :=
  ⟨by decide!,
    C5_occlusion_nulls_reservoir (sampleEnv (fun _ => 2) (fun _ => 1 / 2) 0) sampleInp
      (sampleEnv (fun _ => 2) (fun _ => 1 / 2) 1) ⟨0, 0⟩ 0 (by decide!) (by decide!)⟩

/-! ### Positivity of evaluated and loaded values -/

theorem evaluate_polygonal_pos (env : Env α) (inp : Inp α) (light_id : Nat) (y_pos : Vec2 α)
    (p : α) (h : restir_di_evaluate_polygonal_unshadowed env inp light_id y_pos = some p) :
    0 < p := by
  unfold restir_di_evaluate_polygonal_unshadowed at h
  split at h
  · exact absurd h (by simp)
  · simp only [] at h
    split_ifs at h with h1
    rw [Option.some.injEq] at h
    rw [← h]
    exact h1

theorem evaluate_sun_pos (env : Env α) (inp : Inp α) (y_pos : Vec2 α)
    (p : α) (h : restir_di_evaluate_sun_unshadowed env inp y_pos = some p) : 0 < p := by
  unfold restir_di_evaluate_sun_unshadowed at h
  simp only [] at h
  split_ifs at h <;> (rw [Option.some.injEq] at h; rw [← h]; assumption)

theorem reevaluate_pos (env : Env α) (inp : Inp α) (l : Loaded α) (p : α)
    (h : restir_di_reevaluate env inp l = some p) : 0 < p := by
  unfold restir_di_reevaluate at h
  split_ifs at h
  · exact evaluate_polygonal_pos env inp _ _ p h
  · exact evaluate_sun_pos env inp _ p h

theorem load_prev_W_pos (env : Env α) (ipos_prev : IVec2) (list_idx : Nat) (l : Loaded α)
    (h : restir_di_load_prev env ipos_prev list_idx = some l) :
    0 < l.reservoir_W ∧ 0 < l.reservoir_M := by
  obtain ⟨-, -, -, -, -, hM, w, yx, yy, -, -, -, hw, -, -, -, -, -, hW⟩ :=
    load_prev_some_spec env ipos_prev list_idx l h
  refine ⟨?_, hM⟩
  rw [hW]
  split_ifs with h1
  · exact lt_min hw h1
  · exact hw

/-! ### The fold of a reused reservoir -/

theorem fold_temporal_spec (env : Env α) (st : St α) (l : Loaded α) (p_hat : α) (p : IVec2) :
    folds_reused st (restir_di_fold_temporal env st l p_hat p) l p_hat (env.rng st.rng_calls) 1 := by
  unfold folds_reused restir_di_fold_temporal RESTIR_DI_M_CLAMP
  simp only []
  split_ifs with h
  · exact ⟨rfl, rfl, fun _ => ⟨rfl, rfl, rfl, rfl, rfl, rfl⟩, fun h2 => absurd h h2⟩
  · exact ⟨rfl, rfl, fun h2 => absurd h2 h, fun _ => ⟨rfl, rfl, rfl, rfl, rfl, rfl⟩⟩

theorem fold_spatial_spec (env : Env α) (st : St α) (l : Loaded α) (p_hat : α) (p : IVec2) :
    folds_reused st (restir_di_fold_spatial env st l p_hat p) l p_hat (env.rng st.rng_calls) 2 := by
  unfold folds_reused restir_di_fold_spatial RESTIR_DI_M_CLAMP
  simp only []
  split_ifs with h
  · exact ⟨rfl, rfl, fun _ => ⟨rfl, rfl, rfl, rfl, rfl, rfl⟩, fun h2 => absurd h h2⟩
  · exact ⟨rfl, rfl, fun h2 => absurd h2 h, fun _ => ⟨rfl, rfl, rfl, rfl, rfl, rfl⟩⟩

/-- C3 (amended): a temporal reservoir that passes loading and re-evaluation,
and a spatial neighbour reservoir that passes loading, re-evaluation, the
relevance threshold `p_hat >= 1e-4` and the visibility guard, is folded with
the weight `w = p_hat * W_prev * min(M_prev, 8)`, where `p_hat` is the value of
its sample at the current surface: `w` is added to `w_sum`, `min(M_prev, 8)`
to `M`, and the held sample is replaced exactly when `w > 0` and
`u < w / max(w_sum, 1e-6)` for the new `w_sum` and the next random number
`u`.  The loaded reservoir has no stored `p_hat`. -/
theorem C3_fold_rule (env : Env α) (inp : Inp α) (st : St α) (l : Loaded α) (p_hat : α) :
    (∀ ipos_prev, restir_di_load_prev env ipos_prev inp.cluster_idx = some l →
      restir_di_reevaluate env inp l = some p_hat →
      folds_reused st (restir_di_temporal_reuse env inp ipos_prev st) l p_hat
        (env.rng st.rng_calls) 1) ∧
    (∀ ipos_prev rot j nb, restir_di_neighbor env inp ipos_prev rot j = some nb →
      restir_di_neighbor_similar env inp nb = true →
      restir_di_load_prev env nb inp.cluster_idx = some l →
      restir_di_reevaluate env inp l = some p_hat →
      ¬ p_hat < 1 / 10000 →
      restir_di_spatial_occluded env inp l = false →
      folds_reused st (restir_di_spatial_iter env inp ipos_prev rot st j) l p_hat
        (env.rng st.rng_calls) 2) := by
  constructor
  · intro ipos_prev h1 h2
    unfold restir_di_temporal_reuse
    rw [h1]
    simp only [h2]
    exact fold_temporal_spec env st l p_hat ipos_prev
  · intro ipos_prev rot j nb h0 hs h1 h2 h3 h4
    unfold restir_di_spatial_iter
    rw [h0]
    simp only [hs, h1, h2, h3, h4, Bool.true_eq_false, Bool.false_eq_true, if_false]
    exact fold_spatial_spec env st l p_hat nb

/-- Witness of C3, the scenario of the specification: the generator holds
light 1 with `w_sum = 2`; the history holds light 0 with `W_prev = 1` and
`M_prev = 1`, which evaluates to `p_hat = 3` at the current surface.  Both
the temporal fold and the fold of the spatial neighbour `(1, 1)` follow the
rule with `w = 3`, replacing the held sample iff `u < 3 / 5`. -/
theorem C3_fold_rule_witness :
    (restir_di_generate (reuseEnv (fun i => if i = 0 then 3 else 2) (fun _ => 1 / 2) 1 1
      (1006648320, 0) 1 1) sampleInp).w_sum = 2 ∧
    folds_reused
      (restir_di_generate (reuseEnv (fun i => if i = 0 then 3 else 2) (fun _ => 1 / 2) 1 1
        (1006648320, 0) 1 1) sampleInp)
      (restir_di_temporal_reuse (reuseEnv (fun i => if i = 0 then 3 else 2) (fun _ => 1 / 2) 1 1
        (1006648320, 0) 1 1) sampleInp ⟨0, 0⟩
        (restir_di_generate (reuseEnv (fun i => if i = 0 then 3 else 2) (fun _ => 1 / 2) 1 1
          (1006648320, 0) 1 1) sampleInp))
      ⟨1, 0, 1, 1, ⟨0, 0⟩⟩ 3 (1 / 2) 1 ∧
    folds_reused
      (restir_di_generate (reuseEnv (fun i => if i = 0 then 3 else 2) (fun _ => 1 / 2) 1 1
        (1006648320, 0) 1 1) sampleInp)
      (restir_di_spatial_iter (reuseEnv (fun i => if i = 0 then 3 else 2) (fun _ => 1 / 2) 1 1
        (1006648320, 0) 1 1) sampleInp ⟨0, 0⟩ 4
        (restir_di_generate (reuseEnv (fun i => if i = 0 then 3 else 2) (fun _ => 1 / 2) 1 1
          (1006648320, 0) 1 1) sampleInp) 0)
      ⟨1, 0, 1, 1, ⟨0, 0⟩⟩ 3 (1 / 2) 2 :=
  ⟨by decide!,
   (C3_fold_rule (reuseEnv (fun i => if i = 0 then 3 else 2) (fun _ => 1 / 2) 1 1
      (1006648320, 0) 1 1) sampleInp _ ⟨1, 0, 1, 1, ⟨0, 0⟩⟩ 3).1 ⟨0, 0⟩ (by decide!) (by decide!),
   (C3_fold_rule (reuseEnv (fun i => if i = 0 then 3 else 2) (fun _ => 1 / 2) 1 1
      (1006648320, 0) 1 1) sampleInp _ ⟨1, 0, 1, 1, ⟨0, 0⟩⟩ 3).2 ⟨0, 0⟩ 4 0 ⟨1, 1⟩ (by decide!)
      (by decide!) (by decide!) (by decide!) (by decide!) (by decide!)⟩

/-- Counterexample to C3 as stated: with spatial reuse on and `K = 1`, the
pass visits the neighbour `(1, 1)` of the reprojected pixel `(0, 0)`; its
reservoir (light 1, `W_prev = 1`, `M_prev = 1`) passes loading and
re-evaluation with `p_hat = 1 / 20000`, so that `w = 1 / 20000 > 0`, but the
reservoir is not folded: `w_sum` and `M` after spatial reuse are those of the
generator, `1 / 20000` and `1`. -/
theorem C3_counterexample_spatial_threshold :
    restir_di_reproject (reuseEnv (fun _ => 1 / 20000) (fun _ => 1 / 2) 1 5 (1006648320, 0) 0 1)
      sampleInp = (true, ⟨0, 0⟩) ∧
    restir_di_neighbor (reuseEnv (fun _ => 1 / 20000) (fun _ => 1 / 2) 1 5 (1006648320, 0) 0 1)
      sampleInp ⟨0, 0⟩ 4 0 = some ⟨1, 1⟩ ∧
    restir_di_neighbor_similar
      (reuseEnv (fun _ => 1 / 20000) (fun _ => 1 / 2) 1 5 (1006648320, 0) 0 1)
      sampleInp ⟨1, 1⟩ = true ∧
    restir_di_load_prev (reuseEnv (fun _ => 1 / 20000) (fun _ => 1 / 2) 1 5 (1006648320, 0) 0 1)
      ⟨1, 1⟩ 0 = some ⟨1, 1, 1, 1, ⟨0, 0⟩⟩ ∧
    restir_di_reevaluate (reuseEnv (fun _ => 1 / 20000) (fun _ => 1 / 2) 1 5 (1006648320, 0) 0 1)
      sampleInp ⟨1, 1, 1, 1, ⟨0, 0⟩⟩ = some (1 / 20000) ∧
    (restir_di_generate (reuseEnv (fun _ => 1 / 20000) (fun _ => 1 / 2) 1 5 (1006648320, 0) 0 1)
      sampleInp).w_sum = 1 / 20000 ∧
    (restir_di_generate (reuseEnv (fun _ => 1 / 20000) (fun _ => 1 / 2) 1 5 (1006648320, 0) 0 1)
      sampleInp).M = 1 ∧
    (restir_di_resample (reuseEnv (fun _ => 1 / 20000) (fun _ => 1 / 2) 1 5 (1006648320, 0) 0 1)
      sampleInp).w_sum = 1 / 20000 ∧
    (restir_di_resample (reuseEnv (fun _ => 1 / 20000) (fun _ => 1 / 2) 1 5 (1006648320, 0) 0 1)
      sampleInp).M = 1 := by
  decide!

/-! ### Invariants of the running reservoir -/

/-- A property of the running reservoir that every fold keeps holds after
the three stages. -/
theorem resample_induction (env : Env α) (inp : Inp α) (P : St α → Prop)
    (h0 : P St.init)
    (hc : ∀ st p_hat light_id y_pos u, P st → 0 < p_hat →
      P (restir_di_fold_candidate { st with rng_calls := st.rng_calls + 4 }
        RESTIR_DI_KIND_POLYGONAL p_hat light_id y_pos u))
    (hr : ∀ st : St α, ∀ n, P st → P { st with rng_calls := n })
    (ht : ∀ st l p_hat p, P st → 0 < p_hat → 0 < l.reservoir_W → 0 < l.reservoir_M →
      P (restir_di_fold_temporal env st l p_hat p))
    (hs : ∀ st l p_hat p, P st → 0 < p_hat → 0 < l.reservoir_W → 0 < l.reservoir_M →
      P (restir_di_fold_spatial env st l p_hat p)) :
    P (restir_di_generate env inp) ∧ P (restir_di_resample env inp) := by
  have hiter : ∀ st, P st → P (restir_di_candidate_iter env inp st) := by
    intro st hst
    unfold restir_di_candidate_iter
    simp only []
    split
    · exact hr st _ hst
    · split
      · exact hr st _ hst
      · rename_i p_hat hp
        exact hc st _ _ _ _ hst (evaluate_polygonal_pos env inp _ _ _ hp)
  have hgen : P (restir_di_generate env inp) := by
    unfold restir_di_generate
    simp only [enable_sun, Bool.false_eq_true, if_false]
    split_ifs
    · generalize (restir_di_N env).toNat = n
      induction n with
      | zero => exact h0
      | succ n ih =>
        rw [Function.iterate_succ_apply']
        exact hiter _ ih
    · exact h0
  refine ⟨hgen, ?_⟩
  have htemp : ∀ p st, P st → P (restir_di_temporal_reuse env inp p st) := by
    intro p st hst
    unfold restir_di_temporal_reuse
    split
    · exact hst
    · rename_i l hl
      split
      · exact hst
      · rename_i p_hat hp
        exact ht st l p_hat p hst (reevaluate_pos env inp l p_hat hp)
          (load_prev_W_pos env _ _ l hl).1 (load_prev_W_pos env _ _ l hl).2
  have hsiter : ∀ p rot st j, P st → P (restir_di_spatial_iter env inp p rot st j) := by
    intro p rot st j hst
    unfold restir_di_spatial_iter
    split
    · exact hst
    · rename_i nb hnb
      split_ifs
      · exact hst
      · split
        · exact hst
        · rename_i l hl
          split
          · exact hst
          · rename_i p_hat hp
            split_ifs
            · exact hst
            · exact hst
            · exact hs st l p_hat nb hst (reevaluate_pos env inp l p_hat hp)
                (load_prev_W_pos env _ _ l hl).1 (load_prev_W_pos env _ _ l hl).2
  have hspat : ∀ p st, P st → P (restir_di_spatial_reuse env inp p st) := by
    intro p st hst
    unfold restir_di_spatial_reuse
    split_ifs
    · simp only []
      generalize (⌊env.rng st.rng_calls * 8⌋ % 8).toNat = rot
      have : ∀ (js : List Nat) (s : St α), P s →
          P (js.foldl (restir_di_spatial_iter env inp p rot) s) := by
        intro js
        induction js with
        | nil => intro s hs0; exact hs0
        | cons j js ih => intro s hs0; exact ih _ (hsiter p rot s j hs0)
      exact this _ _ (hr st _ hst)
    · exact hst
  unfold restir_di_resample
  simp only []
  split_ifs
  · exact hspat _ _ (htemp _ _ hgen)
  · exact hspat _ _ hgen
  · exact htemp _ _ hgen
  · exact hgen

theorem resample_source_p_hat_nonneg (env : Env α) (inp : Inp α) :
    0 ≤ (restir_di_resample env inp).selected_source_p_hat := by
  refine (resample_induction env inp (fun st => 0 ≤ st.selected_source_p_hat) ?_ ?_ ?_ ?_ ?_).2
  · exact le_refl _
  · intro st p_hat light_id y_pos u hst _
    unfold restir_di_fold_candidate
    simp only []
    split_ifs <;> exact hst
  · intro st n hst
    exact hst
  · intro st l p_hat p hst hp _ _
    unfold restir_di_fold_temporal
    simp only []
    split_ifs
    · exact hp.le
    · exact hst
  · intro st l p_hat p hst hp _ _
    unfold restir_di_fold_spatial
    simp only []
    split_ifs
    · exact hp.le
    · exact hst

theorem validate_source_nonneg (env : Env α) (inp : Inp α) (st : St α)
    (h : 0 ≤ st.selected_source_p_hat) : 0 ≤ restir_di_validate_source env inp st := by
  unfold restir_di_validate_source
  simp only []
  split
  · exact h
  · split_ifs <;> first | exact h | exact le_refl _

theorem W_uncapped_nonneg (st : St α) (Mc : Int) (sp : α) (hw : 0 ≤ st.w_sum)
    (hp : 0 ≤ st.selected_p_hat) (hs : 0 ≤ sp) : 0 ≤ restir_di_W_uncapped st Mc sp := by
  unfold restir_di_W_uncapped
  simp only []
  split_ifs with h
  · apply div_nonneg
    · apply mul_nonneg hw
      unfold restir_di_pi
      split_ifs
      · exact hp
      · exact hs
    · exact le_trans (by norm_num) h.le
  · exact le_refl _

theorem cap_W_spec (env : Env α) (W : α) (h : 0 ≤ W) :
    0 ≤ restir_di_cap_W env W ∧
      (env.pt_restir_max_w > 0 → restir_di_cap_W env W ≤ env.pt_restir_max_w) := by
  unfold restir_di_cap_W
  split_ifs with h1
  · exact ⟨le_min h h1.le, fun _ => min_le_right _ _⟩
  · exact ⟨h, fun h2 => absurd h2 h1⟩

/-- C6: for every environment and input, the values `(W, M)` that
`get_direct_illumination_restir_di` hands to the reservoir store (the
arguments of `restir_di_pack_reservoir`, or `(0, 0)` for the empty slot)
satisfy `M >= 0`, `W >= 0`, `W <= pt_restir_max_w` when that cap is positive,
and `M == 0` implies `W == 0`. -/
theorem C6_reservoir_invariant (env : Env α) (inp : Inp α) :
    0 ≤ (stored_W_M (restir_di_pass env inp)).2 ∧
    0 ≤ (stored_W_M (restir_di_pass env inp)).1 ∧
    (env.pt_restir_max_w > 0 →
      (stored_W_M (restir_di_pass env inp)).1 ≤ env.pt_restir_max_w) ∧
    ((stored_W_M (restir_di_pass env inp)).2 = 0 →
      (stored_W_M (restir_di_pass env inp)).1 = 0) := by
  have hfin : ∀ Mc, 0 ≤ (stored_W_M (restir_di_final env inp Mc (restir_di_resample env inp))).2 ∧
      0 ≤ (stored_W_M (restir_di_final env inp Mc (restir_di_resample env inp))).1 ∧
      (env.pt_restir_max_w > 0 →
        (stored_W_M (restir_di_final env inp Mc (restir_di_resample env inp))).1
          ≤ env.pt_restir_max_w) ∧
      ((stored_W_M (restir_di_final env inp Mc (restir_di_resample env inp))).2 = 0 →
        (stored_W_M (restir_di_final env inp Mc (restir_di_resample env inp))).1 = 0) := by
    intro Mc
    have hsp := resample_source_p_hat_nonneg env inp
    generalize restir_di_resample env inp = st at hsp ⊢
    unfold restir_di_final stored_W_M
    simp only []
    split_ifs with h1 h2 h3
    · exact ⟨le_refl _, le_refl _, fun h => h.le, fun _ => rfl⟩
    · exact ⟨le_refl _, le_refl _, fun h => h.le, fun _ => rfl⟩
    · simp only [not_or, not_le] at h1
      have hW := cap_W_spec env (restir_di_W_uncapped st Mc (restir_di_validate_source env inp st))
        (W_uncapped_nonneg st Mc _ h1.2.1.le h1.2.2.1.le (validate_source_nonneg env inp st hsp))
      have hM : 1 ≤ min st.M RESTIR_DI_M_CLAMP := by
        unfold RESTIR_DI_M_CLAMP
        exact le_min (by omega) (by norm_num)
      dsimp only
      exact ⟨le_trans zero_le_one hM, hW.1, hW.2, fun h => absurd (h ▸ hM) (by norm_num)⟩
    · exact ⟨le_refl _, le_refl _, fun h => h.le, fun _ => rfl⟩
  unfold restir_di_pass
  split_ifs
  · exact ⟨le_refl _, le_refl _, fun h => h.le, fun _ => rfl⟩
  · exact hfin _

/-! ### The weight without reuse -/

/-- A property of the running reservoir that every candidate fold keeps holds
after candidate generation. -/
theorem generate_induction (env : Env α) (inp : Inp α) (P : St α → Prop)
    (h0 : P St.init)
    (hc : ∀ st p_hat light_id y_pos u, P st → 0 < p_hat →
      P (restir_di_fold_candidate { st with rng_calls := st.rng_calls + 4 }
        RESTIR_DI_KIND_POLYGONAL p_hat light_id y_pos u))
    (hr : ∀ st : St α, ∀ n, P st → P { st with rng_calls := n }) :
    P (restir_di_generate env inp) := by
  have hiter : ∀ st, P st → P (restir_di_candidate_iter env inp st) := by
    intro st hst
    unfold restir_di_candidate_iter
    simp only []
    split
    · exact hr st _ hst
    · split
      · exact hr st _ hst
      · rename_i p_hat hp
        exact hc st _ _ _ _ hst (evaluate_polygonal_pos env inp _ _ _ hp)
  unfold restir_di_generate
  simp only [enable_sun, Bool.false_eq_true, if_false]
  split_ifs
  · generalize (restir_di_N env).toNat = n
    induction n with
    | zero => exact h0
    | succ n ih =>
      rw [Function.iterate_succ_apply']
      exact hiter _ ih
  · exact h0

theorem generate_no_reuse_fields (env : Env α) (inp : Inp α) :
    (restir_di_generate env inp).m_temporal_considered = 0 ∧
    (restir_di_generate env inp).m_spatial_considered = 0 ∧
    ((restir_di_generate env inp).selected_kind ≠ RESTIR_DI_KIND_NONE →
      (restir_di_generate env inp).selected_source = 0) := by
  refine generate_induction env inp
    (fun st => st.m_temporal_considered = 0 ∧ st.m_spatial_considered = 0 ∧
      (st.selected_kind ≠ RESTIR_DI_KIND_NONE → st.selected_source = 0)) ?_ ?_ ?_
  · exact ⟨rfl, rfl, fun h => absurd rfl h⟩
  · intro st p_hat light_id y_pos u hst _
    unfold restir_di_fold_candidate
    simp only []
    split_ifs
    · exact ⟨hst.1, hst.2.1, fun _ => rfl⟩
    · exact hst
  · intro st n hst
    exact hst

theorem resample_no_reuse (env : Env α) (inp : Inp α)
    (hT : want_temporal env inp = false) (hS : want_spatial env inp = false) :
    restir_di_resample env inp = restir_di_generate env inp := by
  unfold restir_di_resample
  simp [hT, hS]

theorem W_uncapped_no_reuse (env : Env α) (inp : Inp α) (sp : α)
    (hk : (restir_di_generate env inp).selected_kind ≠ RESTIR_DI_KIND_NONE)
    (hp : 0 < (restir_di_generate env inp).selected_p_hat)
    (hM : 0 < (restir_di_generate env inp).M) :
    restir_di_piSum (restir_di_generate env inp) (restir_di_generate env inp).M
      = (restir_di_generate env inp).selected_p_hat * ((restir_di_generate env inp).M : α) ∧
    restir_di_W_uncapped (restir_di_generate env inp) (restir_di_generate env inp).M sp =
      if (restir_di_generate env inp).selected_p_hat *
          ((restir_di_generate env inp).selected_p_hat * ((restir_di_generate env inp).M : α))
            > 1 / 1000000 then
        (restir_di_generate env inp).w_sum /
          (((restir_di_generate env inp).M : α) * (restir_di_generate env inp).selected_p_hat)
      else 0 := by
  obtain ⟨h1, h2, h3⟩ := generate_no_reuse_fields env inp
  have h3 := h3 hk
  generalize restir_di_generate env inp = st at *
  have hps : restir_di_piSum st st.M = st.selected_p_hat * (st.M : α) := by
    unfold restir_di_piSum
    simp [h1, h2]
  refine ⟨hps, ?_⟩
  unfold restir_di_W_uncapped restir_di_pi
  simp only [hps, h3, if_true]
  split_ifs
  · have hM' : (0 : α) < (st.M : α) := by exact_mod_cast hM
    field_simp
    ring
  · rfl

theorem final_dbg_scale (env : Env α) (inp : Inp α) (Mc : Int) (st : St α)
    (hheld : ¬ (st.M ≤ 0 ∨ st.w_sum ≤ 0 ∨ st.selected_p_hat ≤ 0 ∨
      st.selected_kind = RESTIR_DI_KIND_NONE))
    (hvis : 0 < (restir_di_shade_selected env inp st).out_visibility) :
    (restir_di_final env inp Mc st).out.dbg_scale =
      restir_di_cap_W env (restir_di_W_uncapped st Mc (restir_di_validate_source env inp st)) := by
  unfold restir_di_final
  simp only []
  rw [if_neg hheld, if_neg (not_le.mpr hvis)]

theorem generate_single (env : Env α) (inp : Inp α) (hN : restir_di_N env = 1)
    (hk : (restir_di_generate env inp).selected_kind ≠ RESTIR_DI_KIND_NONE) :
    (restir_di_generate env inp).M = 1 ∧
    (restir_di_generate env inp).w_sum = (restir_di_generate env inp).selected_p_hat ∧
    0 < (restir_di_generate env inp).selected_p_hat := by
  unfold restir_di_generate at hk ⊢
  simp only [enable_sun, Bool.false_eq_true, if_false, hN] at hk ⊢
  split_ifs at hk ⊢ with hpoly
  · simp only [Int.toNat_one, Function.iterate_one] at hk ⊢
    unfold restir_di_candidate_iter at hk ⊢
    simp only [] at hk ⊢
    split at hk
    · exact absurd rfl hk
    · split at hk
      · exact absurd rfl hk
      · rename_i p_hat hp
        have hpos := evaluate_polygonal_pos env inp _ _ _ hp
        unfold restir_di_fold_candidate at hk ⊢
        simp only [] at hk ⊢
        split_ifs at hk ⊢
        · simp [St.init, hpos]
        · exact absurd rfl hk
  · exact absurd rfl hk

/-- C8 (amended): with temporal and spatial reuse disabled and a held sample
(the test of line 2043 passes), the running reservoir is that of the
generator, `piSum = p_hat_selected * M`, and the weight before the cap is
`W = w_sum / (M * p_hat_selected)` when `p_hat_selected^2 * M > 1e-6` and
`W = 0` otherwise, where `M` counts the candidates that the generator folded;
when the selected sample is visible the pass returns this `W`, capped by
`pt_restir_max_w`, as `dbg_scale`.  For `N = 1`: `M = 1`,
`w_sum = p_hat_selected`, and `W = 1` when `p_hat^2 > 1e-6`, `W = 0`
otherwise. -/
theorem C8_no_reuse_weight (env : Env α) (inp : Inp α)
    (hT : want_temporal env inp = false) (hS : want_spatial env inp = false)
    (hheld : ¬ ((restir_di_generate env inp).M ≤ 0 ∨ (restir_di_generate env inp).w_sum ≤ 0 ∨
      (restir_di_generate env inp).selected_p_hat ≤ 0 ∨
      (restir_di_generate env inp).selected_kind = RESTIR_DI_KIND_NONE)) :
    restir_di_resample env inp = restir_di_generate env inp ∧
    restir_di_piSum (restir_di_generate env inp) (restir_di_generate env inp).M
      = (restir_di_generate env inp).selected_p_hat * ((restir_di_generate env inp).M : α) ∧
    restir_di_W_uncapped (restir_di_generate env inp) (restir_di_generate env inp).M
        (restir_di_validate_source env inp (restir_di_generate env inp)) =
      (if (restir_di_generate env inp).selected_p_hat *
          ((restir_di_generate env inp).selected_p_hat * ((restir_di_generate env inp).M : α))
            > 1 / 1000000 then
        (restir_di_generate env inp).w_sum /
          (((restir_di_generate env inp).M : α) * (restir_di_generate env inp).selected_p_hat)
      else 0) ∧
    (0 < (restir_di_shade_selected env inp (restir_di_generate env inp)).out_visibility →
      (restir_di_pass env inp).out.dbg_scale =
        restir_di_cap_W env
          (restir_di_W_uncapped (restir_di_generate env inp) (restir_di_generate env inp).M
            (restir_di_validate_source env inp (restir_di_generate env inp)))) ∧
    (restir_di_N env = 1 →
      (restir_di_generate env inp).M = 1 ∧
      (restir_di_generate env inp).w_sum = (restir_di_generate env inp).selected_p_hat ∧
      restir_di_W_uncapped (restir_di_generate env inp) (restir_di_generate env inp).M
        (restir_di_validate_source env inp (restir_di_generate env inp)) =
        (if (restir_di_generate env inp).selected_p_hat *
            (restir_di_generate env inp).selected_p_hat > 1 / 1000000 then 1 else 0)) := by
  have hres := resample_no_reuse env inp hT hS
  simp only [not_or, not_le] at hheld
  obtain ⟨hM, hw, hp, hk⟩ := hheld
  obtain ⟨hps, hW⟩ := W_uncapped_no_reuse env inp
    (restir_di_validate_source env inp (restir_di_generate env inp)) hk hp hM
  refine ⟨hres, hps, hW, ?_, ?_⟩
  · intro hvis
    have hpoly : ¬ (inp.enable_polygonal = false ∧ enable_sun = false) := by
      intro hc
      apply hk
      unfold restir_di_generate
      simp [hc.1, enable_sun, St.init]
    unfold restir_di_pass
    rw [if_neg hpoly, hres]
    exact final_dbg_scale env inp _ _ (by simp only [not_or, not_le]; exact ⟨hM, hw, hp, hk⟩) hvis
  · intro hN
    obtain ⟨h1, h2, h3⟩ := generate_single env inp hN hk
    refine ⟨h1, h2, ?_⟩
    rw [hW, h1, h2]
    simp only [Int.cast_one, mul_one, one_mul]
    split_ifs
    · exact div_self h3.ne'
    · rfl

/-- Witness of C8, the scenario of the specification: `N = 1`, the candidate
draws light 1 with `p_hat = 2`; then `piSum = 2`, `w_sum = 2` and `W = 1`. -/
theorem C8_no_reuse_weight_witness :
    (restir_di_generate (sampleEnv (fun _ => 2) (fun _ => 1 / 2) 1) sampleInp).selected_light_id = 1 ∧
    (restir_di_generate (sampleEnv (fun _ => 2) (fun _ => 1 / 2) 1) sampleInp).selected_p_hat = 2 ∧
    (restir_di_generate (sampleEnv (fun _ => 2) (fun _ => 1 / 2) 1) sampleInp).w_sum = 2 ∧
    restir_di_piSum (restir_di_generate (sampleEnv (fun _ => 2) (fun _ => 1 / 2) 1) sampleInp)
      (restir_di_generate (sampleEnv (fun _ => 2) (fun _ => 1 / 2) 1) sampleInp).M = 2 ∧
    restir_di_W_uncapped (restir_di_generate (sampleEnv (fun _ => 2) (fun _ => 1 / 2) 1) sampleInp)
      (restir_di_generate (sampleEnv (fun _ => 2) (fun _ => 1 / 2) 1) sampleInp).M
      (restir_di_validate_source (sampleEnv (fun _ => 2) (fun _ => 1 / 2) 1) sampleInp
        (restir_di_generate (sampleEnv (fun _ => 2) (fun _ => 1 / 2) 1) sampleInp)) = 1 ∧
    (restir_di_pass (sampleEnv (fun _ => 2) (fun _ => 1 / 2) 1) sampleInp).out.dbg_scale = 1 := by
  have h := C8_no_reuse_weight (sampleEnv (fun _ => 2) (fun _ => 1 / 2) 1) sampleInp
    (by decide!) (by decide!) (by decide!)
  have h5 := h.2.2.2.2 (by decide!)
  refine ⟨by decide!, by decide!, by decide!, ?_, ?_, ?_⟩
  · rw [h.2.1]; decide!
  · rw [h5.2.2]; decide!
  · rw [h.2.2.2.1 (by decide!), h5.2.2]; decide!

/-- Counterexample to C8 as stated: `N = 1`, reuse disabled, one accepted and
held candidate (light 1) with `p_hat = 1 / 1000`, `w_sum = 1 / 1000`, `M = 1`,
no cap (`pt_restir_max_w = 0`): `w_sum / (M * p_hat) = 1`, but the pass
computes `W = 0`, because `p_hat * piSum = 1e-6` is not above `1e-6`. -/
theorem C8_counterexample_small_p_hat :
    want_temporal (sampleEnv (fun _ => 1 / 1000) (fun _ => 1 / 2) 1) sampleInp = false ∧
    want_spatial (sampleEnv (fun _ => 1 / 1000) (fun _ => 1 / 2) 1) sampleInp = false ∧
    restir_di_N (sampleEnv (fun _ => 1 / 1000) (fun _ => 1 / 2) 1) = 1 ∧
    (restir_di_resample (sampleEnv (fun _ => 1 / 1000) (fun _ => 1 / 2) 1) sampleInp).selected_light_id
      = 1 ∧
    (restir_di_resample (sampleEnv (fun _ => 1 / 1000) (fun _ => 1 / 2) 1) sampleInp).selected_p_hat
      = 1 / 1000 ∧
    (restir_di_resample (sampleEnv (fun _ => 1 / 1000) (fun _ => 1 / 2) 1) sampleInp).w_sum
      = 1 / 1000 ∧
    (restir_di_resample (sampleEnv (fun _ => 1 / 1000) (fun _ => 1 / 2) 1) sampleInp).M = 1 ∧
    restir_di_W_uncapped (restir_di_resample (sampleEnv (fun _ => 1 / 1000) (fun _ => 1 / 2) 1) sampleInp)
      (restir_di_generate (sampleEnv (fun _ => 1 / 1000) (fun _ => 1 / 2) 1) sampleInp).M
      (restir_di_validate_source (sampleEnv (fun _ => 1 / 1000) (fun _ => 1 / 2) 1) sampleInp
        (restir_di_resample (sampleEnv (fun _ => 1 / 1000) (fun _ => 1 / 2) 1) sampleInp)) = 0 ∧
    (get_direct_illumination_restir_di (sampleEnv (fun _ => 1 / 1000) (fun _ => 1 / 2) 1)
      sampleInp).dbg_scale = 0 := by
  decide!

/-! ### The bias-corrected weight -/

theorem spatial_sums_nil (st : St α) : spatial_sums st st [] := by
  simp [spatial_sums, sources_M, sources_w, sources_piSum]

theorem fold_spatial_sums (env : Env α) (st : St α) (l : Loaded α) (p_hat : α) (nb : IVec2) :
    spatial_sums st (restir_di_fold_spatial env st l p_hat nb) [(l, p_hat)] := by
  unfold restir_di_fold_spatial spatial_sums
  simp only [sources_M, sources_w, sources_piSum, source_m, List.map_cons, List.map_nil,
    List.sum_cons, List.sum_nil, add_zero, RESTIR_DI_M_CLAMP]
  split_ifs <;> exact ⟨rfl, rfl, rfl, rfl, rfl, rfl⟩

theorem spatial_iter_sums (env : Env α) (inp : Inp α) (p : IVec2) (rot : Nat) (st : St α)
    (j : Nat) :
    spatial_sums st (restir_di_spatial_iter env inp p rot st j)
      (restir_di_spatial_source env inp p rot j).toList := by
  unfold restir_di_spatial_iter restir_di_spatial_source
  cases restir_di_neighbor env inp p rot j with
  | none => exact spatial_sums_nil st
  | some nb =>
    simp only []
    by_cases hs : restir_di_neighbor_similar env inp nb = false
    · rw [if_pos hs, if_pos hs]; exact spatial_sums_nil st
    rw [if_neg hs, if_neg hs]
    cases restir_di_load_prev env nb inp.cluster_idx with
    | none => exact spatial_sums_nil st
    | some l =>
      simp only []
      cases restir_di_reevaluate env inp l with
      | none => exact spatial_sums_nil st
      | some p_hat =>
        simp only []
        by_cases h1 : p_hat < 1 / 10000
        · rw [if_pos h1, if_pos h1]; exact spatial_sums_nil st
        rw [if_neg h1, if_neg h1]
        by_cases h2 : restir_di_spatial_occluded env inp l = true
        · rw [if_pos h2, if_pos h2]; exact spatial_sums_nil st
        rw [if_neg h2, if_neg h2]
        exact fold_spatial_sums env st l p_hat nb

theorem spatial_sums_trans (st st2 st3 : St α) (a b : List (Loaded α × α))
    (h1 : spatial_sums st st2 a) (h2 : spatial_sums st2 st3 b) : spatial_sums st st3 (a ++ b) := by
  unfold spatial_sums at *
  obtain ⟨a1, a2, a3, a4, a5, a6⟩ := h1
  obtain ⟨b1, b2, b3, b4, b5, b6⟩ := h2
  simp only [sources_M, sources_w, sources_piSum, List.map_append, List.sum_append] at *
  refine ⟨?_, ?_, ?_, ?_, ?_, ?_⟩
  · rw [b1, a1]; ring
  · rw [b2, a2]; ring
  · rw [b3, a3]; ring
  · rw [b4, a4]; ring
  · rw [b5, a5]
  · rw [b6, a6]

theorem spatial_foldl_sums (env : Env α) (inp : Inp α) (p : IVec2) (rot : Nat) (js : List Nat) :
    ∀ st : St α, spatial_sums st (js.foldl (restir_di_spatial_iter env inp p rot) st)
      (js.filterMap (restir_di_spatial_source env inp p rot)) := by
  induction js with
  | nil => intro st; exact spatial_sums_nil st
  | cons j js ih =>
    intro st
    have h1 := spatial_iter_sums env inp p rot st j
    have h2 := ih (restir_di_spatial_iter env inp p rot st j)
    have h3 := spatial_sums_trans _ _ _ _ _ h1 h2
    rw [List.foldl_cons]
    have : (j :: js).filterMap (restir_di_spatial_source env inp p rot) =
        (restir_di_spatial_source env inp p rot j).toList ++
          js.filterMap (restir_di_spatial_source env inp p rot) := by
      rw [List.filterMap_cons]
      cases restir_di_spatial_source env inp p rot j <;> rfl
    rw [this]
    exact h3

theorem spatial_sums_rng (st st2 : St α) (n : Nat) (srcs : List (Loaded α × α))
    (h : spatial_sums { st with rng_calls := n } st2 srcs) : spatial_sums st st2 srcs := h

theorem spatial_reuse_sums (env : Env α) (inp : Inp α) (p : IVec2) (st : St α) :
    spatial_sums st (restir_di_spatial_reuse env inp p st)
      (if restir_di_K env > 0 then
        (List.range (restir_di_K env).toNat).filterMap
          (restir_di_spatial_source env inp p (⌊env.rng st.rng_calls * 8⌋ % 8).toNat)
      else []) := by
  unfold restir_di_spatial_reuse
  split_ifs
  · exact spatial_sums_rng st _ _ _ (spatial_foldl_sums env inp p _ _ _)
  · exact spatial_sums_nil st

theorem spatial_source_m_pos (env : Env α) (inp : Inp α) (p : IVec2) (rot j : Nat)
    (s : Loaded α × α) (h : restir_di_spatial_source env inp p rot j = some s) :
    1 ≤ source_m s ∧ 0 < s.2 := by
  unfold restir_di_spatial_source at h
  split at h
  · exact absurd h (by simp)
  · split_ifs at h
    split at h
    · exact absurd h (by simp)
    · rename_i l hl
      split at h
      · exact absurd h (by simp)
      · rename_i p_hat hp
        split_ifs at h
        rw [Option.some.injEq] at h
        subst h
        have := (load_prev_W_pos env _ _ l hl).2
        refine ⟨?_, reevaluate_pos env inp l p_hat hp⟩
        show 1 ≤ min l.reservoir_M 8
        exact le_min (by omega) (by norm_num)

theorem temporal_source_m_pos (env : Env α) (inp : Inp α)
    (s : Loaded α × α) (h : restir_di_temporal_source env inp = some s) :
    1 ≤ source_m s ∧ 0 < s.2 := by
  unfold restir_di_temporal_source at h
  split_ifs at h
  split at h
  · exact absurd h (by simp)
  · rename_i l hl
    split at h
    · exact absurd h (by simp)
    · rename_i p_hat hp
      rw [Option.some.injEq] at h
      subst h
      have := (load_prev_W_pos env _ _ l hl).2
      refine ⟨?_, reevaluate_pos env inp l p_hat hp⟩
      show 1 ≤ min l.reservoir_M 8
      exact le_min (by omega) (by norm_num)

theorem sources_M_eq_zero (srcs : List (Loaded α × α)) (h : ∀ s ∈ srcs, 1 ≤ source_m s)
    (h0 : sources_M srcs = 0) : srcs = [] := by
  cases srcs with
  | nil => rfl
  | cons a as =>
    exfalso
    have h1 := h a (List.mem_cons_self a as)
    have h2 : 0 ≤ sources_M as := by
      unfold sources_M
      apply List.sum_nonneg
      intro x hx
      obtain ⟨s, hs, rfl⟩ := List.mem_map.mp hx
      exact le_trans zero_le_one (h s (List.mem_cons_of_mem a hs))
    unfold sources_M at h0 h2
    rw [List.map_cons, List.sum_cons] at h0
    omega

/-- The sums tracked after stage 2 in terms of the temporal source. -/
theorem after_temporal_sums (env : Env α) (inp : Inp α) :
    (restir_di_after_temporal env inp).M
      = (restir_di_generate env inp).M + sources_M (restir_di_temporal_source env inp).toList ∧
    (restir_di_after_temporal env inp).w_sum
      = (restir_di_generate env inp).w_sum + sources_w (restir_di_temporal_source env inp).toList ∧
    (restir_di_after_temporal env inp).m_temporal_considered
      = sources_M (restir_di_temporal_source env inp).toList ∧
    (restir_di_after_temporal env inp).p_hat_at_temporal *
        ((restir_di_after_temporal env inp).m_temporal_considered : α)
      = sources_piSum (restir_di_temporal_source env inp).toList ∧
    (restir_di_after_temporal env inp).m_spatial_considered = 0 ∧
    (restir_di_after_temporal env inp).p_hat_at_spatial_sum = 0 := by
  have hg : (restir_di_generate env inp).m_temporal_considered = 0 ∧
      (restir_di_generate env inp).m_spatial_considered = 0 ∧
      (restir_di_generate env inp).p_hat_at_spatial_sum = 0 := by
    refine generate_induction env inp
      (fun st => st.m_temporal_considered = 0 ∧ st.m_spatial_considered = 0 ∧
        st.p_hat_at_spatial_sum = 0) ⟨rfl, rfl, rfl⟩ ?_ ?_
    · intro st p_hat light_id y_pos u hst _
      unfold restir_di_fold_candidate
      simp only []
      split_ifs <;> exact hst
    · intro st n hst
      exact hst
  unfold restir_di_after_temporal restir_di_temporal_source
  generalize restir_di_generate env inp = g at hg ⊢
  obtain ⟨g1, g2, g3⟩ := hg
  by_cases hc : want_temporal env inp = true ∧ (restir_di_reproject env inp).1 = true
  · rw [if_pos hc, if_pos hc]
    unfold restir_di_temporal_reuse
    cases restir_di_load_prev env (restir_di_reproject env inp).2 inp.cluster_idx with
    | none => simp [sources_M, sources_w, sources_piSum, g1, g2, g3]
    | some l =>
      simp only []
      cases restir_di_reevaluate env inp l with
      | none => simp [sources_M, sources_w, sources_piSum, g1, g2, g3]
      | some p_hat =>
        simp only [Option.toList, sources_M, sources_w, sources_piSum, source_m, List.map_cons,
          List.map_nil, List.sum_cons, List.sum_nil, add_zero]
        unfold restir_di_fold_temporal
        simp only [RESTIR_DI_M_CLAMP]
        split_ifs <;> exact ⟨rfl, rfl, rfl, rfl, g2, g3⟩
  · rw [if_neg hc, if_neg hc]
    simp [sources_M, sources_w, sources_piSum, g1, g2, g3]

theorem resample_eq (env : Env α) (inp : Inp α) :
    restir_di_resample env inp =
      if want_spatial env inp = true ∧ (restir_di_reproject env inp).1 = true then
        restir_di_spatial_reuse env inp (restir_di_reproject env inp).2
          (restir_di_after_temporal env inp)
      else restir_di_after_temporal env inp := rfl

/-- The spatial sources among `restir_di_folded_sources`. -/
theorem folded_sources_eq (env : Env α) (inp : Inp α) :
    restir_di_folded_sources env inp =
      (restir_di_temporal_source env inp).toList ++
        (if want_spatial env inp = true ∧ (restir_di_reproject env inp).1 = true ∧
            restir_di_K env > 0 then
          (List.range (restir_di_K env).toNat).filterMap
            (restir_di_spatial_source env inp (restir_di_reproject env inp).2
              (restir_di_rot env inp))
        else []) := rfl

theorem resample_spatial_sums (env : Env α) (inp : Inp α) :
    spatial_sums (restir_di_after_temporal env inp) (restir_di_resample env inp)
      (if want_spatial env inp = true ∧ (restir_di_reproject env inp).1 = true ∧
          restir_di_K env > 0 then
        (List.range (restir_di_K env).toNat).filterMap
          (restir_di_spatial_source env inp (restir_di_reproject env inp).2
            (restir_di_rot env inp))
      else []) := by
  rw [resample_eq]
  by_cases hc : want_spatial env inp = true ∧ (restir_di_reproject env inp).1 = true
  · rw [if_pos hc]
    have h := spatial_reuse_sums env inp (restir_di_reproject env inp).2
      (restir_di_after_temporal env inp)
    by_cases hK : restir_di_K env > 0
    · rw [if_pos hK] at h
      rw [if_pos ⟨hc.1, hc.2, hK⟩]
      exact h
    · rw [if_neg hK] at h
      rw [if_neg (fun hh => hK hh.2.2)]
      exact h
  · rw [if_neg hc, if_neg (fun hh => hc ⟨hh.1, hh.2.1⟩)]
    exact spatial_sums_nil _

theorem folded_sources_pos (env : Env α) (inp : Inp α) :
    ∀ s ∈ restir_di_folded_sources env inp, 1 ≤ source_m s ∧ 0 < s.2 := by
  intro s hs
  rw [folded_sources_eq, List.mem_append] at hs
  rcases hs with hs | hs
  · rw [Option.mem_toList] at hs
    exact temporal_source_m_pos env inp s hs
  · split_ifs at hs
    · rw [List.mem_filterMap] at hs
      obtain ⟨j, -, hj⟩ := hs
      exact spatial_source_m_pos env inp _ _ j s hj
    · exact absurd hs (List.not_mem_nil s)

/-- The sums of the final running reservoir in terms of the folded sources. -/
theorem resample_sums (env : Env α) (inp : Inp α) :
    (restir_di_resample env inp).M
      = (restir_di_generate env inp).M + sources_M (restir_di_folded_sources env inp) ∧
    (restir_di_resample env inp).w_sum
      = (restir_di_generate env inp).w_sum + sources_w (restir_di_folded_sources env inp) ∧
    restir_di_piSum (restir_di_resample env inp) (restir_di_generate env inp).M
      = (restir_di_resample env inp).selected_p_hat * ((restir_di_generate env inp).M : α)
        + sources_piSum (restir_di_folded_sources env inp) := by
  obtain ⟨t1, t2, t3, t4, t5, t6⟩ := after_temporal_sums env inp
  obtain ⟨s1, s2, s3, s4, s5, s6⟩ := resample_spatial_sums env inp
  have hpos := folded_sources_pos env inp
  rw [folded_sources_eq] at hpos ⊢
  generalize (if want_spatial env inp = true ∧ (restir_di_reproject env inp).1 = true ∧
          restir_di_K env > 0 then
        (List.range (restir_di_K env).toNat).filterMap
          (restir_di_spatial_source env inp (restir_di_reproject env inp).2
            (restir_di_rot env inp))
      else []) = ss at s1 s2 s3 s4 hpos ⊢
  generalize (restir_di_temporal_source env inp).toList = ts at t1 t2 t3 t4 hpos ⊢
  have hts : ∀ s ∈ ts, 1 ≤ source_m s := fun s hs => (hpos s (List.mem_append_left _ hs)).1
  have hss : ∀ s ∈ ss, 1 ≤ source_m s := fun s hs => (hpos s (List.mem_append_right _ hs)).1
  have hnn : ∀ l : List (Loaded α × α), (∀ s ∈ l, 1 ≤ source_m s) → 0 ≤ sources_M l := by
    intro l hl
    unfold sources_M
    apply List.sum_nonneg
    intro x hx
    obtain ⟨s, hs, rfl⟩ := List.mem_map.mp hx
    exact le_trans zero_le_one (hl s hs)
  have hM : sources_M (ts ++ ss) = sources_M ts + sources_M ss := by
    simp [sources_M]
  have hw : sources_w (ts ++ ss) = sources_w ts + sources_w ss := by
    simp [sources_w]
  have hp : sources_piSum (ts ++ ss) = sources_piSum ts + sources_piSum ss := by
    simp [sources_piSum]
  refine ⟨?_, ?_, ?_⟩
  · rw [s1, t1, hM]; ring
  · rw [s2, t2, hw]; ring
  · unfold restir_di_piSum
    simp only []
    rw [s5, s6, s3, s4, t5, t6, t3, hp, zero_add, zero_add]
    have e1 : (if sources_M ts > 0 then
          (restir_di_resample env inp).selected_p_hat * ((restir_di_generate env inp).M : α)
            + (restir_di_after_temporal env inp).p_hat_at_temporal * ((sources_M ts : Int) : α)
        else (restir_di_resample env inp).selected_p_hat * ((restir_di_generate env inp).M : α))
        = (restir_di_resample env inp).selected_p_hat * ((restir_di_generate env inp).M : α)
          + sources_piSum ts := by
      rw [t3] at t4
      split_ifs with h
      · rw [t4]
      · have h0 : sources_M ts = 0 := le_antisymm (not_lt.mp h) (hnn ts hts)
        rw [sources_M_eq_zero ts hts h0]
        simp [sources_piSum]
    rw [e1]
    split_ifs with h
    · ring
    · have h0 : sources_M ss = 0 := le_antisymm (not_lt.mp h) (hnn ss hss)
      rw [sources_M_eq_zero ss hss h0]
      simp [sources_piSum]

theorem resample_source_p_hat_eq (env : Env α) (inp : Inp α) :
    (restir_di_resample env inp).selected_source ≠ 0 →
      (restir_di_resample env inp).selected_source_p_hat
        = (restir_di_resample env inp).selected_p_hat := by
  refine (resample_induction env inp
    (fun st => st.selected_source ≠ 0 → st.selected_source_p_hat = st.selected_p_hat)
    ?_ ?_ ?_ ?_ ?_).2
  · intro _; rfl
  · intro st p_hat light_id y_pos u hst _
    unfold restir_di_fold_candidate
    simp only []
    split_ifs
    · intro h; exact absurd rfl h
    · exact hst
  · intro st n hst
    exact hst
  · intro st l p_hat p hst _ _ _
    unfold restir_di_fold_temporal
    simp only []
    split_ifs
    · intro _; rfl
    · exact hst
  · intro st l p_hat p hst _ _ _
    unfold restir_di_fold_spatial
    simp only []
    split_ifs
    · intro _; rfl
    · exact hst

theorem validate_source_cases (env : Env α) (inp : Inp α) (st : St α) :
    restir_di_validate_source env inp st = st.selected_source_p_hat ∨
      (0 < st.selected_source ∧ restir_di_validate_source env inp st = 0) := by
  unfold restir_di_validate_source
  simp only []
  split
  · exact Or.inl rfl
  · split_ifs with h1 h2 h3
    · exact Or.inr ⟨h1, rfl⟩
    · exact Or.inr ⟨h1, rfl⟩
    · exact Or.inl rfl
    · exact Or.inl rfl

/-- C2 (amended): for the final running reservoir,
`piSum = p_hat_selected * M_current + sum over every reused source folded this
pixel (the temporal reservoir and every accepted spatial neighbour, whether
or not it won) of p_hat_source * min(M_source, 8)`, where `p_hat_source` is
the value of the source's sample at the current surface and the generator
contributes the selected sample's `p_hat` times its count `M_current`;
`w_sum` is the generator's `w_sum` plus the weights of these sources; `pi` is
`p_hat_selected`, or 0 when the selected sample came from reuse and fails the
check of its source surface; and the weight before the cap is
`W = (w_sum * pi) / (p_hat_selected * piSum)` when
`p_hat_selected * piSum > 1e-6` and `W = 0` otherwise.  When a sample is held
and visible, the pass returns this `W`, capped by `pt_restir_max_w`, as
`dbg_scale`. -/
theorem C2_bias_corrected_weight (env : Env α) (inp : Inp α) :
    restir_di_piSum (restir_di_resample env inp) (restir_di_generate env inp).M
      = (restir_di_resample env inp).selected_p_hat * ((restir_di_generate env inp).M : α)
        + sources_piSum (restir_di_folded_sources env inp) ∧
    (restir_di_resample env inp).w_sum
      = (restir_di_generate env inp).w_sum + sources_w (restir_di_folded_sources env inp) ∧
    (restir_di_pi (restir_di_resample env inp)
        (restir_di_validate_source env inp (restir_di_resample env inp))
      = (restir_di_resample env inp).selected_p_hat ∨
      (0 < (restir_di_resample env inp).selected_source ∧
        restir_di_pi (restir_di_resample env inp)
          (restir_di_validate_source env inp (restir_di_resample env inp)) = 0)) ∧
    restir_di_W_uncapped (restir_di_resample env inp) (restir_di_generate env inp).M
        (restir_di_validate_source env inp (restir_di_resample env inp)) =
      (if (restir_di_resample env inp).selected_p_hat *
          ((restir_di_resample env inp).selected_p_hat * ((restir_di_generate env inp).M : α)
            + sources_piSum (restir_di_folded_sources env inp)) > 1 / 1000000 then
        (restir_di_resample env inp).w_sum *
          restir_di_pi (restir_di_resample env inp)
            (restir_di_validate_source env inp (restir_di_resample env inp)) /
          ((restir_di_resample env inp).selected_p_hat *
            ((restir_di_resample env inp).selected_p_hat * ((restir_di_generate env inp).M : α)
              + sources_piSum (restir_di_folded_sources env inp)))
      else 0) ∧
    (¬ ((restir_di_resample env inp).M ≤ 0 ∨ (restir_di_resample env inp).w_sum ≤ 0 ∨
        (restir_di_resample env inp).selected_p_hat ≤ 0 ∨
        (restir_di_resample env inp).selected_kind = RESTIR_DI_KIND_NONE) →
      inp.enable_polygonal = true →
      0 < (restir_di_shade_selected env inp (restir_di_resample env inp)).out_visibility →
      (restir_di_pass env inp).out.dbg_scale =
        restir_di_cap_W env
          (restir_di_W_uncapped (restir_di_resample env inp) (restir_di_generate env inp).M
            (restir_di_validate_source env inp (restir_di_resample env inp)))) := by
  obtain ⟨-, hw, hp⟩ := resample_sums env inp
  refine ⟨hp, hw, ?_, ?_, ?_⟩
  · unfold restir_di_pi
    split_ifs with h
    · exact Or.inl rfl
    · rcases validate_source_cases env inp (restir_di_resample env inp) with h1 | h1
      · left
        rw [h1]
        exact resample_source_p_hat_eq env inp h
      · exact Or.inr h1
  · unfold restir_di_W_uncapped
    simp only [hp]
  · intro hheld hpoly hvis
    unfold restir_di_pass
    rw [if_neg (by simp [hpoly])]
    exact final_dbg_scale env inp _ _ hheld hvis

/-- The scenario of the specification for C2: the generator holds light 1
with `p_hat = 2` (`M = 1`), the temporal reservoir holds light 0 with
`W_prev = 1`, `M_prev = 1` and `p_hat = 3` at the current surface.  Then
`w_sum = 2 + 3 * 1 = 5`; the temporal sample wins (`u = 1 / 2 < 3 / 5`),
`piSum = 3 * 1 + 3 * 1 = 6`, `pi = 3` and `W = 5 * 3 / (3 * 6) = 5 / 6`. -/
theorem C2_bias_corrected_weight_witness :
    (restir_di_generate (reuseEnv (fun i => if i = 0 then 3 else 2) (fun _ => 1 / 2) 1 1
      (1006648320, 0) 1 0) sampleInp).w_sum = 2 ∧
    (restir_di_resample (reuseEnv (fun i => if i = 0 then 3 else 2) (fun _ => 1 / 2) 1 1
      (1006648320, 0) 1 0) sampleInp).w_sum = 5 ∧
    (restir_di_resample (reuseEnv (fun i => if i = 0 then 3 else 2) (fun _ => 1 / 2) 1 1
      (1006648320, 0) 1 0) sampleInp).selected_light_id = 0 ∧
    restir_di_piSum
      (restir_di_resample (reuseEnv (fun i => if i = 0 then 3 else 2) (fun _ => 1 / 2) 1 1
        (1006648320, 0) 1 0) sampleInp)
      (restir_di_generate (reuseEnv (fun i => if i = 0 then 3 else 2) (fun _ => 1 / 2) 1 1
        (1006648320, 0) 1 0) sampleInp).M = 6 ∧
    restir_di_W_uncapped
      (restir_di_resample (reuseEnv (fun i => if i = 0 then 3 else 2) (fun _ => 1 / 2) 1 1
        (1006648320, 0) 1 0) sampleInp)
      (restir_di_generate (reuseEnv (fun i => if i = 0 then 3 else 2) (fun _ => 1 / 2) 1 1
        (1006648320, 0) 1 0) sampleInp).M
      (restir_di_validate_source (reuseEnv (fun i => if i = 0 then 3 else 2) (fun _ => 1 / 2) 1 1
        (1006648320, 0) 1 0) sampleInp
        (restir_di_resample (reuseEnv (fun i => if i = 0 then 3 else 2) (fun _ => 1 / 2) 1 1
          (1006648320, 0) 1 0) sampleInp)) = 5 / 6 :=
  ⟨by decide!, by decide!, by decide!,
    (C2_bias_corrected_weight (reuseEnv (fun i => if i = 0 then 3 else 2) (fun _ => 1 / 2) 1 1
      (1006648320, 0) 1 0) sampleInp).1.trans (by decide!),
    (C2_bias_corrected_weight (reuseEnv (fun i => if i = 0 then 3 else 2) (fun _ => 1 / 2) 1 1
      (1006648320, 0) 1 0) sampleInp).2.2.2.1.trans (by decide!)⟩

/-- Counterexample to C2 as stated: the scenario of the witness with the
radiances scaled by `1 / 10000`.  The final reservoir holds the temporal
sample with `p_hat_selected = pi = 3 / 10000`, `w_sum = 5 / 10000` and
`piSum = 6 / 10000`, so that `(w_sum * pi) / (p_hat_selected * piSum) = 5 / 6`;
the pass computes `W = 0`, because `p_hat_selected * piSum` is not above
`1e-6`. -/
theorem C2_counterexample_small_denominator :
    (restir_di_resample (reuseEnv (fun i => if i = 0 then 3 / 10000 else 2 / 10000)
      (fun _ => 1 / 2) 1 1 (1006648320, 0) 1 0) sampleInp).selected_kind
        = RESTIR_DI_KIND_POLYGONAL ∧
    (restir_di_resample (reuseEnv (fun i => if i = 0 then 3 / 10000 else 2 / 10000)
      (fun _ => 1 / 2) 1 1 (1006648320, 0) 1 0) sampleInp).selected_p_hat = 3 / 10000 ∧
    (restir_di_resample (reuseEnv (fun i => if i = 0 then 3 / 10000 else 2 / 10000)
      (fun _ => 1 / 2) 1 1 (1006648320, 0) 1 0) sampleInp).w_sum = 5 / 10000 ∧
    restir_di_pi
      (restir_di_resample (reuseEnv (fun i => if i = 0 then 3 / 10000 else 2 / 10000)
        (fun _ => 1 / 2) 1 1 (1006648320, 0) 1 0) sampleInp)
      (restir_di_validate_source (reuseEnv (fun i => if i = 0 then 3 / 10000 else 2 / 10000)
        (fun _ => 1 / 2) 1 1 (1006648320, 0) 1 0) sampleInp
        (restir_di_resample (reuseEnv (fun i => if i = 0 then 3 / 10000 else 2 / 10000)
          (fun _ => 1 / 2) 1 1 (1006648320, 0) 1 0) sampleInp)) = 3 / 10000 ∧
    (restir_di_generate (reuseEnv (fun i => if i = 0 then 3 / 10000 else 2 / 10000)
      (fun _ => 1 / 2) 1 1 (1006648320, 0) 1 0) sampleInp).M = 1 ∧
    sources_piSum (restir_di_folded_sources
      (reuseEnv (fun i => if i = 0 then 3 / 10000 else 2 / 10000)
        (fun _ => 1 / 2) 1 1 (1006648320, 0) 1 0) sampleInp) = 3 / 10000 ∧
    ((5 : ℚ) / 10000 * (3 / 10000)) / (3 / 10000 * (3 / 10000 * 1 + 3 / 10000)) = 5 / 6 ∧
    restir_di_W_uncapped
      (restir_di_resample (reuseEnv (fun i => if i = 0 then 3 / 10000 else 2 / 10000)
        (fun _ => 1 / 2) 1 1 (1006648320, 0) 1 0) sampleInp)
      (restir_di_generate (reuseEnv (fun i => if i = 0 then 3 / 10000 else 2 / 10000)
        (fun _ => 1 / 2) 1 1 (1006648320, 0) 1 0) sampleInp).M
      (restir_di_validate_source (reuseEnv (fun i => if i = 0 then 3 / 10000 else 2 / 10000)
        (fun _ => 1 / 2) 1 1 (1006648320, 0) 1 0) sampleInp
        (restir_di_resample (reuseEnv (fun i => if i = 0 then 3 / 10000 else 2 / 10000)
          (fun _ => 1 / 2) 1 1 (1006648320, 0) 1 0) sampleInp)) = 0 := by
  decide!

/-! ### Dependence on the visibility oracle -/

theorem eval_polygonal_sample_oracle (env : Env α) (v : Ray α → Int → α) (inp : Inp α)
    (light_id : Nat) (y_pos : Vec2 α) :
    restir_di_eval_polygonal_sample (env.with_oracle v) inp light_id y_pos =
      restir_di_eval_polygonal_sample env inp light_id y_pos := rfl

theorem evaluate_polygonal_oracle (env : Env α) (v : Ray α → Int → α) (inp : Inp α)
    (light_id : Nat) (y_pos : Vec2 α) :
    restir_di_evaluate_polygonal_unshadowed (env.with_oracle v) inp light_id y_pos =
      restir_di_evaluate_polygonal_unshadowed env inp light_id y_pos := rfl

theorem generate_oracle (env : Env α) (v : Ray α → Int → α) (inp : Inp α) :
    restir_di_generate (env.with_oracle v) inp = restir_di_generate env inp := rfl

theorem shadow_ray_oracle (env : Env α) (v : Ray α → Int → α) (inp : Inp α) (p : Vec3 α) :
    restir_di_shadow_ray (env.with_oracle v) inp p = restir_di_shadow_ray env inp p := rfl

theorem want_oracle (env : Env α) (v : Ray α → Int → α) (inp : Inp α) :
    want_temporal (env.with_oracle v) inp = want_temporal env inp ∧
    want_spatial (env.with_oracle v) inp = want_spatial env inp := ⟨rfl, rfl⟩

theorem selected_ray_oracle (env : Env α) (v : Ray α → Int → α) (inp : Inp α) :
    restir_di_selected_ray (env.with_oracle v) inp = restir_di_selected_ray env inp := rfl

theorem generate_source_kind (env : Env α) (inp : Inp α) :
    (restir_di_generate env inp).selected_source ≤ 0 ∧
    ((restir_di_generate env inp).selected_kind = RESTIR_DI_KIND_NONE ∨
      (restir_di_generate env inp).selected_kind = RESTIR_DI_KIND_POLYGONAL) := by
  refine generate_induction env inp
    (fun st => st.selected_source ≤ 0 ∧
      (st.selected_kind = RESTIR_DI_KIND_NONE ∨ st.selected_kind = RESTIR_DI_KIND_POLYGONAL))
    ⟨by simp [St.init], Or.inl rfl⟩ ?_ ?_
  · intro st p_hat light_id y_pos u hst _
    unfold restir_di_fold_candidate
    simp only []
    split_ifs
    · exact ⟨le_refl _, Or.inr rfl⟩
    · exact hst
  · intro st n hst
    exact hst

theorem validate_source_oracle (env : Env α) (v1 v2 : Ray α → Int → α) (inp : Inp α) (st : St α)
    (h : st.selected_source ≤ 0) :
    restir_di_validate_source (env.with_oracle v1) inp st =
      restir_di_validate_source (env.with_oracle v2) inp st := by
  unfold restir_di_validate_source
  simp only [not_lt.mpr h, and_false, if_false]

theorem shade_polygonal_oracle (env : Env α) (v1 v2 : Ray α → Int → α) (inp : Inp α)
    (light_id : Nat) (y_pos : Vec2 α)
    (h : ∀ s, restir_di_eval_polygonal_sample env inp light_id y_pos = some s →
      v1 (restir_di_shadow_ray env inp s.pos_on_light) inp.shadow_cull_mask =
        v2 (restir_di_shadow_ray env inp s.pos_on_light) inp.shadow_cull_mask) :
    restir_di_shade_polygonal_sample (env.with_oracle v1) inp light_id y_pos =
      restir_di_shade_polygonal_sample (env.with_oracle v2) inp light_id y_pos := by
  unfold restir_di_shade_polygonal_sample
  rw [eval_polygonal_sample_oracle, eval_polygonal_sample_oracle]
  cases hs : restir_di_eval_polygonal_sample env inp light_id y_pos with
  | none => rfl
  | some s =>
    have hv := h s hs
    simp only [shadow_ray_oracle, show (env.with_oracle v1).trace_shadow_ray = v1 from rfl,
      show (env.with_oracle v2).trace_shadow_ray = v2 from rfl, hv]
    rfl

theorem final_oracle_congr (env : Env α) (v1 v2 : Ray α → Int → α) (inp : Inp α) (Mc : Int)
    (st : St α)
    (hv : restir_di_validate_source (env.with_oracle v1) inp st =
      restir_di_validate_source (env.with_oracle v2) inp st)
    (hs : restir_di_shade_selected (env.with_oracle v1) inp st =
      restir_di_shade_selected (env.with_oracle v2) inp st) :
    restir_di_final (env.with_oracle v1) inp Mc st =
      restir_di_final (env.with_oracle v2) inp Mc st := by
  unfold restir_di_final
  rw [hv, hs]
  rfl

/-- C10: the visibility oracle is the field `trace_shadow_ray` of the
environment.  Candidate generation never consults it: for any two oracles
the whole running reservoir after stage 1 is identical, and so is the shadow
ray `restir_di_selected_ray` from the current surface to the held sample.
With temporal and spatial reuse disabled, the pass depends on the oracle only
through its value on that ray: two oracles that agree on it (when there is
one) give equal values of every `out` parameter. -/
theorem C10_single_visibility_evaluation (env : Env α) (inp : Inp α) (v1 v2 : Ray α → Int → α) :
    restir_di_generate (env.with_oracle v1) inp = restir_di_generate (env.with_oracle v2) inp ∧
    restir_di_selected_ray (env.with_oracle v1) inp = restir_di_selected_ray env inp ∧
    restir_di_selected_ray (env.with_oracle v2) inp = restir_di_selected_ray env inp ∧
    (want_temporal env inp = false → want_spatial env inp = false →
      (∀ r, restir_di_selected_ray env inp = some r →
        v1 r inp.shadow_cull_mask = v2 r inp.shadow_cull_mask) →
      get_direct_illumination_restir_di (env.with_oracle v1) inp =
        get_direct_illumination_restir_di (env.with_oracle v2) inp) := by
  refine ⟨rfl, rfl, rfl, ?_⟩
  intro hT hS hagree
  have hpass : restir_di_pass (env.with_oracle v1) inp = restir_di_pass (env.with_oracle v2) inp := by
    unfold restir_di_pass
    split_ifs with h0
    · rfl
    · rw [resample_no_reuse _ inp ((want_oracle env v1 inp).1.trans hT)
        ((want_oracle env v1 inp).2.trans hS),
        resample_no_reuse _ inp ((want_oracle env v2 inp).1.trans hT)
        ((want_oracle env v2 inp).2.trans hS), generate_oracle, generate_oracle]
      obtain ⟨hsrc, hkind⟩ := generate_source_kind env inp
      by_cases hg : (restir_di_generate env inp).M ≤ 0 ∨ (restir_di_generate env inp).w_sum ≤ 0 ∨
          (restir_di_generate env inp).selected_p_hat ≤ 0 ∨
          (restir_di_generate env inp).selected_kind = RESTIR_DI_KIND_NONE
      · unfold restir_di_final
        rw [if_pos hg, if_pos hg]
      · apply final_oracle_congr env v1 v2 inp _ _ (validate_source_oracle env v1 v2 inp _ hsrc)
        have hk : (restir_di_generate env inp).selected_kind = RESTIR_DI_KIND_POLYGONAL := by
          rcases hkind with hk | hk
          · exact absurd (Or.inr (Or.inr (Or.inr hk))) hg
          · exact hk
        unfold restir_di_shade_selected
        rw [if_pos hk, if_pos hk]
        apply shade_polygonal_oracle
        intro s hs
        apply hagree
        unfold restir_di_selected_ray
        rw [if_neg hg, hs]
  unfold get_direct_illumination_restir_di
  rw [hpass]
  rfl

/-- Witness of C10: in the sample scene the shadow ray of the held sample
starts at `(0, 0, 1/100)`; an oracle that reports every ray visible and one
that reports only the rays from that origin visible give the same outputs. -/
theorem C10_single_visibility_evaluation_witness :
    restir_di_selected_ray (sampleEnv (fun _ => 2) (fun _ => 1 / 2) 1) sampleInp
      = some ⟨⟨0, 0, 1 / 100⟩, ⟨0, 0, 99 / 100⟩, 0, 99 / 100⟩ ∧
    get_direct_illumination_restir_di
      ((sampleEnv (fun _ => 2) (fun _ => 1 / 2) 1).with_oracle (fun _ _ => 1)) sampleInp =
    get_direct_illumination_restir_di
      ((sampleEnv (fun _ => 2) (fun _ => 1 / 2) 1).with_oracle
        (fun r _ => if r.origin.z = 1 / 100 then 1 else 0)) sampleInp :=
  ⟨by decide!,
    (C10_single_visibility_evaluation (sampleEnv (fun _ => 2) (fun _ => 1 / 2) 1) sampleInp (fun _ _ => 1)
      (fun r _ => if r.origin.z = 1 / 100 then 1 else 0)).2.2.2 (by decide!) (by decide!)
      (by
        intro r hr
        have h : restir_di_selected_ray (sampleEnv (fun _ => 2) (fun _ => 1 / 2) 1) sampleInp
            = some ⟨⟨0, 0, 1 / 100⟩, ⟨0, 0, 99 / 100⟩, 0, 99 / 100⟩ := by decide!
        rw [h, Option.some.injEq] at hr
        subst hr
        decide!)⟩

/-! ### The uniform pick and the contribution of a single candidate -/

theorem light_count_eq (env : Env α) (c : Nat)
    (hwf : env.light_list_offsets c ≤ env.light_list_offsets (c + 1))
    (hlt : env.light_list_offsets (c + 1) < 2 ^ 32) :
    restir_di_light_count env c = env.light_list_offsets (c + 1) - env.light_list_offsets c := by
  unfold restir_di_light_count
  have h1 : env.light_list_offsets c % 2 ^ 32 = env.light_list_offsets c :=
    Nat.mod_eq_of_lt (lt_of_le_of_lt hwf hlt)
  rw [h1]
  omega

theorem floor_mul_lt (r : α) (n : Nat) (hr0 : 0 ≤ r) (hr1 : r < 1) (hn : 0 < n) :
    ⌊r * (n : α)⌋.toNat < n := by
  have hn' : (0 : α) < (n : α) := by exact_mod_cast hn
  have h1 : ⌊r * (n : α)⌋ < (n : Int) := by
    rw [Int.floor_lt]
    push_cast
    calc r * (n : α) < 1 * (n : α) := mul_lt_mul_of_pos_right hr1 hn'
      _ = (n : α) := one_mul _
  have h2 : 0 ≤ ⌊r * (n : α)⌋ := Int.floor_nonneg.mpr (mul_nonneg hr0 hn'.le)
  omega

/-- With a well-formed list whose entries are all valid, the uniform pick
returns the entry at position `floor(r * count)`. -/
theorem pick_uniform (env : Env α) (c : Nat) (r : α)
    (hc : c ≠ UINT_MAX)
    (hwf : env.light_list_offsets c ≤ env.light_list_offsets (c + 1))
    (hlt : env.light_list_offsets (c + 1) < 2 ^ 32)
    (hvalid : ∀ i, env.light_list_offsets c ≤ i → i < env.light_list_offsets (c + 1) →
      env.light_list_lights i < env.MAX_LIGHT_POLYS)
    (hr0 : 0 ≤ r) (hr1 : r < 1) (hn : 0 < restir_di_light_count env c) :
    restir_di_pick_polygonal_light_uniform env c r =
      some (env.light_list_lights (env.light_list_offsets c +
        ⌊r * (restir_di_light_count env c : α)⌋.toNat)) := by
  have hcount := light_count_eq env c hwf hlt
  have hfl := floor_mul_lt r (restir_di_light_count env c) hr0 hr1 hn
  unfold restir_di_pick_polygonal_light_uniform
  rw [if_neg hc]
  simp only []
  rw [if_neg (Nat.pos_iff_ne_zero.mp hn)]
  generalize hk : ⌊r * (restir_di_light_count env c : α)⌋.toNat = k at hfl ⊢
  have hu : float_to_uint (r * (restir_di_light_count env c : α)) = k := by
    unfold float_to_uint
    rw [hk]
    exact Nat.mod_eq_of_lt (by omega)
  rw [hu]
  have hbase : min (restir_di_light_count env c - 1) k = k := min_eq_right (by omega)
  rw [hbase]
  have hidx : (k + 0) % 2 ^ 32 % restir_di_light_count env c = k := by
    rw [Nat.add_zero, Nat.mod_eq_of_lt (show k < 2 ^ 32 by omega), Nat.mod_eq_of_lt hfl]
  have hpos : (env.light_list_offsets c + k) % 2 ^ 32 = env.light_list_offsets c + k :=
    Nat.mod_eq_of_lt (by omega)
  simp only [List.findSome?_cons, hidx, hpos]
  rw [if_pos (hvalid _ (by omega) (by omega))]

theorem vec3_scale_zero (v : Vec3 α) : v.scale 0 = Vec3.splat 0 := by
  simp [Vec3.scale, Vec3.splat]

theorem cap_W_zero (env : Env α) : restir_di_cap_W env 0 = 0 := by
  unfold restir_di_cap_W
  split_ifs with h
  · exact min_eq_left h.le
  · rfl

theorem evaluate_some_radiance (env : Env α) (inp : Inp α) (light_id : Nat) (y_pos : Vec2 α)
    (p : α) (h : restir_di_evaluate_polygonal_unshadowed env inp light_id y_pos = some p) :
    ∃ rad, restir_di_unshadowed_radiance env inp light_id y_pos = some rad := by
  unfold restir_di_evaluate_polygonal_unshadowed at h
  split at h
  · exact absurd h (by simp)
  · rename_i rad hrad
    exact ⟨rad, hrad⟩

/-- The contribution of the pass for `N = 1` without reuse, as a function of
the light-selection number `r`. -/
theorem contribution_single (env : Env α) (inp : Inp α) (r : α)
    (hT : want_temporal env inp = false) (hS : want_spatial env inp = false)
    (hN : restir_di_N env = 1) (hpoly : inp.enable_polygonal = true)
    (hc : inp.cluster_idx ≠ UINT_MAX)
    (hwf : env.light_list_offsets inp.cluster_idx ≤ env.light_list_offsets (inp.cluster_idx + 1))
    (hlt : env.light_list_offsets (inp.cluster_idx + 1) < 2 ^ 32)
    (hvalid : ∀ i, env.light_list_offsets inp.cluster_idx ≤ i →
      i < env.light_list_offsets (inp.cluster_idx + 1) →
      env.light_list_lights i < env.MAX_LIGHT_POLYS)
    (hu : env.rng 3 < 1) (hr0 : 0 ≤ r) (hr1 : r < 1)
    (hn : 0 < restir_di_light_count env inp.cluster_idx) :
    restir_di_contribution (env.with_light_rng r) inp =
      match restir_di_unshadowed_radiance env inp
          (restir_di_list_light env inp.cluster_idx
            ⌊r * (restir_di_light_count env inp.cluster_idx : α)⌋.toNat)
          ⟨env.rng 1, env.rng 2⟩ with
      | some radiance =>
        radiance.scale (restir_di_single_weight env inp
          (restir_di_list_light env inp.cluster_idx
            ⌊r * (restir_di_light_count env inp.cluster_idx : α)⌋.toNat) ⟨env.rng 1, env.rng 2⟩)
      | none => Vec3.splat 0 := by
  have hpick := pick_uniform env inp.cluster_idx r hc hwf hlt hvalid hr0 hr1 hn
  generalize hk : ⌊r * (restir_di_light_count env inp.cluster_idx : α)⌋.toNat = k at hpick ⊢
  have hres : restir_di_resample (env.with_light_rng r) inp
      = restir_di_generate (env.with_light_rng r) inp :=
    resample_no_reuse _ inp hT hS
  have hgen : restir_di_generate (env.with_light_rng r) inp
      = restir_di_candidate_iter (env.with_light_rng r) inp St.init := by
    unfold restir_di_generate
    have hN' : restir_di_N (env.with_light_rng r) = 1 := hN
    simp only [enable_sun, Bool.false_eq_true, if_false, hN', hpoly, if_true, Int.toNat_one,
      Function.iterate_one]
  have hiter : restir_di_candidate_iter (env.with_light_rng r) inp St.init =
      match restir_di_evaluate_polygonal_unshadowed env inp
          (restir_di_list_light env inp.cluster_idx k) ⟨env.rng 1, env.rng 2⟩ with
      | none => { (St.init : St α) with rng_calls := 4 }
      | some p_hat =>
        restir_di_fold_candidate { (St.init : St α) with rng_calls := 4 }
          RESTIR_DI_KIND_POLYGONAL p_hat (restir_di_list_light env inp.cluster_idx k)
          ⟨env.rng 1, env.rng 2⟩ (env.rng 3) := by
    unfold restir_di_candidate_iter
    have e1 : restir_di_pick_polygonal_light_uniform (env.with_light_rng r) inp.cluster_idx
        ((env.with_light_rng r).rng (St.init : St α).rng_calls)
        = some (restir_di_list_light env inp.cluster_idx k) := hpick
    simp only [e1]
    rfl
  unfold restir_di_contribution
  rw [hres, hgen, hiter]
  unfold restir_di_single_weight
  cases hev : restir_di_evaluate_polygonal_unshadowed env inp
      (restir_di_list_light env inp.cluster_idx k) ⟨env.rng 1, env.rng 2⟩ with
  | none =>
    simp only []
    rw [if_pos (Or.inl (show (St.init : St α).M ≤ 0 from le_refl _))]
    cases restir_di_unshadowed_radiance env inp (restir_di_list_light env inp.cluster_idx k)
        ⟨env.rng 1, env.rng 2⟩ with
    | none => rfl
    | some rad => exact (vec3_scale_zero rad).symm
  | some p =>
    have hp := evaluate_polygonal_pos env inp _ _ p hev
    obtain ⟨rad, hrad⟩ := evaluate_some_radiance env inp _ _ p hev
    simp only [hrad]
    unfold restir_di_fold_candidate
    simp only []
    have hw0 : (St.init : St α).w_sum = 0 := rfl
    have hM0 : (St.init : St α).M = 0 := rfl
    by_cases hsel : p > 0 ∧ env.rng 3 < p / max ((St.init : St α).w_sum + p) (1 / 1000000)
    · simp only [if_pos hsel]
      have hguard : ¬ ((St.init : St α).M + 1 ≤ 0 ∨ (St.init : St α).w_sum + p ≤ 0 ∨ p ≤ 0 ∨
          RESTIR_DI_KIND_POLYGONAL = RESTIR_DI_KIND_NONE) := by
        simp only [hw0, hM0, zero_add, not_or, not_le]
        exact ⟨by norm_num, hp, hp, by decide⟩
      rw [if_neg hguard]
      have hrad' : restir_di_unshadowed_radiance (env.with_light_rng r) inp
          (restir_di_list_light env inp.cluster_idx k) ⟨env.rng 1, env.rng 2⟩ = some rad := hrad
      simp only [hrad']
      congr 1
      unfold restir_di_W_uncapped restir_di_piSum restir_di_pi
      have hmt : (St.init : St α).m_temporal_considered = 0 := rfl
      have hms : (St.init : St α).m_spatial_considered = 0 := rfl
      simp only [hw0, hM0, zero_add, hmt, hms, gt_iff_lt, lt_self_iff_false, if_false, if_true,
        Int.cast_one, mul_one]
      have hcap : ∀ w, restir_di_cap_W (env.with_light_rng r) w = restir_di_cap_W env w :=
        fun _ => rfl
      rw [hcap]
      split_ifs with h
      · congr 1
        field_simp
      · exact cap_W_zero env
    · simp only [if_neg hsel]
      have hguard : ((St.init : St α).M + 1 ≤ 0 ∨ (St.init : St α).w_sum + p ≤ 0 ∨
          (St.init : St α).selected_p_hat ≤ 0 ∨
          (St.init : St α).selected_kind = RESTIR_DI_KIND_NONE) :=
        Or.inr (Or.inr (Or.inr rfl))
      rw [if_pos hguard]
      have hsmall : ¬ (p * p > 1 / 1000000) := by
        intro hbig
        apply hsel
        refine ⟨hp, ?_⟩
        rw [hw0, zero_add]
        have hp6 : (1 : α) / 1000000 ≤ p := by
          by_contra hlt
          rw [not_le] at hlt
          have : p * p < 1 / 1000000 := by nlinarith
          exact absurd hbig (not_lt.mpr this.le)
        rw [max_eq_left hp6, div_self hp.ne']
        exact hu
      rw [if_neg hsmall]
      exact (vec3_scale_zero rad).symm

/-- With an empty light list the pass holds no sample. -/
theorem contribution_empty (env : Env α) (inp : Inp α) (r : α)
    (hT : want_temporal env inp = false) (hS : want_spatial env inp = false)
    (hN : restir_di_N env = 1)
    (hn : restir_di_light_count env inp.cluster_idx = 0) :
    restir_di_contribution (env.with_light_rng r) inp = Vec3.splat 0 := by
  have hres : restir_di_resample (env.with_light_rng r) inp
      = restir_di_generate (env.with_light_rng r) inp :=
    resample_no_reuse _ inp hT hS
  have hk : (restir_di_generate (env.with_light_rng r) inp).selected_kind
      = RESTIR_DI_KIND_NONE := by
    by_contra hne
    have hN' : restir_di_N (env.with_light_rng r) = 1 := hN
    unfold restir_di_generate at hne
    simp only [enable_sun, Bool.false_eq_true, if_false, hN', Int.toNat_one,
      Function.iterate_one] at hne
    split_ifs at hne
    · unfold restir_di_candidate_iter at hne
      have hp : restir_di_pick_polygonal_light_uniform (env.with_light_rng r) inp.cluster_idx
          ((env.with_light_rng r).rng (St.init : St α).rng_calls) = none := by
        unfold restir_di_pick_polygonal_light_uniform
        have hn' : restir_di_light_count (env.with_light_rng r) inp.cluster_idx = 0 := hn
        split_ifs
        · rfl
        · simp only [hn', if_true]
      simp only [hp] at hne
      exact hne rfl
    · exact hne rfl
  unfold restir_di_contribution
  rw [hres, if_pos (Or.inr (Or.inr (Or.inr hk)))]

/-! ### The sample scene over any field -/

theorem sample_light_count (color rng : Nat → α) (vis : α) :
    restir_di_light_count (sampleScene color rng vis) 0 = 3 :=
  light_count_eq (sampleScene color rng vis) 0 (show 3 * 0 ≤ 3 * (0 + 1) by decide)
    (show 3 * (0 + 1) < 2 ^ 32 by decide)

theorem sample_contains (color rng : Nat → α) (vis : α) (k : Nat) (hk : k < 3) :
    restir_di_cluster_contains_light (sampleScene color rng vis) 0 k = true := by
  rw [cluster_contains_light_iff]
  exact ⟨by decide, k, Nat.zero_le _, hk, rfl⟩

/-- In the sample scene the unshadowed radiance of the light `k` is its
colour. -/
theorem sample_radiance (color rng : Nat → α) (vis : α) (k : Nat) (y : Vec2 α) (hk : k < 3)
    (h0 : 0 ≤ color k) (h1 : color k ≤ 1000) :
    restir_di_unshadowed_radiance (sampleScene color rng vis) samplePixel k y =
      some ⟨color k, color k, color k⟩ := by
  have hs : restir_di_eval_polygonal_sample (sampleScene color rng vis) samplePixel k y =
      some ⟨⟨0, 0, 1⟩, ⟨color k * 3, color k * 3, color k * 3⟩, 1, false⟩ := by
    unfold restir_di_eval_polygonal_sample
    have hc : (samplePixel : Inp α).cluster_idx = 0 := rfl
    rw [hc, sample_light_count, sample_contains color rng vis k hk]
    have hM : (sampleScene color rng vis).MAX_LIGHT_POLYS = 4096 := rfl
    rw [if_neg (by decide), if_neg (by rw [hM]; omega)]
    have h10 : ¬ ((1 : α) ≤ 0) := not_le.mpr one_pos
    simp [sampleScene, samplePixel, Vec3.sub, Vec3.dot, Vec3.scale, sampleLuminance, h0, h10]
    linarith
  unfold restir_di_unshadowed_radiance
  rw [hs]
  have h10 : ¬ ((1 : α) ≤ 0) := not_le.mpr one_pos
  simp [sampleScene, samplePixel, Vec3.sub, Vec3.dot, Vec3.scale, Vec3.mul, Vec3.add, Vec3.splat,
    h10]

theorem sample_list_light (color rng : Nat → α) (vis : α) (k : Nat) :
    restir_di_list_light (sampleScene color rng vis) 0 k = k := by
  show 3 * 0 + k = k
  omega

/-- In the sample scene the single-candidate weight of the light `k` is 1 when
the square of its colour exceeds `1e-6`, else 0. -/
theorem sample_weight (color rng : Nat → α) (vis : α) (k : Nat) (y : Vec2 α) (hk : k < 3)
    (h0 : 0 ≤ color k) (h1 : color k ≤ 1000) :
    restir_di_single_weight (sampleScene color rng vis) samplePixel k y =
      if color k * color k > 1 / 1000000 then 1 else 0 := by
  unfold restir_di_single_weight restir_di_evaluate_polygonal_unshadowed
  rw [sample_radiance color rng vis k y hk h0 h1]
  have hl : (sampleScene color rng vis).luminance (Vec3.abs ⟨color k, color k, color k⟩)
      = color k := by
    show sampleLuminance (Vec3.abs ⟨color k, color k, color k⟩) = color k
    simp only [sampleLuminance, Vec3.abs, abs_of_nonneg h0]
    ring
  simp only [hl, max_eq_left h0]
  have hcap : restir_di_cap_W (sampleScene color rng vis) 1 = 1 := by
    unfold restir_di_cap_W
    rw [if_neg (by show ¬ ((0 : α) > 0); exact lt_irrefl 0)]
  by_cases hpos : color k > 0
  · simp only [if_pos hpos, hcap]
  · have hz : color k = 0 := le_antisymm (not_lt.mp hpos) h0
    simp only [if_neg hpos]
    rw [if_neg]
    rw [hz]
    norm_num

/-- In the sample scene the contribution of the light `k` is a third of its
colour. -/
theorem sample_light_contribution (color rng : Nat → α) (vis : α) (k : Nat) (y : Vec2 α)
    (hk : k < 3) (h0 : 0 ≤ color k) (h1 : color k ≤ 1000) :
    restir_di_light_contribution (sampleScene color rng vis) samplePixel k y =
      ⟨color k / 3, color k / 3, color k / 3⟩ := by
  unfold restir_di_light_contribution
  rw [sample_radiance color rng vis k y hk h0 h1]
  have hc : (samplePixel : Inp α).cluster_idx = 0 := rfl
  simp only [hc, sample_light_count, Vec3.divs, Nat.cast_ofNat]

/-! ### The expectation over the light-selection number -/

open MeasureTheory

/-- The integral over `[0, 1]` of a function that is the step function
`g (floor (r * n))` on `[0, 1)`. -/
theorem integral_step (n : ℕ) (hn : 0 < n) (g : ℕ → ℝ) (f : ℝ → ℝ)
    (hf : ∀ r, 0 ≤ r → r < 1 → f r = g ⌊r * n⌋.toNat) :
    ∫ r in (0:ℝ)..1, f r = (∑ k in Finset.range n, g k) / n := by
  have hn' : (0:ℝ) < n := by exact_mod_cast hn
  have hle : ∀ k : ℕ, (k:ℝ) / n ≤ ((k + 1 : ℕ) : ℝ) / n := by
    intro k
    apply div_le_div_of_nonneg_right _ hn'.le
    exact_mod_cast Nat.le_succ k
  have hae : ∀ k : ℕ, k < n → ∀ᵐ x ∂(volume : Measure ℝ),
      x ∈ Set.uIoc ((k:ℝ) / n) (((k + 1 : ℕ) : ℝ) / n) → f x = g k := by
    intro k hkn
    have h0 : ∀ᵐ x ∂(volume : Measure ℝ), x ≠ ((k + 1 : ℕ) : ℝ) / n := by
      rw [ae_iff]
      simp only [ne_eq, not_not, Set.setOf_eq_eq_singleton]
      exact Real.volume_singleton
    filter_upwards [h0] with x hx hmem
    rw [Set.uIoc_of_le (hle k)] at hmem
    have h1 : (k:ℝ) < x * n := by
      have := hmem.1
      rwa [div_lt_iff₀ hn'] at this
    have h2 : x * n < (k:ℝ) + 1 := by
      have h3 : x < ((k + 1 : ℕ) : ℝ) / n := lt_of_le_of_ne hmem.2 hx
      rw [lt_div_iff₀ hn'] at h3
      push_cast at h3
      exact h3
    have hfl : ⌊x * n⌋ = (k : ℤ) := by
      rw [Int.floor_eq_iff]
      push_cast
      exact ⟨h1.le, h2⟩
    have hx0 : 0 ≤ x := by
      have : (0:ℝ) ≤ (k:ℝ) / n := div_nonneg (Nat.cast_nonneg k) hn'.le
      exact le_trans this hmem.1.le
    have hx1 : x < 1 := by
      have h4 : x * n < n := by
        have : (k:ℝ) + 1 ≤ n := by exact_mod_cast hkn
        linarith
      by_contra hge
      rw [not_lt] at hge
      have : (n:ℝ) ≤ x * n := by nlinarith
      linarith
    rw [hf x hx0 hx1, hfl, Int.toNat_natCast]
  have hpiece : ∀ k : ℕ, k < n →
      ∫ r in ((k:ℝ) / n)..(((k + 1 : ℕ) : ℝ) / n), f r = g k / n := by
    intro k hkn
    rw [intervalIntegral.integral_congr_ae (hae k hkn), intervalIntegral.integral_const]
    simp only [smul_eq_mul]
    push_cast
    field_simp
  have hint : ∀ k < n, IntervalIntegrable f volume
      (((k:ℕ):ℝ) / n) (((k + 1 : ℕ) : ℝ) / n) := by
    intro k hkn
    refine (intervalIntegrable_const (c := g k)).congr ?_
    rw [Filter.EventuallyEq, ae_restrict_iff' measurableSet_uIoc]
    filter_upwards [hae k hkn] with x hx hmem
    exact (hx hmem).symm
  have hsum := intervalIntegral.sum_integral_adjacent_intervals (a := fun k : ℕ => (k:ℝ) / n) hint
  simp only [Nat.cast_zero, zero_div] at hsum
  rw [div_self hn'.ne'] at hsum
  rw [← hsum, Finset.sum_div]
  apply Finset.sum_congr rfl
  intro k hk
  exact hpiece k (Finset.mem_range.mp hk)

theorem comp_splat_zero (i : Fin 3) : (Vec3.splat (0 : ℝ)).comp i = 0 := by
  fin_cases i <;> rfl

theorem comp_scale (v : Vec3 ℝ) (s : ℝ) (i : Fin 3) : (v.scale s).comp i = v.comp i * s := by
  fin_cases i <;> rfl

theorem comp_divs (v : Vec3 ℝ) (s : ℝ) (i : Fin 3) : (v.divs s).comp i = v.comp i / s := by
  fin_cases i <;> rfl

/-- The expectation of the contribution of the pass over the light-selection
number, for `N = 1` without reuse: the sum over the list of the weight of each
light times its contribution. -/
theorem expected_contribution (env : Env ℝ) (inp : Inp ℝ)
    (hT : want_temporal env inp = false) (hS : want_spatial env inp = false)
    (hN : restir_di_N env = 1) (hpoly : inp.enable_polygonal = true)
    (hc : inp.cluster_idx ≠ UINT_MAX)
    (hwf : env.light_list_offsets inp.cluster_idx ≤ env.light_list_offsets (inp.cluster_idx + 1))
    (hlt : env.light_list_offsets (inp.cluster_idx + 1) < 2 ^ 32)
    (hvalid : ∀ i, env.light_list_offsets inp.cluster_idx ≤ i →
      i < env.light_list_offsets (inp.cluster_idx + 1) →
      env.light_list_lights i < env.MAX_LIGHT_POLYS)
    (hu : env.rng 3 < 1) (i : Fin 3) :
    ∫ r in (0:ℝ)..1, (restir_di_contribution (env.with_light_rng r) inp).comp i =
      ∑ k in Finset.range (restir_di_light_count env inp.cluster_idx),
        restir_di_single_weight env inp (restir_di_list_light env inp.cluster_idx k)
            ⟨env.rng 1, env.rng 2⟩ *
          (restir_di_light_contribution env inp (restir_di_list_light env inp.cluster_idx k)
            ⟨env.rng 1, env.rng 2⟩).comp i := by
  rcases Nat.eq_zero_or_pos (restir_di_light_count env inp.cluster_idx) with hn | hn
  · have h0 : ∀ r : ℝ, (restir_di_contribution (env.with_light_rng r) inp).comp i = 0 := by
      intro r
      rw [contribution_empty env inp r hT hS hN hn]
      exact comp_splat_zero i
    simp only [h0, hn, Finset.range_zero, Finset.sum_empty, intervalIntegral.integral_const,
      smul_zero]
  · have hn' : ((restir_di_light_count env inp.cluster_idx : ℕ) : ℝ) ≠ 0 := by
      exact_mod_cast hn.ne'
    rw [integral_step (restir_di_light_count env inp.cluster_idx) hn
      (fun k =>
        restir_di_single_weight env inp (restir_di_list_light env inp.cluster_idx k)
            ⟨env.rng 1, env.rng 2⟩ *
          (restir_di_light_contribution env inp (restir_di_list_light env inp.cluster_idx k)
            ⟨env.rng 1, env.rng 2⟩).comp i * (restir_di_light_count env inp.cluster_idx : ℝ))
      (fun r => (restir_di_contribution (env.with_light_rng r) inp).comp i)
      (fun r hr0 hr1 => by
        simp only []
        rw [contribution_single env inp r hT hS hN hpoly hc hwf hlt hvalid hu hr0 hr1 hn]
        unfold restir_di_light_contribution
        cases restir_di_unshadowed_radiance env inp
            (restir_di_list_light env inp.cluster_idx
              ⌊r * (restir_di_light_count env inp.cluster_idx : ℝ)⌋.toNat)
            ⟨env.rng 1, env.rng 2⟩ with
        | none =>
          simp only [comp_splat_zero, mul_zero, zero_mul]
        | some rad =>
          simp only [comp_scale, comp_divs]
          field_simp
          ring)]
    rw [Finset.sum_div]
    apply Finset.sum_congr rfl
    intro k _
    field_simp

/-- C9 (amended): with temporal and spatial reuse disabled, `N = 1`, polygonal
lights enabled, a well-formed light list of valid entries and the
replacement number below 1, the expectation over the uniformly distributed
light-selection number `r` of each component of the unshadowed weighted
contribution of the pass is the sum over the lights of the list of `W_k` times
the unshadowed contribution of light `k`, where `W_k` is the capped 1 when
`p_hat_k ^ 2 > 1e-6` and 0 otherwise; it is the sum of the contributions of
all lights when every `W_k` is 1. -/
theorem C9_expected_contribution (env : Env ℝ) (inp : Inp ℝ)
    (hT : want_temporal env inp = false) (hS : want_spatial env inp = false)
    (hN : restir_di_N env = 1) (hpoly : inp.enable_polygonal = true)
    (hc : inp.cluster_idx ≠ UINT_MAX)
    (hwf : env.light_list_offsets inp.cluster_idx ≤ env.light_list_offsets (inp.cluster_idx + 1))
    (hlt : env.light_list_offsets (inp.cluster_idx + 1) < 2 ^ 32)
    (hvalid : ∀ i, env.light_list_offsets inp.cluster_idx ≤ i →
      i < env.light_list_offsets (inp.cluster_idx + 1) →
      env.light_list_lights i < env.MAX_LIGHT_POLYS)
    (hu : env.rng 3 < 1) :
    (∀ i : Fin 3,
      ∫ r in (0:ℝ)..1, (restir_di_contribution (env.with_light_rng r) inp).comp i =
        ∑ k in Finset.range (restir_di_light_count env inp.cluster_idx),
          restir_di_single_weight env inp (restir_di_list_light env inp.cluster_idx k)
              ⟨env.rng 1, env.rng 2⟩ *
            (restir_di_light_contribution env inp (restir_di_list_light env inp.cluster_idx k)
              ⟨env.rng 1, env.rng 2⟩).comp i) ∧
    ((∀ k, k < restir_di_light_count env inp.cluster_idx →
        restir_di_single_weight env inp (restir_di_list_light env inp.cluster_idx k)
          ⟨env.rng 1, env.rng 2⟩ = 1) →
      ∀ i : Fin 3,
        ∫ r in (0:ℝ)..1, (restir_di_contribution (env.with_light_rng r) inp).comp i =
          ∑ k in Finset.range (restir_di_light_count env inp.cluster_idx),
            (restir_di_light_contribution env inp (restir_di_list_light env inp.cluster_idx k)
              ⟨env.rng 1, env.rng 2⟩).comp i) := by
  refine ⟨expected_contribution env inp hT hS hN hpoly hc hwf hlt hvalid hu, fun hW i => ?_⟩
  rw [expected_contribution env inp hT hS hN hpoly hc hwf hlt hvalid hu i]
  apply Finset.sum_congr rfl
  intro k hk
  rw [hW k (Finset.mem_range.mp hk), one_mul]

theorem sample_no_temporal (color rng : Nat → ℝ) (vis : ℝ) :
    want_temporal (sampleScene color rng vis) samplePixel = false := by
  unfold want_temporal
  have h : ¬ ((sampleScene color rng vis).pt_restir_temporal > 1 / 2) := by
    show ¬ ((0 : ℝ) > 1 / 2)
    norm_num
  simp only [h, decide_False, Bool.false_and]

theorem sample_no_spatial (color rng : Nat → ℝ) (vis : ℝ) :
    want_spatial (sampleScene color rng vis) samplePixel = false := by
  unfold want_spatial
  have h : ¬ ((sampleScene color rng vis).pt_restir_spatial > 1 / 2) := by
    show ¬ ((0 : ℝ) > 1 / 2)
    norm_num
  simp only [h, decide_False, Bool.false_and]

theorem sample_N (color rng : Nat → ℝ) (vis : ℝ) :
    restir_di_N (sampleScene color rng vis) = 1 := by
  unfold restir_di_N
  have h : glsl_clamp (sampleScene color rng vis).pt_restir_candidates 1 32 = (1 : ℝ) := by
    show min (max (1 : ℝ) 1) 32 = 1
    norm_num
  rw [h]
  unfold float_to_int
  rw [if_pos zero_le_one, Int.floor_one]

/-- Witness of C9: in the sample scene with the lights 0, 1, 2 of colours 1, 2,
3 every weight is 1, and the expectation of the contribution, `(1 + 2 + 3) / 3`,
is the sum `1/3 + 2/3 + 3/3` of the contributions of the three lights.  At
`r = 1/2` the pass draws light 1 and, the light being visible, outputs its
weighted radiance `(2, 2, 2)` as diffuse radiance. -/
theorem C9_expected_contribution_witness :
    (∫ r in (0:ℝ)..1, (restir_di_contribution
        ((sampleScene (fun k => (k : ℝ) + 1) (fun _ => 1 / 2) 1).with_light_rng r)
        samplePixel).comp 0 = 2) ∧
    (∑ k in Finset.range 3, (restir_di_light_contribution
        (sampleScene (fun k => (k : ℝ) + 1) (fun _ => 1 / 2) 1) samplePixel k
        ⟨1 / 2, 1 / 2⟩).comp 0 = 2) ∧
    restir_di_contribution
      ((sampleEnv (fun k => (k : ℚ) + 1) (fun _ => 1 / 2) 1).with_light_rng (1 / 2)) sampleInp =
        ⟨2, 2, 2⟩ ∧
    (restir_di_pass ((sampleEnv (fun k => (k : ℚ) + 1) (fun _ => 1 / 2) 1).with_light_rng (1 / 2))
        sampleInp).out.diffuse = ⟨2, 2, 2⟩ ∧
    (restir_di_pass ((sampleEnv (fun k => (k : ℚ) + 1) (fun _ => 1 / 2) 1).with_light_rng (1 / 2))
        sampleInp).out.specular = ⟨0, 0, 0⟩ := by
  have hcol0 : ∀ k : ℕ, (0 : ℝ) ≤ (fun k : ℕ => (k : ℝ) + 1) k := by
    intro k
    show (0 : ℝ) ≤ (k : ℝ) + 1
    positivity
  have hcol1 : ∀ k : ℕ, k < 3 → (fun k : ℕ => (k : ℝ) + 1) k ≤ 1000 := by
    intro k hk
    show (k : ℝ) + 1 ≤ 1000
    have : (k : ℝ) < 3 := by exact_mod_cast hk
    linarith
  have hsum : ∑ k in Finset.range 3, (restir_di_light_contribution
      (sampleScene (fun k => (k : ℝ) + 1) (fun _ => 1 / 2) 1) samplePixel k
      ⟨1 / 2, 1 / 2⟩).comp 0 = 2 := by
    rw [Finset.sum_range_succ, Finset.sum_range_succ, Finset.sum_range_one,
      sample_light_contribution _ _ _ 0 _ (by norm_num) (hcol0 0) (hcol1 0 (by norm_num)),
      sample_light_contribution _ _ _ 1 _ (by norm_num) (hcol0 1) (hcol1 1 (by norm_num)),
      sample_light_contribution _ _ _ 2 _ (by norm_num) (hcol0 2) (hcol1 2 (by norm_num))]
    simp only [Vec3.comp]
    norm_num
  refine ⟨?_, hsum, by decide!, by decide!, by decide!⟩
  have h := (C9_expected_contribution (sampleScene (fun k => (k : ℝ) + 1) (fun _ => 1 / 2) 1)
    samplePixel (sample_no_temporal _ _ _) (sample_no_spatial _ _ _) (sample_N _ _ _) rfl
    (by decide) (show 3 * 0 ≤ 3 * (0 + 1) by decide) (show 3 * (0 + 1) < 2 ^ 32 by decide)
    (by
      intro i h1 h2
      have h2' : i < 3 * (0 + 1) := h2
      show i < 4096
      omega)
    (show (1 / 2 : ℝ) < 1 by norm_num)).2
    (by
      intro k hk
      have hk3 : k < 3 := by
        have := sample_light_count (fun k => (k : ℝ) + 1) (fun _ => 1 / 2) (1 : ℝ)
        have hc : (samplePixel : Inp ℝ).cluster_idx = 0 := rfl
        rw [hc, this] at hk
        exact hk
      have hc : (samplePixel : Inp ℝ).cluster_idx = 0 := rfl
      rw [hc, sample_list_light, sample_weight _ _ _ k _ hk3 (hcol0 k) (hcol1 k hk3), if_pos]
      show ((k : ℝ) + 1) * ((k : ℝ) + 1) > 1 / 1000000
      have : (0 : ℝ) ≤ (k : ℝ) := Nat.cast_nonneg k
      nlinarith)
    0
  rw [h]
  have hc : (samplePixel : Inp ℝ).cluster_idx = 0 := rfl
  rw [hc, sample_light_count]
  simp only [sample_list_light]
  exact hsum

/-- Counterexample to C9 as stated: the sample scene with the lights 0, 1, 2
of colour `1 / 1000` each, reuse disabled, `N = 1`, no cap.  Every light has
`p_hat = 1 / 1000`, so `p_hat * piSum = 1e-6` is not above `1e-6` and the pass
computes `W = 0` whatever light is drawn: the expectation of the contribution
is 0, while the contributions of the three lights sum to `1 / 1000`.  At
`r = 1/2` the pass draws light 1, whose contribution is `1 / 3000` in each
component, and outputs no radiance. -/
theorem C9_counterexample_dim_lights :
    want_temporal (sampleScene (fun _ => (1 / 1000 : ℝ)) (fun _ => 1 / 2) 1) samplePixel = false ∧
    want_spatial (sampleScene (fun _ => (1 / 1000 : ℝ)) (fun _ => 1 / 2) 1) samplePixel = false ∧
    restir_di_N (sampleScene (fun _ => (1 / 1000 : ℝ)) (fun _ => 1 / 2) 1) = 1 ∧
    restir_di_light_count (sampleScene (fun _ => (1 / 1000 : ℝ)) (fun _ => 1 / 2) 1) 0 = 3 ∧
    (∫ r in (0:ℝ)..1, (restir_di_contribution
        ((sampleScene (fun _ => (1 / 1000 : ℝ)) (fun _ => 1 / 2) 1).with_light_rng r)
        samplePixel).comp 0 = 0) ∧
    (∑ k in Finset.range 3, (restir_di_light_contribution
        (sampleScene (fun _ => (1 / 1000 : ℝ)) (fun _ => 1 / 2) 1) samplePixel
        (restir_di_list_light (sampleScene (fun _ => (1 / 1000 : ℝ)) (fun _ => 1 / 2) 1) 0 k)
        ⟨1 / 2, 1 / 2⟩).comp 0 = 1 / 1000) ∧
    restir_di_light_contribution (sampleEnv (fun _ => 1 / 1000) (fun _ => 1 / 2) 1) sampleInp 1
      ⟨1 / 2, 1 / 2⟩ = ⟨1 / 3000, 1 / 3000, 1 / 3000⟩ ∧
    restir_di_contribution
      ((sampleEnv (fun _ => 1 / 1000) (fun _ => 1 / 2) 1).with_light_rng (1 / 2)) sampleInp =
        ⟨0, 0, 0⟩ ∧
    (restir_di_pass ((sampleEnv (fun _ => 1 / 1000) (fun _ => 1 / 2) 1).with_light_rng (1 / 2))
        sampleInp).out.diffuse = ⟨0, 0, 0⟩ := by
  refine ⟨sample_no_temporal _ _ _, sample_no_spatial _ _ _, sample_N _ _ _,
    sample_light_count _ _ _, ?_, ?_, by decide!, by decide!, by decide!⟩
  · rw [expected_contribution (sampleScene (fun _ => (1 / 1000 : ℝ)) (fun _ => 1 / 2) 1)
      samplePixel (sample_no_temporal _ _ _) (sample_no_spatial _ _ _) (sample_N _ _ _) rfl
      (by decide) (show 3 * 0 ≤ 3 * (0 + 1) by decide) (show 3 * (0 + 1) < 2 ^ 32 by decide)
      (by
        intro i h1 h2
        have h2' : i < 3 * (0 + 1) := h2
        show i < 4096
        omega)
      (show (1 / 2 : ℝ) < 1 by norm_num) 0]
    apply Finset.sum_eq_zero
    intro k hk
    have hc : (samplePixel : Inp ℝ).cluster_idx = 0 := rfl
    rw [hc, sample_light_count] at hk
    have hk3 : k < 3 := Finset.mem_range.mp hk
    rw [hc, sample_list_light,
      sample_weight _ _ _ k _ hk3 (by norm_num) (by norm_num), if_neg (by norm_num), zero_mul]
  · simp only [sample_list_light]
    rw [Finset.sum_range_succ, Finset.sum_range_succ, Finset.sum_range_one,
      sample_light_contribution _ _ _ 0 _ (by norm_num) (by norm_num) (by norm_num),
      sample_light_contribution _ _ _ 1 _ (by norm_num) (by norm_num) (by norm_num),
      sample_light_contribution _ _ _ 2 _ (by norm_num) (by norm_num) (by norm_num)]
    simp only [Vec3.comp]
    norm_num

/-! ### Weighted reservoir sampling of the accepted candidates -/

theorem fold_accepted_w_sum (c : Nat → Candidate α) (u : Nat → α) (n : Nat) :
    (restir_di_fold_accepted c u n).w_sum = running_sum c n := by
  induction n with
  | zero => simp [restir_di_fold_accepted, running_sum, St.init]
  | succ n ih =>
    have h : (restir_di_fold_accepted c u (n + 1)).w_sum =
        (restir_di_fold_accepted c u n).w_sum + (c n).p_hat := by
      show (restir_di_fold_candidate _ _ _ _ _ _).w_sum = _
      unfold restir_di_fold_candidate
      simp only []
      split_ifs <;> rfl
    rw [h, ih, running_sum, running_sum, Finset.sum_range_succ]

theorem fold_accepted_rng_calls (c : Nat → Candidate α) (u : Nat → α) (n : Nat) :
    (restir_di_fold_accepted c u n).rng_calls = 0 := by
  induction n with
  | zero => rfl
  | succ n ih =>
    have h : (restir_di_fold_accepted c u (n + 1)).rng_calls =
        (restir_di_fold_accepted c u n).rng_calls := by
      show (restir_di_fold_candidate _ _ _ _ _ _).rng_calls = _
      unfold restir_di_fold_candidate
      simp only []
      split_ifs <;> rfl
    rw [h, ih]

theorem fold_candidate_rng_calls (st : St α) (k : Nat) (kind : Nat) (p_hat : α) (light_id : Nat)
    (y_pos : Vec2 α) (u : α) :
    restir_di_fold_candidate { st with rng_calls := k } kind p_hat light_id y_pos u =
      { restir_di_fold_candidate st kind p_hat light_id y_pos u with rng_calls := k } := by
  unfold restir_di_fold_candidate
  simp only []
  split_ifs <;> rfl

/-- When every iteration is accepted, the loop of the generator folds the
candidates of its iterations, each with the fourth random number of its
iteration. -/
theorem iterate_eq_fold_accepted (env : Env α) (inp : Inp α) (c : Nat → Candidate α) (n : Nat)
    (hacc : ∀ j, j < n → restir_di_iter_candidate env inp j = some (c j)) :
    (restir_di_candidate_iter env inp)^[n] St.init =
      { restir_di_fold_accepted c (fun j => env.rng (4 * j + 3)) n with rng_calls := 4 * n } := by
  induction n with
  | zero => rfl
  | succ n ih =>
    rw [Function.iterate_succ_apply', ih (fun j hj => hacc j (Nat.lt_succ_of_lt hj))]
    have hj := hacc n (Nat.lt_succ_self n)
    unfold restir_di_iter_candidate at hj
    unfold restir_di_candidate_iter
    simp only []
    cases hp : restir_di_pick_polygonal_light_uniform env inp.cluster_idx (env.rng (4 * n)) with
    | none => rw [hp] at hj; exact absurd hj (by simp)
    | some l =>
      rw [hp] at hj
      simp only [] at hj
      cases he : restir_di_evaluate_polygonal_unshadowed env inp l
          ⟨env.rng (4 * n + 1), env.rng (4 * n + 2)⟩ with
      | none => rw [he] at hj; exact absurd hj (by simp)
      | some p =>
        rw [he] at hj
        simp only [Option.some.injEq] at hj
        simp only [he]
        rw [fold_candidate_rng_calls]
        have e : restir_di_fold_accepted c (fun j => env.rng (4 * j + 3)) (n + 1) =
            restir_di_fold_candidate (restir_di_fold_accepted c (fun j => env.rng (4 * j + 3)) n)
              RESTIR_DI_KIND_POLYGONAL (c n).p_hat (c n).light_id (c n).y_pos
              (env.rng (4 * n + 3)) := rfl
        rw [e, ← hj]
        rfl

theorem running_sum_succ (c : Nat → Candidate α) (k : Nat) :
    running_sum c (k + 1) = running_sum c k + (c k).p_hat := by
  unfold running_sum
  rw [Finset.sum_range_succ]

/-- With a positive weight and a running sum of at least `1e-6` the
replacement test of line 1649 is `u < w / w_sum`. -/
theorem replace_test_iff (c : Nat → Candidate α) (u : Nat → α) (k : Nat)
    (hw : (c k).p_hat > 0) (hS : 1 / 1000000 ≤ running_sum c (k + 1)) :
    ((c k).p_hat > 0 ∧ u k < (c k).p_hat /
        max ((restir_di_fold_accepted c u k).w_sum + (c k).p_hat) (1 / 1000000)) ↔
      u k < (c k).p_hat / running_sum c (k + 1) := by
  rw [fold_accepted_w_sum, ← running_sum_succ, max_eq_left hS]
  exact ⟨fun h => h.2, fun h => ⟨hw, h⟩⟩

theorem fold_accepted_replace (c : Nat → Candidate α) (u : Nat → α) (k : Nat)
    (h : (c k).p_hat > 0 ∧ u k < (c k).p_hat /
        max ((restir_di_fold_accepted c u k).w_sum + (c k).p_hat) (1 / 1000000)) :
    (restir_di_fold_accepted c u (k + 1)).selected_kind = RESTIR_DI_KIND_POLYGONAL ∧
    (restir_di_fold_accepted c u (k + 1)).selected_p_hat = (c k).p_hat ∧
    (restir_di_fold_accepted c u (k + 1)).selected_light_id = (c k).light_id ∧
    (restir_di_fold_accepted c u (k + 1)).selected_y_pos = (c k).y_pos ∧
    restir_di_held c u (k + 1) = some k := by
  have e : restir_di_fold_accepted c u (k + 1) =
      restir_di_fold_candidate (restir_di_fold_accepted c u k) RESTIR_DI_KIND_POLYGONAL
        (c k).p_hat (c k).light_id (c k).y_pos (u k) := rfl
  have e2 : restir_di_held c u (k + 1) = if (c k).p_hat > 0 ∧ u k < (c k).p_hat /
        max ((restir_di_fold_accepted c u k).w_sum + (c k).p_hat) (1 / 1000000) then some k
      else restir_di_held c u k := rfl
  rw [e, e2, if_pos h]
  unfold restir_di_fold_candidate
  simp only []
  rw [if_pos h]
  exact ⟨rfl, rfl, rfl, rfl, trivial⟩

theorem fold_accepted_keep (c : Nat → Candidate α) (u : Nat → α) (k : Nat)
    (h : ¬ ((c k).p_hat > 0 ∧ u k < (c k).p_hat /
        max ((restir_di_fold_accepted c u k).w_sum + (c k).p_hat) (1 / 1000000))) :
    (restir_di_fold_accepted c u (k + 1)).selected_kind =
      (restir_di_fold_accepted c u k).selected_kind ∧
    (restir_di_fold_accepted c u (k + 1)).selected_p_hat =
      (restir_di_fold_accepted c u k).selected_p_hat ∧
    (restir_di_fold_accepted c u (k + 1)).selected_light_id =
      (restir_di_fold_accepted c u k).selected_light_id ∧
    (restir_di_fold_accepted c u (k + 1)).selected_y_pos =
      (restir_di_fold_accepted c u k).selected_y_pos ∧
    restir_di_held c u (k + 1) = restir_di_held c u k := by
  have e : restir_di_fold_accepted c u (k + 1) =
      restir_di_fold_candidate (restir_di_fold_accepted c u k) RESTIR_DI_KIND_POLYGONAL
        (c k).p_hat (c k).light_id (c k).y_pos (u k) := rfl
  have e2 : restir_di_held c u (k + 1) = if (c k).p_hat > 0 ∧ u k < (c k).p_hat /
        max ((restir_di_fold_accepted c u k).w_sum + (c k).p_hat) (1 / 1000000) then some k
      else restir_di_held c u k := rfl
  rw [e, e2, if_neg h]
  unfold restir_di_fold_candidate
  simp only []
  rw [if_neg h]
  exact ⟨rfl, rfl, rfl, rfl, trivial⟩

/-- The held index names the candidate whose sample the reservoir holds. -/
theorem held_sample (c : Nat → Candidate α) (u : Nat → α) (n i : Nat)
    (h : restir_di_held c u n = some i) :
    i < n ∧
    (restir_di_fold_accepted c u n).selected_kind = RESTIR_DI_KIND_POLYGONAL ∧
    (restir_di_fold_accepted c u n).selected_p_hat = (c i).p_hat ∧
    (restir_di_fold_accepted c u n).selected_light_id = (c i).light_id ∧
    (restir_di_fold_accepted c u n).selected_y_pos = (c i).y_pos := by
  induction n with
  | zero => exact absurd h (by simp [restir_di_held])
  | succ n ih =>
    by_cases ht : (c n).p_hat > 0 ∧ u n < (c n).p_hat /
        max ((restir_di_fold_accepted c u n).w_sum + (c n).p_hat) (1 / 1000000)
    · obtain ⟨h1, h2, h3, h4, h5⟩ := fold_accepted_replace c u n ht
      rw [h5, Option.some.injEq] at h
      subst h
      exact ⟨Nat.lt_succ_self _, h1, h2, h3, h4⟩
    · obtain ⟨h1, h2, h3, h4, h5⟩ := fold_accepted_keep c u n ht
      rw [h5] at h
      obtain ⟨g0, g1, g2, g3, g4⟩ := ih h
      exact ⟨Nat.lt_succ_of_lt g0, h1.trans g1, h2.trans g2, h3.trans g3, h4.trans g4⟩

/-- Candidate `i` is held after `n` candidates exactly when it passed the
replacement test and no later candidate did. -/
theorem held_iff (c : Nat → Candidate α) (u : Nat → α) (n i : Nat)
    (hw : ∀ k, k < n → (c k).p_hat > 0)
    (hS : ∀ k, k < n → 1 / 1000000 ≤ running_sum c (k + 1)) (hi : i < n) :
    restir_di_held c u n = some i ↔
      u i < (c i).p_hat / running_sum c (i + 1) ∧
      ∀ j, i < j → j < n → (c j).p_hat / running_sum c (j + 1) ≤ u j := by
  induction n with
  | zero => exact absurd hi (Nat.not_lt_zero _)
  | succ n ih =>
    have hwn := hw n (Nat.lt_succ_self n)
    have hSn := hS n (Nat.lt_succ_self n)
    have htest := replace_test_iff c u n hwn hSn
    by_cases ht : (c n).p_hat > 0 ∧ u n < (c n).p_hat /
        max ((restir_di_fold_accepted c u n).w_sum + (c n).p_hat) (1 / 1000000)
    · rw [(fold_accepted_replace c u n ht).2.2.2.2, Option.some.injEq]
      constructor
      · intro h
        subst h
        exact ⟨htest.mp ht, fun j h1 h2 => absurd h2 (by omega)⟩
      · rintro ⟨_, h2⟩
        by_contra hne
        have hlt : i < n := by omega
        exact absurd (htest.mp ht) (not_lt.mpr (h2 n hlt (Nat.lt_succ_self n)))
    · rw [(fold_accepted_keep c u n ht).2.2.2.2]
      have hnt : ¬ (u n < (c n).p_hat / running_sum c (n + 1)) := fun h => ht (htest.mpr h)
      by_cases hin : i = n
      · subst hin
        constructor
        · intro h
          exact absurd (held_sample c u i i h).1 (lt_irrefl _)
        · rintro ⟨h1, _⟩
          exact absurd h1 hnt
      · have hlt : i < n := by omega
        rw [ih (fun k hk => hw k (Nat.lt_succ_of_lt hk)) (fun k hk => hS k (Nat.lt_succ_of_lt hk))
          hlt]
        constructor
        · rintro ⟨h1, h2⟩
          refine ⟨h1, fun j hj1 hj2 => ?_⟩
          by_cases hjn : j = n
          · subst hjn
            exact not_lt.mp hnt
          · exact h2 j hj1 (by omega)
        · rintro ⟨h1, h2⟩
          exact ⟨h1, fun j hj1 hj2 => h2 j hj1 (Nat.lt_succ_of_lt hj2)⟩

/-- The telescoping product of the claim:
`(w_i / S_i) * prod_(i < j < n) (1 - w_j / S_j) = w_i / S_n`. -/
theorem wrs_product (c : Nat → Candidate α) (n i : Nat)
    (hw : ∀ k, k < n → (c k).p_hat > 0) (hi : i < n) :
    (c i).p_hat / running_sum c (i + 1) *
        ∏ j in Finset.Ioo i n, (1 - (c j).p_hat / running_sum c (j + 1)) =
      (c i).p_hat / running_sum c n := by
  have hpos : ∀ k, k < n → 0 < running_sum c (k + 1) := by
    intro k hk
    induction k with
    | zero =>
      rw [running_sum_succ]
      have : running_sum c 0 = 0 := by simp [running_sum]
      rw [this, zero_add]
      exact hw 0 hk
    | succ k ih =>
      rw [running_sum_succ]
      exact add_pos (ih (Nat.lt_of_succ_lt hk)) (hw _ hk)
  induction n with
  | zero => exact absurd hi (Nat.not_lt_zero _)
  | succ n ih =>
    by_cases hin : i = n
    · subst hin
      have : Finset.Ioo i (i + 1) = ∅ := by
        ext x
        simp only [Finset.mem_Ioo, Finset.not_mem_empty, iff_false, not_and, not_lt]
        omega
      rw [this, Finset.prod_empty, mul_one]
    · have hlt : i < n := by omega
      have hsplit : Finset.Ioo i (n + 1) = insert n (Finset.Ioo i n) := by
        ext x
        simp only [Finset.mem_Ioo, Finset.mem_insert]
        omega
      have hnot : n ∉ Finset.Ioo i n := by simp
      rw [hsplit, Finset.prod_insert hnot, mul_left_comm,
        ih (fun k hk => hw k (Nat.lt_succ_of_lt hk)) hlt
          (fun k hk => hpos k (Nat.lt_succ_of_lt hk))]
      have h1 : 0 < running_sum c (n + 1) := hpos n (Nat.lt_succ_self n)
      have h2 : 0 < running_sum c n := by
        obtain ⟨m, rfl⟩ : ∃ m, n = m + 1 := ⟨n - 1, by omega⟩
        exact hpos m (by omega)
      have h3 : running_sum c (n + 1) = running_sum c n + (c n).p_hat := running_sum_succ c n
      field_simp
      rw [h3]
      ring

theorem running_sum_pos (c : Nat → Candidate α) (n k : Nat)
    (hw : ∀ k, k < n → (c k).p_hat > 0) (hk : k < n) : 0 < running_sum c (k + 1) := by
  induction k with
  | zero =>
    rw [running_sum_succ]
    have : running_sum c 0 = 0 := by simp [running_sum]
    rw [this, zero_add]
    exact hw 0 hk
  | succ k ih =>
    rw [running_sum_succ]
    exact add_pos (ih (Nat.lt_of_succ_lt hk)) (hw _ hk)

theorem weight_le_running_sum (c : Nat → Candidate α) (n k : Nat)
    (hw : ∀ k, k < n → (c k).p_hat > 0) (hk : k < n) :
    (c k).p_hat / running_sum c (k + 1) ≤ 1 := by
  rw [div_le_one (running_sum_pos c n k hw hk), running_sum_succ]
  rcases Nat.eq_zero_or_pos k with h0 | h0
  · subst h0
    simp [running_sum]
  · obtain ⟨m, rfl⟩ : ∃ m, k = m + 1 := ⟨k - 1, by omega⟩
    have := running_sum_pos c n m hw (by omega)
    linarith

/-- When every iteration is accepted, the generator holds the reservoir of
the fold of the candidates of its iterations. -/
theorem generate_eq_fold_accepted (env : Env α) (inp : Inp α) (c : Nat → Candidate α)
    (hpoly : inp.enable_polygonal = true)
    (hacc : ∀ j, j < (restir_di_N env).toNat → restir_di_iter_candidate env inp j = some (c j)) :
    restir_di_generate env inp =
      { restir_di_fold_accepted c (fun j => env.rng (4 * j + 3)) (restir_di_N env).toNat with
        rng_calls := 4 * (restir_di_N env).toNat } := by
  unfold restir_di_generate
  simp only [enable_sun, Bool.false_eq_true, if_false, hpoly, if_true]
  exact iterate_eq_fold_accepted env inp c _ hacc

/-- The widths of the box of the resampling numbers for which candidate `i`
is held multiply to `w_i / S_n`. -/
theorem wrs_box_product (c : Nat → Candidate ℝ) (n i : Nat)
    (hw : ∀ k, k < n → (c k).p_hat > 0) (hi : i < n) :
    ∏ k in Finset.range n,
        ((if k = i then (c i).p_hat / running_sum c (i + 1) else 1) -
          (if i < k then (c k).p_hat / running_sum c (k + 1) else 0)) =
      (c i).p_hat / running_sum c n := by
  induction n with
  | zero => exact absurd hi (Nat.not_lt_zero _)
  | succ n ih =>
    rw [Finset.prod_range_succ]
    by_cases hin : i = n
    · subst hin
      have h1 : ∏ k in Finset.range i,
          ((if k = i then (c i).p_hat / running_sum c (i + 1) else 1) -
            (if i < k then (c k).p_hat / running_sum c (k + 1) else 0)) = 1 := by
        apply Finset.prod_eq_one
        intro k hk
        have hk' : k < i := Finset.mem_range.mp hk
        rw [if_neg (by omega), if_neg (by omega), sub_zero]
      rw [h1, one_mul, if_pos rfl, if_neg (lt_irrefl _), sub_zero]
    · have hlt : i < n := by omega
      rw [ih (fun k hk => hw k (Nat.lt_succ_of_lt hk)) hlt, if_neg (by omega), if_pos hlt]
      have h1 : 0 < running_sum c (n + 1) := running_sum_pos c (n + 1) n hw (Nat.lt_succ_self n)
      have h2 : 0 < running_sum c n := by
        obtain ⟨m, rfl⟩ : ∃ m, n = m + 1 := ⟨n - 1, by omega⟩
        exact running_sum_pos c (m + 2) m hw (by omega)
      have h3 : running_sum c (n + 1) = running_sum c n + (c n).p_hat := running_sum_succ c n
      field_simp
      rw [h3]
      ring

/-- The probability, over independent uniform resampling numbers in `[0, 1)`,
that candidate `i` is the finally held sample is `w_i / S_n`. -/
theorem held_volume (c : Nat → Candidate ℝ) (n i : Nat)
    (hw : ∀ k, k < n → (c k).p_hat > 0)
    (hS : ∀ k, k < n → 1 / 1000000 ≤ running_sum c (k + 1)) (hi : i < n) :
    volume {u : Fin n → ℝ | (∀ k, 0 ≤ u k ∧ u k < 1) ∧
        restir_di_held c (extend_fin u) n = some i} =
      ENNReal.ofReal ((c i).p_hat / running_sum c n) := by
  have hbox : {u : Fin n → ℝ | (∀ k, 0 ≤ u k ∧ u k < 1) ∧
        restir_di_held c (extend_fin u) n = some i} =
      Set.pi Set.univ (fun k : Fin n =>
        Set.Ico (if i < k.val then (c k.val).p_hat / running_sum c (k.val + 1) else 0)
          (if k.val = i then (c i).p_hat / running_sum c (i + 1) else 1)) := by
    ext u
    have hext : ∀ k (hk : k < n), extend_fin u k = u ⟨k, hk⟩ := by
      intro k hk
      unfold extend_fin
      rw [dif_pos hk]
    simp only [Set.mem_setOf_eq, Set.mem_pi, Set.mem_univ, true_implies, Set.mem_Ico]
    rw [held_iff c (extend_fin u) n i hw hS hi, hext i hi]
    constructor
    · rintro ⟨hcube, h1, h2⟩ k
      by_cases hki : k.val = i
      · rw [if_neg (by omega), if_pos hki]
        have : k = ⟨i, hi⟩ := Fin.ext hki
        rw [this]
        exact ⟨(hcube _).1, h1⟩
      · rw [if_neg hki]
        by_cases hik : i < k.val
        · rw [if_pos hik]
          have := h2 k.val hik k.isLt
          rw [hext k.val k.isLt] at this
          exact ⟨this, (hcube k).2⟩
        · rw [if_neg hik]
          exact hcube k
    · intro h
      refine ⟨fun k => ?_, ?_, fun j hj1 hj2 => ?_⟩
      · have hk := h k
        by_cases hki : k.val = i
        · rw [if_neg (by omega), if_pos hki] at hk
          exact ⟨hk.1, lt_of_lt_of_le hk.2 (weight_le_running_sum c n i hw hi)⟩
        · rw [if_neg hki] at hk
          by_cases hik : i < k.val
          · rw [if_pos hik] at hk
            refine ⟨le_trans ?_ hk.1, hk.2⟩
            exact div_nonneg (hw k.val k.isLt).le (running_sum_pos c n k.val hw k.isLt).le
          · rw [if_neg hik] at hk
            exact hk
      · have hk := h ⟨i, hi⟩
        simp only [lt_irrefl, if_false, if_true] at hk
        exact hk.2
      · have hk := h ⟨j, hj2⟩
        simp only [hj1, if_true] at hk
        rw [hext j hj2]
        exact hk.1
  rw [hbox, Real.volume_pi_Ico, ← ENNReal.ofReal_prod_of_nonneg]
  · congr 1
    rw [← wrs_box_product c n i hw hi]
    exact Fin.prod_univ_eq_prod_range (fun k =>
      (if k = i then (c i).p_hat / running_sum c (i + 1) else 1) -
        (if i < k then (c k).p_hat / running_sum c (k + 1) else 0)) n
  · intro k _
    by_cases hki : k.val = i
    · rw [if_pos hki, if_neg (by omega), sub_zero]
      exact div_nonneg (hw i hi).le (running_sum_pos c n i hw hi).le
    · rw [if_neg hki]
      by_cases hik : i < k.val
      · rw [if_pos hik, sub_nonneg]
        exact weight_le_running_sum c n k.val hw k.isLt
      · rw [if_neg hik, sub_zero]
        exact zero_le_one

theorem sampleCandidates_pos (k : Nat) : (sampleCandidates k : Candidate ℝ).p_hat > 0 := by
  show (if k = 0 then (2 : ℝ) else 3) > 0
  split_ifs <;> norm_num

theorem sampleCandidates_sum (k : Nat) :
    1 / 1000000 ≤ running_sum (sampleCandidates : Nat → Candidate ℝ) (k + 1) := by
  induction k with
  | zero =>
    rw [running_sum_succ]
    simp only [running_sum, Finset.range_zero, Finset.sum_empty, zero_add]
    show (1 : ℝ) / 1000000 ≤ if 0 = 0 then (2 : ℝ) else 3
    norm_num
  | succ k ih =>
    rw [running_sum_succ]
    have := sampleCandidates_pos (k + 1)
    linarith

/-- C1: weighted reservoir sampling of the candidate generator.  For accepted
candidates `c 0 .. c (n - 1)` with positive weights `w_k = p_hat_k` whose
running sums `S_k = w_0 + ... + w_k` are at least `1e-6`: the generator, when
all its iterations are accepted, holds the fold of these candidates; candidate
`k` replaces the held sample exactly when `u_k < w_k / S_k`; the held index
names the held sample; the probability over independent uniform numbers
`u_0 .. u_(n-1)` in `[0, 1)` that candidate `i` is finally held is
`w_i / S_(n-1)`; and `(w_i / S_i) * prod_(j > i) (1 - w_j / S_j)` is this
value. -/
theorem C1_weighted_reservoir_sampling (c : Nat → Candidate ℝ) (n : Nat)
    (hw : ∀ k, k < n → (c k).p_hat > 0)
    (hS : ∀ k, k < n → 1 / 1000000 ≤ running_sum c (k + 1)) :
    (∀ (env : Env ℝ) (inp : Inp ℝ), inp.enable_polygonal = true →
      (restir_di_N env).toNat = n →
      (∀ j, j < n → restir_di_iter_candidate env inp j = some (c j)) →
      restir_di_generate env inp =
        { restir_di_fold_accepted c (fun j => env.rng (4 * j + 3)) n with rng_calls := 4 * n }) ∧
    (∀ (u : Nat → ℝ) (k : Nat), k < n →
      (restir_di_fold_accepted c u (k + 1)).w_sum = running_sum c (k + 1) ∧
      (u k < (c k).p_hat / running_sum c (k + 1) →
        (restir_di_fold_accepted c u (k + 1)).selected_kind = RESTIR_DI_KIND_POLYGONAL ∧
        (restir_di_fold_accepted c u (k + 1)).selected_p_hat = (c k).p_hat ∧
        (restir_di_fold_accepted c u (k + 1)).selected_light_id = (c k).light_id ∧
        (restir_di_fold_accepted c u (k + 1)).selected_y_pos = (c k).y_pos ∧
        restir_di_held c u (k + 1) = some k) ∧
      (¬ u k < (c k).p_hat / running_sum c (k + 1) →
        (restir_di_fold_accepted c u (k + 1)).selected_kind =
          (restir_di_fold_accepted c u k).selected_kind ∧
        (restir_di_fold_accepted c u (k + 1)).selected_p_hat =
          (restir_di_fold_accepted c u k).selected_p_hat ∧
        (restir_di_fold_accepted c u (k + 1)).selected_light_id =
          (restir_di_fold_accepted c u k).selected_light_id ∧
        (restir_di_fold_accepted c u (k + 1)).selected_y_pos =
          (restir_di_fold_accepted c u k).selected_y_pos ∧
        restir_di_held c u (k + 1) = restir_di_held c u k)) ∧
    (∀ (u : Nat → ℝ) (i : Nat), restir_di_held c u n = some i →
      i < n ∧
      (restir_di_fold_accepted c u n).selected_kind = RESTIR_DI_KIND_POLYGONAL ∧
      (restir_di_fold_accepted c u n).selected_p_hat = (c i).p_hat ∧
      (restir_di_fold_accepted c u n).selected_light_id = (c i).light_id ∧
      (restir_di_fold_accepted c u n).selected_y_pos = (c i).y_pos) ∧
    (∀ i, i < n →
      volume {u : Fin n → ℝ | (∀ k, 0 ≤ u k ∧ u k < 1) ∧
          restir_di_held c (extend_fin u) n = some i} =
        ENNReal.ofReal ((c i).p_hat / running_sum c n)) ∧
    (∀ i, i < n →
      (c i).p_hat / running_sum c (i + 1) *
          ∏ j in Finset.Ioo i n, (1 - (c j).p_hat / running_sum c (j + 1)) =
        (c i).p_hat / running_sum c n) := by
  refine ⟨?_, ?_, ?_, ?_, ?_⟩
  · intro env inp hpoly hN hacc
    have h := generate_eq_fold_accepted env inp c hpoly (by rw [hN]; exact hacc)
    rw [hN] at h
    exact h
  · intro u k hk
    have htest := replace_test_iff c u k (hw k hk) (hS k hk)
    exact ⟨fold_accepted_w_sum c u (k + 1),
      fun h => fold_accepted_replace c u k (htest.mpr h),
      fun h => fold_accepted_keep c u k (fun ht => h (htest.mp ht))⟩
  · intro u i h
    exact held_sample c u n i h
  · intro i hi
    exact held_volume c n i hw hS hi
  · intro i hi
    exact wrs_product c n i hw hi

/-- Witness of C1: the candidates with the weights 2 and 3.  Candidate 0 is
finally held with probability `2 / 5` and candidate 1 with probability
`3 / 5`; with `u = (1/2, 1/2)` candidate 1 replaces candidate 0
(`1/2 < 3/5`), with `u = (1/2, 7/10)` candidate 0 stays. -/
theorem C1_weighted_reservoir_sampling_witness :
    volume {u : Fin 2 → ℝ | (∀ k, 0 ≤ u k ∧ u k < 1) ∧
        restir_di_held (sampleCandidates : Nat → Candidate ℝ) (extend_fin u) 2 = some 0} =
      ENNReal.ofReal (2 / 5) ∧
    volume {u : Fin 2 → ℝ | (∀ k, 0 ≤ u k ∧ u k < 1) ∧
        restir_di_held (sampleCandidates : Nat → Candidate ℝ) (extend_fin u) 2 = some 1} =
      ENNReal.ofReal (3 / 5) ∧
    restir_di_held (sampleCandidates : Nat → Candidate ℚ) (fun _ => 1 / 2) 2 = some 1 ∧
    restir_di_held (sampleCandidates : Nat → Candidate ℚ)
      (fun k => if k = 0 then 1 / 2 else 7 / 10) 2 = some 0 := by
  have h := (C1_weighted_reservoir_sampling sampleCandidates 2
    (fun k _ => sampleCandidates_pos k) (fun k _ => sampleCandidates_sum k)).2.2.2.1
  have hsum : running_sum (sampleCandidates : Nat → Candidate ℝ) 2 = 5 := by
    rw [running_sum_succ, running_sum_succ]
    simp only [running_sum, Finset.range_zero, Finset.sum_empty, zero_add]
    show (if 0 = 0 then (2 : ℝ) else 3) + (if 1 = 0 then (2 : ℝ) else 3) = 5
    norm_num
  have h0 := h 0 (by norm_num)
  have h1 := h 1 (by norm_num)
  rw [hsum] at h0 h1
  have e0 : (sampleCandidates 0 : Candidate ℝ).p_hat = 2 := by
    show (if 0 = 0 then (2 : ℝ) else 3) = 2
    norm_num
  have e1 : (sampleCandidates 1 : Candidate ℝ).p_hat = 3 := by
    show (if 1 = 0 then (2 : ℝ) else 3) = 3
    norm_num
  rw [e0] at h0
  rw [e1] at h1
  exact ⟨h0, h1, by decide!, by decide!⟩

/-! ### The visibility guard of spatial reuse -/

/-- Evaluation at a history that holds reservoirs of kind sun, which the pass
itself never writes (`enable_sun` is false and a reused sample keeps the kind
of its slot).  Spatial reuse is on with `K = 1`, every shadow ray is occluded
(the oracle returns 0), and the history holds at every pixel a sun reservoir
with `W = 1`, `M = 1`.  The neighbour `(1, 1)` passes loading and
re-evaluation with `p_hat = 1/3`, the guard of lines 1997-2011 is entered for
the kind polygonal only, and the reservoir is folded: `M` goes from 1 to 2,
`w_sum` from 2 to `2 + 1/3`, and the accumulators of `piSum` from 0 to 1 and
`1/3`. -/
theorem sun_slot_neighbour_folded :
    (∀ r m, (sunEnv (fun _ => 2) (fun _ => 1 / 2) 0 2 (1006648320, 0) 0 1
      ⟨0, 0, 1⟩ ⟨0, 0, 1⟩).trace_shadow_ray r m = 0) ∧
    restir_di_reproject (sunEnv (fun _ => 2) (fun _ => 1 / 2) 0 2 (1006648320, 0) 0 1
      ⟨0, 0, 1⟩ ⟨0, 0, 1⟩) sampleInp = (true, ⟨0, 0⟩) ∧
    restir_di_neighbor (sunEnv (fun _ => 2) (fun _ => 1 / 2) 0 2 (1006648320, 0) 0 1
      ⟨0, 0, 1⟩ ⟨0, 0, 1⟩) sampleInp ⟨0, 0⟩ 4 0 = some ⟨1, 1⟩ ∧
    restir_di_load_prev (sunEnv (fun _ => 2) (fun _ => 1 / 2) 0 2 (1006648320, 0) 0 1
      ⟨0, 0, 1⟩ ⟨0, 0, 1⟩) ⟨1, 1⟩ 0 = some ⟨RESTIR_DI_KIND_SUN, 0, 1, 1, ⟨0, 0⟩⟩ ∧
    restir_di_reevaluate (sunEnv (fun _ => 2) (fun _ => 1 / 2) 0 2 (1006648320, 0) 0 1
      ⟨0, 0, 1⟩ ⟨0, 0, 1⟩) sampleInp ⟨RESTIR_DI_KIND_SUN, 0, 1, 1, ⟨0, 0⟩⟩ = some (1 / 3) ∧
    (restir_di_shade_sun_sample (sunEnv (fun _ => 2) (fun _ => 1 / 2) 0 2 (1006648320, 0) 0 1
      ⟨0, 0, 1⟩ ⟨0, 0, 1⟩) sampleInp ⟨0, 0⟩).out_visibility = 0 ∧
    (restir_di_generate (sunEnv (fun _ => 2) (fun _ => 1 / 2) 0 2 (1006648320, 0) 0 1
      ⟨0, 0, 1⟩ ⟨0, 0, 1⟩) sampleInp).M = 1 ∧
    (restir_di_generate (sunEnv (fun _ => 2) (fun _ => 1 / 2) 0 2 (1006648320, 0) 0 1
      ⟨0, 0, 1⟩ ⟨0, 0, 1⟩) sampleInp).w_sum = 2 ∧
    (restir_di_resample (sunEnv (fun _ => 2) (fun _ => 1 / 2) 0 2 (1006648320, 0) 0 1
      ⟨0, 0, 1⟩ ⟨0, 0, 1⟩) sampleInp).M = 2 ∧
    (restir_di_resample (sunEnv (fun _ => 2) (fun _ => 1 / 2) 0 2 (1006648320, 0) 0 1
      ⟨0, 0, 1⟩ ⟨0, 0, 1⟩) sampleInp).w_sum = 2 + 1 / 3 ∧
    (restir_di_resample (sunEnv (fun _ => 2) (fun _ => 1 / 2) 0 2 (1006648320, 0) 0 1
      ⟨0, 0, 1⟩ ⟨0, 0, 1⟩) sampleInp).m_spatial_considered = 1 ∧
    (restir_di_resample (sunEnv (fun _ => 2) (fun _ => 1 / 2) 0 2 (1006648320, 0) 0 1
      ⟨0, 0, 1⟩ ⟨0, 0, 1⟩) sampleInp).p_hat_at_spatial_sum = 1 / 3 :=
  ⟨fun _ _ => rfl, by decide!, by decide!, by decide!, by decide!, by decide!, by decide!,
    by decide!, by decide!, by decide!, by decide!, by decide!⟩

/-! ### The check of the winning source -/

theorem W_uncapped_of_pi_zero (st : St α) (Mc : Int) (sp : α)
    (h : restir_di_pi st sp = 0) : restir_di_W_uncapped st Mc sp = 0 := by
  unfold restir_di_W_uncapped
  simp only [h, mul_zero, zero_div, ite_self]

theorem vec3_clamp_zero (hi : α) (h : 0 ≤ hi) : (Vec3.splat (0 : α)).clamp 0 hi = Vec3.splat 0 := by
  simp [Vec3.clamp, Vec3.splat, glsl_clamp, h]

/-- With `W = 0` the pass returns no radiance and, the luminance of black
being 0, stores the empty slot. -/
theorem final_of_W_zero (env : Env α) (inp : Inp α) (Mc : Int) (st : St α)
    (hlum : env.luminance (Vec3.splat 0) ≤ 0)
    (hW : restir_di_cap_W env
      (restir_di_W_uncapped st Mc (restir_di_validate_source env inp st)) = 0) :
    (restir_di_final env inp Mc st).store = none ∧
    (restir_di_final env inp Mc st).out.diffuse = Vec3.splat 0 ∧
    (restir_di_final env inp Mc st).out.specular = Vec3.splat 0 ∧
    (restir_di_final env inp Mc st).out.out_restir_id_packed = 0 ∧
    (restir_di_final env inp Mc st).out.out_restir_res_packed = (0, 0) := by
  have hmax : (0 : α) ≤ (MAX_OUTPUT_VALUE : α) := Nat.cast_nonneg _
  have hadd : (Vec3.splat (0 : α)).add (Vec3.splat 0) = Vec3.splat 0 := by
    simp [Vec3.add, Vec3.splat]
  unfold restir_di_final
  simp only [hW, vec3_scale_zero, vec3_clamp_zero _ hmax, hadd, if_neg (not_lt.mpr hlum)]
  split_ifs <;> simp [Out.zero]

/-- Evaluation at a history that holds reservoirs of kind sun, which the pass
itself never writes: temporal reuse on, the history holds a
sun reservoir (`W = 1`, `M = 1`), the sun stands in the direction
`(40/41, 0, 9/41)`, the current surface has the normal `(0, 0, 1)` and the
source surface the geometric normal `(-7/25, 0, 24/25)`, every ray is
unoccluded.  The sun sample wins (`selected_source = 1`) and the sun is below
the horizon of the source surface, but the check of lines 2059-2106 is made
for polygonal samples only: `pi = 3/41`, `W` is not 0, radiance is returned
and a reservoir is stored. -/
theorem sun_slot_source_not_validated :
    (restir_di_resample (sunEnv (fun _ => 1 / 100) (fun _ => 1 / 2) 1 2 (1006648320, 0) 1 0
      ⟨40 / 41, 0, 9 / 41⟩ ⟨-7 / 25, 0, 24 / 25⟩) sampleInp).selected_source = 1 ∧
    (restir_di_resample (sunEnv (fun _ => 1 / 100) (fun _ => 1 / 2) 1 2 (1006648320, 0) 1 0
      ⟨40 / 41, 0, 9 / 41⟩ ⟨-7 / 25, 0, 24 / 25⟩) sampleInp).selected_kind = RESTIR_DI_KIND_SUN ∧
    (restir_di_resample (sunEnv (fun _ => 1 / 100) (fun _ => 1 / 2) 1 2 (1006648320, 0) 1 0
      ⟨40 / 41, 0, 9 / 41⟩ ⟨-7 / 25, 0, 24 / 25⟩) sampleInp).selected_source_geo_normal.dot
        (restir_di_sun_direction (sunEnv (fun _ => 1 / 100) (fun _ => 1 / 2) 1 2
          (1006648320, 0) 1 0 ⟨40 / 41, 0, 9 / 41⟩ ⟨-7 / 25, 0, 24 / 25⟩)
          (restir_di_resample (sunEnv (fun _ => 1 / 100) (fun _ => 1 / 2) 1 2 (1006648320, 0) 1 0
            ⟨40 / 41, 0, 9 / 41⟩ ⟨-7 / 25, 0, 24 / 25⟩) sampleInp).selected_y_pos)
      = -64 / 1025 ∧
    restir_di_pi (restir_di_resample (sunEnv (fun _ => 1 / 100) (fun _ => 1 / 2) 1 2
        (1006648320, 0) 1 0 ⟨40 / 41, 0, 9 / 41⟩ ⟨-7 / 25, 0, 24 / 25⟩) sampleInp)
      (restir_di_validate_source (sunEnv (fun _ => 1 / 100) (fun _ => 1 / 2) 1 2
        (1006648320, 0) 1 0 ⟨40 / 41, 0, 9 / 41⟩ ⟨-7 / 25, 0, 24 / 25⟩) sampleInp
        (restir_di_resample (sunEnv (fun _ => 1 / 100) (fun _ => 1 / 2) 1 2 (1006648320, 0) 1 0
          ⟨40 / 41, 0, 9 / 41⟩ ⟨-7 / 25, 0, 24 / 25⟩) sampleInp)) = 3 / 41 ∧
    (get_direct_illumination_restir_di (sunEnv (fun _ => 1 / 100) (fun _ => 1 / 2) 1 2
      (1006648320, 0) 1 0 ⟨40 / 41, 0, 9 / 41⟩ ⟨-7 / 25, 0, 24 / 25⟩) sampleInp).dbg_scale
      = 341 / 600 ∧
    (get_direct_illumination_restir_di (sunEnv (fun _ => 1 / 100) (fun _ => 1 / 2) 1 2
      (1006648320, 0) 1 0 ⟨40 / 41, 0, 9 / 41⟩ ⟨-7 / 25, 0, 24 / 25⟩) sampleInp).diffuse
      ≠ Vec3.splat 0 ∧
    (get_direct_illumination_restir_di (sunEnv (fun _ => 1 / 100) (fun _ => 1 / 2) 1 2
      (1006648320, 0) 1 0 ⟨40 / 41, 0, 9 / 41⟩ ⟨-7 / 25, 0, 24 / 25⟩) sampleInp).out_restir_id_packed
      = 2 :=
  ⟨by decide!, by decide!, by decide!, by decide!, by decide!, by decide!, by decide!⟩

/-! ### Empty input -/

/-- An iteration whose candidate is rejected only advances the random
stream. -/
theorem iterate_rejected (env : Env α) (inp : Inp α) (n : Nat)
    (hrej : ∀ j, j < n → restir_di_iter_candidate env inp j = none) :
    (restir_di_candidate_iter env inp)^[n] St.init =
      { (St.init : St α) with rng_calls := 4 * n } := by
  induction n with
  | zero => rfl
  | succ n ih =>
    rw [Function.iterate_succ_apply', ih (fun j hj => hrej j (Nat.lt_succ_of_lt hj))]
    have hj := hrej n (Nat.lt_succ_self n)
    unfold restir_di_iter_candidate at hj
    unfold restir_di_candidate_iter
    simp only []
    cases hp : restir_di_pick_polygonal_light_uniform env inp.cluster_idx (env.rng (4 * n)) with
    | none => rfl
    | some l =>
      rw [hp] at hj
      simp only [] at hj
      cases he : restir_di_evaluate_polygonal_unshadowed env inp l
          ⟨env.rng (4 * n + 1), env.rng (4 * n + 2)⟩ with
      | none =>
        simp only [he]
        rfl
      | some p =>
        rw [he] at hj
        exact absurd hj (by simp)

theorem pick_none_of_empty (env : Env α) (c : Nat) (r : α)
    (h : c = UINT_MAX ∨ restir_di_light_count env c = 0) :
    restir_di_pick_polygonal_light_uniform env c r = none := by
  unfold restir_di_pick_polygonal_light_uniform
  rcases h with h | h
  · rw [if_pos h]
  · split_ifs
    · rfl
    · simp only [h, if_true]

theorem iter_candidate_none (env : Env α) (inp : Inp α) (j : Nat)
    (h : inp.cluster_idx = UINT_MAX ∨ restir_di_light_count env inp.cluster_idx = 0 ∨
      ∀ l, restir_di_pick_polygonal_light_uniform env inp.cluster_idx (env.rng (4 * j)) = some l →
        restir_di_evaluate_polygonal_unshadowed env inp l
          ⟨env.rng (4 * j + 1), env.rng (4 * j + 2)⟩ = none) :
    restir_di_iter_candidate env inp j = none := by
  unfold restir_di_iter_candidate
  rcases h with h | h | h
  · rw [pick_none_of_empty env _ _ (Or.inl h)]
  · rw [pick_none_of_empty env _ _ (Or.inr h)]
  · cases hp : restir_di_pick_polygonal_light_uniform env inp.cluster_idx (env.rng (4 * j)) with
    | none => rfl
    | some l =>
      simp only []
      rw [h l hp]

/-- When every candidate is rejected the generator holds nothing. -/
theorem generate_of_rejected (env : Env α) (inp : Inp α)
    (hrej : ∀ j, j < (restir_di_N env).toNat → restir_di_iter_candidate env inp j = none) :
    (restir_di_generate env inp).w_sum = 0 ∧ (restir_di_generate env inp).M = 0 ∧
    (restir_di_generate env inp).selected_kind = RESTIR_DI_KIND_NONE ∧
    (restir_di_generate env inp).selected_p_hat = 0 := by
  unfold restir_di_generate
  simp only [enable_sun, Bool.false_eq_true, if_false]
  split_ifs
  · rw [iterate_rejected env inp _ hrej]
    exact ⟨rfl, rfl, rfl, rfl⟩
  · exact ⟨rfl, rfl, rfl, rfl⟩

/-- C13: when the light list of the cluster is empty, or the cluster index is
the sentinel `~0`, or every candidate that is picked evaluates to `p_hat = 0`
(the evaluation returns false), then after candidate generation `w_sum = 0`,
`M = 0` and no sample is held; and when no reused reservoir is folded the pass
returns zero diffuse and specular radiance and both packed words 0. -/
theorem C13_empty_input (env : Env α) (inp : Inp α)
    (h : inp.cluster_idx = UINT_MAX ∨ restir_di_light_count env inp.cluster_idx = 0 ∨
      ∀ j, j < (restir_di_N env).toNat → ∀ l,
        restir_di_pick_polygonal_light_uniform env inp.cluster_idx (env.rng (4 * j)) = some l →
        restir_di_evaluate_polygonal_unshadowed env inp l
          ⟨env.rng (4 * j + 1), env.rng (4 * j + 2)⟩ = none) :
    (restir_di_generate env inp).w_sum = 0 ∧
    (restir_di_generate env inp).M = 0 ∧
    (restir_di_generate env inp).selected_kind = RESTIR_DI_KIND_NONE ∧
    (restir_di_generate env inp).selected_p_hat = 0 ∧
    (restir_di_folded_sources env inp = [] →
      (get_direct_illumination_restir_di env inp).diffuse = Vec3.splat 0 ∧
      (get_direct_illumination_restir_di env inp).specular = Vec3.splat 0 ∧
      (get_direct_illumination_restir_di env inp).out_restir_id_packed = 0 ∧
      (get_direct_illumination_restir_di env inp).out_restir_res_packed = (0, 0)) := by
  have hrej : ∀ j, j < (restir_di_N env).toNat → restir_di_iter_candidate env inp j = none := by
    intro j hj
    apply iter_candidate_none
    rcases h with h | h | h
    · exact Or.inl h
    · exact Or.inr (Or.inl h)
    · exact Or.inr (Or.inr (h j hj))
  obtain ⟨h1, h2, h3, h4⟩ := generate_of_rejected env inp hrej
  refine ⟨h1, h2, h3, h4, fun hnil => ?_⟩
  have hM : (restir_di_resample env inp).M ≤ 0 := by
    rw [(resample_sums env inp).1, h2, hnil]
    simp [sources_M]
  have hpass : (restir_di_pass env inp).store = none ∧
      (restir_di_pass env inp).out.diffuse = Vec3.splat 0 ∧
      (restir_di_pass env inp).out.specular = Vec3.splat 0 ∧
      (restir_di_pass env inp).out.out_restir_id_packed = 0 ∧
      (restir_di_pass env inp).out.out_restir_res_packed = (0, 0) := by
    unfold restir_di_pass
    split_ifs
    · exact ⟨rfl, rfl, rfl, rfl, rfl⟩
    · unfold restir_di_final
      rw [if_pos (Or.inl hM)]
      exact ⟨rfl, rfl, rfl, rfl, rfl⟩
  unfold get_direct_illumination_restir_di
  rw [hpass.1]
  exact hpass.2

/-- Witness of C13: the sample scene with black lights (every candidate has
`p_hat = 0`) and the sample pixel with the sentinel cluster index; in both
the generator holds nothing and the pass returns the zero outputs. -/
theorem C13_empty_input_witness :
    (restir_di_generate (sampleEnv (fun _ => 0) (fun _ => 1 / 2) 1) sampleInp).w_sum = 0 ∧
    (restir_di_generate (sampleEnv (fun _ => 0) (fun _ => 1 / 2) 1) sampleInp).selected_kind
      = RESTIR_DI_KIND_NONE ∧
    get_direct_illumination_restir_di (sampleEnv (fun _ => 0) (fun _ => 1 / 2) 1) sampleInp
      = Out.zero ∧
    get_direct_illumination_restir_di (sampleEnv (fun _ => 2) (fun _ => 1 / 2) 1)
      { sampleInp with cluster_idx := UINT_MAX } = Out.zero := by
  have h := C13_empty_input (sampleEnv (fun _ => 0) (fun _ => 1 / 2) 1) sampleInp
    (Or.inr (Or.inr (by
      intro j hj l _
      have hj1 : j < 1 := hj
      have hj0 : j = 0 := by omega
      subst hj0
      have hl : ∀ l : Nat, restir_di_unshadowed_radiance
          (sampleEnv (fun _ => 0) (fun _ => 1 / 2) 1) sampleInp l ⟨1 / 2, 1 / 2⟩ = none ∨
          restir_di_unshadowed_radiance
          (sampleEnv (fun _ => 0) (fun _ => 1 / 2) 1) sampleInp l ⟨1 / 2, 1 / 2⟩
            = some ⟨0, 0, 0⟩ := by
        intro l
        by_cases hl3 : l < 3
        · right
          exact sample_radiance (fun _ => 0) (fun _ => 1 / 2) 1 l _ hl3 (le_refl _) (by norm_num)
        · left
          unfold restir_di_unshadowed_radiance restir_di_eval_polygonal_sample
          have hc : restir_di_cluster_contains_light (sampleEnv (fun _ => 0) (fun _ => 1 / 2) 1)
              sampleInp.cluster_idx l = false := by
            rw [Bool.eq_false_iff, ne_eq, cluster_contains_light_iff]
            rintro ⟨_, i, h1, h2, h3⟩
            have h2' : i < 3 * (0 + 1) := h2
            have h3' : i = l := h3
            omega
          simp only [hc, if_true]
          split_ifs <;> rfl
      show restir_di_evaluate_polygonal_unshadowed _ _ l ⟨1 / 2, 1 / 2⟩ = none
      unfold restir_di_evaluate_polygonal_unshadowed
      rcases hl l with h | h
      · rw [h]
      · rw [h]
        decide!)))
  exact ⟨h.1, h.2.2.1, by decide!, by decide!⟩

/-! ### The clamp of the output and of the stored count -/

theorem glsl_clamp_mem (x lo hi : α) (h : lo ≤ hi) :
    lo ≤ glsl_clamp x lo hi ∧ glsl_clamp x lo hi ≤ hi := by
  unfold glsl_clamp
  exact ⟨le_min (le_max_right _ _) h, min_le_right _ _⟩

theorem vec3_clamp_within (v : Vec3 α) (lo hi : α) (h : lo ≤ hi) :
    (v.clamp lo hi).within lo hi :=
  ⟨glsl_clamp_mem _ _ _ h, glsl_clamp_mem _ _ _ h, glsl_clamp_mem _ _ _ h⟩

theorem vec3_zero_within (hi : α) (h : 0 ≤ hi) : (Vec3.splat (0 : α)).within 0 hi :=
  ⟨⟨le_refl _, h⟩, ⟨le_refl _, h⟩, ⟨le_refl _, h⟩⟩

theorem final_within (env : Env α) (inp : Inp α) (Mc : Int) (st : St α) :
    (restir_di_final env inp Mc st).out.diffuse.within 0 (MAX_OUTPUT_VALUE : α) ∧
    (restir_di_final env inp Mc st).out.specular.within 0 (MAX_OUTPUT_VALUE : α) := by
  have hmax : (0 : α) ≤ (MAX_OUTPUT_VALUE : α) := Nat.cast_nonneg _
  unfold restir_di_final
  simp only []
  split_ifs
  · exact ⟨vec3_zero_within _ hmax, vec3_zero_within _ hmax⟩
  · exact ⟨vec3_zero_within _ hmax, vec3_zero_within _ hmax⟩
  · exact ⟨vec3_clamp_within _ _ _ hmax, vec3_clamp_within _ _ _ hmax⟩
  · exact ⟨vec3_clamp_within _ _ _ hmax, vec3_clamp_within _ _ _ hmax⟩

/-- C14: for every input, every component of the diffuse and of the specular
radiance returned by `get_direct_illumination_restir_di` lies in
`[0, MAX_OUTPUT_VALUE]`, and `MAX_OUTPUT_VALUE` is 1000. -/
theorem C14_output_clamp (env : Env α) (inp : Inp α) :
    (get_direct_illumination_restir_di env inp).diffuse.within 0 (MAX_OUTPUT_VALUE : α) ∧
    (get_direct_illumination_restir_di env inp).specular.within 0 (MAX_OUTPUT_VALUE : α) ∧
    ((MAX_OUTPUT_VALUE : Nat) : α) = 1000 := by
  have hmax : (0 : α) ≤ (MAX_OUTPUT_VALUE : α) := Nat.cast_nonneg _
  have hpass : (restir_di_pass env inp).out.diffuse.within 0 (MAX_OUTPUT_VALUE : α) ∧
      (restir_di_pass env inp).out.specular.within 0 (MAX_OUTPUT_VALUE : α) := by
    unfold restir_di_pass
    split_ifs
    · exact ⟨vec3_zero_within _ hmax, vec3_zero_within _ hmax⟩
    · exact final_within env inp _ _
  refine ⟨?_, ?_, ?_⟩
  · unfold get_direct_illumination_restir_di
    cases (restir_di_pass env inp).store with
    | none => exact hpass.1
    | some a => exact hpass.1
  · unfold get_direct_illumination_restir_di
    cases (restir_di_pass env inp).store with
    | none => exact hpass.2
    | some a => exact hpass.2
  · simp [MAX_OUTPUT_VALUE]

theorem final_store_M (env : Env α) (inp : Inp α) (Mc : Int) (st : St α) (a : StoreArgs α)
    (h : (restir_di_final env inp Mc st).store = some a) :
    a.M_store = min st.M RESTIR_DI_M_CLAMP ∧ a.kind = st.selected_kind ∧
    a.light_id = st.selected_light_id ∧ a.y_pos = st.selected_y_pos := by
  unfold restir_di_final at h
  simp only [] at h
  split_ifs at h
  dsimp only at h
  rw [Option.some.injEq] at h
  rw [← h]
  exact ⟨rfl, rfl, rfl, rfl⟩

/-- C15: the running count is accumulated without a clamp,
`M = M_current + sum over the folded sources of min(M_source, 8)`, and when a
reservoir is stored the count handed to `restir_di_pack_reservoir` is
`min(M, 8)`. -/
theorem C15_M_clamped_at_store (env : Env α) (inp : Inp α) :
    (restir_di_resample env inp).M =
      (restir_di_generate env inp).M + sources_M (restir_di_folded_sources env inp) ∧
    (∀ a, (restir_di_pass env inp).store = some a →
      a.M_store = min (restir_di_resample env inp).M 8 ∧
      (get_direct_illumination_restir_di env inp).out_restir_res_packed =
        restir_di_pack_reservoir env a.W (min (restir_di_resample env inp).M 8) a.y_pos) := by
  refine ⟨(resample_sums env inp).1, fun a ha => ?_⟩
  have hM : a.M_store = min (restir_di_resample env inp).M 8 := by
    unfold restir_di_pass at ha
    split_ifs at ha
    exact (final_store_M env inp _ _ a ha).1
  refine ⟨hM, ?_⟩
  unfold get_direct_illumination_restir_di
  rw [ha, ← hM]

/-- Example for C15: one candidate (`M_current = 1`) and a temporal reservoir
stored with `M = 8`: the running count is `1 + 8 = 9`, above the clamp, and the
count handed to the store is 8. -/
theorem C15_M_clamped_at_store_witness :
    (restir_di_generate (reuseEnv (fun i => if i = 0 then 3 else 2) (fun _ => 1 / 2) 1 1
      (1207974912, 0) 1 0) sampleInp).M = 1 ∧
    sources_M (restir_di_folded_sources (reuseEnv (fun i => if i = 0 then 3 else 2)
      (fun _ => 1 / 2) 1 1 (1207974912, 0) 1 0) sampleInp) = 8 ∧
    (restir_di_resample (reuseEnv (fun i => if i = 0 then 3 else 2) (fun _ => 1 / 2) 1 1
      (1207974912, 0) 1 0) sampleInp).M = 9 ∧
    (stored_W_M (restir_di_pass (reuseEnv (fun i => if i = 0 then 3 else 2) (fun _ => 1 / 2) 1 1
      (1207974912, 0) 1 0) sampleInp)).2 = 8 := by
  have h := (C15_M_clamped_at_store (reuseEnv (fun i => if i = 0 then 3 else 2)
    (fun _ => 1 / 2) 1 1 (1207974912, 0) 1 0) sampleInp).1
  have h1 : (restir_di_generate (reuseEnv (fun i => if i = 0 then 3 else 2) (fun _ => 1 / 2) 1 1
      (1207974912, 0) 1 0) sampleInp).M = 1 := by decide!
  have h2 : sources_M (restir_di_folded_sources (reuseEnv (fun i => if i = 0 then 3 else 2)
      (fun _ => 1 / 2) 1 1 (1207974912, 0) 1 0) sampleInp) = 8 := by decide!
  rw [h1, h2] at h
  exact ⟨h1, h2, h, by decide!⟩

/-! ### The reprojection -/

/-- The body of the footprint loop in terms of `restir_di_dist_depth` and
`restir_di_score`. -/
theorem footprint_score_eq (env : Env α) (inp : Inp α) (p : IVec2) :
    restir_di_footprint_score env inp p =
      if p.y < 0 ∨ p.y ≥ env.prev_height then none
      else if p.x < restir_di_field_left env inp ∨ p.x ≥ restir_di_field_right env inp then none
      else if (env.TEX_PT_VISBUF_PRIM_A inp.ipos).1 ≠ (env.TEX_PT_VISBUF_PRIM_B p).1 ∨
          (env.TEX_PT_VISBUF_PRIM_A inp.ipos).2 ≠ (env.TEX_PT_VISBUF_PRIM_B p).2 then none
      else if env.length2 ⟨(env.TEX_PT_VISBUF_BARY_A inp.ipos).x - (env.TEX_PT_VISBUF_BARY_B p).x,
          (env.TEX_PT_VISBUF_BARY_A inp.ipos).y - (env.TEX_PT_VISBUF_BARY_B p).y⟩
            > bary_threshold env inp then none
      else if restir_di_cluster_prev env p ≠ inp.cluster_idx then none
      else if restir_di_dist_depth env inp (restir_di_temporal_depth_difference env inp p)
          > 5 / 100 ∨
          inp.geo_normal.dot (env.decode_normal (env.TEX_PT_GEO_NORMAL_B p)) < 95 / 100 then none
      else some (restir_di_score
        (restir_di_dist_depth env inp (restir_di_temporal_depth_difference env inp p))
        (inp.geo_normal.dot (env.decode_normal (env.TEX_PT_GEO_NORMAL_B p)))) := rfl

/-- What a surviving footprint pixel has passed: the tests of lines 1767-1798,
and its score. -/
theorem footprint_score_some (env : Env α) (inp : Inp α) (p : IVec2) (s : α)
    (h : restir_di_footprint_score env inp p = some s) :
    (0 ≤ p.y ∧ p.y < env.prev_height) ∧
    (restir_di_field_left env inp ≤ p.x ∧ p.x < restir_di_field_right env inp) ∧
    env.TEX_PT_VISBUF_PRIM_A inp.ipos = env.TEX_PT_VISBUF_PRIM_B p ∧
    env.length2 ⟨(env.TEX_PT_VISBUF_BARY_A inp.ipos).x - (env.TEX_PT_VISBUF_BARY_B p).x,
      (env.TEX_PT_VISBUF_BARY_A inp.ipos).y - (env.TEX_PT_VISBUF_BARY_B p).y⟩
        ≤ bary_threshold env inp ∧
    restir_di_cluster_prev env p = inp.cluster_idx ∧
    restir_di_dist_depth env inp (restir_di_temporal_depth_difference env inp p) ≤ 5 / 100 ∧
    95 / 100 ≤ inp.geo_normal.dot (env.decode_normal (env.TEX_PT_GEO_NORMAL_B p)) ∧
    s = restir_di_score
      (restir_di_dist_depth env inp (restir_di_temporal_depth_difference env inp p))
      (inp.geo_normal.dot (env.decode_normal (env.TEX_PT_GEO_NORMAL_B p))) := by
  rw [footprint_score_eq] at h
  by_cases h1 : p.y < 0 ∨ p.y ≥ env.prev_height
  · rw [if_pos h1] at h; exact absurd h (by simp)
  rw [if_neg h1] at h
  by_cases h2 : p.x < restir_di_field_left env inp ∨ p.x ≥ restir_di_field_right env inp
  · rw [if_pos h2] at h; exact absurd h (by simp)
  rw [if_neg h2] at h
  by_cases h3 : (env.TEX_PT_VISBUF_PRIM_A inp.ipos).1 ≠ (env.TEX_PT_VISBUF_PRIM_B p).1 ∨
      (env.TEX_PT_VISBUF_PRIM_A inp.ipos).2 ≠ (env.TEX_PT_VISBUF_PRIM_B p).2
  · rw [if_pos h3] at h; exact absurd h (by simp)
  rw [if_neg h3] at h
  by_cases h4 : env.length2 ⟨(env.TEX_PT_VISBUF_BARY_A inp.ipos).x -
      (env.TEX_PT_VISBUF_BARY_B p).x,
      (env.TEX_PT_VISBUF_BARY_A inp.ipos).y - (env.TEX_PT_VISBUF_BARY_B p).y⟩
        > bary_threshold env inp
  · rw [if_pos h4] at h; exact absurd h (by simp)
  rw [if_neg h4] at h
  by_cases h5 : restir_di_cluster_prev env p ≠ inp.cluster_idx
  · rw [if_pos h5] at h; exact absurd h (by simp)
  rw [if_neg h5] at h
  by_cases h6 : restir_di_dist_depth env inp (restir_di_temporal_depth_difference env inp p)
      > 5 / 100 ∨
      inp.geo_normal.dot (env.decode_normal (env.TEX_PT_GEO_NORMAL_B p)) < 95 / 100
  · rw [if_pos h6] at h; exact absurd h (by simp)
  rw [if_neg h6, Option.some.injEq] at h
  rw [not_or, not_lt, not_le] at h1 h2
  rw [not_or, not_not, not_not] at h3
  rw [not_or, not_lt, not_lt] at h6
  exact ⟨h1, h2, Prod.ext h3.1 h3.2, not_lt.mp h4, not_not.mp h5, h6.1, h6.2, h.symm⟩

/-- A pixel that passes the tests of lines 1767-1798 survives. -/
theorem footprint_score_of_tests (env : Env α) (inp : Inp α) (p : IVec2)
    (h1 : 0 ≤ p.y ∧ p.y < env.prev_height)
    (h2 : restir_di_field_left env inp ≤ p.x ∧ p.x < restir_di_field_right env inp)
    (h3 : env.TEX_PT_VISBUF_PRIM_A inp.ipos = env.TEX_PT_VISBUF_PRIM_B p)
    (h4 : env.length2 ⟨(env.TEX_PT_VISBUF_BARY_A inp.ipos).x - (env.TEX_PT_VISBUF_BARY_B p).x,
      (env.TEX_PT_VISBUF_BARY_A inp.ipos).y - (env.TEX_PT_VISBUF_BARY_B p).y⟩
        ≤ bary_threshold env inp)
    (h5 : restir_di_cluster_prev env p = inp.cluster_idx)
    (h6 : restir_di_dist_depth env inp (restir_di_temporal_depth_difference env inp p) ≤ 5 / 100)
    (h7 : 95 / 100 ≤ inp.geo_normal.dot (env.decode_normal (env.TEX_PT_GEO_NORMAL_B p))) :
    restir_di_footprint_score env inp p = some (restir_di_score
      (restir_di_dist_depth env inp (restir_di_temporal_depth_difference env inp p))
      (inp.geo_normal.dot (env.decode_normal (env.TEX_PT_GEO_NORMAL_B p)))) := by
  rw [footprint_score_eq,
    if_neg (by rw [not_or, not_lt, not_le]; exact h1),
    if_neg (by rw [not_or, not_lt, not_le]; exact h2),
    if_neg (by rw [h3]; simp), if_neg (not_lt.mpr h4), if_neg (not_not.mpr h5),
    if_neg (by rw [not_or, not_lt, not_lt]; exact ⟨h6, h7⟩)]

theorem score_nonneg (d g : α) : 0 ≤ restir_di_score d g := by
  unfold restir_di_score
  apply mul_nonneg
  · have := (glsl_clamp_mem (d / (1 / 10)) 0 1 zero_le_one).2
    linarith
  · exact (glsl_clamp_mem g 0 1 zero_le_one).1

theorem best_footprint_eq (env : Env α) (inp : Inp α) :
    restir_di_best_footprint env inp =
      (restir_di_footprint_pixels env inp).foldl (restir_di_footprint_step env inp)
        (-1, ⟨0, 0⟩) := by
  unfold restir_di_best_footprint restir_di_footprint_pixels
  rw [List.foldl_map]
  rfl

/-- The footprint loop keeps the first pixel of maximal score among those
that survive with a score above the initial one. -/
theorem footprint_fold_spec (env : Env α) (inp : Inp α) (ps : List IVec2) (b : α × IVec2) :
    (ps.foldl (restir_di_footprint_step env inp) b = b ∧
      ∀ p ∈ ps, ∀ s, restir_di_footprint_score env inp p = some s → s ≤ b.1) ∨
    (∃ l1 l2, ps = l1 ++ (ps.foldl (restir_di_footprint_step env inp) b).2 :: l2 ∧
      restir_di_footprint_score env inp (ps.foldl (restir_di_footprint_step env inp) b).2 =
        some (ps.foldl (restir_di_footprint_step env inp) b).1 ∧
      b.1 < (ps.foldl (restir_di_footprint_step env inp) b).1 ∧
      (∀ p ∈ l1, ∀ s, restir_di_footprint_score env inp p = some s →
        s < (ps.foldl (restir_di_footprint_step env inp) b).1) ∧
      (∀ p ∈ l2, ∀ s, restir_di_footprint_score env inp p = some s →
        s ≤ (ps.foldl (restir_di_footprint_step env inp) b).1)) := by
  induction ps generalizing b with
  | nil =>
    left
    exact ⟨rfl, fun p hp => absurd hp (List.not_mem_nil p)⟩
  | cons q ps ih =>
    rw [List.foldl_cons]
    by_cases hq : ∃ s, restir_di_footprint_score env inp q = some s ∧ s > b.1
    · obtain ⟨s, hs, hgt⟩ := hq
      have hstep : restir_di_footprint_step env inp b q = (s, q) := by
        unfold restir_di_footprint_step
        rw [hs]
        simp only [if_pos hgt]
      rw [hstep]
      right
      rcases ih (s, q) with ⟨h1, h2⟩ | ⟨l1, l2, h1, h2, h3, h4, h5⟩
      · refine ⟨[], ps, ?_, ?_, ?_, ?_, ?_⟩
        · rw [h1]; rfl
        · rw [h1]; exact hs
        · rw [h1]; exact hgt
        · intro p hp
          exact absurd hp (List.not_mem_nil p)
        · rw [h1]
          exact h2
      · refine ⟨q :: l1, l2, ?_, h2, lt_trans hgt h3, ?_, h5⟩
        · rw [List.cons_append, ← h1]
        · intro p hp t ht
          rcases List.mem_cons.mp hp with rfl | hp
          · rw [hs, Option.some.injEq] at ht
            rw [← ht]
            exact h3
          · exact h4 p hp t ht
    · have hle : ∀ s, restir_di_footprint_score env inp q = some s → s ≤ b.1 := by
        intro s hs
        by_contra hlt
        exact hq ⟨s, hs, not_le.mp hlt⟩
      have hstep : restir_di_footprint_step env inp b q = b := by
        unfold restir_di_footprint_step
        cases hs : restir_di_footprint_score env inp q with
        | none => rfl
        | some s => simp only [if_neg (not_lt.mpr (hle s hs))]
      rw [hstep]
      rcases ih b with ⟨h1, h2⟩ | ⟨l1, l2, h1, h2, h3, h4, h5⟩
      · left
        refine ⟨h1, fun p hp t ht => ?_⟩
        rcases List.mem_cons.mp hp with rfl | hp
        · exact hle t ht
        · exact h2 p hp t ht
      · right
        refine ⟨q :: l1, l2, ?_, h2, h3, ?_, h5⟩
        · rw [List.cons_append, ← h1]
        · intro p hp t ht
          rcases List.mem_cons.mp hp with rfl | hp
          · exact lt_of_le_of_lt (hle t ht) h3
          · exact h4 p hp t ht

/-- The reprojection of lines 1749-1813: `have_prev` holds exactly when reuse
is wanted and a footprint pixel survives, and then `ipos_prev` is the first
footprint pixel of maximal score. -/
theorem reproject_spec (env : Env α) (inp : Inp α) :
    ((restir_di_reproject env inp).1 = true ↔
      (want_temporal env inp = true ∨ want_spatial env inp = true) ∧
      ∃ p ∈ restir_di_footprint_pixels env inp,
        (restir_di_footprint_score env inp p).isSome = true) ∧
    ((restir_di_reproject env inp).1 = true →
      ∃ l1 l2 s, restir_di_footprint_pixels env inp = l1 ++ (restir_di_reproject env inp).2 :: l2 ∧
        restir_di_footprint_score env inp (restir_di_reproject env inp).2 = some s ∧
        (∀ p ∈ l1, ∀ t, restir_di_footprint_score env inp p = some t → t < s) ∧
        (∀ p ∈ l2, ∀ t, restir_di_footprint_score env inp p = some t → t ≤ s)) := by
  have hspec := footprint_fold_spec env inp (restir_di_footprint_pixels env inp) (-1, ⟨0, 0⟩)
  rw [← best_footprint_eq] at hspec
  have hnn : ∀ p s, restir_di_footprint_score env inp p = some s → 0 ≤ s := by
    intro p s hs
    rw [(footprint_score_some env inp p s hs).2.2.2.2.2.2.2]
    exact score_nonneg _ _
  unfold restir_di_reproject
  by_cases hw : want_temporal env inp = true ∨ want_spatial env inp = true
  · rw [if_pos hw]
    rcases hspec with ⟨h1, h2⟩ | ⟨l1, l2, h1, h2, h3, h4, h5⟩
    · have hneg : ¬ ((restir_di_best_footprint env inp).1 ≥ 0) := by
        rw [h1]
        show ¬ ((-1 : α) ≥ 0)
        norm_num
      rw [if_neg hneg]
      constructor
      · constructor
        · intro h
          exact absurd h (by simp)
        · rintro ⟨_, p, hp, hsome⟩
          obtain ⟨s, hs⟩ := Option.isSome_iff_exists.mp hsome
          have := h2 p hp s hs
          have := hnn p s hs
          have h0 : (-1 : α) < 0 := by norm_num
          exact absurd (le_trans ‹0 ≤ s› ‹s ≤ (-1, (⟨0, 0⟩ : IVec2)).1›) (not_le.mpr h0)
      · intro h
        exact absurd h (by simp)
    · have hpos : (restir_di_best_footprint env inp).1 ≥ 0 := hnn _ _ h2
      rw [if_pos hpos]
      constructor
      · constructor
        · intro _
          refine ⟨hw, (restir_di_best_footprint env inp).2, ?_, ?_⟩
          · rw [h1]
            exact List.mem_append_right _ (List.mem_cons_self _ _)
          · rw [h2]
            rfl
        · intro _
          rfl
      · intro _
        exact ⟨l1, l2, _, h1, h2, h4, h5⟩
  · rw [if_neg hw]
    constructor
    · constructor
      · intro h
        exact absurd h (by simp)
      · rintro ⟨h, _⟩
        exact absurd h hw
    · intro h
      exact absurd h (by simp)

theorem generate_with_history (env : Env α) (inp : Inp α) (id : IVec2 → Nat)
    (res : IVec2 → Nat × Nat) :
    restir_di_generate (env.with_history id res) inp = restir_di_generate env inp := rfl

theorem generate_reuse_off (env : Env α) (inp : Inp α) :
    restir_di_generate env.reuse_off inp = restir_di_generate env inp := rfl

theorem final_with_history (env : Env α) (inp : Inp α) (id : IVec2 → Nat)
    (res : IVec2 → Nat × Nat) (Mc : Int) (st : St α) :
    restir_di_final (env.with_history id res) inp Mc st = restir_di_final env inp Mc st := rfl

theorem final_reuse_off (env : Env α) (inp : Inp α) (Mc : Int) (st : St α) :
    restir_di_final env.reuse_off inp Mc st = restir_di_final env inp Mc st := rfl

theorem reproject_with_history (env : Env α) (inp : Inp α) (id : IVec2 → Nat)
    (res : IVec2 → Nat × Nat) :
    restir_di_reproject (env.with_history id res) inp = restir_di_reproject env inp := rfl

theorem footprint_score_with_history (env : Env α) (inp : Inp α) (id : IVec2 → Nat)
    (res : IVec2 → Nat × Nat) (p : IVec2) :
    restir_di_footprint_score (env.with_history id res) inp p =
      restir_di_footprint_score env inp p := rfl

theorem load_prev_with_history (env : Env α) (id : IVec2 → Nat) (res : IVec2 → Nat × Nat)
    (p : IVec2) (c : Nat) (h1 : id p = env.TEX_PT_RESTIR_DI_ID_B p)
    (h2 : res p = env.TEX_PT_RESTIR_DI_RES_B p) :
    restir_di_load_prev (env.with_history id res) p c = restir_di_load_prev env p c := by
  have e1 : (env.with_history id res).TEX_PT_RESTIR_DI_ID_B p = env.TEX_PT_RESTIR_DI_ID_B p := h1
  have e2 : (env.with_history id res).TEX_PT_RESTIR_DI_RES_B p = env.TEX_PT_RESTIR_DI_RES_B p := h2
  unfold restir_di_load_prev
  rw [e1, e2]
  rfl

theorem temporal_reuse_with_history (env : Env α) (inp : Inp α) (id : IVec2 → Nat)
    (res : IVec2 → Nat × Nat) (p : IVec2) (st : St α)
    (h1 : id p = env.TEX_PT_RESTIR_DI_ID_B p) (h2 : res p = env.TEX_PT_RESTIR_DI_RES_B p) :
    restir_di_temporal_reuse (env.with_history id res) inp p st =
      restir_di_temporal_reuse env inp p st := by
  unfold restir_di_temporal_reuse
  rw [load_prev_with_history env id res p _ h1 h2]
  rfl

/-- C16: whenever `have_prev` is true, the chosen pixel `ipos_prev` is one of
the four pixels `pos_ld + off4[i]` of the footprint, it has the stable
primitive id of the current pixel, its cluster index (with `0xffff` read as
`~0`) is the cluster index of the current pixel, its barycentric distance to
the current hit does not exceed the adaptive threshold, and the dot product of
its geometric normal with the current geometric normal is at least 0.95. -/
theorem C16_temporal_hard_checks (env : Env α) (inp : Inp α)
    (h : (restir_di_reproject env inp).1 = true) :
    (restir_di_reproject env inp).2 ∈ restir_di_footprint_pixels env inp ∧
    restir_di_footprint_pixels env inp =
      [⟨(restir_di_pos_ld env inp).x + 0, (restir_di_pos_ld env inp).y + 0⟩,
       ⟨(restir_di_pos_ld env inp).x + 1, (restir_di_pos_ld env inp).y + 0⟩,
       ⟨(restir_di_pos_ld env inp).x + 0, (restir_di_pos_ld env inp).y + 1⟩,
       ⟨(restir_di_pos_ld env inp).x + 1, (restir_di_pos_ld env inp).y + 1⟩] ∧
    env.TEX_PT_VISBUF_PRIM_A inp.ipos = env.TEX_PT_VISBUF_PRIM_B (restir_di_reproject env inp).2 ∧
    restir_di_cluster_prev env (restir_di_reproject env inp).2 = inp.cluster_idx ∧
    env.length2
      ⟨(env.TEX_PT_VISBUF_BARY_A inp.ipos).x -
          (env.TEX_PT_VISBUF_BARY_B (restir_di_reproject env inp).2).x,
        (env.TEX_PT_VISBUF_BARY_A inp.ipos).y -
          (env.TEX_PT_VISBUF_BARY_B (restir_di_reproject env inp).2).y⟩
        ≤ bary_threshold env inp ∧
    95 / 100 ≤ inp.geo_normal.dot
      (env.decode_normal (env.TEX_PT_GEO_NORMAL_B (restir_di_reproject env inp).2)) := by
  obtain ⟨l1, l2, s, h1, h2, _, _⟩ := (reproject_spec env inp).2 h
  obtain ⟨_, _, g3, g4, g5, _, g7, _⟩ := footprint_score_some env inp _ s h2
  refine ⟨?_, rfl, g3, g5, g4, g7⟩
  rw [h1]
  exact List.mem_append_right _ (List.mem_cons_self _ _)

/-- The bound on the relative depth difference that the tests of lines 1797
and 1930 enforce: 5%, and 20% when `depth_curr < 0`. -/
theorem depth_difference_bound (env : Env α) (inp : Inp α) (diff : α)
    (h : restir_di_dist_depth env inp diff ≤ 5 / 100) :
    diff ≤ if env.TEX_PT_VIEW_DEPTH_A inp.ipos < 0 then 20 / 100 else 5 / 100 := by
  unfold restir_di_dist_depth at h
  split_ifs at h with hd
  · rw [if_pos hd]
    linarith
  · rw [if_neg hd]
    exact h

theorem neighbor_similar_spec (env : Env α) (inp : Inp α) (nb : IVec2)
    (h : restir_di_neighbor_similar env inp nb = true) :
    restir_di_dist_depth env inp (restir_di_spatial_depth_difference env inp nb) ≤ 5 / 100 ∧
    95 / 100 ≤ inp.geo_normal.dot (env.decode_normal (env.TEX_PT_GEO_NORMAL_B nb)) ∧
    restir_di_cluster_prev env nb = inp.cluster_idx := by
  have e : restir_di_neighbor_similar env inp nb =
      if restir_di_dist_depth env inp (restir_di_spatial_depth_difference env inp nb) > 5 / 100 ∨
          inp.geo_normal.dot (env.decode_normal (env.TEX_PT_GEO_NORMAL_B nb)) < 95 / 100
      then false
      else if restir_di_cluster_prev env nb ≠ inp.cluster_idx then false
      else true := rfl
  rw [e] at h
  split_ifs at h with h1 h2
  rw [not_or, not_lt, not_lt] at h1
  exact ⟨h1.1, h1.2, not_not.mp h2⟩

theorem spatial_source_neighbor (env : Env α) (inp : Inp α) (ipos_prev : IVec2) (rot j : Nat)
    (src : Loaded α × α)
    (h : restir_di_spatial_source env inp ipos_prev rot j = some src) :
    ∃ nb, restir_di_neighbor env inp ipos_prev rot j = some nb ∧
      restir_di_neighbor_similar env inp nb = true ∧
      restir_di_load_prev env nb inp.cluster_idx = some src.1 := by
  unfold restir_di_spatial_source at h
  cases hnb : restir_di_neighbor env inp ipos_prev rot j with
  | none => rw [hnb] at h; exact absurd h (by simp)
  | some nb =>
    rw [hnb] at h
    simp only [] at h
    by_cases hsim : restir_di_neighbor_similar env inp nb = false
    · rw [if_pos hsim] at h; exact absurd h (by simp)
    rw [if_neg hsim] at h
    cases hl : restir_di_load_prev env nb inp.cluster_idx with
    | none => rw [hl] at h; exact absurd h (by simp)
    | some l =>
      rw [hl] at h
      simp only [] at h
      cases he : restir_di_reevaluate env inp l with
      | none => rw [he] at h; exact absurd h (by simp)
      | some p_hat =>
        rw [he] at h
        simp only [] at h
        split_ifs at h
        rw [Option.some.injEq] at h
        refine ⟨nb, rfl, by simpa using hsim, ?_⟩
        rw [← h]
        exact hl

/-- C17 (amended): every previous-frame pixel accepted for temporal reuse and
every neighbour accepted for spatial reuse has a relative depth difference to
the current pixel, `|depth_curr - depth_prev (+ motion.z for temporal)| /
max(|depth_curr|, 1e-3)`, of at most 5% when `depth_curr >= 0` and of at most
20% when `depth_curr < 0` (the difference is multiplied by 0.25 before the
test against 5%). -/
theorem C17_depth_similarity (env : Env α) (inp : Inp α) :
    (∀ p s, restir_di_footprint_score env inp p = some s →
      restir_di_temporal_depth_difference env inp p ≤
        if env.TEX_PT_VIEW_DEPTH_A inp.ipos < 0 then 20 / 100 else 5 / 100) ∧
    ((restir_di_reproject env inp).1 = true →
      restir_di_temporal_depth_difference env inp (restir_di_reproject env inp).2 ≤
        if env.TEX_PT_VIEW_DEPTH_A inp.ipos < 0 then 20 / 100 else 5 / 100) ∧
    (∀ ipos_prev rot j src, restir_di_spatial_source env inp ipos_prev rot j = some src →
      ∃ nb, restir_di_neighbor env inp ipos_prev rot j = some nb ∧
        restir_di_load_prev env nb inp.cluster_idx = some src.1 ∧
        restir_di_spatial_depth_difference env inp nb ≤
          if env.TEX_PT_VIEW_DEPTH_A inp.ipos < 0 then 20 / 100 else 5 / 100) := by
  have h1 : ∀ p s, restir_di_footprint_score env inp p = some s →
      restir_di_temporal_depth_difference env inp p ≤
        if env.TEX_PT_VIEW_DEPTH_A inp.ipos < 0 then 20 / 100 else 5 / 100 := by
    intro p s hs
    exact depth_difference_bound env inp _ (footprint_score_some env inp p s hs).2.2.2.2.2.1
  refine ⟨h1, ?_, ?_⟩
  · intro h
    obtain ⟨_, _, s, _, hs, _, _⟩ := (reproject_spec env inp).2 h
    exact h1 _ s hs
  · intro ipos_prev rot j src hsrc
    obtain ⟨nb, hnb, hsim, hl⟩ := spatial_source_neighbor env inp ipos_prev rot j src hsrc
    exact ⟨nb, hnb, hl, depth_difference_bound env inp _ (neighbor_similar_spec env inp nb hsim).1⟩

/-- Witness of C16: in the sample scene with reuse on, the pixel `(0, 0)` of
the footprint is chosen. -/
theorem C16_temporal_hard_checks_witness :
    restir_di_reproject (reuseEnv (fun _ => 2) (fun _ => 1 / 2) 1 5 (1006648320, 0) 1 0)
      sampleInp = (true, ⟨0, 0⟩) ∧
    (⟨0, 0⟩ : IVec2) ∈ restir_di_footprint_pixels
      (reuseEnv (fun _ => 2) (fun _ => 1 / 2) 1 5 (1006648320, 0) 1 0) sampleInp ∧
    restir_di_cluster_prev (reuseEnv (fun _ => 2) (fun _ => 1 / 2) 1 5 (1006648320, 0) 1 0)
      ⟨0, 0⟩ = 0 := by
  have hr : restir_di_reproject (reuseEnv (fun _ => 2) (fun _ => 1 / 2) 1 5 (1006648320, 0) 1 0)
      sampleInp = (true, ⟨0, 0⟩) := by decide!
  have h := C16_temporal_hard_checks (reuseEnv (fun _ => 2) (fun _ => 1 / 2) 1 5
    (1006648320, 0) 1 0) sampleInp (by rw [hr])
  rw [hr] at h
  exact ⟨hr, h.1, h.2.2.2.1⟩

/-- Counterexample to C17 as stated: the current depth is `-1` and the depth
of the previous frame is `-11/10`, without motion.  The relative depth
difference is `1/10`, above 5%, but as `depth_curr < 0` the tests see
`dist_depth = 1/40`: the pixel `(0, 0)` is accepted for temporal reuse and
its reservoir is folded, and the neighbour `(1, 1)` passes the depth test of
spatial reuse. -/
theorem C17_counterexample_negative_depth :
    restir_di_reproject (depthEnv (fun _ => 2) (fun _ => 1 / 2) 1 5 (1006648320, 0) 1 1
      (-1) (-11 / 10)) sampleInp = (true, ⟨0, 0⟩) ∧
    restir_di_temporal_depth_difference (depthEnv (fun _ => 2) (fun _ => 1 / 2) 1 5
      (1006648320, 0) 1 1 (-1) (-11 / 10)) sampleInp ⟨0, 0⟩ = 1 / 10 ∧
    (restir_di_temporal_source (depthEnv (fun _ => 2) (fun _ => 1 / 2) 1 5
      (1006648320, 0) 1 1 (-1) (-11 / 10)) sampleInp).isSome = true ∧
    restir_di_neighbor (depthEnv (fun _ => 2) (fun _ => 1 / 2) 1 5 (1006648320, 0) 1 1
      (-1) (-11 / 10)) sampleInp ⟨0, 0⟩ 4 0 = some ⟨1, 1⟩ ∧
    restir_di_neighbor_similar (depthEnv (fun _ => 2) (fun _ => 1 / 2) 1 5 (1006648320, 0) 1 1
      (-1) (-11 / 10)) sampleInp ⟨1, 1⟩ = true ∧
    restir_di_spatial_depth_difference (depthEnv (fun _ => 2) (fun _ => 1 / 2) 1 5
      (1006648320, 0) 1 1 (-1) (-11 / 10)) sampleInp ⟨1, 1⟩ = 1 / 10 ∧
    (restir_di_spatial_source (depthEnv (fun _ => 2) (fun _ => 1 / 2) 1 5
      (1006648320, 0) 1 1 (-1) (-11 / 10)) sampleInp ⟨0, 0⟩ 4 0).isSome = true ∧
    (restir_di_resample (depthEnv (fun _ => 2) (fun _ => 1 / 2) 1 5 (1006648320, 0) 1 1
      (-1) (-11 / 10)) sampleInp).M = 3 ∧
    ¬ ((1 / 10 : ℚ) ≤ 5 / 100) :=
  ⟨by decide!, by decide!, by decide!, by decide!, by decide!, by decide!, by decide!,
    by decide!, by decide!⟩

/-- Witness of C17: with the depths 1 and `21/20` the relative difference is
exactly 5% and the pixel is accepted; with the depths `-1` and `-6/5` it is
20% and the pixel is accepted. -/
theorem C17_depth_similarity_witness :
    restir_di_reproject (depthEnv (fun _ => 2) (fun _ => 1 / 2) 1 5 (1006648320, 0) 1 1
      1 (21 / 20)) sampleInp = (true, ⟨0, 0⟩) ∧
    restir_di_temporal_depth_difference (depthEnv (fun _ => 2) (fun _ => 1 / 2) 1 5
      (1006648320, 0) 1 1 1 (21 / 20)) sampleInp ⟨0, 0⟩ ≤ 5 / 100 ∧
    restir_di_reproject (depthEnv (fun _ => 2) (fun _ => 1 / 2) 1 5 (1006648320, 0) 1 1
      (-1) (-6 / 5)) sampleInp = (true, ⟨0, 0⟩) ∧
    restir_di_temporal_depth_difference (depthEnv (fun _ => 2) (fun _ => 1 / 2) 1 5
      (1006648320, 0) 1 1 (-1) (-6 / 5)) sampleInp ⟨0, 0⟩ ≤ 20 / 100 := by
  have hr1 : restir_di_reproject (depthEnv (fun _ => 2) (fun _ => 1 / 2) 1 5 (1006648320, 0) 1 1
      1 (21 / 20)) sampleInp = (true, ⟨0, 0⟩) := by decide!
  have hr2 : restir_di_reproject (depthEnv (fun _ => 2) (fun _ => 1 / 2) 1 5 (1006648320, 0) 1 1
      (-1) (-6 / 5)) sampleInp = (true, ⟨0, 0⟩) := by decide!
  have h1 := (C17_depth_similarity (depthEnv (fun _ => 2) (fun _ => 1 / 2) 1 5
    (1006648320, 0) 1 1 1 (21 / 20)) sampleInp).2.1 (by rw [hr1])
  have h2 := (C17_depth_similarity (depthEnv (fun _ => 2) (fun _ => 1 / 2) 1 5
    (1006648320, 0) 1 1 (-1) (-6 / 5)) sampleInp).2.1 (by rw [hr2])
  rw [hr1, if_neg (by decide!)] at h1
  rw [hr2, if_pos (by decide!)] at h2
  exact ⟨hr1, h1, hr2, h2⟩

theorem temporal_source_loaded (env : Env α) (inp : Inp α) (src : Loaded α × α)
    (h : restir_di_temporal_source env inp = some src) :
    (restir_di_reproject env inp).1 = true ∧
    restir_di_load_prev env (restir_di_reproject env inp).2 inp.cluster_idx = some src.1 := by
  unfold restir_di_temporal_source at h
  split_ifs at h with hw
  refine ⟨hw.2, ?_⟩
  cases hl : restir_di_load_prev env (restir_di_reproject env inp).2 inp.cluster_idx with
  | none => rw [hl] at h; exact absurd h (by simp)
  | some l =>
    rw [hl] at h
    simp only [] at h
    cases he : restir_di_reevaluate env inp l with
    | none => rw [he] at h; exact absurd h (by simp)
    | some p_hat =>
      rw [he] at h
      simp only [Option.some.injEq] at h
      rw [← h]

/-- C18: `have_prev` is true exactly when the footprint loop runs (temporal or
spatial reuse is wanted) and at least one of the four footprint pixels passes
every validity check; the chosen pixel is then a survivor whose score
`(1 - clamp(dist_depth / 0.1, 0, 1)) * clamp(dot_geo, 0, 1)` is maximal among
the survivors, and the first such pixel in the order of the loop: every
survivor before it has a smaller score, every survivor after it has at most
its score.  The reservoirs of the footprint are not blended: the temporal
stage folds the one reservoir loaded from the chosen pixel and does not
depend on the history stored at any other pixel. -/
theorem C18_best_match_selection (env : Env α) (inp : Inp α) :
    ((restir_di_reproject env inp).1 = true ↔
      (want_temporal env inp = true ∨ want_spatial env inp = true) ∧
      ∃ p ∈ restir_di_footprint_pixels env inp,
        (restir_di_footprint_score env inp p).isSome = true) ∧
    ((restir_di_reproject env inp).1 = true →
      ∃ l1 l2 s, restir_di_footprint_pixels env inp = l1 ++ (restir_di_reproject env inp).2 :: l2 ∧
        restir_di_footprint_score env inp (restir_di_reproject env inp).2 = some s ∧
        (∀ p ∈ l1, ∀ t, restir_di_footprint_score env inp p = some t → t < s) ∧
        (∀ p ∈ l2, ∀ t, restir_di_footprint_score env inp p = some t → t ≤ s)) ∧
    (∀ p s, restir_di_footprint_score env inp p = some s →
      s = restir_di_score
        (restir_di_dist_depth env inp (restir_di_temporal_depth_difference env inp p))
        (inp.geo_normal.dot (env.decode_normal (env.TEX_PT_GEO_NORMAL_B p)))) ∧
    (∀ src, restir_di_temporal_source env inp = some src →
      restir_di_load_prev env (restir_di_reproject env inp).2 inp.cluster_idx = some src.1) ∧
    (∀ id res st, id (restir_di_reproject env inp).2 =
        env.TEX_PT_RESTIR_DI_ID_B (restir_di_reproject env inp).2 →
      res (restir_di_reproject env inp).2 =
        env.TEX_PT_RESTIR_DI_RES_B (restir_di_reproject env inp).2 →
      restir_di_temporal_reuse (env.with_history id res) inp (restir_di_reproject env inp).2 st =
        restir_di_temporal_reuse env inp (restir_di_reproject env inp).2 st) :=
  ⟨(reproject_spec env inp).1, (reproject_spec env inp).2,
    fun p s hs => (footprint_score_some env inp p s hs).2.2.2.2.2.2.2,
    fun src hsrc => (temporal_source_loaded env inp src hsrc).2,
    fun id res st h1 h2 => temporal_reuse_with_history env inp id res _ st h1 h2⟩

theorem resample_of_no_prev (env : Env α) (inp : Inp α)
    (h : (restir_di_reproject env inp).1 = false) :
    restir_di_resample env inp = restir_di_generate env inp := by
  unfold restir_di_resample
  simp only [h, Bool.false_eq_true, and_false, if_false]

theorem pass_of_no_prev (env : Env α) (inp : Inp α)
    (h : (restir_di_reproject env inp).1 = false) :
    restir_di_pass env inp =
      if inp.enable_polygonal = false ∧ enable_sun = false then { out := Out.zero, store := none }
      else restir_di_final env inp (restir_di_generate env inp).M (restir_di_generate env inp) := by
  unfold restir_di_pass
  rw [resample_of_no_prev env inp h]

theorem want_reuse_off (env : Env α) (inp : Inp α) :
    want_temporal env.reuse_off inp = false ∧ want_spatial env.reuse_off inp = false := by
  have h : ¬ ((0 : α) > 1 / 2) := by norm_num
  constructor
  · show (decide ((0 : α) > 1 / 2) && !primary_is_weapon env.reuse_off inp) = false
    simp only [h, decide_False, Bool.false_and]
  · show (decide ((0 : α) > 1 / 2) && !primary_is_weapon env.reuse_off inp) = false
    simp only [h, decide_False, Bool.false_and]

/-- C19: if no pixel of the footprint survives the validity checks, then
`have_prev` is false, temporal and spatial reuse are both skipped (the running
reservoir is that of the generator and no source is folded), and for every
content of the reservoir history every output of
`get_direct_illumination_restir_di` equals the output of the call with both
reuse flags turned off. -/
theorem C19_failed_reprojection (env : Env α) (inp : Inp α)
    (h : ∀ p ∈ restir_di_footprint_pixels env inp, restir_di_footprint_score env inp p = none) :
    (restir_di_reproject env inp).1 = false ∧
    restir_di_resample env inp = restir_di_generate env inp ∧
    restir_di_folded_sources env inp = [] ∧
    (∀ id res, get_direct_illumination_restir_di (env.with_history id res) inp =
      get_direct_illumination_restir_di env.reuse_off inp) ∧
    get_direct_illumination_restir_di env inp =
      get_direct_illumination_restir_di env.reuse_off inp := by
  have hprev : (restir_di_reproject env inp).1 = false := by
    rw [Bool.eq_false_iff]
    intro htrue
    obtain ⟨_, p, hp, hsome⟩ := (reproject_spec env inp).1.mp htrue
    rw [h p hp] at hsome
    exact absurd hsome (by simp)
  have hoff : restir_di_pass env.reuse_off inp =
      if inp.enable_polygonal = false ∧ enable_sun = false then { out := Out.zero, store := none }
      else restir_di_final env inp (restir_di_generate env inp).M (restir_di_generate env inp) := by
    unfold restir_di_pass
    rw [resample_no_reuse env.reuse_off inp (want_reuse_off env inp).1 (want_reuse_off env inp).2,
      generate_reuse_off, final_reuse_off]
  have hhist : ∀ id res, restir_di_pass (env.with_history id res) inp =
      restir_di_pass env.reuse_off inp := by
    intro id res
    have hprev2 : (restir_di_reproject (env.with_history id res) inp).1 = false := by
      rw [reproject_with_history]
      exact hprev
    rw [pass_of_no_prev _ inp hprev2, hoff, generate_with_history, final_with_history]
  have hout : ∀ id res, get_direct_illumination_restir_di (env.with_history id res) inp =
      get_direct_illumination_restir_di env.reuse_off inp := by
    intro id res
    unfold get_direct_illumination_restir_di
    rw [hhist id res]
    cases (restir_di_pass env.reuse_off inp).store with
    | none => rfl
    | some a => rfl
  refine ⟨hprev, resample_of_no_prev env inp hprev, ?_, hout, ?_⟩
  · unfold restir_di_folded_sources restir_di_temporal_source
    simp only [hprev, Bool.false_eq_true, and_false, false_and, if_false, Option.toList,
      List.append_nil]
  · have := hout env.TEX_PT_RESTIR_DI_ID_B env.TEX_PT_RESTIR_DI_RES_B
    exact this

/-- Example for C18: with the depth 1 at the current pixel and the depth
`26/25` at every previous-frame pixel all four footprint pixels survive with
the same score and the first, `(0, 0)`, is chosen; when the previous-frame
pixel `(1, 0)` has the depth 1 instead, its score is the largest and it is
chosen. -/
theorem C18_best_match_selection_witness :
    restir_di_reproject (depthEnv (fun _ => 2) (fun _ => 1 / 2) 1 5 (1006648320, 0) 1 0
      1 (26 / 25)) sampleInp = (true, ⟨0, 0⟩) ∧
    (restir_di_footprint_pixels (depthEnv (fun _ => 2) (fun _ => 1 / 2) 1 5 (1006648320, 0) 1 0
      1 (26 / 25)) sampleInp).map
        (restir_di_footprint_score (depthEnv (fun _ => 2) (fun _ => 1 / 2) 1 5
          (1006648320, 0) 1 0 1 (26 / 25)) sampleInp)
      = [some (3 / 5), some (3 / 5), some (3 / 5), some (3 / 5)] ∧
    restir_di_reproject
      { depthEnv (fun _ => 2) (fun _ => 1 / 2) 1 5 (1006648320, 0) 1 0 1 (26 / 25) with
        TEX_PT_VIEW_DEPTH_B := fun p => if p.x = 1 ∧ p.y = 0 then 1 else 26 / 25 }
      sampleInp = (true, ⟨1, 0⟩) ∧
    (restir_di_footprint_pixels
      { depthEnv (fun _ => 2) (fun _ => 1 / 2) 1 5 (1006648320, 0) 1 0 1 (26 / 25) with
        TEX_PT_VIEW_DEPTH_B := fun p => if p.x = 1 ∧ p.y = 0 then 1 else 26 / 25 }
      sampleInp).map
        (restir_di_footprint_score
          { depthEnv (fun _ => 2) (fun _ => 1 / 2) 1 5 (1006648320, 0) 1 0 1 (26 / 25) with
            TEX_PT_VIEW_DEPTH_B := fun p => if p.x = 1 ∧ p.y = 0 then 1 else 26 / 25 }
          sampleInp)
      = [some (3 / 5), some 1, some (3 / 5), some (3 / 5)] := by
  have h := (C18_best_match_selection (depthEnv (fun _ => 2) (fun _ => 1 / 2) 1 5
    (1006648320, 0) 1 0 1 (26 / 25)) sampleInp).1
  have hr : (restir_di_reproject (depthEnv (fun _ => 2) (fun _ => 1 / 2) 1 5 (1006648320, 0) 1 0
      1 (26 / 25)) sampleInp).1 = true :=
    h.mpr ⟨Or.inl (by decide!), ⟨0, 0⟩, by decide!, by decide!⟩
  exact ⟨by decide!, by decide!, by decide!, by decide!⟩

/-- Witness of C19: the previous frame shows another primitive at every
pixel, so no footprint pixel survives; with both reuse flags on and a
reservoir stored at every pixel of the history, the outputs are those of the
call with the flags off. -/
theorem C19_failed_reprojection_witness :
    (restir_di_reproject
      { reuseEnv (fun _ => 2) (fun _ => 1 / 2) 1 5 (1006648320, 0) 1 1 with
        TEX_PT_VISBUF_PRIM_B := fun _ => (7, 0) } sampleInp).1 = false ∧
    get_direct_illumination_restir_di
      { reuseEnv (fun _ => 2) (fun _ => 1 / 2) 1 5 (1006648320, 0) 1 1 with
        TEX_PT_VISBUF_PRIM_B := fun _ => (7, 0) } sampleInp =
      get_direct_illumination_restir_di
        (Env.reuse_off { reuseEnv (fun _ => 2) (fun _ => 1 / 2) 1 5 (1006648320, 0) 1 1 with
          TEX_PT_VISBUF_PRIM_B := fun _ => (7, 0) }) sampleInp ∧
    (get_direct_illumination_restir_di
      { reuseEnv (fun _ => 2) (fun _ => 1 / 2) 1 5 (1006648320, 0) 1 1 with
        TEX_PT_VISBUF_PRIM_B := fun _ => (7, 0) } sampleInp).diffuse = ⟨2, 2, 2⟩ ∧
    (get_direct_illumination_restir_di
      (reuseEnv (fun _ => 2) (fun _ => 1 / 2) 1 5 (1006648320, 0) 1 1) sampleInp).dbg_M = 3 := by
  have h := C19_failed_reprojection
    { reuseEnv (fun _ => 2) (fun _ => 1 / 2) 1 5 (1006648320, 0) 1 1 with
      TEX_PT_VISBUF_PRIM_B := fun _ => (7, 0) } sampleInp (by decide!)
  exact ⟨h.1, h.2.2.2.2, by decide!, by decide!⟩

/-! ### The parameter clamps -/

theorem float_to_int_clamp (x : α) (lo hi : Nat) (h : lo ≤ hi) :
    (lo : Int) ≤ float_to_int (glsl_clamp x (lo : α) (hi : α)) ∧
    float_to_int (glsl_clamp x (lo : α) (hi : α)) ≤ (hi : Int) := by
  have hc := glsl_clamp_mem x (lo : α) (hi : α) (by exact_mod_cast h)
  have h0 : (0 : α) ≤ glsl_clamp x (lo : α) (hi : α) := le_trans (Nat.cast_nonneg lo) hc.1
  unfold float_to_int
  rw [if_pos h0]
  constructor
  · rw [Int.le_floor]
    exact_mod_cast hc.1
  · have h1 : ((⌊glsl_clamp x (lo : α) (hi : α)⌋ : Int) : α) ≤ (hi : α) :=
      le_trans (Int.floor_le _) hc.2
    exact_mod_cast h1

theorem N_bounds (env : Env α) : 1 ≤ restir_di_N env ∧ restir_di_N env ≤ 32 := by
  have h := float_to_int_clamp env.pt_restir_candidates 1 32 (by norm_num)
  unfold restir_di_N
  simpa using h

theorem K_bounds (env : Env α) : 0 ≤ restir_di_K env ∧ restir_di_K env ≤ 16 := by
  have h := float_to_int_clamp env.pt_restir_spatial_neighbors 0 16 (by norm_num)
  unfold restir_di_K
  simpa using h

theorem candidate_iter_M (env : Env α) (inp : Inp α) (st : St α) :
    (restir_di_candidate_iter env inp st).M ≤ st.M + 1 := by
  unfold restir_di_candidate_iter
  simp only []
  cases restir_di_pick_polygonal_light_uniform env inp.cluster_idx (env.rng st.rng_calls) with
  | none => exact (le_add_of_nonneg_right zero_le_one)
  | some l =>
    simp only []
    cases restir_di_evaluate_polygonal_unshadowed env inp l
        ⟨env.rng (st.rng_calls + 1), env.rng (st.rng_calls + 2)⟩ with
    | none => exact (le_add_of_nonneg_right zero_le_one)
    | some p =>
      simp only []
      unfold restir_di_fold_candidate
      simp only []
      split_ifs <;> exact le_refl _

theorem iterate_M (env : Env α) (inp : Inp α) (n : Nat) (st : St α) :
    ((restir_di_candidate_iter env inp)^[n] st).M ≤ st.M + n := by
  induction n with
  | zero => simp
  | succ n ih =>
    rw [Function.iterate_succ_apply']
    have := candidate_iter_M env inp ((restir_di_candidate_iter env inp)^[n] st)
    push_cast
    omega

theorem generate_M_le (env : Env α) (inp : Inp α) :
    (restir_di_generate env inp).M ≤ restir_di_N env := by
  have hN := (N_bounds env).1
  unfold restir_di_generate
  simp only [enable_sun, Bool.false_eq_true, if_false]
  split_ifs
  · have := iterate_M env inp (restir_di_N env).toNat (St.init : St α)
    have h0 : (St.init : St α).M = 0 := rfl
    rw [h0, zero_add, Int.toNat_of_nonneg (by omega)] at this
    exact this
  · show (0 : Int) ≤ restir_di_N env
    omega

theorem sources_M_le (srcs : List (Loaded α × α)) :
    sources_M srcs ≤ 8 * (srcs.length : Int) := by
  induction srcs with
  | nil => simp [sources_M]
  | cons s l ih =>
    have hs : source_m s ≤ 8 := min_le_right _ _
    have e : sources_M (s :: l) = source_m s + sources_M l := by
      simp [sources_M]
    rw [e, List.length_cons]
    push_cast
    omega

theorem filterMap_range_length {β : Type} (f : Nat → Option β) (n : Nat) :
    ((List.range n).filterMap f).length ≤ n := by
  calc ((List.range n).filterMap f).length ≤ (List.range n).length := List.length_filterMap_le _ _
    _ = n := List.length_range n

/-- C20: the candidate count satisfies `1 <= N <= 32` and the neighbour count
`0 <= K <= 16` for every configured value; at most `K` neighbour reservoirs
are folded, at most one temporal reservoir, and the running `M` is at most `N`
after candidate generation, at most `N + 8` after temporal reuse and at most
`N + 8 + 8 * K <= 168` after spatial reuse. -/
theorem C20_parameter_clamps (env : Env α) (inp : Inp α) :
    (1 ≤ restir_di_N env ∧ restir_di_N env ≤ 32) ∧
    (0 ≤ restir_di_K env ∧ restir_di_K env ≤ 16) ∧
    (∀ ipos_prev rot, (((List.range (restir_di_K env).toNat).filterMap
      (restir_di_spatial_source env inp ipos_prev rot)).length : Int) ≤ restir_di_K env) ∧
    (restir_di_temporal_source env inp).toList.length ≤ 1 ∧
    ((restir_di_folded_sources env inp).length : Int) ≤ 1 + restir_di_K env ∧
    (restir_di_generate env inp).M ≤ restir_di_N env ∧
    (restir_di_after_temporal env inp).M ≤ restir_di_N env + 8 ∧
    (restir_di_resample env inp).M ≤ restir_di_N env + 8 + 8 * restir_di_K env ∧
    restir_di_N env + 8 + 8 * restir_di_K env ≤ 168 := by
  have hN := N_bounds env
  have hK := K_bounds env
  have hsp : ∀ ipos_prev rot, (((List.range (restir_di_K env).toNat).filterMap
      (restir_di_spatial_source env inp ipos_prev rot)).length : Int) ≤ restir_di_K env := by
    intro ipos_prev rot
    have := filterMap_range_length (restir_di_spatial_source env inp ipos_prev rot)
      (restir_di_K env).toNat
    have h2 : ((restir_di_K env).toNat : Int) = restir_di_K env := Int.toNat_of_nonneg hK.1
    omega
  have ht : (restir_di_temporal_source env inp).toList.length ≤ 1 := by
    cases restir_di_temporal_source env inp with
    | none => simp
    | some s => simp
  have hlen : ((restir_di_folded_sources env inp).length : Int) ≤ 1 + restir_di_K env := by
    rw [folded_sources_eq, List.length_append]
    push_cast
    split_ifs
    · have := hsp (restir_di_reproject env inp).2 (restir_di_rot env inp)
      omega
    · simp only [List.length_nil, Nat.cast_zero]
      omega
  have hgen := generate_M_le env inp
  have hat : (restir_di_after_temporal env inp).M ≤ restir_di_N env + 8 := by
    rw [(after_temporal_sums env inp).1]
    have := sources_M_le (restir_di_temporal_source env inp).toList
    omega
  have hres : (restir_di_resample env inp).M ≤ restir_di_N env + 8 + 8 * restir_di_K env := by
    rw [(resample_sums env inp).1]
    have := sources_M_le (restir_di_folded_sources env inp)
    omega
  exact ⟨hN, hK, hsp, ht, hlen, hgen, hat, hres, by omega⟩

/-- Example for C20: the configured counts 100 and 40 give `N = 32` and
`K = 16`, the counts 0 and -3 give `N = 1` and `K = 0`, and `7/2` gives 3. -/
theorem C20_parameter_clamps_witness :
    restir_di_N { sampleEnv (fun _ => 2) (fun _ => 1 / 2) 1 with
      pt_restir_candidates := 100, pt_restir_spatial_neighbors := 40 } = 32 ∧
    restir_di_K { sampleEnv (fun _ => 2) (fun _ => 1 / 2) 1 with
      pt_restir_candidates := 100, pt_restir_spatial_neighbors := 40 } = 16 ∧
    restir_di_N { sampleEnv (fun _ => 2) (fun _ => 1 / 2) 1 with
      pt_restir_candidates := 0, pt_restir_spatial_neighbors := -3 } = 1 ∧
    restir_di_K { sampleEnv (fun _ => 2) (fun _ => 1 / 2) 1 with
      pt_restir_candidates := 0, pt_restir_spatial_neighbors := -3 } = 0 ∧
    restir_di_N { sampleEnv (fun _ => 2) (fun _ => 1 / 2) 1 with
      pt_restir_candidates := 7 / 2, pt_restir_spatial_neighbors := 7 / 2 } = 3 ∧
    (restir_di_resample (reuseEnv (fun _ => 2) (fun _ => 1 / 2) 1 5 (1207974912, 0) 1 1)
      sampleInp).M = 17 := by
  have h := (C20_parameter_clamps (reuseEnv (fun _ => 2) (fun _ => 1 / 2) 1 5
    (1207974912, 0) 1 1) sampleInp).2.2.2.2.2.2.2.1
  exact ⟨by decide!, by decide!, by decide!, by decide!, by decide!, by decide!⟩

/-! ### The packed identity -/

theorem pack_id_eq (kind light_id : Nat) (hk : kind < 4) (hl : light_id < 2 ^ 30) :
    restir_di_pack_id kind light_id = 4 * light_id + kind := by
  unfold restir_di_pack_id
  have h1 : kind &&& 3 = kind := by
    interval_cases kind <;> rfl
  have h2 : (light_id <<< 2) % 2 ^ 32 = light_id <<< 2 := by
    apply Nat.mod_eq_of_lt
    rw [Nat.shiftLeft_eq]
    omega
  rw [h1, h2, Nat.shiftLeft_eq, Nat.or_comm, Nat.mul_comm,
    ← Nat.mul_add_lt_is_or (show kind < 2 ^ 2 by omega)]

theorem unpack_id_eq (packed : Nat) :
    restir_di_unpack_id packed = (packed % 4, packed / 4) := by
  unfold restir_di_unpack_id
  have h1 : packed &&& 3 = packed % 4 := Nat.and_pow_two_sub_one_eq_mod packed 2
  have h2 : packed >>> 2 = packed / 4 := Nat.shiftRight_eq_div_pow packed 2
  rw [h1, h2]

/-- The kind read back from any packed word is the low two bits of the kind
that was packed. -/
theorem unpack_pack_kind (kind light_id : Nat) :
    (restir_di_unpack_id (restir_di_pack_id kind light_id)).1 = kind % 4 := by
  rw [unpack_id_eq]
  unfold restir_di_pack_id
  have h1 : kind &&& 3 = kind % 4 := Nat.and_pow_two_sub_one_eq_mod kind 2
  have h2 : (light_id <<< 2) % 2 ^ 32 = (light_id % 2 ^ 30) <<< 2 := by
    rw [Nat.shiftLeft_eq, Nat.shiftLeft_eq]
    omega
  have hlt : kind % 4 < 2 ^ 2 := by omega
  rw [h1, h2, Nat.shiftLeft_eq, Nat.or_comm, Nat.mul_comm, ← Nat.mul_add_lt_is_or hlt]
  show (2 ^ 2 * (light_id % 2 ^ 30) + kind % 4) % 4 = kind % 4
  omega

/-- C21: for every kind in `{0, 1, 2, 3}` and every `light_id < 2^30`,
unpacking the packed identity gives back `(kind, light_id)`, so
`restir_di_pack_id` is injective on this domain; the low two bits of the
packed word are the kind, and the packed word is 0 exactly for the kind none
with the light index 0. -/
theorem C21_pack_id_round_trip :
    (∀ kind light_id, kind < 4 → light_id < 2 ^ 30 →
      restir_di_unpack_id (restir_di_pack_id kind light_id) = (kind, light_id)) ∧
    (∀ k1 l1 k2 l2, k1 < 4 → l1 < 2 ^ 30 → k2 < 4 → l2 < 2 ^ 30 →
      restir_di_pack_id k1 l1 = restir_di_pack_id k2 l2 → k1 = k2 ∧ l1 = l2) ∧
    (∀ kind light_id, kind < 4 → light_id < 2 ^ 30 →
      restir_di_pack_id kind light_id &&& 3 = kind ∧
      restir_di_pack_id kind light_id >>> 2 = light_id ∧
      restir_di_pack_id kind light_id < 2 ^ 32) ∧
    (∀ kind light_id, kind < 4 → light_id < 2 ^ 30 →
      (restir_di_pack_id kind light_id = 0 ↔ kind = RESTIR_DI_KIND_NONE ∧ light_id = 0)) := by
  have hrt : ∀ kind light_id, kind < 4 → light_id < 2 ^ 30 →
      restir_di_unpack_id (restir_di_pack_id kind light_id) = (kind, light_id) := by
    intro kind light_id hk hl
    rw [unpack_id_eq, pack_id_eq kind light_id hk hl]
    refine Prod.ext ?_ ?_
    · show (4 * light_id + kind) % 4 = kind
      omega
    · show (4 * light_id + kind) / 4 = light_id
      omega
  refine ⟨hrt, ?_, ?_, ?_⟩
  · intro k1 l1 k2 l2 hk1 hl1 hk2 hl2 h
    rw [pack_id_eq k1 l1 hk1 hl1, pack_id_eq k2 l2 hk2 hl2] at h
    omega
  · intro kind light_id hk hl
    have h := hrt kind light_id hk hl
    unfold restir_di_unpack_id at h
    rw [Prod.mk.injEq] at h
    refine ⟨h.1, h.2, ?_⟩
    rw [pack_id_eq kind light_id hk hl]
    omega
  · intro kind light_id hk hl
    rw [pack_id_eq kind light_id hk hl]
    unfold RESTIR_DI_KIND_NONE
    omega

/-- Example for C21: the polygonal light 5 is packed to the word 21 and read
back; the largest light index of the domain round-trips as well. -/
theorem C21_pack_id_round_trip_witness :
    restir_di_pack_id RESTIR_DI_KIND_POLYGONAL 5 = 21 ∧
    restir_di_unpack_id 21 = (RESTIR_DI_KIND_POLYGONAL, 5) ∧
    restir_di_unpack_id (restir_di_pack_id 3 (2 ^ 30 - 1)) = (3, 2 ^ 30 - 1) ∧
    restir_di_pack_id RESTIR_DI_KIND_NONE 0 = 0 :=
  ⟨by decide, by decide,
    C21_pack_id_round_trip.1 3 (2 ^ 30 - 1) (by decide) (by decide), by decide⟩

/-! ### The relevance threshold of spatial reuse -/

/-- C22: a spatial neighbour reservoir whose sample re-evaluates to
`p_hat < 1e-4` at the current surface is skipped: the iteration returns the
running reservoir as it was, hence `w_sum`, `M`, the held sample,
`m_spatial_considered`, `p_hat_at_spatial_sum` and the number of random
numbers drawn are unchanged. -/
theorem C22_relevance_threshold (env : Env α) (inp : Inp α) (ipos_prev nb : IVec2)
    (rot j : Nat) (st : St α) (l : Loaded α) (p_hat : α)
    (hnb : restir_di_neighbor env inp ipos_prev rot j = some nb)
    (hl : restir_di_load_prev env nb inp.cluster_idx = some l)
    (he : restir_di_reevaluate env inp l = some p_hat)
    (hp : p_hat < 1 / 10000) :
    restir_di_spatial_iter env inp ipos_prev rot st j = st ∧
    restir_di_spatial_source env inp ipos_prev rot j = none := by
  constructor
  · unfold restir_di_spatial_iter
    rw [hnb]
    simp only [hl, he, if_pos hp]
    split_ifs <;> rfl
  · unfold restir_di_spatial_source
    rw [hnb]
    simp only [hl, he, if_pos hp]
    split_ifs <;> rfl

/-- Witness of C22: spatial reuse with `K = 1`; the neighbour `(1, 1)` holds
light 1, which evaluates to `p_hat = 1/20000` at the current surface, and the
iteration leaves the reservoir of the generator unchanged: the pass ends with
`M = 1` and the random stream after the rotation draw. -/
theorem C22_relevance_threshold_witness :
    restir_di_reevaluate (reuseEnv (fun _ => 1 / 20000) (fun _ => 1 / 2) 1 5 (1006648320, 0) 0 1)
      sampleInp ⟨1, 1, 1, 1, ⟨0, 0⟩⟩ = some (1 / 20000) ∧
    restir_di_spatial_iter (reuseEnv (fun _ => 1 / 20000) (fun _ => 1 / 2) 1 5
      (1006648320, 0) 0 1) sampleInp ⟨0, 0⟩ 4
      (restir_di_generate (reuseEnv (fun _ => 1 / 20000) (fun _ => 1 / 2) 1 5
        (1006648320, 0) 0 1) sampleInp) 0 =
      restir_di_generate (reuseEnv (fun _ => 1 / 20000) (fun _ => 1 / 2) 1 5
        (1006648320, 0) 0 1) sampleInp ∧
    (restir_di_resample (reuseEnv (fun _ => 1 / 20000) (fun _ => 1 / 2) 1 5
      (1006648320, 0) 0 1) sampleInp).M = 1 ∧
    (restir_di_resample (reuseEnv (fun _ => 1 / 20000) (fun _ => 1 / 2) 1 5
      (1006648320, 0) 0 1) sampleInp).rng_calls = 5 :=
  ⟨by decide!,
    (C22_relevance_threshold (reuseEnv (fun _ => 1 / 20000) (fun _ => 1 / 2) 1 5
      (1006648320, 0) 0 1) sampleInp ⟨0, 0⟩ ⟨1, 1⟩ 4 0 _ ⟨1, 1, 1, 1, ⟨0, 0⟩⟩ (1 / 20000)
      (by decide!) (by decide!) (by decide!) (by decide!)).1,
    by decide!, by decide!⟩

/-! ### The uniform pick and the membership test -/

theorem pick_eq_findSome (env : Env α) (c : Nat) (r : α) :
    restir_di_pick_polygonal_light_uniform env c r =
      if c = UINT_MAX then none
      else if restir_di_light_count env c = 0 then none
      else ([0, 1, 2, 3] : List Nat).findSome? (fun t =>
        if restir_di_pick_entry env c r t < env.MAX_LIGHT_POLYS then
          some (restir_di_pick_entry env c r t)
        else none) := rfl

/-- The pick returns the first valid one of the four entries it examines. -/
theorem pick_first_valid (env : Env α) (c : Nat) (r : α) (hc : c ≠ UINT_MAX)
    (hn : restir_di_light_count env c ≠ 0) :
    (∀ t, t < 4 → restir_di_pick_entry env c r t < env.MAX_LIGHT_POLYS →
      (∀ u, u < t → ¬ restir_di_pick_entry env c r u < env.MAX_LIGHT_POLYS) →
      restir_di_pick_polygonal_light_uniform env c r = some (restir_di_pick_entry env c r t)) ∧
    ((∀ t, t < 4 → ¬ restir_di_pick_entry env c r t < env.MAX_LIGHT_POLYS) →
      restir_di_pick_polygonal_light_uniform env c r = none) := by
  rw [pick_eq_findSome, if_neg hc, if_neg hn]
  constructor
  · intro t ht hv hfirst
    have h0 := hfirst 0
    have h1 := hfirst 1
    have h2 := hfirst 2
    interval_cases t
    · simp only [List.findSome?_cons, if_pos hv]
    · simp only [List.findSome?_cons, if_neg (h0 (by norm_num)), if_pos hv]
    · simp only [List.findSome?_cons, if_neg (h0 (by norm_num)), if_neg (h1 (by norm_num)),
        if_pos hv]
    · simp only [List.findSome?_cons, if_neg (h0 (by norm_num)), if_neg (h1 (by norm_num)),
        if_neg (h2 (by norm_num)), if_pos hv]
  · intro hall
    simp only [List.findSome?_cons, if_neg (hall 0 (by norm_num)), if_neg (hall 1 (by norm_num)),
      if_neg (hall 2 (by norm_num)), if_neg (hall 3 (by norm_num)), List.findSome?_nil]

/-- What a successful pick returns: one of the four examined entries, below
`MAX_LIGHT_POLYS`. -/
theorem pick_some_spec (env : Env α) (c : Nat) (r : α) (l : Nat)
    (h : restir_di_pick_polygonal_light_uniform env c r = some l) :
    c ≠ UINT_MAX ∧ restir_di_light_count env c ≠ 0 ∧ l < env.MAX_LIGHT_POLYS ∧
    ∃ t, t < 4 ∧ l = restir_di_pick_entry env c r t := by
  rw [pick_eq_findSome] at h
  by_cases hc : c = UINT_MAX
  · rw [if_pos hc] at h; exact absurd h (by simp)
  rw [if_neg hc] at h
  by_cases hn : restir_di_light_count env c = 0
  · rw [if_pos hn] at h; exact absurd h (by simp)
  rw [if_neg hn] at h
  refine ⟨hc, hn, ?_⟩
  obtain ⟨t, ht, hsome⟩ := List.exists_of_findSome?_eq_some h
  have ht4 : t < 4 := by
    simp only [List.mem_cons, List.mem_singleton, List.not_mem_nil, or_false] at ht
    omega
  by_cases hv : restir_di_pick_entry env c r t < env.MAX_LIGHT_POLYS
  · rw [if_pos hv, Option.some.injEq] at hsome
    rw [← hsome]
    exact ⟨hv, t, ht4, rfl⟩
  · rw [if_neg hv] at hsome
    exact absurd hsome (by simp)

theorem float_to_uint_eq (x : α) (h : ⌊x⌋.toNat < 2 ^ 32) : float_to_uint x = ⌊x⌋.toNat := by
  unfold float_to_uint
  exact Nat.mod_eq_of_lt h

/-- Without overflow of the 32-bit words the entry examined by iteration `t`
is the entry at the position `(base + t) mod count` of the list. -/
theorem pick_entry_eq (env : Env α) (c : Nat) (r : α) (t : Nat) (ht : t < 4)
    (hn : restir_di_light_count env c ≠ 0)
    (h1 : restir_di_light_count env c + 3 ≤ 2 ^ 32)
    (h2 : env.light_list_offsets c + restir_di_light_count env c ≤ 2 ^ 32) :
    restir_di_pick_entry env c r t =
      env.light_list_lights (env.light_list_offsets c +
        (restir_di_pick_base env c r + t) % restir_di_light_count env c) := by
  have hb : restir_di_pick_base env c r ≤ restir_di_light_count env c - 1 := min_le_left _ _
  have hpos : 0 < restir_di_light_count env c := Nat.pos_of_ne_zero hn
  have hmod := Nat.mod_lt (restir_di_pick_base env c r + t) hpos
  unfold restir_di_pick_entry
  rw [Nat.mod_eq_of_lt (show restir_di_pick_base env c r + t < 2 ^ 32 by omega),
    Nat.mod_eq_of_lt (show env.light_list_offsets c +
      (restir_di_pick_base env c r + t) % restir_di_light_count env c < 2 ^ 32 by omega)]

/-- The numbers `r` of `[0, 1)` with `floor(r * n) = k` are those of the
interval `[k / n, (k + 1) / n)`. -/
theorem floor_mul_eq_iff (r : α) (n k : Nat) (hn : 0 < n) (hr0 : 0 ≤ r) :
    ⌊r * (n : α)⌋.toNat = k ↔ (k : α) / n ≤ r ∧ r < ((k : α) + 1) / n := by
  have hn' : (0 : α) < (n : α) := by exact_mod_cast hn
  have h0 : 0 ≤ ⌊r * (n : α)⌋ := Int.floor_nonneg.mpr (mul_nonneg hr0 hn'.le)
  rw [div_le_iff₀ hn', lt_div_iff₀ hn']
  constructor
  · intro h
    have hk : ⌊r * (n : α)⌋ = (k : Int) := by omega
    rw [Int.floor_eq_iff] at hk
    exact_mod_cast hk
  · rintro ⟨h1, h2⟩
    have hk : ⌊r * (n : α)⌋ = (k : Int) := by
      rw [Int.floor_eq_iff]
      push_cast
      exact ⟨h1, h2⟩
    omega

/-- C23: `restir_di_pick_polygonal_light_uniform` returns false when the
cluster index is `~0` or the list of the cluster is empty.  Otherwise it
starts at `base = min(count - 1, uint(r * count))`, which is
`min(count - 1, floor(r * count))` for `r >= 0` within the 32-bit range, and
returns the first of the four entries at the list positions
`(base + t) mod count`, `t = 0, 1, 2, 3`, that is below `MAX_LIGHT_POLYS`,
false if none is.  When every entry of a well-formed list is valid and `r` is
in `[0, 1)` it returns the entry at the position `floor(r * count)`, and the
entry `k` is chosen exactly for `r` in `[k / count, (k + 1) / count)`, an
interval of length `1 / count`. -/
theorem C23_uniform_pick (env : Env α) (c : Nat) (r : α) :
    (c = UINT_MAX ∨ restir_di_light_count env c = 0 →
      restir_di_pick_polygonal_light_uniform env c r = none) ∧
    (c ≠ UINT_MAX → restir_di_light_count env c ≠ 0 →
      (∀ t, t < 4 → restir_di_pick_entry env c r t < env.MAX_LIGHT_POLYS →
        (∀ u, u < t → ¬ restir_di_pick_entry env c r u < env.MAX_LIGHT_POLYS) →
        restir_di_pick_polygonal_light_uniform env c r =
          some (restir_di_pick_entry env c r t)) ∧
      ((∀ t, t < 4 → ¬ restir_di_pick_entry env c r t < env.MAX_LIGHT_POLYS) →
        restir_di_pick_polygonal_light_uniform env c r = none)) ∧
    (⌊r * (restir_di_light_count env c : α)⌋.toNat < 2 ^ 32 →
      restir_di_pick_base env c r =
        min (restir_di_light_count env c - 1) ⌊r * (restir_di_light_count env c : α)⌋.toNat) ∧
    (restir_di_light_count env c ≠ 0 → restir_di_light_count env c + 3 ≤ 2 ^ 32 →
      env.light_list_offsets c + restir_di_light_count env c ≤ 2 ^ 32 →
      ∀ t, t < 4 → restir_di_pick_entry env c r t =
        env.light_list_lights (env.light_list_offsets c +
          (restir_di_pick_base env c r + t) % restir_di_light_count env c)) ∧
    (c ≠ UINT_MAX → env.light_list_offsets c ≤ env.light_list_offsets (c + 1) →
      env.light_list_offsets (c + 1) < 2 ^ 32 →
      (∀ i, env.light_list_offsets c ≤ i → i < env.light_list_offsets (c + 1) →
        env.light_list_lights i < env.MAX_LIGHT_POLYS) →
      0 ≤ r → r < 1 → 0 < restir_di_light_count env c →
      restir_di_pick_polygonal_light_uniform env c r =
        some (env.light_list_lights (env.light_list_offsets c +
          ⌊r * (restir_di_light_count env c : α)⌋.toNat)) ∧
      ⌊r * (restir_di_light_count env c : α)⌋.toNat < restir_di_light_count env c) ∧
    (∀ k, 0 < restir_di_light_count env c → 0 ≤ r →
      (⌊r * (restir_di_light_count env c : α)⌋.toNat = k ↔
        (k : α) / (restir_di_light_count env c : α) ≤ r ∧
        r < ((k : α) + 1) / (restir_di_light_count env c : α)) ∧
      ((k : α) + 1) / (restir_di_light_count env c : α) -
        (k : α) / (restir_di_light_count env c : α) = 1 / (restir_di_light_count env c : α)) := by
  refine ⟨fun h => pick_none_of_empty env c r h, fun hc hn => pick_first_valid env c r hc hn,
    ?_, ?_, ?_, ?_⟩
  · intro h
    unfold restir_di_pick_base
    rw [float_to_uint_eq _ h]
  · intro hn h1 h2 t ht
    exact pick_entry_eq env c r t ht hn h1 h2
  · intro hc hwf hlt hvalid hr0 hr1 hn
    exact ⟨pick_uniform env c r hc hwf hlt hvalid hr0 hr1 hn, floor_mul_lt r _ hr0 hr1 hn⟩
  · intro k hn hr0
    refine ⟨floor_mul_eq_iff r _ k hn hr0, ?_⟩
    have hn' : (0 : α) < (restir_di_light_count env c : α) := by exact_mod_cast hn
    field_simp

/-- C29: over a well-formed list (offsets of 32 bits, the end not before the
start), whenever `restir_di_pick_polygonal_light_uniform(c, r)` returns true
with `light_id`, then `light_id < MAX_LIGHT_POLYS` and
`restir_di_cluster_contains_light(c, light_id)` is true, and the four tests at
the head of `restir_di_eval_polygonal_sample` (sentinel cluster, light index,
empty list, membership) all let the candidate pass. -/
theorem C29_pick_validate_consistency (env : Env α) (c : Nat) (r : α) (light_id : Nat)
    (hwf : env.light_list_offsets c ≤ env.light_list_offsets (c + 1))
    (hlt : env.light_list_offsets (c + 1) < 2 ^ 32)
    (h : restir_di_pick_polygonal_light_uniform env c r = some light_id) :
    light_id < env.MAX_LIGHT_POLYS ∧
    restir_di_cluster_contains_light env c light_id = true ∧
    c ≠ UINT_MAX ∧ ¬ light_id ≥ env.MAX_LIGHT_POLYS ∧ restir_di_light_count env c ≠ 0 ∧
    ¬ restir_di_cluster_contains_light env c light_id = false := by
  obtain ⟨hc, hn, hv, t, ht, he⟩ := pick_some_spec env c r light_id h
  have hcount := light_count_eq env c hwf hlt
  have hpos : 0 < restir_di_light_count env c := Nat.pos_of_ne_zero hn
  have hmem : restir_di_cluster_contains_light env c light_id = true := by
    rw [cluster_contains_light_iff]
    refine ⟨hc, env.light_list_offsets c +
      ((restir_di_pick_base env c r + t) % 2 ^ 32) % restir_di_light_count env c, ?_, ?_, ?_⟩
    · exact Nat.le_add_right _ _
    · have := Nat.mod_lt ((restir_di_pick_base env c r + t) % 2 ^ 32) hpos
      omega
    · rw [he]
      unfold restir_di_pick_entry
      have := Nat.mod_lt ((restir_di_pick_base env c r + t) % 2 ^ 32) hpos
      rw [Nat.mod_eq_of_lt (show env.light_list_offsets c +
        ((restir_di_pick_base env c r + t) % 2 ^ 32) % restir_di_light_count env c < 2 ^ 32
        by omega)]
  refine ⟨hv, hmem, hc, not_le.mpr hv, hn, ?_⟩
  rw [hmem]
  decide

/-- Witness of C23: in the sample scene (lights 0, 1, 2 listed for cluster 0)
the number `r = 1/2` picks the entry at position `floor(3/2) = 1`; when only
light 2 is below `MAX_LIGHT_POLYS`, `r = 0` starts at the entry 0 and returns
the third entry examined; with no valid entry the pick fails. -/
theorem C23_uniform_pick_witness :
    restir_di_pick_polygonal_light_uniform (sampleEnv (fun _ => 2) (fun _ => 1 / 2) 1) 0 (1 / 2)
      = some 1 ∧
    restir_di_pick_base (sampleEnv (fun _ => 2) (fun _ => 1 / 2) 1) 0 (1 / 2) = 1 ∧
    restir_di_pick_polygonal_light_uniform
      { sampleEnv (fun _ => 2) (fun _ => 1 / 2) 1 with
        light_list_lights := fun i => if i = 2 then 2 else 5000 } 0 0 = some 2 ∧
    restir_di_pick_polygonal_light_uniform
      { sampleEnv (fun _ => 2) (fun _ => 1 / 2) 1 with
        light_list_lights := fun _ => 5000 } 0 0 = none ∧
    restir_di_pick_polygonal_light_uniform (sampleEnv (fun _ => 2) (fun _ => 1 / 2) 1)
      UINT_MAX (1 / 2) = none :=
  ⟨by decide!, by decide!, by decide!, by decide!,
    (C23_uniform_pick (sampleEnv (fun _ => 2) (fun _ => 1 / 2) 1) UINT_MAX (1 / 2)).1
      (Or.inl rfl)⟩

/-- Witness of C29: in the sample scene the pick with `r = 1/2` returns light
1, which is in the list of cluster 0. -/
theorem C29_pick_validate_consistency_witness :
    restir_di_pick_polygonal_light_uniform (sampleEnv (fun _ => 2) (fun _ => 1 / 2) 1) 0 (1 / 2)
      = some 1 ∧
    restir_di_cluster_contains_light (sampleEnv (fun _ => 2) (fun _ => 1 / 2) 1) 0 1 = true :=
  ⟨by decide!,
    (C29_pick_validate_consistency (sampleEnv (fun _ => 2) (fun _ => 1 / 2) 1) 0 (1 / 2) 1
      (by decide) (by decide) (by decide!)).2.1⟩

/-! ### The count of the candidates -/

theorem accepted_count_succ (env : Env α) (inp : Inp α) (n : Nat) :
    restir_di_accepted_count env inp (n + 1) =
      restir_di_accepted_count env inp n +
        (if (restir_di_iter_candidate env inp n).isSome = true then 1 else 0) := by
  unfold restir_di_accepted_count
  rw [List.range_succ, List.filter_append, List.length_append]
  by_cases h : (restir_di_iter_candidate env inp n).isSome = true
  · simp [h]
  · simp [h]

/-- One iteration of the candidate loop in terms of the candidate of the
iteration. -/
theorem candidate_iter_eq (env : Env α) (inp : Inp α) (st : St α) (n : Nat)
    (hr : st.rng_calls = 4 * n) :
    restir_di_candidate_iter env inp st =
      match restir_di_iter_candidate env inp n with
      | none => { st with rng_calls := 4 * n + 4 }
      | some c =>
        restir_di_fold_candidate { st with rng_calls := 4 * n + 4 } RESTIR_DI_KIND_POLYGONAL
          c.p_hat c.light_id c.y_pos (env.rng (4 * n + 3)) := by
  unfold restir_di_candidate_iter restir_di_iter_candidate
  simp only [hr]
  cases hp : restir_di_pick_polygonal_light_uniform env inp.cluster_idx (env.rng (4 * n)) with
  | none => rfl
  | some l =>
    simp only []
    cases he : restir_di_evaluate_polygonal_unshadowed env inp l
        ⟨env.rng (4 * n + 1), env.rng (4 * n + 2)⟩ with
    | none => rfl
    | some p => rfl

theorem fold_candidate_M (st : St α) (kind : Nat) (p_hat : α) (light_id : Nat) (y_pos : Vec2 α)
    (u : α) :
    (restir_di_fold_candidate st kind p_hat light_id y_pos u).M = st.M + 1 ∧
    (restir_di_fold_candidate st kind p_hat light_id y_pos u).rng_calls = st.rng_calls ∧
    (restir_di_fold_candidate st kind p_hat light_id y_pos u).w_sum = st.w_sum + p_hat := by
  unfold restir_di_fold_candidate
  simp only []
  split_ifs <;> exact ⟨rfl, rfl, rfl⟩

/-- After `n` iterations of the candidate loop `4 n` random numbers are drawn
and `M` is the number of accepted draws. -/
theorem iterate_count (env : Env α) (inp : Inp α) (n : Nat) :
    ((restir_di_candidate_iter env inp)^[n] St.init).rng_calls = 4 * n ∧
    ((restir_di_candidate_iter env inp)^[n] St.init).M = restir_di_accepted_count env inp n := by
  induction n with
  | zero => exact ⟨rfl, rfl⟩
  | succ n ih =>
    rw [Function.iterate_succ_apply', accepted_count_succ]
    generalize (restir_di_candidate_iter env inp)^[n] St.init = st at ih
    obtain ⟨hr, hM⟩ := ih
    rw [candidate_iter_eq env inp st n hr]
    cases restir_di_iter_candidate env inp n with
    | none =>
      simp only [Option.isSome_none, Bool.false_eq_true, if_false, Nat.add_zero]
      exact ⟨by omega, hM⟩
    | some c =>
      simp only [Option.isSome_some, if_true]
      obtain ⟨h1, h2, _⟩ := fold_candidate_M { st with rng_calls := 4 * n + 4 }
        RESTIR_DI_KIND_POLYGONAL c.p_hat c.light_id c.y_pos (env.rng (4 * n + 3))
      rw [h1, h2]
      refine ⟨by show 4 * n + 4 = 4 * (n + 1); omega, ?_⟩
      show st.M + 1 = _
      rw [hM]
      push_cast
      rfl

theorem accepted_count_le (env : Env α) (inp : Inp α) (n : Nat) :
    restir_di_accepted_count env inp n ≤ n := by
  unfold restir_di_accepted_count
  calc ((List.range n).filter _).length ≤ (List.range n).length := List.length_filter_le _ _
    _ = n := List.length_range n

theorem accepted_count_eq_iff (env : Env α) (inp : Inp α) (n : Nat) :
    restir_di_accepted_count env inp n = n ↔
      ∀ j, j < n → (restir_di_iter_candidate env inp j).isSome = true := by
  unfold restir_di_accepted_count
  constructor
  · intro h j hj
    have h2 : ((List.range n).filter
        (fun j => (restir_di_iter_candidate env inp j).isSome)).length
        = (List.range n).length := by rw [h, List.length_range]
    rw [List.filter_length_eq_length] at h2
    exact h2 j (List.mem_range.mpr hj)
  · intro h
    have h2 : ((List.range n).filter
        (fun j => (restir_di_iter_candidate env inp j).isSome)).length
        = (List.range n).length := by
      rw [List.filter_length_eq_length]
      intro j hj
      exact h j (List.mem_range.mp hj)
    rw [h2, List.length_range]

theorem generate_M_pos (env : Env α) (inp : Inp α) :
    0 ≤ (restir_di_generate env inp).M ∧ 0 ≤ (restir_di_generate env inp).w_sum ∧
    (0 < (restir_di_generate env inp).M → 0 < (restir_di_generate env inp).w_sum) := by
  apply generate_induction env inp
    (fun st => 0 ≤ st.M ∧ 0 ≤ st.w_sum ∧ (0 < st.M → 0 < st.w_sum))
  · exact ⟨le_refl _, le_refl _, fun h => absurd h (lt_irrefl _)⟩
  · intro st p_hat light_id y_pos u hst hp
    obtain ⟨h1, _, h3⟩ := fold_candidate_M { st with rng_calls := st.rng_calls + 4 }
      RESTIR_DI_KIND_POLYGONAL p_hat light_id y_pos u
    simp only [h1, h3]
    have hM : 0 ≤ st.M := hst.1
    have hw : 0 ≤ st.w_sum := hst.2.1
    refine ⟨?_, ?_, fun _ => ?_⟩
    · show 0 ≤ st.M + 1
      omega
    · show 0 ≤ st.w_sum + p_hat
      linarith
    · show 0 < st.w_sum + p_hat
      linarith
  · intro st n hst
    exact hst

/-- C24 (amended): the generator increments `M` once for each accepted draw,
that is, each draw whose pick succeeds and whose evaluation returns true
(`p_hat > 0`); a draw with `p_hat = 0` is not counted.  With polygonal lights
enabled `M` after candidate generation is the number of accepted draws, at
most `N`, and `N` exactly when every draw is accepted; `M > 0` implies
`w_sum > 0`. -/
theorem C24_candidate_count (env : Env α) (inp : Inp α)
    (hpoly : inp.enable_polygonal = true) :
    (restir_di_generate env inp).M =
      restir_di_accepted_count env inp (restir_di_N env).toNat ∧
    (restir_di_generate env inp).M ≤ restir_di_N env ∧
    ((restir_di_generate env inp).M = restir_di_N env ↔
      ∀ j, j < (restir_di_N env).toNat →
        (restir_di_iter_candidate env inp j).isSome = true) ∧
    (0 < (restir_di_generate env inp).M → 0 < (restir_di_generate env inp).w_sum) := by
  have hM : (restir_di_generate env inp).M =
      restir_di_accepted_count env inp (restir_di_N env).toNat := by
    unfold restir_di_generate
    simp only [enable_sun, Bool.false_eq_true, if_false, hpoly, if_true]
    exact (iterate_count env inp _).2
  have hN : ((restir_di_N env).toNat : Int) = restir_di_N env :=
    Int.toNat_of_nonneg (by have := (N_bounds env).1; omega)
  refine ⟨hM, generate_M_le env inp, ?_, (generate_M_pos env inp).2.2⟩
  rw [hM, ← accepted_count_eq_iff]
  constructor
  · intro h
    omega
  · intro h
    omega

/-- Witness of C24: in the sample scene the one draw is accepted and
`M = N = 1`. -/
theorem C24_candidate_count_witness :
    restir_di_N (sampleEnv (fun _ => 2) (fun _ => 1 / 2) 1) = 1 ∧
    restir_di_accepted_count (sampleEnv (fun _ => 2) (fun _ => 1 / 2) 1) sampleInp 1 = 1 ∧
    (restir_di_generate (sampleEnv (fun _ => 2) (fun _ => 1 / 2) 1) sampleInp).M = 1 := by
  have h := (C24_candidate_count (sampleEnv (fun _ => 2) (fun _ => 1 / 2) 1) sampleInp rfl).1
  have hN : restir_di_N (sampleEnv (fun _ => 2) (fun _ => 1 / 2) 1) = 1 := by decide!
  have hc : restir_di_accepted_count (sampleEnv (fun _ => 2) (fun _ => 1 / 2) 1) sampleInp 1 = 1 := by
    decide!
  rw [hN] at h
  refine ⟨hN, hc, ?_⟩
  rw [h]
  show ((restir_di_accepted_count (sampleEnv (fun _ => 2) (fun _ => 1 / 2) 1) sampleInp 1 : Nat)
    : Int) = 1
  rw [hc]
  rfl

/-- Counterexample to C24 as stated: the sample scene with black lights and
`N = 3` draws, polygonal lights enabled.  Every draw picks a light and
evaluates `p_hat = 0`, the evaluation returns false and the loop continues
before `M += 1`: after candidate generation `M = 0`, not 3. -/
theorem C24_counterexample_zero_p_hat :
    sampleInp.enable_polygonal = true ∧
    restir_di_N { sampleEnv (fun _ => 0) (fun _ => 1 / 2) 1 with pt_restir_candidates := 3 } = 3 ∧
    restir_di_pick_polygonal_light_uniform
      { sampleEnv (fun _ => 0) (fun _ => 1 / 2) 1 with pt_restir_candidates := 3 } 0 (1 / 2)
      = some 1 ∧
    restir_di_unshadowed_radiance
      { sampleEnv (fun _ => 0) (fun _ => 1 / 2) 1 with pt_restir_candidates := 3 } sampleInp 1
      ⟨1 / 2, 1 / 2⟩ = some ⟨0, 0, 0⟩ ∧
    restir_di_evaluate_polygonal_unshadowed
      { sampleEnv (fun _ => 0) (fun _ => 1 / 2) 1 with pt_restir_candidates := 3 } sampleInp 1
      ⟨1 / 2, 1 / 2⟩ = none ∧
    (restir_di_generate
      { sampleEnv (fun _ => 0) (fun _ => 1 / 2) 1 with pt_restir_candidates := 3 } sampleInp).M
      = 0 ∧
    (restir_di_generate
      { sampleEnv (fun _ => 0) (fun _ => 1 / 2) 1 with pt_restir_candidates := 3 }
      sampleInp).rng_calls = 12 :=
  ⟨rfl, by decide!, by decide!, by decide!, by decide!, by decide!, by decide!⟩

/-! ### The barycentric threshold -/

theorem bary_threshold_of_eq (m : α) :
    restir_di_bary_threshold_of m = 5 / 100 + 20 / 100 * glsl_clamp (m / 16) 0 1 := by
  unfold restir_di_bary_threshold_of glsl_mix
  ring

theorem glsl_clamp_mono (x y lo hi : α) (h : x ≤ y) : glsl_clamp x lo hi ≤ glsl_clamp y lo hi := by
  unfold glsl_clamp
  exact min_le_min (max_le_max h (le_refl _)) (le_refl _)

/-- C25: the threshold `mix(0.05, 0.25, clamp(motion_length_px / 16, 0, 1))`
of the barycentric test is a non-decreasing function of the motion length,
lies in `[0.05, 0.25]`, is 0.05 at zero motion (and for any motion length
`<= 0`) and 0.25 for every motion length of 16 pixels or more. -/
theorem C25_bary_threshold (env : Env α) (inp : Inp α) :
    bary_threshold env inp = restir_di_bary_threshold_of (motion_length_px env inp) ∧
    (∀ m1 m2 : α, m1 ≤ m2 → restir_di_bary_threshold_of m1 ≤ restir_di_bary_threshold_of m2) ∧
    (∀ m : α, 5 / 100 ≤ restir_di_bary_threshold_of m ∧ restir_di_bary_threshold_of m ≤ 25 / 100) ∧
    restir_di_bary_threshold_of (0 : α) = 5 / 100 ∧
    (∀ m : α, 16 ≤ m → restir_di_bary_threshold_of m = 25 / 100) ∧
    (5 / 100 ≤ bary_threshold env inp ∧ bary_threshold env inp ≤ 25 / 100) := by
  have hrange : ∀ m : α, 5 / 100 ≤ restir_di_bary_threshold_of m ∧
      restir_di_bary_threshold_of m ≤ 25 / 100 := by
    intro m
    have h := glsl_clamp_mem (m / 16) 0 1 zero_le_one
    rw [bary_threshold_of_eq]
    constructor
    · nlinarith [h.1]
    · nlinarith [h.2]
  refine ⟨rfl, ?_, hrange, ?_, ?_, hrange _⟩
  · intro m1 m2 h
    rw [bary_threshold_of_eq, bary_threshold_of_eq]
    have h16 : m1 / 16 ≤ m2 / 16 := div_le_div_of_nonneg_right h (by norm_num)
    have := glsl_clamp_mono (m1 / 16) (m2 / 16) 0 1 h16
    linarith
  · rw [bary_threshold_of_eq]
    simp [glsl_clamp]
  · intro m hm
    rw [bary_threshold_of_eq]
    have h1 : (1 : α) ≤ m / 16 := by
      rw [le_div_iff₀ (by norm_num : (0 : α) < 16)]
      linarith
    have hc : glsl_clamp (m / 16) 0 1 = 1 := by
      unfold glsl_clamp
      rw [max_eq_left (le_trans zero_le_one h1), min_eq_right h1]
    rw [hc]
    norm_num

/-- Example for C25: the thresholds at the motion lengths 0, 8, 16 and 100
pixels are 0.05, 0.15, 0.25 and 0.25. -/
theorem C25_bary_threshold_witness :
    restir_di_bary_threshold_of (0 : ℚ) = 5 / 100 ∧
    restir_di_bary_threshold_of (8 : ℚ) = 15 / 100 ∧
    restir_di_bary_threshold_of (16 : ℚ) = 25 / 100 ∧
    restir_di_bary_threshold_of (100 : ℚ) = 25 / 100 ∧
    bary_threshold (sampleEnv (fun _ => 2) (fun _ => 1 / 2) 1) sampleInp = 5 / 100 :=
  ⟨(C25_bary_threshold (sampleEnv (fun _ => 2) (fun _ => 1 / 2) 1) sampleInp).2.2.2.1,
    by decide!, by decide!, by decide!, by decide!⟩

/-! ### The neighbour kernel -/

theorem kernel_offset_mod (rot j : Nat) :
    restir_di_kernel_offset rot j = restir_di_kernel_offset (rot % 8) (j % 8) := by
  unfold restir_di_kernel_offset
  rw [Nat.add_mod]

theorem kernel_offset_fin :
    ∀ r : Fin 8, ∀ j : Fin 8,
      restir_di_kernel_offset r.val j.val ∈ neighbor_offsets ∧
      restir_di_kernel_offset r.val j.val ≠ ⟨0, 0⟩ ∧
      neighbor_offsets.get? ((j.val + r.val) % 8) = some (restir_di_kernel_offset r.val j.val) ∧
      ∀ k : Fin 8, j ≠ k →
        restir_di_kernel_offset r.val j.val ≠ restir_di_kernel_offset r.val k.val := by
  decide

theorem neighbor_eq_offset (env : Env α) (inp : Inp α) (ipos_prev nb : IVec2) (rot j : Nat)
    (h : restir_di_neighbor env inp ipos_prev rot j = some nb) :
    nb = ⟨ipos_prev.x + (restir_di_kernel_offset rot j).x,
      ipos_prev.y + (restir_di_kernel_offset rot j).y⟩ ∧
    (0 ≤ nb.y ∧ nb.y < env.prev_height) ∧
    (restir_di_field_left env inp ≤ nb.x ∧ nb.x < restir_di_field_right env inp) := by
  have e : restir_di_neighbor env inp ipos_prev rot j =
      if (ipos_prev.y + (restir_di_kernel_offset rot j).y < 0 ∨
          ipos_prev.y + (restir_di_kernel_offset rot j).y ≥ env.prev_height) then none
      else if (ipos_prev.x + (restir_di_kernel_offset rot j).x < restir_di_field_left env inp ∨
          ipos_prev.x + (restir_di_kernel_offset rot j).x ≥ restir_di_field_right env inp)
      then none
      else some ⟨ipos_prev.x + (restir_di_kernel_offset rot j).x,
        ipos_prev.y + (restir_di_kernel_offset rot j).y⟩ := rfl
  rw [e] at h
  split_ifs at h with h1 h2
  rw [Option.some.injEq] at h
  rw [not_or, not_lt, not_le] at h1 h2
  rw [← h]
  exact ⟨rfl, h1, h2⟩

/-- C26: iteration `j` of the neighbour loop visits the offset
`neighbor_offsets[(j + rot) mod 8]`: the index is within `0..7`, the offset is
one of the eight non-zero offsets of the 8-connected kernel, the offsets of
two different iterations `j, k < 8` differ (so for `K <= 8` the `K` visited
offsets are pairwise distinct), and iteration `j + 8` visits the offset of
iteration `j`.  The rotation drawn at line 1900 lies in `0..7`. -/
theorem C26_kernel_traversal (env : Env α) (inp : Inp α) :
    (∀ ipos_prev rot j nb, restir_di_neighbor env inp ipos_prev rot j = some nb →
      nb = ⟨ipos_prev.x + (restir_di_kernel_offset rot j).x,
        ipos_prev.y + (restir_di_kernel_offset rot j).y⟩) ∧
    (∀ rot j, (j + rot) % 8 < neighbor_offsets.length ∧
      neighbor_offsets.get? ((j + rot) % 8) = some (restir_di_kernel_offset rot j) ∧
      restir_di_kernel_offset rot j ∈ neighbor_offsets ∧
      restir_di_kernel_offset rot j ≠ ⟨0, 0⟩) ∧
    (∀ o : IVec2, o ∈ neighbor_offsets ↔
      (-1 ≤ o.x ∧ o.x ≤ 1) ∧ (-1 ≤ o.y ∧ o.y ≤ 1) ∧ o ≠ ⟨0, 0⟩) ∧
    (∀ rot j k, j < 8 → k < 8 → j ≠ k →
      restir_di_kernel_offset rot j ≠ restir_di_kernel_offset rot k) ∧
    (∀ rot j, restir_di_kernel_offset rot (j + 8) = restir_di_kernel_offset rot j) ∧
    restir_di_rot env inp < 8 ∧
    (0 ≤ restir_di_K env ∧ restir_di_K env ≤ 16) := by
  refine ⟨fun ipos_prev rot j nb h => (neighbor_eq_offset env inp ipos_prev nb rot j h).1,
    ?_, ?_, ?_, ?_, ?_, K_bounds env⟩
  · intro rot j
    have h := kernel_offset_fin ⟨rot % 8, Nat.mod_lt _ (by norm_num)⟩
      ⟨j % 8, Nat.mod_lt _ (by norm_num)⟩
    rw [kernel_offset_mod rot j]
    refine ⟨Nat.mod_lt _ (by decide), ?_, h.1, h.2.1⟩
    have h3 := h.2.2.1
    simp only [] at h3
    rw [Nat.add_mod]
    exact h3
  · intro o
    constructor
    · intro h
      have hall : ∀ q ∈ neighbor_offsets,
          (-1 ≤ q.x ∧ q.x ≤ 1) ∧ (-1 ≤ q.y ∧ q.y ≤ 1) ∧ q ≠ ⟨0, 0⟩ := by decide
      exact hall o h
    · rintro ⟨⟨hx1, hx2⟩, ⟨hy1, hy2⟩, hne⟩
      obtain ⟨x, y⟩ := o
      simp only [] at hx1 hx2 hy1 hy2
      have hx : x = -1 ∨ x = 0 ∨ x = 1 := by omega
      have hy : y = -1 ∨ y = 0 ∨ y = 1 := by omega
      rcases hx with rfl | rfl | rfl <;> rcases hy with rfl | rfl | rfl <;>
        first
          | exact absurd rfl hne
          | decide
  · intro rot j k hj hk hne
    have h := (kernel_offset_fin ⟨rot % 8, Nat.mod_lt _ (by norm_num)⟩ ⟨j, hj⟩).2.2.2 ⟨k, hk⟩
      (by
        intro heq
        exact hne (Fin.mk.inj_iff.mp heq))
    simp only [] at h
    rw [kernel_offset_mod rot j, kernel_offset_mod rot k, Nat.mod_eq_of_lt hj,
      Nat.mod_eq_of_lt hk]
    exact h
  · intro rot j
    unfold restir_di_kernel_offset
    rw [show j + 8 + rot = j + rot + 8 by omega, Nat.add_mod_right]
  · unfold restir_di_rot
    have h0 : (0 : Int) ≤ ⌊env.rng (restir_di_after_temporal env inp).rng_calls * 8⌋ % 8 :=
      Int.emod_nonneg _ (by norm_num)
    have h1 : ⌊env.rng (restir_di_after_temporal env inp).rng_calls * 8⌋ % 8 < 8 :=
      Int.emod_lt_of_pos _ (by norm_num)
    omega

/-- Example for C26: with the rotation 4 the iterations 0, 1 and 5 visit the
offsets `(1, 1)`, `(-1, 1)` and `(-1, 0)`, and iteration 8 visits `(1, 1)`
again; in the sample scene the first neighbour is `(0, 0) + (1, 1)`. -/
theorem C26_kernel_traversal_witness :
    restir_di_kernel_offset 4 0 = ⟨1, 1⟩ ∧
    restir_di_kernel_offset 4 1 = ⟨-1, 1⟩ ∧
    restir_di_kernel_offset 4 5 = ⟨-1, 0⟩ ∧
    restir_di_kernel_offset 4 8 = ⟨1, 1⟩ ∧
    restir_di_neighbor (reuseEnv (fun _ => 2) (fun _ => 1 / 2) 1 5 (1006648320, 0) 0 1)
      sampleInp ⟨0, 0⟩ 4 0 = some ⟨1, 1⟩ ∧
    restir_di_rot (reuseEnv (fun _ => 2) (fun _ => 1 / 2) 1 5 (1006648320, 0) 0 1) sampleInp = 4 :=
  ⟨by decide, by decide, by decide,
    ((C26_kernel_traversal (reuseEnv (fun _ => 2) (fun _ => 1 / 2) 1 5 (1006648320, 0) 0 1)
      sampleInp).2.2.2.2.1 4 0).trans (by decide),
    by decide!, by decide!⟩

/-! ### The checkerboard coordinates -/

theorem int_to_uint_of_nonneg (i : Int) (h0 : 0 ≤ i) (h1 : i < 2 ^ 32) :
    ((int_to_uint i : Nat) : Int) = i := by
  unfold int_to_uint
  rw [Int.emod_eq_of_lt h0 h1, Int.toNat_of_nonneg h0]

/-- The checkerboard maps on a pixel of an image of even width `w`, with the
half width `w / 2`. -/
theorem checker_to_flat_eq (x y w : Int) (hw : 2 ≤ w) (hw31 : w < 2 ^ 31) (hx0 : 0 ≤ x)
    (hxw : x < w) :
    restir_di_checker_to_flat ⟨x, y⟩ w =
      ⟨if x < w / 2 then x * 2 + y % 2 else (x - w / 2) * 2 + (1 - y % 2), y⟩ := by
  have hdiv : Int.tdiv w 2 = w / 2 := Int.tdiv_eq_ediv (by omega) (by norm_num)
  have hh := int_to_uint_of_nonneg (w / 2) (by omega) (by omega)
  have hxx := int_to_uint_of_nonneg x hx0 (by omega)
  unfold restir_di_checker_to_flat
  simp only [hdiv, hh]
  have hlt : (int_to_uint x < int_to_uint (w / 2)) ↔ x < w / 2 := by
    rw [← hxx, ← hh]
    simp only [hxx, hh]
    constructor
    · intro h
      have : ((int_to_uint x : Nat) : Int) < ((int_to_uint (w / 2) : Nat) : Int) := by
        exact_mod_cast h
      rwa [hxx, hh] at this
    · intro h
      have : ((int_to_uint x : Nat) : Int) < ((int_to_uint (w / 2) : Nat) : Int) := by
        rwa [hxx, hh]
      exact_mod_cast this
  by_cases h : x < w / 2
  · simp only [hlt.mpr h, decide_True, if_true, h]
  · simp only [mt hlt.mp h, decide_False, Bool.false_eq_true, if_false, h]

theorem flat_to_checker_eq (x y w : Int) (hw : 2 ≤ w) (hw31 : w < 2 ^ 31) (hx0 : 0 ≤ x) :
    restir_di_flat_to_checker ⟨x, y⟩ w =
      ⟨x / 2 + (if x % 2 = y % 2 then 0 else w / 2), y⟩ := by
  have hdiv : Int.tdiv w 2 = w / 2 := Int.tdiv_eq_ediv (by omega) (by norm_num)
  have hdx : Int.tdiv x 2 = x / 2 := Int.tdiv_eq_ediv hx0 (by norm_num)
  have hh := int_to_uint_of_nonneg (w / 2) (by omega) (by omega)
  unfold restir_di_flat_to_checker
  simp only [hdiv, hdx, hh]
  by_cases h : x % 2 = y % 2
  · simp only [h, decide_True, if_true]
  · simp only [h, decide_False, Bool.false_eq_true, if_false]

/-- C30: for every even width `w >= 2` (a 32-bit `int`) and every pixel with
`0 <= x < w`, `restir_di_flat_to_checker` and `restir_di_checker_to_flat` are
inverse to each other, both keep `y` and keep `x` within `[0, w)`, and a flat
pixel whose `x` and `y` have the same parity is mapped to the left field
(`x < w / 2`), any other to the right field. -/
theorem C30_checkerboard_round_trip (x y w : Int) (hw : 2 ≤ w) (heven : w % 2 = 0)
    (hw31 : w < 2 ^ 31) (hx0 : 0 ≤ x) (hxw : x < w) :
    restir_di_flat_to_checker (restir_di_checker_to_flat ⟨x, y⟩ w) w = ⟨x, y⟩ ∧
    restir_di_checker_to_flat (restir_di_flat_to_checker ⟨x, y⟩ w) w = ⟨x, y⟩ ∧
    (restir_di_checker_to_flat ⟨x, y⟩ w).y = y ∧
    (restir_di_flat_to_checker ⟨x, y⟩ w).y = y ∧
    (0 ≤ (restir_di_checker_to_flat ⟨x, y⟩ w).x ∧ (restir_di_checker_to_flat ⟨x, y⟩ w).x < w) ∧
    (0 ≤ (restir_di_flat_to_checker ⟨x, y⟩ w).x ∧ (restir_di_flat_to_checker ⟨x, y⟩ w).x < w) ∧
    (x % 2 = y % 2 → (restir_di_flat_to_checker ⟨x, y⟩ w).x < w / 2) ∧
    (x % 2 ≠ y % 2 → w / 2 ≤ (restir_di_flat_to_checker ⟨x, y⟩ w).x) := by
  have hc := checker_to_flat_eq x y w hw hw31 hx0 hxw
  have hf := flat_to_checker_eq x y w hw hw31 hx0
  have hy0 : 0 ≤ y % 2 := Int.emod_nonneg _ (by norm_num)
  have hy1 : y % 2 < 2 := Int.emod_lt_of_pos _ (by norm_num)
  have hcx : 0 ≤ (restir_di_checker_to_flat ⟨x, y⟩ w).x ∧
      (restir_di_checker_to_flat ⟨x, y⟩ w).x < w := by
    rw [hc]
    simp only []
    split_ifs <;> omega
  have hfx : 0 ≤ (restir_di_flat_to_checker ⟨x, y⟩ w).x ∧
      (restir_di_flat_to_checker ⟨x, y⟩ w).x < w := by
    rw [hf]
    simp only []
    split_ifs <;> omega
  refine ⟨?_, ?_, ?_, ?_, hcx, hfx, ?_, ?_⟩
  · have e : restir_di_checker_to_flat ⟨x, y⟩ w =
        ⟨(restir_di_checker_to_flat ⟨x, y⟩ w).x, y⟩ := by rw [hc]
    rw [e, flat_to_checker_eq _ y w hw hw31 hcx.1, hc]
    simp only []
    refine congrArg (fun t => (⟨t, y⟩ : IVec2)) ?_
    split_ifs <;> omega
  · have e : restir_di_flat_to_checker ⟨x, y⟩ w =
        ⟨(restir_di_flat_to_checker ⟨x, y⟩ w).x, y⟩ := by rw [hf]
    rw [e, checker_to_flat_eq _ y w hw hw31 hfx.1 hfx.2, hf]
    simp only []
    refine congrArg (fun t => (⟨t, y⟩ : IVec2)) ?_
    split_ifs <;> omega
  · rw [hc]
  · rw [hf]
  · intro h
    rw [hf]
    simp only [if_pos h]
    omega
  · intro h
    rw [hf]
    simp only [if_neg h]
    omega

/-- Witness of C30: in an image of width 8 the checkerboard pixel `(5, 3)` of
the right field is the flat pixel `(2, 3)`, and back. -/
theorem C30_checkerboard_round_trip_witness :
    restir_di_checker_to_flat ⟨5, 3⟩ 8 = ⟨2, 3⟩ ∧
    restir_di_flat_to_checker ⟨2, 3⟩ 8 = ⟨5, 3⟩ ∧
    restir_di_flat_to_checker (restir_di_checker_to_flat ⟨5, 3⟩ 8) 8 = ⟨5, 3⟩ :=
  ⟨by decide, by decide,
    (C30_checkerboard_round_trip 5 3 8 (by decide) (by decide) (by decide) (by decide)
      (by decide)).1⟩

/-! ### The stored slot -/

/-- A property of the running reservoir that every fold keeps holds after the
three stages; the reused reservoirs are known to come out of
`restir_di_load_prev` for the current cluster. -/
theorem resample_induction_loaded (env : Env α) (inp : Inp α) (P : St α → Prop)
    (hg : P (restir_di_generate env inp))
    (hr : ∀ st : St α, ∀ n, P st → P { st with rng_calls := n })
    (ht : ∀ st l p_hat p, P st → restir_di_load_prev env p inp.cluster_idx = some l →
      P (restir_di_fold_temporal env st l p_hat p))
    (hs : ∀ st l p_hat p, P st → restir_di_load_prev env p inp.cluster_idx = some l →
      P (restir_di_fold_spatial env st l p_hat p)) :
    P (restir_di_resample env inp) := by
  have htemp : ∀ p st, P st → P (restir_di_temporal_reuse env inp p st) := by
    intro p st hst
    unfold restir_di_temporal_reuse
    split
    · exact hst
    · rename_i l hl
      split
      · exact hst
      · exact ht st l _ p hst hl
  have hsiter : ∀ p rot st j, P st → P (restir_di_spatial_iter env inp p rot st j) := by
    intro p rot st j hst
    unfold restir_di_spatial_iter
    split
    · exact hst
    · rename_i nb hnb
      split_ifs
      · exact hst
      · split
        · exact hst
        · rename_i l hl
          split
          · exact hst
          · split_ifs
            · exact hst
            · exact hst
            · exact hs st l _ nb hst hl
  have hspat : ∀ p st, P st → P (restir_di_spatial_reuse env inp p st) := by
    intro p st hst
    unfold restir_di_spatial_reuse
    split_ifs
    · simp only []
      generalize (⌊env.rng st.rng_calls * 8⌋ % 8).toNat = rot
      have : ∀ (js : List Nat) (s : St α), P s →
          P (js.foldl (restir_di_spatial_iter env inp p rot) s) := by
        intro js
        induction js with
        | nil => intro s hs0; exact hs0
        | cons j js ih => intro s hs0; exact ih _ (hsiter p rot s j hs0)
      exact this _ _ (hr st _ hst)
    · exact hst
  unfold restir_di_resample
  simp only []
  split_ifs
  · exact hspat _ _ (htemp _ _ hg)
  · exact hspat _ _ hg
  · exact htemp _ _ hg
  · exact hg

/-- The kind of the sample held after the three stages is none, polygonal, or
the kind of a history slot. -/
theorem resample_kind (env : Env α) (inp : Inp α) :
    (restir_di_resample env inp).selected_kind = RESTIR_DI_KIND_NONE ∨
    (restir_di_resample env inp).selected_kind = RESTIR_DI_KIND_POLYGONAL ∨
    ∃ p, (restir_di_resample env inp).selected_kind =
      (restir_di_unpack_id (env.TEX_PT_RESTIR_DI_ID_B p)).1 := by
  refine resample_induction_loaded env inp
    (fun st => st.selected_kind = RESTIR_DI_KIND_NONE ∨
      st.selected_kind = RESTIR_DI_KIND_POLYGONAL ∨
      ∃ p, st.selected_kind = (restir_di_unpack_id (env.TEX_PT_RESTIR_DI_ID_B p)).1)
    ?_ ?_ ?_ ?_
  · rcases (generate_source_kind env inp).2 with h | h
    · exact Or.inl h
    · exact Or.inr (Or.inl h)
  · intro st n hst
    exact hst
  · intro st l p_hat p hst hl
    have hk := (load_prev_some_spec env p inp.cluster_idx l hl).1
    unfold restir_di_fold_temporal
    simp only []
    split_ifs
    · exact Or.inr (Or.inr ⟨p, hk⟩)
    · exact hst
  · intro st l p_hat p hst hl
    have hk := (load_prev_some_spec env p inp.cluster_idx l hl).1
    unfold restir_di_fold_spatial
    simp only []
    split_ifs
    · exact Or.inr (Or.inr ⟨p, hk⟩)
    · exact hst

/-- A successful evaluation of a polygonal sample has passed the index bound
and the membership test of the current cluster. -/
theorem eval_polygonal_sample_some (env : Env α) (inp : Inp α) (light_id : Nat)
    (y_pos : Vec2 α) (s : PolySample α)
    (h : restir_di_eval_polygonal_sample env inp light_id y_pos = some s) :
    inp.cluster_idx ≠ UINT_MAX ∧ light_id < env.MAX_LIGHT_POLYS ∧
    restir_di_light_count env inp.cluster_idx ≠ 0 ∧
    restir_di_cluster_contains_light env inp.cluster_idx light_id = true := by
  by_cases h1 : inp.cluster_idx = UINT_MAX
  · rw [restir_di_eval_polygonal_sample, if_pos h1] at h
    exact absurd h (by simp)
  by_cases h2 : light_id ≥ env.MAX_LIGHT_POLYS
  · rw [restir_di_eval_polygonal_sample, if_neg h1, if_pos h2] at h
    exact absurd h (by simp)
  by_cases h3 : restir_di_light_count env inp.cluster_idx = 0
  · rw [restir_di_eval_polygonal_sample, if_neg h1, if_neg h2] at h
    simp only [if_pos h3] at h
    exact absurd h (by simp)
  by_cases h4 : restir_di_cluster_contains_light env inp.cluster_idx light_id = false
  · rw [restir_di_eval_polygonal_sample, if_neg h1, if_neg h2] at h
    simp only [if_neg h3, if_pos h4] at h
    exact absurd h (by simp)
  exact ⟨h1, not_le.mp h2, h3, Bool.of_not_eq_false h4⟩

/-- A selected sample that is shaded with a positive visibility is a sun
sample or a polygonal sample that evaluates at the current surface. -/
theorem shade_selected_visible (env : Env α) (inp : Inp α) (st : St α)
    (h : 0 < (restir_di_shade_selected env inp st).out_visibility) :
    (st.selected_kind = RESTIR_DI_KIND_POLYGONAL ∧
      ∃ s, restir_di_eval_polygonal_sample env inp st.selected_light_id st.selected_y_pos
        = some s) ∨
    st.selected_kind = RESTIR_DI_KIND_SUN := by
  unfold restir_di_shade_selected at h
  split_ifs at h with h1 h2
  · left
    refine ⟨h1, ?_⟩
    unfold restir_di_shade_polygonal_sample at h
    cases he : restir_di_eval_polygonal_sample env inp st.selected_light_id st.selected_y_pos with
    | none =>
      rw [he] at h
      exact absurd h (lt_irrefl _)
    | some s => exact ⟨s, rfl⟩
  · exact Or.inr h2
  · exact absurd h (lt_irrefl _)

/-- What a stored slot says about the running reservoir. -/
theorem final_store_spec (env : Env α) (inp : Inp α) (Mc : Int) (st : St α) (a : StoreArgs α)
    (h : (restir_di_final env inp Mc st).store = some a) :
    0 < st.M ∧ 0 < st.w_sum ∧ 0 < st.selected_p_hat ∧
    0 < (restir_di_shade_selected env inp st).out_visibility ∧
    a.W = restir_di_cap_W env
      (restir_di_W_uncapped st Mc (restir_di_validate_source env inp st)) := by
  unfold restir_di_final at h
  simp only [] at h
  split_ifs at h with h1 h2 h3
  dsimp only at h
  rw [Option.some.injEq] at h
  rw [← h]
  simp only [not_or, not_le] at h1
  exact ⟨h1.1, h1.2.1, h1.2.2.1, not_le.mp h2, rfl⟩

/-- The identity word that the pass itself leaves in its output is the initial
value 0: the word is written only from the store. -/
theorem pass_id_word_zero (env : Env α) (inp : Inp α) :
    (restir_di_pass env inp).out.out_restir_id_packed = 0 := by
  unfold restir_di_pass
  split_ifs
  · rfl
  · unfold restir_di_final
    simp only []
    split_ifs <;> rfl

/-- The properties of a stored slot that do not depend on the weight. -/
theorem pass_store_spec (env : Env α) (inp : Inp α) (a : StoreArgs α)
    (h : (restir_di_pass env inp).store = some a) :
    1 ≤ a.M_store ∧ a.M_store ≤ 8 ∧
    (a.kind = RESTIR_DI_KIND_POLYGONAL ∨ a.kind = RESTIR_DI_KIND_SUN) ∧
    (a.kind = RESTIR_DI_KIND_POLYGONAL → a.light_id < env.MAX_LIGHT_POLYS ∧
      restir_di_cluster_contains_light env inp.cluster_idx a.light_id = true) ∧
    ((∀ p, (restir_di_unpack_id (env.TEX_PT_RESTIR_DI_ID_B p)).1 ≠ RESTIR_DI_KIND_SUN) →
      a.kind = RESTIR_DI_KIND_POLYGONAL) := by
  unfold restir_di_pass at h
  split_ifs at h
  obtain ⟨hM, hk, hl, -⟩ := final_store_M env inp _ _ a h
  obtain ⟨hMpos, -, -, hvis, -⟩ := final_store_spec env inp _ _ a h
  have hsel := shade_selected_visible env inp _ hvis
  rw [← hk, ← hl] at hsel
  have hkind : a.kind = RESTIR_DI_KIND_POLYGONAL ∨ a.kind = RESTIR_DI_KIND_SUN := by
    rcases hsel with h1 | h1
    · exact Or.inl h1.1
    · exact Or.inr h1
  refine ⟨?_, ?_, hkind, ?_, ?_⟩
  · rw [hM]
    unfold RESTIR_DI_M_CLAMP
    exact le_min (by omega) (by norm_num)
  · rw [hM]
    exact min_le_right _ _
  · intro hp
    rcases hsel with h1 | h1
    · obtain ⟨s, hs⟩ := h1.2
      exact ⟨(eval_polygonal_sample_some env inp _ _ s hs).2.1,
        (eval_polygonal_sample_some env inp _ _ s hs).2.2.2⟩
    · rw [h1] at hp
      exact absurd hp (by decide)
  · intro hh
    rcases hkind with h1 | h1
    · exact h1
    · exfalso
      rcases resample_kind env inp with h2 | h2 | ⟨p, h2⟩
      · rw [← hk, h1] at h2
        exact absurd h2 (by decide)
      · rw [← hk, h1] at h2
        exact absurd h2 (by decide)
      · rw [← hk, h1] at h2
        exact hh p h2.symm

/-- Without a sun slot in the history, the identity word of the output does
not have the kind sun. -/
theorem output_kind_not_sun (env : Env α) (inp : Inp α)
    (hh : ∀ p, (restir_di_unpack_id (env.TEX_PT_RESTIR_DI_ID_B p)).1 ≠ RESTIR_DI_KIND_SUN) :
    (restir_di_unpack_id (get_direct_illumination_restir_di env inp).out_restir_id_packed).1
      ≠ RESTIR_DI_KIND_SUN := by
  unfold get_direct_illumination_restir_di
  cases hs : (restir_di_pass env inp).store with
  | none =>
    simp only []
    rw [pass_id_word_zero]
    decide
  | some a =>
    simp only []
    rw [unpack_pack_kind, (pass_store_spec env inp a hs).2.2.2.2 hh]
    decide

/-- C27: whenever `get_direct_illumination_restir_di` stores a non-empty slot
(the luminance of black being 0), the stored `W` is positive, the stored `M`
satisfies `1 <= M <= 8`, the kind is polygonal or sun, and a polygonal light
index is below `MAX_LIGHT_POLYS` and contained in the light list of the
current cluster.  If no slot of the history buffer has the kind sun, the
stored slot and the identity word of the output do not have the kind sun; so
in every sequence of frames that starts from a cleared identity buffer and in
which every word of the next history buffer is 0 or an identity word that the
function returned in the frame before, no history slot ever has the kind
sun. -/
theorem C27_stored_slot_validity (env : Env α) (inp : Inp α)
    (hlum : env.luminance (Vec3.splat 0) ≤ 0) :
    (∀ a, (restir_di_pass env inp).store = some a →
      0 < a.W ∧ 1 ≤ a.M_store ∧ a.M_store ≤ 8 ∧
      (a.kind = RESTIR_DI_KIND_POLYGONAL ∨ a.kind = RESTIR_DI_KIND_SUN) ∧
      (a.kind = RESTIR_DI_KIND_POLYGONAL → a.light_id < env.MAX_LIGHT_POLYS ∧
        restir_di_cluster_contains_light env inp.cluster_idx a.light_id = true) ∧
      ((∀ p, (restir_di_unpack_id (env.TEX_PT_RESTIR_DI_ID_B p)).1 ≠ RESTIR_DI_KIND_SUN) →
        a.kind ≠ RESTIR_DI_KIND_SUN)) ∧
    ((∀ p, (restir_di_unpack_id (env.TEX_PT_RESTIR_DI_ID_B p)).1 ≠ RESTIR_DI_KIND_SUN) →
      (restir_di_unpack_id (get_direct_illumination_restir_di env inp).out_restir_id_packed).1
        ≠ RESTIR_DI_KIND_SUN) ∧
    (∀ envs : Nat → Env α,
      (∀ p, (envs 0).TEX_PT_RESTIR_DI_ID_B p = 0) →
      (∀ n p, (envs (n + 1)).TEX_PT_RESTIR_DI_ID_B p = 0 ∨
        ∃ i : Inp α, (envs (n + 1)).TEX_PT_RESTIR_DI_ID_B p =
          (get_direct_illumination_restir_di (envs n) i).out_restir_id_packed) →
      ∀ n p, (restir_di_unpack_id ((envs n).TEX_PT_RESTIR_DI_ID_B p)).1
        ≠ RESTIR_DI_KIND_SUN) := by
  refine ⟨?_, output_kind_not_sun env inp, ?_⟩
  · intro a h
    obtain ⟨h1, h2, h3, h4, h5⟩ := pass_store_spec env inp a h
    refine ⟨?_, h1, h2, h3, h4, fun hh => ?_⟩
    · unfold restir_di_pass at h
      split_ifs at h
      obtain ⟨-, hw, hp, -, hW⟩ := final_store_spec env inp _ _ a h
      have h0 : 0 ≤ a.W := by
        rw [hW]
        exact (cap_W_spec env _ (W_uncapped_nonneg _ _ _ hw.le hp.le
          (validate_source_nonneg env inp _ (resample_source_p_hat_nonneg env inp)))).1
      rcases h0.lt_or_eq with h6 | h6
      · exact h6
      · exfalso
        rw [hW] at h6
        have h7 := (final_of_W_zero env inp _ _ hlum h6.symm).1
        rw [h7] at h
        exact absurd h (by simp)
    · rw [h5 hh]
      decide
  · intro envs h0 hstep n
    induction n with
    | zero =>
      intro p
      rw [h0 p]
      decide
    | succ n ih =>
      intro p
      rcases hstep n p with h | ⟨i, h⟩
      · rw [h]
        decide
      · rw [h]
        exact output_kind_not_sun (envs n) i ih

/-- Example for C27: one candidate and a temporal reservoir that holds the
polygonal light 1 with `W = 1` and `M = 8`; the pass stores the light 1, a
light of the list of the cluster 0, with `W = 1` and `M = 8`, and the kind of
the output word is polygonal. -/
theorem C27_stored_slot_validity_witness :
    (reuseEnv (fun i => if i = 0 then 3 else 2) (fun _ => 1 / 2) 1 5
      (1207974912, 0) 1 0).luminance (Vec3.splat 0) ≤ 0 ∧
    (restir_di_pass (reuseEnv (fun i => if i = 0 then 3 else 2) (fun _ => 1 / 2) 1 5
      (1207974912, 0) 1 0) sampleInp).store = some ⟨1, 1, 1, 8, ⟨0, 0⟩⟩ ∧
    restir_di_cluster_contains_light (reuseEnv (fun i => if i = 0 then 3 else 2)
      (fun _ => 1 / 2) 1 5 (1207974912, 0) 1 0) sampleInp.cluster_idx 1 = true ∧
    (restir_di_unpack_id (get_direct_illumination_restir_di
      (reuseEnv (fun i => if i = 0 then 3 else 2) (fun _ => 1 / 2) 1 5
        (1207974912, 0) 1 0) sampleInp).out_restir_id_packed).1 ≠ RESTIR_DI_KIND_SUN := by
  have hl : (reuseEnv (fun i => if i = 0 then 3 else 2) (fun _ => 1 / 2) 1 5
      (1207974912, 0) 1 0).luminance (Vec3.splat 0) ≤ 0 := by decide!
  have hs : (restir_di_pass (reuseEnv (fun i => if i = 0 then 3 else 2) (fun _ => 1 / 2) 1 5
      (1207974912, 0) 1 0) sampleInp).store = some ⟨1, 1, 1, 8, ⟨0, 0⟩⟩ := by decide!
  have h := C27_stored_slot_validity (reuseEnv (fun i => if i = 0 then 3 else 2)
    (fun _ => 1 / 2) 1 5 (1207974912, 0) 1 0) sampleInp hl
  exact ⟨hl, hs, ((h.1 _ hs).2.2.2.2.1 rfl).2, 
    h.2.1 (fun _ => show (restir_di_unpack_id 5).1 ≠ RESTIR_DI_KIND_SUN by decide)⟩

/-! ### The reads of the history images -/

theorem with_prev_frame_self (env : Env α) : env.with_prev_frame env.prev_frame = env := rfl

theorem const_at_congr (f g : PrevFrame α) (p : IVec2) (h : f.agree_at g p) :
    f.const_at p = g.const_at p := by
  obtain ⟨h1, h2, h3, h4, h5, h6, h7⟩ := h
  unfold PrevFrame.const_at
  rw [h1, h2, h3, h4, h5, h6, h7]

/-- The body of the footprint loop reads the previous frame at its pixel
only. -/
theorem footprint_score_local (env : Env α) (inp : Inp α) (f : PrevFrame α) (p : IVec2) :
    restir_di_footprint_score (env.with_prev_frame f) inp p =
      restir_di_footprint_score (env.with_prev_frame (f.const_at p)) inp p := rfl

theorem footprint_score_out_of_field (env : Env α) (inp : Inp α) (p : IVec2)
    (h : ¬ restir_di_in_field env inp p) : restir_di_footprint_score env inp p = none := by
  rw [footprint_score_eq]
  by_cases h1 : p.y < 0 ∨ p.y ≥ env.prev_height
  · rw [if_pos h1]
  rw [if_neg h1]
  by_cases h2 : p.x < restir_di_field_left env inp ∨ p.x ≥ restir_di_field_right env inp
  · rw [if_pos h2]
  exfalso
  rw [not_or, not_lt, not_le] at h1 h2
  exact h ⟨h1, h2⟩

theorem footprint_score_prev_frame (env : Env α) (inp : Inp α) (f g : PrevFrame α) (p : IVec2)
    (h : restir_di_in_field env inp p → f.agree_at g p) :
    restir_di_footprint_score (env.with_prev_frame f) inp p =
      restir_di_footprint_score (env.with_prev_frame g) inp p := by
  by_cases hin : restir_di_in_field env inp p
  · rw [footprint_score_local env inp f, footprint_score_local env inp g,
      const_at_congr f g p (h hin)]
  · rw [footprint_score_out_of_field (env.with_prev_frame f) inp p hin,
      footprint_score_out_of_field (env.with_prev_frame g) inp p hin]

/-- Stage 2 reads the previous frame at `ipos_prev` only. -/
theorem temporal_reuse_local (env : Env α) (inp : Inp α) (f : PrevFrame α) (p : IVec2)
    (st : St α) :
    restir_di_temporal_reuse (env.with_prev_frame f) inp p st =
      restir_di_temporal_reuse (env.with_prev_frame (f.const_at p)) inp p st := rfl

theorem temporal_reuse_prev_frame (env : Env α) (inp : Inp α) (f g : PrevFrame α) (p : IVec2)
    (st : St α) (h : f.agree_at g p) :
    restir_di_temporal_reuse (env.with_prev_frame f) inp p st =
      restir_di_temporal_reuse (env.with_prev_frame g) inp p st := by
  rw [temporal_reuse_local env inp f, temporal_reuse_local env inp g, const_at_congr f g p h]

/-- Iteration `j` of stage 3 reads the previous frame at its neighbour
only. -/
theorem spatial_iter_prev_frame (env : Env α) (inp : Inp α) (f g : PrevFrame α)
    (ipos_prev : IVec2) (rot : Nat) (st : St α) (j : Nat)
    (h : ∀ nb, restir_di_neighbor env inp ipos_prev rot j = some nb → f.agree_at g nb) :
    restir_di_spatial_iter (env.with_prev_frame f) inp ipos_prev rot st j =
      restir_di_spatial_iter (env.with_prev_frame g) inp ipos_prev rot st j := by
  have hloc : ∀ (k : PrevFrame α) (nb : IVec2),
      restir_di_neighbor env inp ipos_prev rot j = some nb →
      restir_di_spatial_iter (env.with_prev_frame k) inp ipos_prev rot st j =
        restir_di_spatial_iter (env.with_prev_frame (k.const_at nb)) inp ipos_prev rot st j := by
    intro k nb hn
    have e1 : restir_di_neighbor (env.with_prev_frame k) inp ipos_prev rot j = some nb := hn
    have e2 : restir_di_neighbor (env.with_prev_frame (k.const_at nb)) inp ipos_prev rot j
        = some nb := hn
    unfold restir_di_spatial_iter
    rw [e1, e2]
    rfl
  cases hn : restir_di_neighbor env inp ipos_prev rot j with
  | none =>
    have e : ∀ k : PrevFrame α,
        restir_di_spatial_iter (env.with_prev_frame k) inp ipos_prev rot st j = st := by
      intro k
      have e1 : restir_di_neighbor (env.with_prev_frame k) inp ipos_prev rot j = none := hn
      unfold restir_di_spatial_iter
      rw [e1]
    rw [e f, e g]
  | some nb =>
    rw [hloc f nb hn, hloc g nb hn, const_at_congr f g nb (h nb hn)]

theorem best_footprint_prev_frame (env : Env α) (inp : Inp α) (f g : PrevFrame α)
    (h : ∀ p ∈ restir_di_footprint_pixels env inp, restir_di_in_field env inp p →
      f.agree_at g p) :
    restir_di_best_footprint (env.with_prev_frame f) inp =
      restir_di_best_footprint (env.with_prev_frame g) inp := by
  rw [best_footprint_eq, best_footprint_eq]
  have e1 : restir_di_footprint_pixels (env.with_prev_frame f) inp =
      restir_di_footprint_pixels env inp := rfl
  have e2 : restir_di_footprint_pixels (env.with_prev_frame g) inp =
      restir_di_footprint_pixels env inp := rfl
  rw [e1, e2]
  apply List.foldl_ext
  intro b p hp
  unfold restir_di_footprint_step
  rw [footprint_score_prev_frame env inp f g p (h p hp)]

theorem reproject_prev_frame (env : Env α) (inp : Inp α) (f g : PrevFrame α)
    (h : want_temporal env inp = true ∨ want_spatial env inp = true →
      ∀ p ∈ restir_di_footprint_pixels env inp, restir_di_in_field env inp p →
        f.agree_at g p) :
    restir_di_reproject (env.with_prev_frame f) inp =
      restir_di_reproject (env.with_prev_frame g) inp := by
  have e : ∀ k : PrevFrame α, restir_di_reproject (env.with_prev_frame k) inp =
      if want_temporal env inp = true ∨ want_spatial env inp = true then
        if (restir_di_best_footprint (env.with_prev_frame k) inp).1 ≥ 0 then
          (true, (restir_di_best_footprint (env.with_prev_frame k) inp).2)
        else (false, ⟨0, 0⟩)
      else (false, ⟨0, 0⟩) := fun _ => rfl
  rw [e f, e g]
  by_cases hw : want_temporal env inp = true ∨ want_spatial env inp = true
  · rw [best_footprint_prev_frame env inp f g (h hw)]
  · rw [if_neg hw, if_neg hw]

theorem spatial_reuse_prev_frame (env : Env α) (inp : Inp α) (f g : PrevFrame α)
    (ipos_prev : IVec2) (st : St α)
    (h : ∀ j nb, j < (restir_di_K env).toNat →
      restir_di_neighbor env inp ipos_prev (⌊env.rng st.rng_calls * 8⌋ % 8).toNat j = some nb →
      f.agree_at g nb) :
    restir_di_spatial_reuse (env.with_prev_frame f) inp ipos_prev st =
      restir_di_spatial_reuse (env.with_prev_frame g) inp ipos_prev st := by
  have e : ∀ k : PrevFrame α, restir_di_spatial_reuse (env.with_prev_frame k) inp ipos_prev st =
      if restir_di_K env > 0 then
        (List.range (restir_di_K env).toNat).foldl
          (restir_di_spatial_iter (env.with_prev_frame k) inp ipos_prev
            (⌊env.rng st.rng_calls * 8⌋ % 8).toNat) { st with rng_calls := st.rng_calls + 1 }
      else st := fun _ => rfl
  rw [e f, e g]
  split_ifs
  · apply List.foldl_ext
    intro s j hj
    exact spatial_iter_prev_frame env inp f g ipos_prev _ s j
      (fun nb hn => h j nb (List.mem_range.mp hj) hn)
  · rfl

/-- The pixels of `restir_di_history_reads` lie within the rows of the previous
frame and within the field of the current pixel. -/
theorem history_reads_in_field (env : Env α) (inp : Inp α) (p : IVec2)
    (hp : p ∈ restir_di_history_reads env inp) : restir_di_in_field env inp p := by
  unfold restir_di_history_reads at hp
  rw [List.mem_append, List.mem_append] at hp
  rcases hp with (hp | hp) | hp
  · split_ifs at hp
    · rw [List.mem_filter] at hp
      have h2 := hp.2
      rw [Bool.and_eq_true, Bool.not_eq_true', Bool.not_eq_true', decide_eq_false_iff_not,
        decide_eq_false_iff_not, not_or, not_or, not_lt, not_lt, not_le, not_le] at h2
      exact h2
    · exact absurd hp (List.not_mem_nil p)
  · split_ifs at hp with hc
    · rw [List.mem_singleton] at hp
      obtain ⟨l1, l2, s, -, hs, -, -⟩ := (reproject_spec env inp).2 hc.2
      rw [hp]
      exact ⟨(footprint_score_some env inp _ s hs).1, (footprint_score_some env inp _ s hs).2.1⟩
    · exact absurd hp (List.not_mem_nil p)
  · split_ifs at hp
    · rw [List.mem_filterMap] at hp
      obtain ⟨j, -, hj⟩ := hp
      exact (neighbor_eq_offset env inp _ p _ j hj).2
    · exact absurd hp (List.not_mem_nil p)

/-- Within a field that holds a pixel, the columns lie within the image. -/
theorem field_within_image (env : Env α) (inp : Inp α) :
    (0 ≤ env.prev_width →
      0 ≤ restir_di_field_left env inp ∧ restir_di_field_right env inp ≤ env.prev_width) ∧
    (∀ p, restir_di_in_field env inp p → 0 ≤ p.x ∧ p.x < env.prev_width) := by
  have key : 0 ≤ env.prev_width →
      0 ≤ restir_di_field_left env inp ∧ restir_di_field_right env inp ≤ env.prev_width := by
    intro hw
    unfold restir_di_field_right restir_di_field_left
    have h1 : 0 ≤ Int.tdiv env.prev_width 2 := Int.tdiv_nonneg hw (by norm_num)
    have h2 : Int.tdiv env.prev_width 2 * 2 ≤ env.prev_width := by
      rw [Int.tdiv_eq_ediv hw (by norm_num)]
      omega
    split_ifs
    · exact ⟨h1, by omega⟩
    · exact ⟨le_refl _, by omega⟩
  refine ⟨key, ?_⟩
  intro p hp
  have hlt : restir_di_field_left env inp < restir_di_field_right env inp :=
    lt_of_le_of_lt hp.2.1 hp.2.2
  have hw : 0 ≤ env.prev_width := by
    by_contra hneg
    rw [not_le] at hneg
    have h1 : Int.tdiv env.prev_width 2 ≤ 0 := by
      have h3 := Int.neg_tdiv env.prev_width 2
      have h4 : 0 ≤ Int.tdiv (-env.prev_width) 2 := Int.tdiv_nonneg (by omega) (by norm_num)
      omega
    unfold restir_di_field_right at hlt
    omega
  exact ⟨le_trans (key hw).1 hp.2.1, lt_of_lt_of_le hp.2.2 (key hw).2⟩

/-- The three stages read the previous frame at the pixels of
`restir_di_history_reads` only. -/
theorem resample_prev_frame (env : Env α) (inp : Inp α) (f : PrevFrame α)
    (h : ∀ p ∈ restir_di_history_reads env inp, f.agree_at env.prev_frame p) :
    restir_di_resample (env.with_prev_frame f) inp = restir_di_resample env inp := by
  have hrep : restir_di_reproject (env.with_prev_frame f) inp = restir_di_reproject env inp := by
    refine reproject_prev_frame env inp f env.prev_frame ?_
    intro hw p hp hin
    apply h
    unfold restir_di_history_reads
    rw [List.mem_append, List.mem_append, if_pos hw, List.mem_filter]
    refine Or.inl (Or.inl ⟨hp, ?_⟩)
    rw [Bool.and_eq_true, Bool.not_eq_true', Bool.not_eq_true', decide_eq_false_iff_not,
      decide_eq_false_iff_not, not_or, not_or, not_lt, not_lt, not_le, not_le]
    exact hin
  have eat : restir_di_after_temporal (env.with_prev_frame f) inp =
      if want_temporal env inp = true ∧ (restir_di_reproject (env.with_prev_frame f) inp).1 = true
      then restir_di_temporal_reuse (env.with_prev_frame f) inp
        (restir_di_reproject (env.with_prev_frame f) inp).2 (restir_di_generate env inp)
      else restir_di_generate env inp := rfl
  have hat : restir_di_after_temporal (env.with_prev_frame f) inp =
      restir_di_after_temporal env inp := by
    rw [eat, hrep]
    unfold restir_di_after_temporal
    by_cases hc : want_temporal env inp = true ∧ (restir_di_reproject env inp).1 = true
    · rw [if_pos hc, if_pos hc]
      refine temporal_reuse_prev_frame env inp f env.prev_frame _ _ (h _ ?_)
      unfold restir_di_history_reads
      rw [List.mem_append, List.mem_append]
      refine Or.inl (Or.inr ?_)
      rw [if_pos hc]
      exact List.mem_singleton.mpr rfl
    · rw [if_neg hc, if_neg hc]
  have er : ∀ e : Env α, restir_di_resample e inp =
      if want_spatial e inp = true ∧ (restir_di_reproject e inp).1 = true then
        restir_di_spatial_reuse e inp (restir_di_reproject e inp).2
          (restir_di_after_temporal e inp)
      else restir_di_after_temporal e inp := fun _ => rfl
  have ew : want_spatial (env.with_prev_frame f) inp = want_spatial env inp := rfl
  rw [er, er env, hrep, hat, ew]
  by_cases hc : want_spatial env inp = true ∧ (restir_di_reproject env inp).1 = true
  · rw [if_pos hc, if_pos hc]
    refine spatial_reuse_prev_frame env inp f env.prev_frame _ _ ?_
    intro j nb hj hn
    apply h
    have hK : restir_di_K env > 0 := by
      by_contra hK
      rw [not_lt] at hK
      rw [Int.toNat_of_nonpos hK] at hj
      exact absurd hj (Nat.not_lt_zero j)
    unfold restir_di_history_reads
    rw [List.mem_append]
    right
    rw [if_pos ⟨hc.1, hc.2, hK⟩, List.mem_filterMap]
    exact ⟨j, List.mem_range.mpr hj, hn⟩
  · rw [if_neg hc, if_neg hc]

/-- The result of the pass depends on the previous frame only through the
texels at the pixels of `restir_di_history_reads`. -/
theorem pass_prev_frame (env : Env α) (inp : Inp α) (f : PrevFrame α)
    (h : ∀ p ∈ restir_di_history_reads env inp, f.agree_at env.prev_frame p) :
    get_direct_illumination_restir_di (env.with_prev_frame f) inp =
      get_direct_illumination_restir_di env inp := by
  have ep : restir_di_pass (env.with_prev_frame f) inp =
      if inp.enable_polygonal = false ∧ enable_sun = false then
        { out := Out.zero, store := none }
      else restir_di_final env inp (restir_di_generate env inp).M
        (restir_di_resample (env.with_prev_frame f) inp) := rfl
  have hp : restir_di_pass (env.with_prev_frame f) inp = restir_di_pass env inp := by
    rw [ep, resample_prev_frame env inp f h]
    rfl
  unfold get_direct_illumination_restir_di
  rw [hp]
  rfl

/-- C28: every previous-frame coordinate `p` at which temporal or spatial
reuse fetches a history image (primitive id, barycentrics, cluster, depth,
normal, reservoir) satisfies `0 <= p.y < prev_height` and
`field_left <= p.x < field_right`, hence `0 <= p.x < prev_width`; `field_left`
is 0 for a pixel of the left field and `prev_width / 2` for a pixel of the
right field, and `field_right = field_left + prev_width / 2 <= prev_width`.
A footprint pixel outside these bounds is skipped, for every reprojected pixel
and every rotation a neighbour that is visited lies within them, and the
outputs do not change when the history images are replaced by images that hold
the same texels at the fetched coordinates. -/
theorem C28_history_reads_in_field (env : Env α) (inp : Inp α) :
    (∀ p ∈ restir_di_history_reads env inp,
      (0 ≤ p.y ∧ p.y < env.prev_height) ∧
      (restir_di_field_left env inp ≤ p.x ∧ p.x < restir_di_field_right env inp) ∧
      (0 ≤ p.x ∧ p.x < env.prev_width)) ∧
    (inp.ipos.x < Int.tdiv env.width 2 → restir_di_field_left env inp = 0) ∧
    (inp.ipos.x ≥ Int.tdiv env.width 2 →
      restir_di_field_left env inp = Int.tdiv env.prev_width 2) ∧
    restir_di_field_right env inp = restir_di_field_left env inp + Int.tdiv env.prev_width 2 ∧
    (0 ≤ env.prev_width →
      0 ≤ restir_di_field_left env inp ∧ restir_di_field_right env inp ≤ env.prev_width) ∧
    (∀ p, ¬ restir_di_in_field env inp p → restir_di_footprint_score env inp p = none) ∧
    (∀ ipos_prev rot j nb, restir_di_neighbor env inp ipos_prev rot j = some nb →
      restir_di_in_field env inp nb) ∧
    (∀ f : PrevFrame α,
      (∀ p ∈ restir_di_history_reads env inp, f.agree_at env.prev_frame p) →
      get_direct_illumination_restir_di (env.with_prev_frame f) inp =
        get_direct_illumination_restir_di env inp) := by
  refine ⟨?_, ?_, ?_, rfl, (field_within_image env inp).1, footprint_score_out_of_field env inp,
    ?_, pass_prev_frame env inp⟩
  · intro p hp
    have h := history_reads_in_field env inp p hp
    exact ⟨h.1, h.2, (field_within_image env inp).2 p h⟩
  · intro h
    unfold restir_di_field_left
    rw [if_neg (not_le.mpr h)]
  · intro h
    unfold restir_di_field_left
    rw [if_pos h]
  · intro ipos_prev rot j nb h
    exact (neighbor_eq_offset env inp ipos_prev nb rot j h).2

/-- Example for C28: the pixel `(0, 0)` of an 8 x 8 frame (left field, columns
0 to 3) with temporal and spatial reuse and one neighbour.  With the rotation
4 the fetches are the four footprint pixels, the reprojected pixel `(0, 0)`
and the neighbour `(1, 1)`; with the rotation 1 the neighbour `(-1, 0)` is
outside the field and is not fetched. -/
theorem C28_history_reads_in_field_witness :
    restir_di_history_reads (reuseEnv (fun i => if i = 0 then 3 else 2) (fun _ => 1 / 2) 1 5
      (1207974912, 0) 1 1) sampleInp = [⟨0, 0⟩, ⟨1, 0⟩, ⟨0, 1⟩, ⟨1, 1⟩, ⟨0, 0⟩, ⟨1, 1⟩] ∧
    restir_di_history_reads (reuseEnv (fun i => if i = 0 then 3 else 2) (fun _ => 1 / 8) 1 5
      (1207974912, 0) 1 1) sampleInp = [⟨0, 0⟩, ⟨1, 0⟩, ⟨0, 1⟩, ⟨1, 1⟩, ⟨0, 0⟩] ∧
    restir_di_neighbor (reuseEnv (fun i => if i = 0 then 3 else 2) (fun _ => 1 / 8) 1 5
      (1207974912, 0) 1 1) sampleInp ⟨0, 0⟩ 1 0 = none ∧
    restir_di_field_left (reuseEnv (fun i => if i = 0 then 3 else 2) (fun _ => 1 / 2) 1 5
      (1207974912, 0) 1 1) sampleInp = 0 ∧
    restir_di_field_right (reuseEnv (fun i => if i = 0 then 3 else 2) (fun _ => 1 / 2) 1 5
      (1207974912, 0) 1 1) sampleInp = 4 ∧
    ∀ p ∈ restir_di_history_reads (reuseEnv (fun i => if i = 0 then 3 else 2)
      (fun _ => 1 / 2) 1 5 (1207974912, 0) 1 1) sampleInp,
      (0 ≤ p.y ∧ p.y < 8) ∧ (0 ≤ p.x ∧ p.x < 4) := by
  refine ⟨by decide!, by decide!, by decide!, by decide!, by decide!, ?_⟩
  intro p hp
  have h := (C28_history_reads_in_field (reuseEnv (fun i => if i = 0 then 3 else 2)
    (fun _ => 1 / 2) 1 5 (1207974912, 0) 1 1) sampleInp).1 p hp
  exact ⟨h.1, h.2.1⟩

/-! ### Reuse from a history without sun slots -/

/-- A reservoir loaded from a history without sun slots is polygonal. -/
theorem load_prev_polygonal (env : Env α) (p : IVec2) (list_idx : Nat) (l : Loaded α)
    (hh : ∀ q, (restir_di_unpack_id (env.TEX_PT_RESTIR_DI_ID_B q)).1 ≠ RESTIR_DI_KIND_SUN)
    (hl : restir_di_load_prev env p list_idx = some l) :
    l.kind = RESTIR_DI_KIND_POLYGONAL := by
  obtain ⟨hk, -, -, hks, -⟩ := load_prev_some_spec env p list_idx l hl
  rcases hks with h | h
  · exact h
  · exact absurd (hk ▸ h) (hh p)

/-- With a history without sun slots, a sample that won from reuse is
polygonal. -/
theorem resample_reused_polygonal (env : Env α) (inp : Inp α)
    (hh : ∀ q, (restir_di_unpack_id (env.TEX_PT_RESTIR_DI_ID_B q)).1 ≠ RESTIR_DI_KIND_SUN)
    (hsrc : 0 < (restir_di_resample env inp).selected_source) :
    (restir_di_resample env inp).selected_kind = RESTIR_DI_KIND_POLYGONAL := by
  refine resample_induction_loaded env inp
    (fun st => 0 < st.selected_source → st.selected_kind = RESTIR_DI_KIND_POLYGONAL)
    ?_ ?_ ?_ ?_ hsrc
  · intro h
    exact absurd h (not_lt.mpr (generate_source_kind env inp).1)
  · intro st n hst
    exact hst
  · intro st l p_hat p hst hl
    have hk := load_prev_polygonal env p inp.cluster_idx l hh hl
    unfold restir_di_fold_temporal
    simp only []
    split_ifs
    · exact fun _ => hk
    · exact hst
  · intro st l p_hat p hst hl
    have hk := load_prev_polygonal env p inp.cluster_idx l hh hl
    unfold restir_di_fold_spatial
    simp only []
    split_ifs
    · exact fun _ => hk
    · exact hst

/-- C12: for a history without slots of kind sun (the pass never stores one),
when the finally selected sample came from temporal or spatial reuse, with
the position `s.pos_on_light` on its light, and the light is not above the
horizon of the source surface or the shadow ray from the approximate source
surface to the sample is occluded, then `selected_source_p_hat` is set to 0,
`pi = 0`, `W = 0` before and after the cap, the diffuse and specular radiance
returned are zero and both packed words are 0 (the luminance of black being
0). -/
theorem C12_source_validation (env : Env α) (inp : Inp α) (s : PolySample α)
    (hlum : env.luminance (Vec3.splat 0) ≤ 0)
    (hh : ∀ q, (restir_di_unpack_id (env.TEX_PT_RESTIR_DI_ID_B q)).1 ≠ RESTIR_DI_KIND_SUN)
    (hsrc : 0 < (restir_di_resample env inp).selected_source)
    (hs : restir_di_eval_polygonal_sample env inp (restir_di_resample env inp).selected_light_id
      (restir_di_resample env inp).selected_y_pos = some s)
    (hbad : (restir_di_resample env inp).selected_source_geo_normal.dot
        (env.normalize (s.pos_on_light.sub inp.position)) ≤ 0 ∨
      env.trace_shadow_ray
        (get_shadow_ray env (inp.position.sub (inp.view_direction.scale (1 / 100)))
          s.pos_on_light 0) inp.shadow_cull_mask ≤ 0) :
    (restir_di_resample env inp).selected_kind = RESTIR_DI_KIND_POLYGONAL ∧
    restir_di_validate_source env inp (restir_di_resample env inp) = 0 ∧
    restir_di_pi (restir_di_resample env inp)
      (restir_di_validate_source env inp (restir_di_resample env inp)) = 0 ∧
    restir_di_W_uncapped (restir_di_resample env inp) (restir_di_generate env inp).M
      (restir_di_validate_source env inp (restir_di_resample env inp)) = 0 ∧
    restir_di_cap_W env
      (restir_di_W_uncapped (restir_di_resample env inp) (restir_di_generate env inp).M
        (restir_di_validate_source env inp (restir_di_resample env inp))) = 0 ∧
    (get_direct_illumination_restir_di env inp).diffuse = Vec3.splat 0 ∧
    (get_direct_illumination_restir_di env inp).specular = Vec3.splat 0 ∧
    (get_direct_illumination_restir_di env inp).out_restir_id_packed = 0 ∧
    (get_direct_illumination_restir_di env inp).out_restir_res_packed = (0, 0) := by
  have hk := resample_reused_polygonal env inp hh hsrc
  have hv : restir_di_validate_source env inp (restir_di_resample env inp) = 0 := by
    unfold restir_di_validate_source
    simp only [hk, hsrc, and_self, if_true, hs]
    rcases hbad with h | h
    · rw [if_pos h]
    · split_ifs <;> rfl
  have hpi : restir_di_pi (restir_di_resample env inp)
      (restir_di_validate_source env inp (restir_di_resample env inp)) = 0 := by
    unfold restir_di_pi
    rw [if_neg (ne_of_gt hsrc), hv]
  have hW := W_uncapped_of_pi_zero (restir_di_resample env inp) (restir_di_generate env inp).M
    _ hpi
  have hcap : restir_di_cap_W env
      (restir_di_W_uncapped (restir_di_resample env inp) (restir_di_generate env inp).M
        (restir_di_validate_source env inp (restir_di_resample env inp))) = 0 := by
    rw [hW]
    exact cap_W_zero env
  have hpass : (restir_di_pass env inp).store = none ∧
      (restir_di_pass env inp).out.diffuse = Vec3.splat 0 ∧
      (restir_di_pass env inp).out.specular = Vec3.splat 0 ∧
      (restir_di_pass env inp).out.out_restir_id_packed = 0 ∧
      (restir_di_pass env inp).out.out_restir_res_packed = (0, 0) := by
    unfold restir_di_pass
    split_ifs
    · exact ⟨rfl, rfl, rfl, rfl, rfl⟩
    · exact final_of_W_zero env inp _ _ hlum hcap
  refine ⟨hk, hv, hpi, hW, hcap, ?_⟩
  unfold get_direct_illumination_restir_di
  rw [hpass.1]
  exact hpass.2

/-- Example for C12: temporal reuse on, every shadow ray unoccluded (the
oracle returns 1), the history holds the polygonal light 0 with `W = 1`,
`M = 1`.  The current surface has the geometric normal `(84/85, 0, 13/85)`,
the source surface the geometric normal `(84/85, 0, -13/85)` (their dot
product is above 0.95), and the light lies in the direction `(0, 0, 1)`:
above the horizon of the current surface, below that of the source surface.
The temporal sample (`p_hat = 3`) wins over the candidate (`p_hat = 2`) and
is visible from the current surface, yet `pi = 0`, `W = 0`, no radiance is
returned and the empty slot is stored. -/
theorem C12_source_validation_witness :
    (∀ r m, horizonEnv.trace_shadow_ray r m = 1) ∧
    (restir_di_resample horizonEnv horizonInp).selected_source = 1 ∧
    (restir_di_resample horizonEnv horizonInp).selected_source_p_hat = 3 ∧
    (restir_di_shade_selected horizonEnv horizonInp
      (restir_di_resample horizonEnv horizonInp)).out_visibility = 1 ∧
    restir_di_pi (restir_di_resample horizonEnv horizonInp)
      (restir_di_validate_source horizonEnv horizonInp
        (restir_di_resample horizonEnv horizonInp)) = 0 ∧
    (get_direct_illumination_restir_di horizonEnv horizonInp).diffuse = Vec3.splat 0 ∧
    (get_direct_illumination_restir_di horizonEnv horizonInp).out_restir_id_packed = 0 := by
  have hsome : (restir_di_eval_polygonal_sample horizonEnv horizonInp
      (restir_di_resample horizonEnv horizonInp).selected_light_id
      (restir_di_resample horizonEnv horizonInp).selected_y_pos).isSome = true := by decide!
  obtain ⟨s, hs⟩ := Option.isSome_iff_exists.mp hsome
  have hpos : (restir_di_eval_polygonal_sample horizonEnv horizonInp
      (restir_di_resample horizonEnv horizonInp).selected_light_id
      (restir_di_resample horizonEnv horizonInp).selected_y_pos).map (fun t => t.pos_on_light)
      = some ⟨0, 0, 1⟩ := by decide!
  rw [hs] at hpos
  have hp : s.pos_on_light = ⟨0, 0, 1⟩ := Option.some.inj hpos
  have hdot : (restir_di_resample horizonEnv horizonInp).selected_source_geo_normal.dot
      (horizonEnv.normalize (s.pos_on_light.sub horizonInp.position)) ≤ 0 := by
    rw [hp]
    decide!
  have h := C12_source_validation horizonEnv horizonInp s (by decide!)
    (fun _ => show (restir_di_unpack_id 1).1 ≠ RESTIR_DI_KIND_SUN by decide) (by decide!)
    hs (Or.inl hdot)
  exact ⟨fun _ _ => rfl, by decide!, by decide!, by decide!, h.2.2.1, h.2.2.2.2.2.1,
    h.2.2.2.2.2.2.2.1⟩

end Theorems

end Q2RTX
